import Mathlib

/-!
# Verification of the netctl2iwd conversion pipeline

Shallow embedding of `src/convert.rs` and `src/networks.rs` of the
netctl2iwd repository.

Bytes are modelled as `Nat` values below 256 and byte strings as
`List Nat`. The repository's own functions are translated line by line
from the source. The third-party crates the program calls are modelled
by the algorithms they implement:

* `sha1` crate: FIPS 180-1 SHA-1. For tractable kernel evaluation the
  compression function keeps the five 32-bit state words and the
  sliding 16-word message schedule packed inside natural numbers (the
  state as a 160-bit `Nat`, the schedule window as a 512-bit `Nat`),
  and is written with the primitive `Nat` bitwise operations. Known
  test vectors for SHA-1, HMAC-SHA1 and PBKDF2-HMAC-SHA1 are proved
  below (`sha1_vector_*`, `hmac_vector_*`, `pbkdf2_vector_*`) to
  validate the model.
* `hmac` crate: RFC 2104 HMAC, with the usual precomputation of the
  two key-pad compression states.
* `pbkdf2` crate: RFC 2898 PBKDF2; like the crate, the key-pad states
  of the underlying HMAC are computed once and reused across
  iterations.
* `hex` crate: lowercase hexadecimal encoding.
* `ini` crate: a parsed section is modelled as a key/value association
  list looked up with `List.lookup`; an `Ini` document produced by the
  config writer is modelled as a list of named sections.
* the file system (for the conversion orchestrator) as an association
  list from path to file content.
-/

set_option maxRecDepth 100000
set_option exponentiation.threshold 600

namespace Netctl2Iwd

/-! ## Byte-string utilities -/

/-- Big-endian serialization of `n` into exactly `k` bytes. -/
def natToBytesBE : Nat → Nat → List Nat
  | 0, _ => []
  | k + 1, n => natToBytesBE k (n / 256) ++ [n % 256]

/-- Big-endian packing of a byte string into a single natural number. -/
def bytesToNat (bs : List Nat) : Nat :=
  bs.foldl (fun acc b => acc * 256 + b) 0

/-- Lowercase hexadecimal digit for `n < 16`, as produced by the `hex` crate. -/
def hexDigit (n : Nat) : Char :=
  Char.ofNat (if n < 10 then 48 + n else 87 + n)

/-- Lowercase hexadecimal encoding of a byte string (`hex::encode`). -/
def hexEncode (bs : List Nat) : String :=
  ⟨bs.foldr (fun b acc => hexDigit (b / 16) :: hexDigit (b % 16) :: acc) []⟩

/-- UTF-8 encoding of one Unicode scalar value, as in Rust's `str::as_bytes`. -/
def utf8EncodeChar (c : Char) : List Nat :=
  let n := c.toNat
  if n < 128 then [n]
  else if n < 2048 then [192 + n / 64, 128 + n % 64]
  else if n < 65536 then [224 + n / 4096, 128 + n / 64 % 64, 128 + n % 64]
  else [240 + n / 262144, 128 + n / 4096 % 64, 128 + n / 64 % 64, 128 + n % 64]

/-- The UTF-8 bytes of a string, as Rust's `String::as_bytes`. -/
def strBytes (s : String) : List Nat :=
  s.data.flatMap utf8EncodeChar

/-! ## SHA-1 (FIPS 180-1)

The compression state is a 160-bit `Nat` packing the five words
`h0..h4` big-endian; a message block is a 512-bit `Nat` packing the
sixteen schedule words big-endian. `sha1Rounds1 .. sha1Rounds4` run the
rounds of the four 20-round stages with their constants `K` and choice
functions `f`; `sha1RoundsA` runs the first sixteen rounds, which read
the message words directly while rotating the window. In every round
the window `win` holds `W[t-16] .. W[t-1]` with `W[t-1]` in the low 32
bits; the next schedule word is
`rotl1 (W[t-3] ^^^ W[t-8] ^^^ W[t-14] ^^^ W[t-16])`. -/

/-- Rounds 60–79 (`f = b xor c xor d`, `K = 0xCA62C1D6`); at fuel 0 the five
state words are packed into the 160-bit result. -/
def sha1Rounds4 : Nat → Nat → Nat → Nat → Nat → Nat → Nat → Nat
  | 0, a, b, c, d, e, _ =>
    Nat.lor (Nat.lor (Nat.lor (Nat.shiftLeft a 128) (Nat.shiftLeft b 96))
      (Nat.lor (Nat.shiftLeft c 64) (Nat.shiftLeft d 32))) e
  | fuel + 1, a, b, c, d, e, win =>
    let x := Nat.land (Nat.xor (Nat.xor (Nat.shiftRight win 64) (Nat.shiftRight win 224))
      (Nat.xor (Nat.shiftRight win 416) (Nat.shiftRight win 480))) 4294967295
    let w := Nat.land (Nat.lor (Nat.shiftLeft x 1) (Nat.shiftRight x 31)) 4294967295
    sha1Rounds4 fuel
      (Nat.land (Nat.add (Nat.add (Nat.add (Nat.add
        (Nat.land (Nat.lor (Nat.shiftLeft a 5) (Nat.shiftRight a 27)) 4294967295)
        (Nat.xor (Nat.xor b c) d)) e) 3395469782) w) 4294967295)
      a (Nat.land (Nat.lor (Nat.shiftLeft b 30) (Nat.shiftRight b 2)) 4294967295) c d
      (Nat.land (Nat.lor (Nat.shiftLeft win 32) w)
        13407807929942597099574024998205846127479365820592393377723561443721764030073546976801874298166903427690031858186486050853753882811946569946433649006084095)

/-- Rounds 40–59 (`f` = majority, `K = 0x8F1BBCDC`). -/
def sha1Rounds3 : Nat → Nat → Nat → Nat → Nat → Nat → Nat → Nat
  | 0, a, b, c, d, e, win => sha1Rounds4 20 a b c d e win
  | fuel + 1, a, b, c, d, e, win =>
    let x := Nat.land (Nat.xor (Nat.xor (Nat.shiftRight win 64) (Nat.shiftRight win 224))
      (Nat.xor (Nat.shiftRight win 416) (Nat.shiftRight win 480))) 4294967295
    let w := Nat.land (Nat.lor (Nat.shiftLeft x 1) (Nat.shiftRight x 31)) 4294967295
    sha1Rounds3 fuel
      (Nat.land (Nat.add (Nat.add (Nat.add (Nat.add
        (Nat.land (Nat.lor (Nat.shiftLeft a 5) (Nat.shiftRight a 27)) 4294967295)
        (Nat.lor (Nat.lor (Nat.land b c) (Nat.land b d)) (Nat.land c d))) e) 2400959708) w) 4294967295)
      a (Nat.land (Nat.lor (Nat.shiftLeft b 30) (Nat.shiftRight b 2)) 4294967295) c d
      (Nat.land (Nat.lor (Nat.shiftLeft win 32) w)
        13407807929942597099574024998205846127479365820592393377723561443721764030073546976801874298166903427690031858186486050853753882811946569946433649006084095)

/-- Rounds 20–39 (`f = b xor c xor d`, `K = 0x6ED9EBA1`). -/
def sha1Rounds2 : Nat → Nat → Nat → Nat → Nat → Nat → Nat → Nat
  | 0, a, b, c, d, e, win => sha1Rounds3 20 a b c d e win
  | fuel + 1, a, b, c, d, e, win =>
    let x := Nat.land (Nat.xor (Nat.xor (Nat.shiftRight win 64) (Nat.shiftRight win 224))
      (Nat.xor (Nat.shiftRight win 416) (Nat.shiftRight win 480))) 4294967295
    let w := Nat.land (Nat.lor (Nat.shiftLeft x 1) (Nat.shiftRight x 31)) 4294967295
    sha1Rounds2 fuel
      (Nat.land (Nat.add (Nat.add (Nat.add (Nat.add
        (Nat.land (Nat.lor (Nat.shiftLeft a 5) (Nat.shiftRight a 27)) 4294967295)
        (Nat.xor (Nat.xor b c) d)) e) 1859775393) w) 4294967295)
      a (Nat.land (Nat.lor (Nat.shiftLeft b 30) (Nat.shiftRight b 2)) 4294967295) c d
      (Nat.land (Nat.lor (Nat.shiftLeft win 32) w)
        13407807929942597099574024998205846127479365820592393377723561443721764030073546976801874298166903427690031858186486050853753882811946569946433649006084095)

/-- Rounds 16–19 (`f` = choice, `K = 0x5A827999`). -/
def sha1Rounds1 : Nat → Nat → Nat → Nat → Nat → Nat → Nat → Nat
  | 0, a, b, c, d, e, win => sha1Rounds2 20 a b c d e win
  | fuel + 1, a, b, c, d, e, win =>
    let x := Nat.land (Nat.xor (Nat.xor (Nat.shiftRight win 64) (Nat.shiftRight win 224))
      (Nat.xor (Nat.shiftRight win 416) (Nat.shiftRight win 480))) 4294967295
    let w := Nat.land (Nat.lor (Nat.shiftLeft x 1) (Nat.shiftRight x 31)) 4294967295
    sha1Rounds1 fuel
      (Nat.land (Nat.add (Nat.add (Nat.add (Nat.add
        (Nat.land (Nat.lor (Nat.shiftLeft a 5) (Nat.shiftRight a 27)) 4294967295)
        (Nat.lor (Nat.land b c) (Nat.land (Nat.xor b 4294967295) d))) e) 1518500249) w) 4294967295)
      a (Nat.land (Nat.lor (Nat.shiftLeft b 30) (Nat.shiftRight b 2)) 4294967295) c d
      (Nat.land (Nat.lor (Nat.shiftLeft win 32) w)
        13407807929942597099574024998205846127479365820592393377723561443721764030073546976801874298166903427690031858186486050853753882811946569946433649006084095)

/-- Rounds 0–15 (`f` = choice, `K = 0x5A827999`): the schedule word is the
next message word, taken from the top of the rotating window. -/
def sha1RoundsA : Nat → Nat → Nat → Nat → Nat → Nat → Nat → Nat
  | 0, a, b, c, d, e, win => sha1Rounds1 4 a b c d e win
  | fuel + 1, a, b, c, d, e, win =>
    let w := Nat.shiftRight win 480
    sha1RoundsA fuel
      (Nat.land (Nat.add (Nat.add (Nat.add (Nat.add
        (Nat.land (Nat.lor (Nat.shiftLeft a 5) (Nat.shiftRight a 27)) 4294967295)
        (Nat.lor (Nat.land b c) (Nat.land (Nat.xor b 4294967295) d))) e) 1518500249) w) 4294967295)
      a (Nat.land (Nat.lor (Nat.shiftLeft b 30) (Nat.shiftRight b 2)) 4294967295) c d
      (Nat.land (Nat.lor (Nat.shiftLeft win 32) w)
        13407807929942597099574024998205846127479365820592393377723561443721764030073546976801874298166903427690031858186486050853753882811946569946433649006084095)

/-- One SHA-1 compression: run the 80 rounds on a 512-bit message block and
add the result into the chaining state word-wise modulo `2^32`. -/
def sha1Compress (st block : Nat) : Nat :=
  let p := sha1RoundsA 16 (Nat.land (Nat.shiftRight st 128) 4294967295)
    (Nat.land (Nat.shiftRight st 96) 4294967295) (Nat.land (Nat.shiftRight st 64) 4294967295)
    (Nat.land (Nat.shiftRight st 32) 4294967295) (Nat.land st 4294967295) block
  Nat.lor
    (Nat.lor
      (Nat.shiftLeft (Nat.land (Nat.add (Nat.land (Nat.shiftRight st 128) 4294967295)
        (Nat.land (Nat.shiftRight p 128) 4294967295)) 4294967295) 128)
      (Nat.shiftLeft (Nat.land (Nat.add (Nat.land (Nat.shiftRight st 96) 4294967295)
        (Nat.land (Nat.shiftRight p 96) 4294967295)) 4294967295) 96))
    (Nat.lor
      (Nat.lor
        (Nat.shiftLeft (Nat.land (Nat.add (Nat.land (Nat.shiftRight st 64) 4294967295)
          (Nat.land (Nat.shiftRight p 64) 4294967295)) 4294967295) 64)
        (Nat.shiftLeft (Nat.land (Nat.add (Nat.land (Nat.shiftRight st 32) 4294967295)
          (Nat.land (Nat.shiftRight p 32) 4294967295)) 4294967295) 32))
      (Nat.land (Nat.add (Nat.land st 4294967295) (Nat.land p 4294967295)) 4294967295))

/-- The SHA-1 initial chaining state `67452301 EFCDAB89 98BADCFE 10325476 C3D2E1F0`. -/
def sha1InitN : Nat :=
  1732584193 * 340282366920938463463374607431768211456 +
    4023233417 * 79228162514264337593543950336 +
    2562383102 * 18446744073709551616 + 271733878 * 4294967296 + 3285377520

/-- Merkle–Damgård padding for a message of `len` bytes in total: a `0x80`
byte, zeros, and the bit length as eight big-endian bytes, reaching a
multiple of 64 bytes. -/
def sha1Pad (len : Nat) : List Nat :=
  128 :: List.replicate ((119 - len % 64) % 64) 0 ++ natToBytesBE 8 (8 * len)

/-- Process `fuel` consecutive 64-byte blocks of `bytes`. -/
def sha1Blocks : Nat → Nat → List Nat → Nat
  | 0, st, _ => st
  | fuel + 1, st, bytes => sha1Blocks fuel (sha1Compress st (bytesToNat (bytes.take 64))) (bytes.drop 64)

/-- Hash `msg` starting from chaining state `st` with `base` bytes (a
multiple of 64) already consumed, appending the final padding — the
streaming update/finalize interface of the `sha1` crate. -/
def sha1From (st base : Nat) (msg : List Nat) : Nat :=
  let padded := msg ++ sha1Pad (base + msg.length)
  sha1Blocks (padded.length / 64) st padded

/-- SHA-1 digest of a byte string, as a 160-bit natural number. -/
def sha1 (msg : List Nat) : Nat :=
  sha1From sha1InitN 0 msg

/-! ## HMAC-SHA1 (RFC 2104) and PBKDF2 (RFC 2898) -/

/-- The two compression states obtained from the key xored with the
`0x36`/`0x5C` pads — precomputed once per key, exactly as the `hmac`
crate stores them. A key longer than the 64-byte block is first hashed. -/
def hmacPads (key : List Nat) : Nat × Nat :=
  let k0 := if 64 < key.length then natToBytesBE 20 (sha1 key) else key
  let kb := k0 ++ List.replicate (64 - k0.length) 0
  (sha1Compress sha1InitN (bytesToNat (kb.map fun b => b ^^^ 54)),
   sha1Compress sha1InitN (bytesToNat (kb.map fun b => b ^^^ 92)))

/-- HMAC-SHA1 given the two precomputed pad states:
`H((k xor opad) ++ H((k xor ipad) ++ msg))`, each inner hash resumed
from its pad state with 64 bytes already consumed. -/
def hmacCore (ist ost : Nat) (msg : List Nat) : Nat :=
  sha1From ost 64 (natToBytesBE 20 (sha1From ist 64 msg))

/-- HMAC-SHA1 of `msg` under `key`, as a 160-bit natural number. -/
def hmacSha1 (key msg : List Nat) : Nat :=
  hmacCore (hmacPads key).1 (hmacPads key).2 msg

/-- The xor-fold of PBKDF2: starting from `u` and accumulator `acc`,
iterate `U_(j+1) = PRF(password, U_j)` another `j` times, xoring every
`U` into the accumulator. -/
def pbkdf2Iter (ist ost : Nat) : Nat → Nat → Nat → Nat
  | 0, _, acc => acc
  | j + 1, u, acc =>
    let u2 := hmacCore ist ost (natToBytesBE 20 u)
    pbkdf2Iter ist ost j u2 (acc ^^^ u2)

/-- The PBKDF2 block function `F(password, salt, c, i)`:
`U_1 = PRF(password, salt ++ INT(i))` xored with `U_2 .. U_c`. -/
def pbkdf2F (ist ost : Nat) (salt : List Nat) (c i : Nat) : Nat :=
  let u1 := hmacCore ist ost (salt ++ natToBytesBE 4 i)
  pbkdf2Iter ist ost (c - 1) u1 u1

/-- Concatenation of the serialized blocks `F(…, i), F(…, i+1), …` (`k` of them). -/
def pbkdf2Blocks (ist ost : Nat) (salt : List Nat) (c : Nat) : Nat → Nat → List Nat
  | 0, _ => []
  | k + 1, i => natToBytesBE 20 (pbkdf2F ist ost salt c i) ++ pbkdf2Blocks ist ost salt c k (i + 1)

/-- RFC 2898 PBKDF2 with HMAC-SHA1 as the pseudorandom function: derive
`dkLen` bytes from `password` and `salt` with `c` iterations. As in the
`pbkdf2` crate, the HMAC pad states are computed once and reused. -/
def pbkdf2 (password salt : List Nat) (c dkLen : Nat) : List Nat :=
  (pbkdf2Blocks (hmacPads password).1 (hmacPads password).2 salt c ((dkLen + 19) / 20) 1).take dkLen

/-- The tail of the single block holding a 20-byte message `u`: the
`0x80` marker and the 84-byte (672-bit) length field, packed:
`128 * 2 ^ 344 + 672`. Used to evaluate the PBKDF2 iteration. -/
def hmacPadC : Nat :=
  4586997231980143023221641790604173881593129978336562247475177678773845752176969616140037106220251373109920

/-- HMAC-SHA1 of the 20-byte message `u` given the two pad states, with
the two single-block hashes written directly on packed blocks; proved
equal to `hmacCore` on 160-bit inputs below (`hmacCore20_eq`). -/
def hmacCore20 (ist ost u : Nat) : Nat :=
  sha1Compress ost
    (Nat.add (Nat.shiftLeft (sha1Compress ist (Nat.add (Nat.shiftLeft u 352) hmacPadC)) 352)
      hmacPadC)

/-- Check that `us` lists the successive pseudorandom-function values
starting from `u`: each entry is `hmacCore20` of its predecessor. -/
def chainOk (ist ost : Nat) : Nat → List Nat → Bool
  | _, [] => true
  | u, v :: rest => (hmacCore20 ist ost u == v) && chainOk ist ost v rest

/-- Xor of an accumulator with every element of a list. -/
def xorAll : Nat → List Nat → Nat
  | acc, [] => acc
  | acc, v :: rest => xorAll (acc ^^^ v) rest

/-- Chain segment 1 of PBKDF2 block 1 for the claim C4 vector. -/
def pskSeg1_1 : List Nat := [1282470562971468891828956086747392478676894602315, 418462191903497787258847964432050780929770179273, 988236207296092151850056767497248541820411643668, 188410554399313956188920067396260234556581784686, 1362411535847477232045067309326271275315237967005, 167307871067221243138644387239121296482787031313, 477900130966806466197981602236283770812409550140, 1419431757230622545532198995297057161750235514825, 839091635588175003167701084686070336584878251938, 1346480717430861641641711034893177007248841026073, 517449806667512436525893378309895764538135316379, 1183509196157773451509923650676283852524277089195, 963687688169663562619204717897133564640930968605, 745159913882440777413644214833806285195989932620, 174244530437920329900316074279527527742685057344, 1431344614094929035251963752381075742988692970020, 293326603075451222627491572022879564056860234145, 692768734413511413613546537101439560912934699224, 387812546341522787352821313471212752991109896434, 1325433522478878093007275645408366958960640557450, 710622219095124405848463510810772730742163215955, 1249504504844070493827570043888489000141748415033, 480900191945454444368879929419711071428991110440, 1318251874000835493107853924456583722707159198643, 490135401589556543719996821447418277747208804395, 1041011755103396056315396512066336882382858839296, 446112227663761774901833825150617906770537585718, 1241838060736463773083729744109742068957197358025, 1067019395632896348926017378873567993693914980460, 743872448148058386379387753165889401215510667666, 394179951681860641791988800877685542413085080684, 1095383901027773301185910241458961707955343586941, 1090369362403654767143634350404214656559031082543, 1209233387365362951572941039356481029379284913764, 678900500127730378186887573604387697034174229665, 779388262435867578912454391912810295591434405149, 1388183475056503733674825426328442234177383697348, 745409973944723907780905398780609438015521013001, 531336758558339736327868523021271557362503614417, 614815594840927021313066841398346091523342198620, 253056082272332694311020396167003562394698156696, 572996242083205391782696858572323362877908007436, 1025869358425484185460654453170442124781254419620, 1235943409553466810125172299101721605348096105720, 494580070778936547119811106589641595995932887664, 263731973675927288586372501566276995825597613999, 1302462141830844686333579499533206813769947492455, 683073741703658696625276005414251676026284499742, 964721125331997127072549872971860345034209901083, 790420201084953575148488621629546892724077619251, 717941776506235923695882795363805768783923894353, 415385920921853231381388533312769488474520947489, 1338257893731666300130020983605197734412680625230, 431896056064388841495766392348165254833091860974, 1322278891828126960246248397226785182705531339525, 501294001858701568027543404221119558692706171349, 973590720311402033571186473651540779198196811220, 120795063219216861228361317056791884263011835648, 20903487125810850346531075979729842514030104175, 1051855892782877848738374499566130288285196755427, 554446158612764445311184600994863208326606269345, 1063981342431535897194053614982418163718329097393, 921694856481064363938629809102390499683905587602, 1218341902247339137048128457462587248635123118881, 600561868466679582060459147485783822815569113497, 81589528004437370495522606976883013444531675558, 281778161776544566848182383774191147538713452999, 629930717294607446375194714001863552158328791213, 472265238984524022493053615864180315024382580275, 222125797051386080528992309063980101437387101139, 272826254565023638188797374179753651893945403819, 306096231283307481158021238362848196440858639636, 858540053329336165532905601710254700135017588993, 382387398734755990640958360089912601465551327990, 1219399856281647719259279682407724252173569211950, 1139745331739729648987673243292955006314414529591, 1354270032342885407322723480715055414735120625056, 695052676839632797890198325930555982769431628509, 235655907033019551476887776075637613188979087185, 69308355337640628872470783748939288419999341392, 38032118717898537887004266321566234161099661666, 978246183926766897820622188855696624591781086165, 739375039871653128723983046306219176899831662527, 691503155786498328804934814546195529292845096874, 41454985917949998827160552450816318855203037158, 344193551055393277231837602879423300025797014766, 69260044724343267597685213207974514792735788656, 291737153415286441768979342821642053056635601863, 10749368742604924031037235661755027761008548766, 1165881575328729831092134519107592750236913368903, 205373328960548330441638306413860959086810122472, 349474358504984115253356663206768261433050216647, 628752168083158071419867489179274090682974960575, 1329131659698194389921097339703008628969813536355, 286199462462909388250170444856045960483238348135, 1192660083974806818976667997803597569715221315578, 620845333778942943616657351688091644221157331400, 464819543842326992463194163178363683312395704356, 1245731922042593377840896354755944461777929056809, 1266012487381438202085306578726586506741904684058, 289550044999117741850275798632131996149656743439, 659101551825405942042491579198196664782864265346, 478582666880567514515509561561039238033985019710, 739047682318131450960112791366056518697522865062, 850270420918712098571259266501359652501731657412, 1084068958741246460114738785311413367128425836764, 560144500692219337206568155319718502482286887322, 755849733180219208449993929190196530138579531332, 392427076668171198730510482851784504576717724849, 1271067364891973416009466617788954377901277187071, 290512691156091654503125277955025585887023645661, 539036573005788440114372598629274941669335075627, 720252380256312418900672115797000307752942532160, 109265196083512849409898980839471610933034603886, 1135042626165750120325919588609160960879818816233, 1058729171941469048963744985878642315500642583599, 787157745614645539107908349055958979207453962033, 484221601781438259397363845660984505618741061355, 93992123164322584402658002113187501814142821489, 800395082917497856741199341646318683907677243607, 775955350770003620117228086646600020559063224205, 1093402855007622170312314849586605723300614769476, 1191229512129259145766997705126684534485499577075, 210230649138189607519674772119492178469699895846, 451771152978831996597474915468323416924261310310, 1420417730001991894206502535726372992436490168282, 910918531206239937176554616201003340775266498187, 9498160238640393137161435738584483405888696026, 618332025648957229394247030579576239228691107582, 853264341893254269638382842614926210351997199013, 1276877247739907712213936129827471822616179404269, 87037786629767419640016821936725543453912809131, 171838478425345948051256681657679995342376863580, 125839780696483223418086676023602436443031080605, 418066238428176158987291359000569005174205868292, 467720175225502670290137216965438498949027795570, 43289120984085068864045098325234969490529316121, 164965272082151045519866678350500734199948115538, 1402546158439208125666973138610671149932972570700, 1173959602157117617360700300570129423448298799862, 870476199773369139752298388341328774696373115286, 899363810148200263943880461013151734793638239099, 445892535146649160741363048090595667292431068417, 404408722200619157405572326645769575526822010441, 1387901362256510179142255886701560564518874224285, 222592899632024771780228416485620018420158691932, 831692496847804252373176533396695386235716877086, 149519779091415227409198727203661156747378644731, 620333069433147379014354435829092727471042994959, 55598087505698798139666266230324342345384504473, 716968099640782072373978287430374901695868898699, 67090424524596356673486488570283045304756251907, 442466233388972799139789442775537904292689214764, 909050664687488446827362232213581851140530101472, 910668701931222980433566450660726938569266145734, 238108566972576294180434501217012868611124484201, 1414666821628242013650519063341121655770651065399, 1359131533435401582318556681888371328467618044088, 1110809099246340028144272395771019536710913348844, 49687247371500551487010810961501244112669581223, 546502155494158436436408739023964170983923819188, 156279225062587034507961335492450152649720848051, 317217790960084745751679347353180195408763404520, 519357250095595617557790789206767954867926283065, 1303218328119125351986097177616688117480220167769, 1032436163965212887918410463960951245371285663279, 21819647453167522866294261239124272946394740673, 514648379677810866423605927981937715014917645703, 1054549210682470475006595921857027275985230320668, 1134051283265810575886017118626491995978312460888, 1115740832594231236393144162360658608563441682197, 52491058410970410896414274892528112347762478532, 517737964382015779283640188774826671704075198765, 1363200476965402979630291928311711318895076907873, 656499443658189981499638406513588272390154487988, 285330920962772964167075779328129557214029416540, 340848376511384855269217299789081663415641335153, 1219504505618471175328709963921398003859990054319, 920117883318508630187831917959037876281803872515, 955170987028245722740610204675068040483059374542, 550762429078707697446130116575726291839650919998, 634868509692167019491923576503847003110961897243, 1189022198720021047931938535231372278269123394451, 329612500221781473263023219752202333071370671324, 105646300295984248236494598532342994226903661226, 87669162331474350231775838756218966171982748620, 141633892436722776628524561541424885526398392442, 1071443114441692477866855402215239779822726904796, 652697324727281310269709268296702340874473370404, 779647144119049121439107477187888889789141788419, 1067122499054357410775862902780553733969540469075, 1303591978604619116963338005615080276524521783571, 460784256159143488358427959019624020995061791118, 1022549434097686986751277392410283915209771006066, 333040514671128378303691296063860496889997194239, 758664923573520460522168305782744699889351282117, 770782678708833993789236921544645373278866362607, 173343649071649147877861551887475585176301104844, 131501274576510254935735329219391950978319210949, 866094111613111012254687298087163070512286380361, 1101493535652425639652624291078512564870891810201, 896075141397142776542522322733764695379658028189, 481758624670955331916538182952735094684123438340, 1148178210249628063336724758091684575008565377540, 493832552184555511584668723862358757111312618187, 299409017589472439442300022418204734534746835406, 30798384293857719321035858952634762160141499202, 888549544386760731558231433640648830588587632118, 680080286106985822151677762011994497717453767771, 896388558131581596070741982316528093528109345635, 898162859416210283655027090855518055020726665239, 623676528000677248473065362026731266177950931294, 638889342551473258697695143884766175109736227625, 1337478251826577626678851286844750664763079484035, 1433218248424902315056839848648027104437187003220, 221371522999480750593601313337773352732174625182, 36189584084944978193472284302979314047906556570, 598957517673839861370702702634389905216186249814, 1283059915386165293711005131171578284383746876512, 684176428458037014340091571484475725599618668206, 914583128610583799898287807864451272183131264033, 1331353598028817564399982729193442248714139450579, 1164445984938101549833692510812591777732971272404, 1221985508787685148242357341760627516903675678068, 1226486391610460002120440983235975707632524325443, 348974353545220166873956304192937358926035280629, 570589157709114765196229284083662622192192774923, 1173861505828665354793577678148235017700699174944, 882153087931657950054429689880795495741857425031, 1026985542964216761339641484348676665473334511789, 390148939255868778066222367583306663397628749599, 825393251448934416346646769162094149992851866531, 355022366056827105775554318715180829471725718022, 1050752210882618401843104782798005279128887903051, 226096321612274738305727508136589287250200105741, 518421934817647156815284718278906229286548489180, 1419454524380421342179003199403258025405525380107, 1363390438426380648551259892368830245961240423755, 573600747366316613123214083544470986864815419379, 283499592299384063601985242209328839300390267699, 1151710499948510283703905501341717538490253634860, 16824841245748241734581371925918936577642936875, 170835025279532380103184347138109806820984401478, 310732551471127193086767239371175359076113522729, 889512226861265735628714422689033857138792268229, 129078608756479377232720868684463448616071263723, 1251848577398881032799199387900313047174618915775, 1288181619958170826931534491143784895411436708196, 1227567328052584598085549667870992805652141003413, 740845677366595966431916694932356357175156702400, 549341311901532837617773254302769939041918616490, 1298218034012116213210452489414252517821319161370, 1134162159327361496171698277813578907236659547601, 1296541823698386799268694596536841139582847938995, 371126477888902593301349954938299350751701812372, 528388629031642231416673076039382756054169728702]
/-- Chain segment 2 of PBKDF2 block 1 for the claim C4 vector. -/
def pskSeg1_2 : List Nat := [403829064855602541078631760294059151362616242310, 341650824851714394785615530876560616418453921644, 1115841453016952281231180631242356038811064696371, 459451020139040094385873518859872532288435352987, 540666199949281812406721237690990970578927828918, 659980709400912272812302660031280076011903487811, 1147526447296963731086331189724363355265624725874, 1328667966849750913216230977539485229715331894741, 869378957040436763554469897299007756136347803904, 956761764036293470636250218937336908647426254237, 502933488108244743934258640875453939822588939510, 1127397382210635841106424137750835876117774212226, 293245076247585901237995464380955867256935813866, 1235143126526472818032503765911425587008665389653, 221179698713727548794369808160820547169961415780, 587593454160809876054939632377729182892828211250, 359722924713889293452057102985938532311393754895, 537838630516304464156329197452706675175914964239, 825862597844530162826847698018103633671834983508, 1228582145512221288582215531927801567022474281241, 41624730144333499443527665900819610768844520644, 1000338392165436284392910714668869679142052864747, 910882016213972123008216123174808106093338831477, 720303894653272354812281791295905742531731221507, 640020879858447498303301184625166122275145476656, 1403433879836566241895255361011654032645016003605, 605253107176464106530177095249084838222273256299, 661430354814265372694700900846155042899200618676, 1364514257886708394345371184161053193603920352145, 1121807633691859174634095052434873124988008147102, 93800334662164687730619078029154286479589520772, 1319980292634224907851983070076306933179881192617, 378758926210119106820837102737207389834017735614, 849195854564237221274902853455130601568478354129, 672267639779980942069838051985592223387659115413, 175362602427293739343183679103425001222542148504, 1327935775945384922656165270510727248515709718464, 1164777526376539689243196211594597624034897303042, 1141054741390178997538086632175352926184195757612, 1340528914150564672901860445389586164228368237323, 1311207625287830625935058364231408460871181266374, 939177585538083754800953822919627338642220338083, 1437288707879542984033923401907454372846794352047, 413346706647481947684091485293452820027305919969, 1128696584032836756737522960254874823833480003191, 1040947589640726616439993124836158365746189307821, 1225304626271292353661780954806277965183418839998, 68439748413934559028651580026330592592346367504, 1196286344395350366706943582152917311356896499202, 76367289581226492990441530814754994627331626567, 96993947827094787899348739809058567732291665061, 1197995590224555624570101307570346567581863588148, 275306087493497947224187747281489472758078146729, 681527883159204582126399012638681219088013096695, 223148551777110019814981329588676203160898860114, 647522242980238470256427385658726426046668982077, 529716648463146018998312294244070273292724473712, 423982352074561475496357643293378156404785178652, 237014055759162242883228627721670210932863779232, 669853913068083967639132229174156278781934211858, 1356771088561724565898603970061403335484698218303, 995881997207962236331536351966935465457547295402, 1039196396329276789930191957705259695440863591352, 1392812231091907553991474429822186109143991309704, 869532023671170341208146515982406420384247041933, 537146506809955533221066102466799620659552658160, 1163869264186355358504309654968576871626003466959, 519032305145558195269036685080114532770207052601, 155623660092796083939148706330909964505754726937, 206913420240308784054076479245424826484108983691, 1173889079895279767270852988954935559725130470622, 610508231761344903418438519939575303614834350053, 1340451013490107805772686283313610566435277405678, 810868858856610269299066772431726404111339971676, 868276073270877184841499071206469886907092227828, 1186445789574711878237697583653597937636531279637, 512019810053944432708558108704848636277652782678, 394580870341349979095526298557067325124541300362, 150134333868123391585337428395279019922682607801, 825412459459241912933580673470544628199669837605, 1254053620664033925458978288187014192179227644460, 1313386453414906959594769086472026235232249995885, 165753652466841798277810035505606289588628576117, 703578808252879344360326885534316248816313443702, 1339574213488787775410875911512274230866821443445, 1273466840794459957532504927327019082718451349286, 178012336028573997396419701182976292092553806640, 1185171578438992042628142349300668223338066275921, 369650215506708469403208305156015186066191197567, 402406822655416835783729760109269774351716150234, 1269472006670600289933942172194071383010850797832, 110669568047545273635012793715306226347804086695, 85122322885377199135152906849396761433118272834, 181749309416349573425536948250139938854688046434, 270746929477372552815282512286623244154546785947, 1043391853207189332408600960229522341152552027288, 811851039551228800669209953015154773279967968817, 752655414189504218836580453210490804915233506728, 1134729733049177642688060969619520216197400222407, 194432084959014684799776115710693411698015564679, 56399521323013256794912259019811495778574010994, 163834244789003878412977066316760257497464021099, 887074176579906649202063741806515624537114664194, 26289225089639104337968639356054341311070464725, 68890477814596620396972330190727062522934715640, 6501198503764921866135849760625595931153755041, 28026436003691821819107490157035123213555028898, 629688495995491053398586590581920603103219092049, 20683769066123159991366259416502710890969912982, 1218223213556102216694748199657795749508335750679, 703670545568506389085652389808460282456296813201, 511906813150438941273183086273302447148745823160, 186776894649243584197831308823064302884279756127, 1331917681884394431494438607643715588898632694065, 855816772885047499120761037424311829527314560890, 584549232437318857313944222925764894834090473265, 365213032498796303567767896542816340890116149903, 713162284736505546393357013697500059154210531601, 868173095969956193756627976475712816899290899445, 1268158130441736647993590392099058703924108606516, 325430752605089322760665820897111379260198253467, 1007721028910836309682588251963829714610016795294, 610601127972703402901783822883457335791792162129, 791043163128136103552525271762012898644093613027, 498696650547074145247770260155558872045601812423, 1218594390262523211179780683794983492772798718837, 322104383144746842311758803965844846266033233369, 1421995853128166690667281647074926503907537229157, 819925982647271155771618622722716642137683672295, 143783637937542319881189338419143358066038346582, 218446627153012988213532655061669713414093413539, 1133717895634494914926195785536258654296063442364, 464928388943428275819947562013097780978345818396, 814946827932533130661217201286623191306750108809, 785999529640127148779104276616470485344384806067, 1275625370776434342227288309104461301757864242357, 726627746753563725315662226585181354689499049357, 51117994458487439360593570131205547631843513393, 651210714405090001929289021319194407779725862796, 1416941794688555289188972037887206494971864785707, 1143390798077167811845492672576526071239997142744, 698209792654467605854998327448815046601003331628, 243975243224309832704565886407809937491044192326, 1082368769866011240754823543244741753531490744159, 1285972548295006363962379335966970045443320770729, 734011021031540364000831508210671289586399779538, 1178211138177829579214815781057465132303530830892, 1178110453960779679195783484966423189966258738689, 630356244943169216225786847195654442324326882018, 598298079380481823521702417166866178000460112849, 559917023385169311578437137423953616761663883093, 667653827898813650733452735241409560682387608510, 308423646186039641762611878773620806252253703354, 874943571185047077673488638485200446345210845769, 1335803497885303221099182681355288170266058123146, 734531972757730787099142331917784792361033420733, 698785641829157752497910361236713038876795771064, 768058585194239295703828208929566578336755885934, 1180034622767050726643782783188350667649980409267, 840340297072626538909015371349882389459827300950, 837359285881417320147072421592872121242433085221, 777731133978584449891878231530361211697470703890, 313493386309311960299758789648081414927982392013, 16812247659979957147220459752990295671630578157, 856800594489898025303069384669961802606882371596, 126804334758657183962065089210345626240740878239, 1075241629463930432829092641332835258242518803588, 355109554718633669738258547147781717862581248503, 427947563703122573424810020161218825517024652058, 222035419012523467936996827516467279649361501189, 424362246550288602189388694637184923013464558022, 1222107882871547919799859572800802278763157456143, 682680038822146383945817585593868574145905354487, 993519629385142573426837790851004478813790508404, 566869346920038870201717062133318051573209600745, 239326363592646572238871498925453289339823493522, 21478445741989332938104756215197535155522037046, 1284941575357339571744233930858433355020422870287, 1427874263575993137861404264923917655341044959797, 1457173573232114134265597745409674250359177698931, 788908420525863238573266050596756982592422157737, 377963185927310989860539644434480414265541804681, 1171863088121728386500253401672556543547470296262, 674279519853191402751131033575788579092732876351, 519509518716002068847243134176305170187011876046, 1359738415866208727066733924413406176086721893265, 1166639360122687303437248127305457937632370357010, 974923326120833823209176852007009945928862680469, 408138170086609758690339285914765777434281849445, 1019894868745855422594088134199960695494152067091, 652223211955514538231647189831302547938230078809, 1456797000206568331749613874468719068721417256382, 623095760328207772646966421351831934392743044999, 1048681370372000026624391384422576642901774892746, 28461284210850763233438575506830312413437238306, 1225090805054389302581166363570328810376618382284, 233052314707416303168116164461490974541629073289, 1025082429459160233490244314500241502858827484375, 632861879556947213662478891255889725786868208244, 156191259014903057934537024065931786132098711569, 521166690507322839531893326999446188545221634340, 851453421326215466947278159981631835258698788464, 594128122553398976772735611621276345393032469569, 757795871475152590861952742966330760696441401814, 519022890188674654678053771884063547289459752510, 125513293432143443270872064649025794301346600160, 1401982186294085745514069385975698260023250632963, 1072682926234931791765879456544525173722406531241, 994203862369724077789708416805713371015717858508, 545679776109591872550898450417719600438735843272, 743751448044373413024071671281541890368605380521, 798215297361155324539206868957116494621351964711, 433849639195791443266852578300314270341642485647, 222337235671264275632244617983973228946180792461, 920928704206695165354769974075873243118348549574, 113399878399483805393786065574611046015208014113, 303087872842799077316128556544922375275740831083, 29054722832650238469047946348732349890631248825, 1196148609033625620376738029019800392780834494035, 739655395887722496734315926000133698193767823632, 1190638411307681268741535131249573936881508048962, 608286049323796214032061700225866287599725690948, 417021728355333748823314468628805062682918958453, 697702384719166995985077648773052377726023346327, 750092300697868458652635805368326102096988927237, 6407328430224462927648662425804306576430629990, 873030740404385282055036703286078186101514848835, 55054625878564520002104906438575304232274687713, 1289352658301858240392557387722051362681557278647, 210233259947278420443229649353150317751840072268, 1311688056654183815942011116447625266275105780461, 1117123771712116341745929608778962021975026197971, 52284047856647962794245659902416124313384453124, 763182485201982911328343741745795284199307099681, 490222126850007355376892529482159126066962412749, 1246778055451803441780694506942878438621918941003, 502173301573146600358944038405323585074760604946, 1294445408112257527488664963315903884908971776123, 53882553968158413604406287091513507577483168304, 838482226648872882093873704645528536954515023442, 518346221836335546116292185545727130492188197199, 1224407764276489439949405221955850581429951930840, 9476032230714414738332994667690093295484687364, 47300678196284973921993868081285073651207586467, 681134519175857017516822953383786843358590828363, 291921574437813995756871394876143690240216889111, 1383796274351649734565306443929249899696395910808, 637977923566084219552676620231850553608707582404, 646163683377798708055166199072781210844082221624, 537396264490847509237758966172065181331538358247, 1144747505529275949796923519053302476425696379269, 1106158885310471909685219882053027892113824323861, 874696897456586913601927185916192483372073472540, 850149168907617814139184822317138810902401365615, 806962764734862521036169673859541116385954973100, 1383661843070773032199286677083498857266523912068]
/-- Chain segment 3 of PBKDF2 block 1 for the claim C4 vector. -/
def pskSeg1_3 : List Nat := [50394014275729074691416876134038274225972154654, 597653140954609723449354294264183948213791922229, 247525483509646234014223903451930666915992797463, 700971854359786918165136879522264098915636176708, 989462223894219516950752326696918297808275641557, 1349663986609146417375562158852596489007064472211, 1002382868701090168804975414195215717988599200023, 1379939756525780441814672378709800342280881322425, 814930664492406294289067902622129241355083314699, 891641720142863904804269151394328964386536290606, 1120139715520014630896656902055059168418722631381, 1089062255666395458378511726778290546634793925551, 313530957152680810283819983021980270290755506612, 650075996395204503536328575955157314967514635962, 265835326157256498898065532719242905018613017078, 173620585355755609265905410314278222340612907426, 45673240237809115867263885340201215234113954233, 641434919349221083608281467817860837947898224039, 356656587902016891610830214329663993063721510650, 989776360290483549418917463645584324626972202207, 1036685528099091089988685135951769661455707587150, 292086668120068385599333933098570671826344804366, 516693945344582035811261120544644170055373361944, 173587863582129841850046401266781156746761678855, 852566634589937489159703693461700187251082647130, 1150400261333566616768987688771884018096653699747, 897831989321271748109992324773065867896226133046, 475918501096194058348524592712170012093328266264, 964129782255790086138949506026194444470896670327, 1086348657006081759718811499315381146053958336926, 846487080470393990026438132341296470919098202696, 640771206330486208816328725451537875477335392800, 464483198550499795284371542027837232545830053259, 338197602815352964645086126131932807684864607410, 252843411204798427480544777287295316064748795416, 1016502303989056860771282055057944170771598333989, 395571118091869750013243285686691052123667148353, 516647360077708573768614270287471888585901258869, 252308745309362458714460693154269000500387343604, 190717160266175202045006719682400546306821899413, 1082478846407907035535691341139259215355592066999, 96406723560541860756079983778382494218523983527, 1162838209981075892076775765408140160491929821236, 606493147484788935142322722724058917668048772057, 1064055699147968431443370234979002620630069659966, 307833473050034867347958173786277459762807270349, 309247088463531481566230694855664179371133249621, 101248677487662939186648454181431180533946976395, 81543596690607997505350799467943867766951035794, 668389395497387818835660428973458407317516532610, 1348882600919165503222735061081170190959640302294, 567319363863189629865272864510019569140712711851, 787292608276562367845906036992008713093814873062, 890208280985493753506890042360058653594723608724, 631435706138088249264798683434573917426000426501, 654680167794988245484849200583166013966275344747, 810144167922823767910843627618306725346349339743, 1025976206772403580786594019327319286562674155428, 1370823171070531358580829397853135145243134249623, 1174631822316740226756277016275031201412003711463, 82655417072258754259122409628347277221716302817, 210425076726155856684752862256557132991323456383, 78843902969369106600852735529161912280688377836, 703279883596060439141271636593691602470339415174, 670479119370291763417143076830204580014620045465, 247847106543165871269813020756569450224860239596, 463304432288365232869553744206458538343203288579, 1313421706658372072476853798212024948555551731982, 1281759129210687105295940396638191756358385225415, 1319142390431303990578812454591715418314324081198, 1283019190851053573618700046226443096603721028423, 1263312725818992663154536954682800726955695169377, 910651199055879388055067005268616712909387721748, 178110847784903699395365570287570246638225964859, 516284995581396048300993732877217557885933949967, 1303197318902992505258976230863431625003177333207, 1228329636414107120385846386432216886584730484536, 1130966451607273741671081800807364986687607526843, 617209874676363127125620503174985127506356030755, 106738809756797766912776138074585178711748598828, 643552516945671285132399989413292592995915270545, 355602523706471491336311547691812984193215051389, 1113725249960987057591330582403642962506437143734, 386668140838305689745376761436082211659400602592, 696811008274707350670423033378598487119701908601, 1440694094167105261256037512173365504112827199046, 938482441125455797340874708396800013526689292251, 295703050002783629396493788642661480122230548856, 441250889813285417751115159247867377306440922795, 482171388031366198008646437359030009777271527849, 1093585219802030722476798910675345468233894380814, 1227379867106299891396989190013208965515124702640, 669632571572414294988424387538246195770871079568, 1165476491629012843909795775891424737946521001928, 1291280625093439808920607853241243271816214536960, 594125000500880329003013161108115035981753141500, 1194525930950515561568766109015197726105501748032, 1118385881590163995657171667763326456956173111758, 1207428042234362577632811356463750948917109268449, 1071148868043421658026301252356981703069983244586, 1207521407742057742904733277323417059533937967349, 772247044666742615221975523145807823117078285259, 1185055411622884862723761299630346872570387820497, 899381685645150698568257864197666141200318758363, 612183872535056746594671970996035740586097033198, 448407245381866477151903177710717822095232347196, 156065568345159312111804734773841810809076856814, 1415210268587098597042102744383316698652665836985, 806047615489937271645318052592789833797951685568, 8526001174380620310228336828119960185071276103, 89235441055427072194224872269808206327066755914, 421727229342215741432068798762797257272124582421, 926563138533940559187823800483164415237289596252, 91220669137127152412713002850558905768003712311, 971024914291025359170863350862754794171015268563, 1452391228559049204708376172660606824225739787706, 1312733928074066003244009054636650905467532333006, 517015151249859801750694247408976723107933255778, 1082809054006691470784903557916642071115716665263, 1426666502587266369106142231622439283546243253251, 1426700717719760881358384822870066435601561859, 635444736109951700377377083914283997228842314679, 1169311851485224924187503463390888422425554169800, 790026913890161754646380259724868052186936046804, 194775947777544672854150086718656032966610670572, 353304981522456788465141065566216579655765402896, 95914858559844567615654178932943518725573369698, 1364942120211691986424648706471826235285736884919, 1054779264901151732223945408394723108697777920310, 411587160311808246055267060747920443233258489506, 121871208346173430119256465438162837109727014479, 1312586490788344040997267019611503307066908465679, 173463552951259759294455697709386027194598926699, 120245931912539209882981807845089760197040585860, 842325218778163176047493167557921260320340402634, 481460496447687177231240775998088191123301805556, 408884702076849145371765435414483805793765562346, 612380394672871745993987123290646598620889001765, 892250495076787349063857114635261408822331954662, 103969051795010571302789963659361405627328612238, 303440439743131136226071196520627401550456719257, 944750829687130235777742146570454604491722742722, 1014889205407404550311853699236011735935701010194, 1407916384050025880941931045349049451781077717748, 914536410180037063441029258614090053852984686612, 1296127492525617950107448995947501808144010653591, 895914082446599620467890877698229195426261356115, 270212192751499270748403403426163782278395757013, 461130491980162437166669705365363496060314063013, 1040415788380108594565287046309184551378201035927, 1147880161315914520830165703532788593532569709051, 55246121429300413826334057891973836300262249599, 1246678984034029798938969648923437404480913103888, 1012877826028760368702271381345199234746901020917, 654028460764596371218479474445615349626216828438, 154542567830261702608765508011123629898838678748, 723356439327807798094444851532827914160806529676, 1114564698557743339242649267437614081915965238578, 185728519075581818477442163251859222621314228026, 10582189506408817058675188132131841148715292416, 398726832202922368713568066191249940750646791653, 47987292904098527655460219144775126479485195964, 1254203276746139134325558377385360792400766266320, 133202857109668712641429349605454204636889131514, 560224888099899660544889618800759393733330493364, 675875463298099080443703502227301344745194642226, 444030485326742910233952767072831879929735124557, 1358269137699522598284989808761110159531519968486, 583163934239296133896737651741905153197185014634, 835005597536664668377280103869036523698160008381, 1380321151326517930209349216608592928576458635029, 225619531304689682411363630900608964353399944724, 29308129386117650434941574352211420899797595415, 38270865675092671265284488252584811800296077326, 561168798484690855455436588708421821589616703509, 991291367701613860457429419386395929893728162192, 949553073180181856176873422371696349693228769910, 155515288534903510586996729638246700426097083127, 691906483368017758971887435644485012827948261333, 173938225890663103464615818741306396776615582635, 921057059453066661241990228480147544907362930828, 146950273974350880533894049564530014413266869660, 682410393996684687837570035255505414058442078186, 101622281943042996158403383424845682707209004193, 439476470775605197646644913103641905266489314586, 1222838562581889224596321933880210391939175794642, 690400616431569530457229272987425294320827190240, 1069698770124808993581763004041325559007374270547, 414839067814359815438059309895977773895921539146, 398288005006019471582927063578855170608105038098, 689633406412518890828600989981291720468378962356, 97037346335315387303652419626747776318374611776, 1092232796441602723262935844025570790152419948042, 51028473597712039033890244484023746642209654658, 1340729438132096044854779508920573748759496590221, 731371147591876808361130910975241150535615239767, 720621721019076021504988785648325431064889889582, 1448924998129153727322761541511412633038291780975, 1422189522816153061716586670974535500639739501579, 877619032007582516258611889744902099473748868027, 92888497099692477072476201058123172471226485890, 105557580904618552245136620254350273503871617970, 101254149485113678294055139983567073764799128022, 89075673043027333018281309951073787771024985740, 734895378384686475726239597319845603953729043641, 71430240586963765861266473340544216787666992615, 448256499768837070955054989818465877515824862432, 110406461748875758459105640982347677175729232889, 1297022855071025818124126102037203227753334517859, 1033426427597285400652072190902375597381601027669, 1165595598593408126538370330532667849838645748234, 1028940227017167766279225791264183878802864372430, 268051351361258716398381692817956169005075595389, 1046157454987096306869658711044091916254512521539, 305161319869068926181221632776356968190586415073, 994560742983157909698674831083816658656637023058, 961139453775616711687730485212774883977585153775, 1210454645766822879242632574678086169142891353566, 970696126759376959314555463201596358646452968570, 1250077276663333354823082184764771969724132341821, 825275451833151403328171283503686080756116077628, 130110291013586631210513541118972143406315315284, 850859310334127202835957317535950054913474895393, 13778126694625414555957966389856088047274527725, 1346986054922854372072067258002407984967083215640, 933414131672852312990487421213532220032413141731, 568943309837193066045293012740327171767136296142, 246293196024457806407201604116104427807816391422, 1204223250831100834580467012333081693824379833211, 26576284930196736946183441768189862392193443937, 89606474181105602761733258496507445417243287602, 138248755742941025237123604913466569341940258950, 569519759560512600745079521147126937845619495621, 106432817679945328392080656185731862251618539856, 950518843041473762580996619660623615410772532410, 543828883299748714483362055256219539963138968606, 22160948244303564727666978221148436833113113751, 188468552628571735821700745880992250995022528800, 1295808898242739846958968683493767359781066829893, 646097091544590129237043589232228647233792761801, 1070757920425260241869687064179890734104683252769, 398442269733139631721672813306185779049827021818, 1133052020450894505449008707718485211688242800759, 709272422515961689001992668321404818499500950267, 241353604827545756589179783897895901649791252822, 1380332849078809026361601606281140344122468697279, 825424815571459440632984240586137997797724371258, 1189520963346701012436673092219886084887807133893, 474938446554519356692085359205525077124829167128, 139498544809577512940393725640170929165737779198, 647965157364175747043897500685992734021209678039, 576844833823725350007761906923541073335785874415, 26610809302198521647722932860708841858467882577, 1100140654438037422726359673541832160057427258569, 875519920641523276282928347190568028166666285396, 47319267805484363524266199909844693139398725279]
/-- Chain segment 4 of PBKDF2 block 1 for the claim C4 vector. -/
def pskSeg1_4 : List Nat := [191286604668656862150983606573074454332641437517, 1278020685968032013410169175338811418271213665046, 458455557779822593150015907891694969654324422342, 644916660406047361336194382288953357818443073489, 33751655561323837689097376778667919240036211120, 1145658778236339076278928012344842117158537242875, 926246166962550034327992116536556416337662423450, 60476136916768277482094533785848083732137238651, 336226750758059638216650941905075340307484162819, 608444352164954456944647588309926192122606950813, 1443536825503515440813311885202740049189175673670, 185972149639166314933510946406094568794439760733, 1380562679818407777522413623656998152631222633155, 449600011028462749691159737217952982700887508592, 157364507783052862052209221555985415443083985916, 1186125268629714948083009653033514985908730981238, 724336111320029751521073767757134077577403861688, 86999215675850002073128072819916641737820746586, 329351116613200148234562509085810523488434483928, 1054383535156972461480636030216703377061950485230, 1050318357874506565463896333574600116115474316608, 435284322294303966052171175969364947132702418027, 636940823091414136065140897603445011440991997337, 672344541182700528846970226706826529659493872647, 895407683441041226852903692135171803828984058425, 770330655547717082092466803099397601551486562353, 337538772821224944935014999233084917950272156840, 672541931396687403308113339936846315330007764919, 1304505702153423056882108593026007863998806228250, 338625781784559783915613125975672881300307387479, 585558521041344260742763638879023765905434598509, 361470867452764288433660877349268554758101041294, 622128425278372717759494611876396016495006188381, 140142656126371978845540424588098251511091630155, 114378197068846214803865935032752178307586433464, 1042271875616728054627243076842123229452289199930, 1296719833173716610411263367735624155799472851773, 1314994064495186476643401304511254175281951178941, 539964325761603805355749150703857236063478676446, 400731897599162027634361513917180353516834847236, 384886076941069683067198225614897404052174316126, 71608004526951489752001368048739768727011240685, 949424167020705019325637738871938510693911447391, 585398373856697130373069103184108023783239657284, 739648458413461386723901565136741911413381329338, 326221772910953574509202132398033263466667932598, 252157025016133152043489732563797032067020802769, 783996104804902213446121992111117724049881346389, 572750216892429632019067150123131452598819924726, 893029008093296230979952109727827248518115456396, 201770267235008321040227703698767733843674719020, 785082502032257600934195950658617367075075031482, 790100151302495583712551428366162379594662182392, 674023106620386590489064519065668555956029325940, 274553460695210082303321996894568928766839097587, 1283150036242645206852155324562307560329646957676, 297159129618279397090232350573918446813939393166, 150992036858078505449934387622938725133695059250, 115627656303316447338128177241077699197625617886, 950711093313308601185379651671018702595893660911, 1075540831796417690706033480651059995256353125096, 501950505381508686295118216113877136235080510124, 213444036856820429876480431300134215384026202923, 1316316684773249403241166594842786728434437875211, 1359566271470343255109826798943043910820216885024, 493699745572086412014825865949665562187293764475, 135311284053101162818846378552803641712495404685, 547563806880672344048045611114475884632932743408, 851858187422745109968896221248736030936336991190, 3779605517559265711014130515519683855135129332, 752551984908846041652414047687610189161931493196, 534187884022947011249660063737145858257855964724, 438107227628676187337010624611051471183159282356, 858983322433342365142487900065733909617068098691, 412131230295519032511988473650711204780340018697, 271351176036842744025606598852463387654927825659, 533151567219369481071885663939739135809885574834, 1296635331289394846512616125564764452448051095952, 666558866504232327282306608748930031231281359770, 791152600878035562308429784560446781647210755045, 154435195987305066556568682802384862314680653621, 959919932317060633710279203432762304001010212292, 802806773358099432123998986552084252167794708299, 668799254812903442672836806497192726141006070893, 755750816244937501224847209074245861885274535467, 61688716343644320954890078401811744744521416334, 193559493168766597205318004652175485043733723913, 724757908009482637139088426087410657750792566341, 1205811156983429278179781056724876127647297362840, 424282507991122902759024215426096627272103025843, 1357841637456122076171500648220026310620703632704, 440218995582772905842110218575324156012203537713, 1173778849086769491809351801075324655253775945683, 342803031516964874788038409924053360421141460446, 1352410911113664935569117507792762093751717756011, 385350724810100412943486462842521305761341226170, 325399000608277381885218451344877587970781635018, 498535287731492415671069533094150888250930337508, 446896649121593500538382611686234147438152722773, 1272745985802498387490705343192285443407362635102, 186278498349813016132153309478775736178722059789, 229497303649126862785888811348583091406830151656, 415928788983270182314495363536275603116573752751, 1451526661633349201767821906558628743253642083288, 18604143070417927074537612476265365847324783945, 1307757366819895433121174440606883582286196298129, 180198842186849355812685939310658328893765753578, 1079804698492738738379453675190845584428434212649, 291453710317963110556315640839644122049080019514, 909394760700361474062616891376740375727045040372, 47236778775808674958764172909022802492131213698, 1050469889403821725855511066977942007781357041765, 883555651568637552906707477149330648833657542096, 379092160667143309652094587951507186503874661155, 894197807212242898709320615151259119722615374864, 1040846697693665526549050014277140987899610436021, 1063818057624224123707661846837768427560074689927, 134655751701883018122308984775761437243715555590, 80764840951044885671363879074345658810515854401, 1385865838954846507594624092332024227228750210246, 1315373117728484477526753992650559914711246123646, 847893861717174497845981213938528954474501493052, 915200160502014018441792089897268640578377291460, 625977714892989435090157263825902688503299799587, 571518680960298120054189996584601582269427030350, 965270722515502247828097312027784805980725829456, 229384512035538398294716278420070779367028365708, 11844583611254066005260204672421315093821392325, 1053835560506388017030335386643706274290241738853, 762311955701869935557461207949187060399011981190, 678989555063046350288762446220761781030805650117, 1447593757388911232238917413770705035932691557920, 73093972133788271840626714770107749987214150972, 221102396496017168758812420515494735095330074874, 1101686187000619146618453912107175349652068306148, 1338752103069571938754546530838735148870139414559, 1187523973222210294583632886075802145701210129031, 480686111749674869715887711844112212033093681894, 1057288430955328839392837473029236337218331309495, 1162345560699081143112383726376447985910554803553, 1141059187655566210979504483905954472291344689850, 941130619449467367446554843294544127665142701655, 725822343390374594189642933984438589262359729931, 1243519033875507524932542526992448648705512795465, 1260223054216686672206558262434404784671406616596, 1077637859472398885475787274697833759898214877605, 817679674947012427939731294131682599829636354210, 1258483659914391049331937479614246374140226208008, 323460055840793183270317535048836554174394255663, 326218202544826729827476587877224088886367782666, 645764279698792956373740242595301388111716779474, 814648616177780637582382281192891572263377094550, 471351337466272143499589391241483260773085083213, 612012601136290931854908528711920210060920592856, 1082233650895901870007155367020267232027072876779, 771908152718423587210160307782463284640446200860, 235010537036651260499213751744028254923775275856, 846935025810861944466888787982800521209926473168, 628083866077100331265144975120976040692988152726, 22454050402509784854659137171466439650687469319, 1055143430863357456668618307789291877988772062686, 963115004085215837481479729443638791223824146149, 166722480961471825100992720403011552137934331434, 236600618411316786645718626754009914763888547999, 1019796142294556151532884000536181132574423676754, 516105934559498867770557499420587482263867425911, 530983315823100556701809441350695536099819725334, 958684645569864386183407099127558034864631775330, 1343983712689844152599752945778870285994729449749, 247445267843727055032602481283579349106609452593, 357341876993733128049446805262749386010435390192, 965496719707322793161015639347017295732490243028, 677977289655348472294989439040998686144878464921, 1285034587021706250545621173850220877521546048910, 120098002419339403001158903104189732818977683694, 915341216686460127238621231781264262582705058738, 963319873534107044277041403509697166688006693489, 1249293363137761544447961546669260268491396311493, 195921787831795664896134991885838571186086475844, 274146313551801830102876271942140612519421203244, 718534938484631738666372938159148965153536776467, 769893293264133182453686360144084312331790386594, 47787475171504324253360836835950726788721087279, 413330659482618977228086459333126751750369964301, 377719975537195039692245368627754854726987107454, 144424958936202141714598235616122092334368568852, 599101299554415365858832196506905599736266714754, 484310820085829987731887119528062844786232621097, 472239500854720776173480336608840411495195748312, 1066279928564158593167408597924650006907910141259, 832886405015098079206028990693412572665553960700, 1236880801114012034677158021974149269939381965918, 37206188424113820475161118196419965788185373156, 927744750792544723454262351878261288231334720038, 1387050766532218490531790363836164016073710320690, 326072859579662375330445533354543724456351544146, 486326784930843774244822238744975840958401800047, 971901912329490496425259965446430920943496048598, 561930349229943200456435036211523517331098330010, 866980603710492955890934335862335182709628274372, 229501980179210948215360715020285863113522079579, 181110907238438632313444612697928010970183097313, 13420872429635766140969571949622154755383296642, 19675189567724903593151907706758405824708611377, 523380211978951688861955657279529653229989116327, 428885198869673538489201156642947184367313615130, 249787337345738078131781271034612909611244485302, 323669921091879766568675519889797740176264854872, 183706304313631664048358501453978733492909480458, 1342825355127598268597014425576636644004154962387, 1033010788452834619761992924742171728709038678080, 1408371052914050677519878559419070915940405417482, 1437856745558877274723781347346774444022818759875, 728277470327946851331913751129857794500439772364, 1173864586442935856272235131118523990784208376119, 373194802741290224303457670985789080298194567149, 331912373017723884185295810469913249374033911053, 91447089945438982265845674384932881875461603178, 1229160880234643641881512359149001412871063237378, 863080551032241255180751744887292489891175717008, 894525101213216190137196281155899539612588194985, 1052674381780492102528672932207058237134395963042, 215985510388310020652745436287665643897003744902, 354353732561998281654803962888829139453844920015, 798918102367905223673422836042613395148014001796, 718810475185076072766970527798469145124128719883, 1315550831797180403327069654992028988329427772576, 568083777854624980954966930878449040762845406530, 321163139477730730718088485258671426880085106168, 1309536213528823456681417781212646827167701567028, 167904351777234562118244294623795452533941612670, 1275214401315271639989298023274884411997716620312, 558413969223625796188915585505896091594654650760, 1400823151453660728993951810727295158742081193591, 395929678647983371638030948510790189131587810266, 1224531143905907006186484711825742492925898327703, 1306663859856456594467657435432679563142921440180, 770163825580444793450547488003367626811533035687, 431837674917101181725270967509483418229820514077, 188930503804021438800457333854249003063539405144, 1372359323995045774101673079054288604746347099831, 252085506623564802744640419188358280623496470710, 348203899353920280442877429994326479090330015286, 1309929815450042650927086203019683303764228138207, 125919174136441770612205717801942812994650756142, 666771744886960982150939957847777710890323248438, 231262444967304310572737368451100772879059695175, 847122521954672941179032703740407716338107570258, 758130152987583675210898948630588564356332609674, 374377216330436925271132704538109666357037096884, 939054943785698070247634313161465760456931585375, 1099214747148849406017306483686737853985715016589, 1289180416671750832883833811074970988082908211613, 951296721475532880388704835430854017454025884324, 959907463121982449631612597771031276453586822866, 1440650314996034763705877555915458759950133114836]
/-- Chain segment 5 of PBKDF2 block 1 for the claim C4 vector. -/
def pskSeg1_5 : List Nat := [759828196032169123753790510368618643781342033497, 319106239736906358074149857371391425936346123914, 898337148376203799717814689824118123727957553923, 133656101416377790263914574393671706670902966061, 1378545736223811849838815506765946011537558317951, 444997416856002384085782063288431092115132136159, 381948714733259953883801669398514548258003660157, 659810270350543883411087181910805546899761514194, 479440355231102182301232441431916098871028244005, 651026321237710384992601401403486917650995122385, 1030969774762782081686812147815483737901760396656, 116192514390693273649033859762977364096485434494, 1301851226008470670706395777322650399774645242492, 1073688722076851715622007810434981425717574696231, 1388419297077150015898794605052392143055554238391, 226146924435277628508130862469816169726607282761, 1146791220741631247522137359847786039780500577630, 1419237948106899176769168427855562333593932896747, 990209234892551785488072015094539728597566325507, 157580823474130985235336355309804840065454266615, 776885314066709182267267226613805231668746907246, 281456411021708422472232185410512563477242276760, 503040553950002722908703663940775745446122279703, 1305139985719706505295299103591619494125021260716, 461481098491584452054192821244375531702164719615, 14114879931217722482965439292583820376372032479, 241423118686188175978960900280430845023751035274, 729094430657289865092275388961805724672798297763, 1001230832620596790002653593322117176467391678076, 924030343484594496789983832483906001163591630600, 916845155698872815583629200753328844988413237456, 581614419229521021047436158892230751647862543666, 1105042872722671513637940378824277453618627326777, 1402690039869735872675701784282820351565050006212, 497427141155054194264146759479909547164942192847, 327943392004289338364639768962847469232302017712, 1131493803446092930576910343422778549374187783165, 971567704430236712101195710522916973729215412297, 127700668005741600737906023745587563698829040650, 213229228931558586176604131050877802969201138264, 510696789908825291011502978370645497566503519214, 827649382607773535353168819402337150377518466718, 259735341717431884821126942888850921429758933151, 823517080223913894464427403495592666360657178703, 746541774033361016493119044742212296742207850053, 1378820318361506507931535072786355568761210996314, 1381594054917641965917267313430869241351468658303, 876460288550434335412552668335395925229577812467, 373963110222627769972284615598760036193844923021, 1157457203403312632645532677191071392503172159153, 95563146793000634384001175388242543890888149197, 428050350918873649062805993587543866145756410682, 1142056221016575710583573747001853424279869409886, 338828421457875683385472222486274462194494718356, 680462803292295392231260027490866581881688160640, 322933712369106536781095384806598099041190818133, 300895695691822518804932172222113810416990299192, 1181844219215464780049094218697146902590190492232, 11970431234630626271711984258237029064619030840, 988519359191162099116046325059901326958277701123, 641001102453326898027050528575867128443237277248, 429761618471886671002667399194340428481072495538, 1030365688411715395191665910572219857817359579288, 47183775054770368940011364219431116394113556327, 1290564969169216122195607397732498746699305899390, 5536327520223643026737932528277985679059703437, 1127396922354089075850515255143441987633248948669, 463186934860038287025959087270111918416671117372, 324822370667692886097971895915161192536248671371, 221400639835093652616871030696181282898695865450, 800791628018007233670078795980540234811305812972, 729072148253467442411226757925713068665565001830, 415738519965085964011364495633012702023810130033, 906283594030314774367787515828454626875617073429, 429843902960180871232512720742529394750999131440, 821502926698227393516232931810442191970017592433, 1078804837263607093951767027742487378073381710538, 513355128558693719381234223701837596209036763068, 1022682755624123049869662122530107196204483129130, 348515536716962714377855692386732950687937590763, 975625393855227311917352381528557427110711845318, 488631064891302528592398775500119280274165004984, 763732499989721189296276667284762370711243202927, 650585190490376136183003769477551027616312621698, 1393510330555526641540423436591492247161295602205, 1196526609216058294141307073233766714500569754482, 90607500956315659561301336915484044711432482944, 408984113024372196674350867976789897809746447406, 243557986510173732559253236027609617941133463908, 216527392087707818517303386375606842144271481707, 1216014074635854290649845002495498912316014654635, 825386244351290349502649947615593518946506443007, 876105518153271791498144057074144018862830623737, 457091323648599487732857317367312901839307437448, 1169361978540519403175804616162665979615300801986, 610888713721467389998849944772041739948489653414, 612863846039625560203114790494722441245848159767, 757801025207259668566213382059206413333954596298, 873895073406835902506354753434045291177704089221, 679130588123298834205233835503066679521503415036, 920278246273322951030723741439988106085503536994, 4044790112221788636447691665519699933980259356, 336540690217613887360724019147909564063107759170, 329076216873923506262449160210623969750937428359, 971240741885130842908823882575578137586980010785, 511858217122481644215584951976963725326874997733, 7872610791406506395803753066056977808498235509, 784828592093410639442873966757191758372145725828, 894202239728604526650231451580654282290064646239, 790024816584639815822319081485097839705447227516, 570969397041416175406028315876574854816115389358, 343483534672967586978586852150955389892940468400, 915081576376055691410144250843824141956467710496, 1244769032522075165046184864900333293345001590790, 454702681045119216030082489987433752056440510806, 1017220314668831286064223486750087254397787433197, 388288629409263026029806349608349481552011027445, 652658376851900782085626232529873763771053043761, 835116658509907580774284102633826147962567676887, 224112897484356476019334135872614981321121205813, 1076440609471637590986144520488948460244913009388, 391036633340454276691431336024200788247301591592, 628523251999434194903221516936425007291520712030, 336913845600999074786253560141790481740503449504, 532579665994629075979028494572679354033356850552, 393069295419524204387233923579490527212094340441, 582573506830349674936103640416616186390361522665, 652016310358099091853145618040077602491813138940, 416714775425546587672887313832078929666624112816, 311753978177009350389119466235801927758069615849, 549745033857213277560436215798846488002766420170, 32689560401028697906593276144857770320513230966, 606795415606474025027046986723243449087818151703, 984016710002719179625283177430197039955405267760, 710764065262157138399669832576016879334121085255, 1186310184852655608989939453122519001650377064336, 694447479705717761497129610478363029743976175448, 850249224467868478815020332908143189230235691773, 399638627907919509245653998349636669630893688144, 639994153922038139815508303657225073090827549061, 211852794341265142691485494198146168977133867032, 510114299870687957462521237236842379267539541725, 1318288052856897579396490476682076233689681073603, 527088704378618093437994360413640397114658100971, 441140069940318918221299695098122014401233351862, 860955892764649505090862439393302610834285751165, 886207011739862719131171966109464674987466094906, 924063415468156733654724846057229339419219385625, 868106147872057887597097240846235827229910338432, 1064217304990010618414142992442738819874470187269, 780030368250617653221637523730809343018412889310, 933528845430521170340405057980539067230873803384, 1230295571118750157503332155930327541673213393993, 252913332995429452943780597636972133537943185459, 524138888925119223838770578992535394194574575156, 809241854691919677494320729788808995730476278439, 217740230904013780821889352058094376941915249832, 1156981352166889752649818688024013445540533561522, 425767711141107948594002099174044769805093718985, 401801896013750640640498162331771093930231088864, 367604274405652290301541250257467449813362424817, 128449484575080141763851929279359367536035492585, 424521846209903581765138235713750587612589807558, 266091533014041572919838106658574397788871749926, 992095426048958905101477235837277694124960863985, 1013247867403210866976957218685258395668589130140, 1170217449774046656272321042961785029819984203836, 616142457928606261673679352232195263613348371295, 810563138126106387891022497891083168148000174327, 1057588801919382972686310824062110610910706405344, 868384478470435361273281351974108265887032329351, 166210501327508916972896384629049212278489242690, 1052486348307352919161288844320175904074001281448, 768431100753719480306038465937403386019962242264, 1417808455101538211283043055632026108104434581149, 689030163116298585467651714215227243871768227616, 988916886698447821923880468433120136161967451026, 917039450482629459850752687775612216285436281078, 210110749576266983586873475877943310332099549501, 1159932111421578587690959442253968760223698456558, 1204470217301782367273512728919356070454840583422, 457339543459681911483866994247947861198805654511, 1393017852099947065721538242101898527251067014592, 617542422921157500875657903545977081961856196281, 355893571615959878468172500881421634416283196679, 685389190469946723649085536832640618501100699832, 1065518799277335450982825578449542603054120635699, 1294143365616814294848283973988748260995264168502, 1186893160001158028645257888364038227990070525822, 1384791130286386684931220481528970429159900773662, 889578519946498325686500505493304147872667962606, 274490750091998789149415751667342224790475894230, 203317866187923385241948443449057046158806011291, 1365955783761546090351205426796368642836892298565, 995648260521650038351207895701626638706686614225, 1459074068651722884307136535902961492092395594861, 1332570539629370938489041455295791913757456870731, 174791358554017754376844280212898951343344454215, 662356856227858541309182110331064466797065122903, 233909110111888999513852529053468661461231977954, 394146936015743553995631963315691822959084074276, 1301631909610519545094449419188869923544813342894, 1386650400997259028434092013876871952275850616021, 446716324555246595845115228772541863572313460664, 920588919626866711445431952854739584238123525816, 646109354353095214686019785830735320130407062579, 769166544512181676916442810846271958194854664162, 1058093171733761840254331568265359715413783631405, 666451303534735219767068739586651020263088840116, 73486098910640354700779460045681366038788897939, 63315822496808838322455720601395506993082927685, 171642035780503443305797189323980515394289656058, 375964157679812286200205478180338096159710513198, 1424598721224971647070345120993369731027527078013, 106367936807518493695418347686773111444639507100, 945673594716833507717578167591785312181144958224, 1358279611832258683708251030144906285846439204250, 376264315186890724422757951882606981786945429095, 398586711442453134497952912972997813367254475526, 541430788295504886663791665043137414867298726364, 836954696772235494616199275708050172547596820340, 1054934320246233867993956842695566661593849150738, 997535167381162853959831089289144537917720420205, 922042130242232647502377734230388109984882517120, 1070500684976100608617897758390576101568838414277, 1032517427237723560591191164968013803713852792408, 1254728605182206157362675461173010998767206060915, 965827215528675451844693986835108315066532608677, 469491204856053857664896927969973003112126904443, 811540613621629050792084725556787848000567822516, 319039435476998573322604605495716824672760634890, 547978500083910636938983560563467270377489740516, 1369282873459022713011233834343604416437013265097, 731202624406355712935058485707255074882325710928, 951899627861274157261536414486926235981173915822, 386863312873898567025760562056543013338003184381, 1060275537715000035193141619959690627584610459328, 307105560439304527631441788165359723608696603083, 271386337873276676902671726620869200725067129604, 993482695712222080977974912400143751549341341012, 439682887492622179351731981842189640632349000983, 394569489501350908613773063325272752462729059346, 18077228797107232938578130537140982689599638151, 1239202987910443098403625046231240539902213080670, 910493757209235574245927455316264267375752081681, 410681535676909516658529229051287355722460664640, 461455256790316448824423495986171736688717469507, 1448979896279686628434374335943511533347259370011, 971861461556035928702997110100819509050367168003, 1313066139300864007881544206182373873935962583384, 1225073717652444991988662164380288010885999312760, 802449400061196978834600391115935260785426659498, 290364789972086692095967487974615477411839907132, 257334967562861055671184033398573063573826536913, 936697619173639597582621174731607923244211766560, 886978014641478028132806026209569007570376627803]
/-- Chain segment 6 of PBKDF2 block 1 for the claim C4 vector. -/
def pskSeg1_6 : List Nat := [1269063232953598077200092429567085165303109905042, 338222404596627082499411847429418608291662382183, 1091387475841126749365722352295485863257920740441, 724323591191205490478769362653477895756915161678, 437008126411430365340000687771712873487094816966, 196818134795325758359964125601995819671900085080, 335559853689931797023025183130743541338419558744, 76833133773418014389214460300524965818371457946, 146462157266245427404725935125834507300870976934, 1339193662823391892460347064542382808842669032658, 1357887997475381448898617587727930798548514268238, 463959720158044136767015987242288049420506037844, 1098236612741542569116206716072800003983550224066, 793979320104453729503078473682665017208043617822, 1041909508157111037044135909082866401657002654184, 488513502486156556650339162607737907893726042224, 1425216263196481969286036813149166729190292834197, 1340401593183937572144146136698470903792309023016, 84384131585254805181945876019573879298507731448, 734420483694787012920357175447949260299553610951, 1024383954242170137025148884558770259545715051775, 263130532793381688419384399580414143359500758033, 368752471322513639562193378616419150449520867344, 703909972563445664705187026315727100143745160779, 1358506999019174588284950159118023950928254203194, 433519750776031725054066648247740397983723274048, 323575485622704602983544000954201324972570990991, 120085964120728312860751213709157645824542589668, 693713080186523444811667301431235550201798037765, 104975529528914243428580357332836876738436912005, 846809888321871057026177288101778868317708005515, 490886688222058058305489400794870793397112637879, 1457052618051710076077530915814535722879124031073, 875405030021427485486084379691187458894887971422, 97605744338756263061505130133324590823719649491, 312159743400666117871376515819982803602955932629, 61989353562735692416080884310925270391399235127, 361554041732689184952862975547216083205274108541, 1197540514079650681338538508704583268241347738355, 513309864814597164319176471208456810702102735149, 771301988496492306019130738413118305753569445327, 1044851228718591671797308076737615135107317688677, 1353763481821766347020451875500469962041932095921, 310446487570107995350965768610089810785484124893, 180561385140555267807573972217805243108339489312, 901398742510671664965225193734913072558436596569, 801018574319954759482961415918726366821947263777, 679957582220625077141993127873829366538116374535, 63063430154229673226577193558576453200234769609, 834765206900099522299333195293160238244002650935, 1211527299432926447616991886942874593037741962239, 560106739452396968407881473481013186833869672265, 388246897354227659741438000786741016993657659690, 359808741748072574837758067676586485939027951521, 912179408760631558032413087373475457450587648292, 763214077961914956643170105430257179926970224287, 551950695963815735878516409142842212206393381044, 95802435776887446715348866896809608226361620184, 924022074912940948089617444257773575207854701644, 219955936810104862560705539199379781800175255820, 852510614277310920514677873686273221187331508765, 190642023877361126056583046538975052655342610691, 40241882220388316292767411018264751505202804340, 1250262175827950655530022404591556951640358896761, 832137536327773255959897360190263259528047345264, 44324105511687029399412406046041102976880534019, 1270369956687108178074828285603791673520589166686, 1195463544284397277963780387915327012492366597601, 51918354079761823226050365243368801143873653571, 1192252456836142927292447988878188160403916626625, 1421805189518709748922318851561753676383298987188, 320979773996813821472871927614974439668145464393, 693464442328587229474570366107122289269962211104, 682301356151909837014726602881753320203394697338, 154946018815655183226715588309228830582394311909, 1038481051822842333659356494458420440163186575893, 96647293479407091723498618521337895086578402485, 403478390989562984368888346617932584845599474333, 256989214155974251526616223839519088966529357208, 49033881057352092286530553873894445142687720696, 109776309642680022562177651770780837652946970036, 162553221605956558726132616643807395275631594034, 1409902084580336970225519747081603249338139917575, 160903838254156785219860738116235939452534782193, 1193207858295034879005352591041165226978915276412, 602732660807845405032285322781750066185070520967, 1424051455589170900828873336684758039066353663468, 1012429342254832845901276247506846526365006277913, 520001461321178575329323678869997126410216105054, 764574584874768456333143764680194491198090946304, 461573842823292632674883450331036156829607027546, 691996142448064757722259271350894327383442005724, 1429808799161352371841070466157258527627531853716, 1139549745746623446710084031591874228973233649085, 238713159149562774709708776081872326653266213121, 863060827139337515066949922020531310246243909890, 619230854063910842485039314772637726760717645546, 445647944567032904461058655391899217421175678188, 1071527731635632729264776984604867463559487344664, 763843089985349474187891254971752733976292573531, 197107202743168229860123004913623827710209550786, 247550644123522114683338290010743928801524254122, 1133829681478994603698950338844538908118335171063, 750015447214233722585597787183361953003562080802, 192870683050567583110760615349833963454359973601, 960940295235672391505842814596638364369653407415, 1069650121980745751625557681225412753461374012100, 1087328103302461504214336827389791110721536964128, 724147563492554228393509022500411017397517142098, 1306610908861816799574698040942742017021454320757, 813613503200065869602267025507298710662069344669, 1177755990995425126997216427559884598969679143385, 1453369991408820167919445578279867131225600695696, 442227186826585920563780621713659940679261821882, 354492831459662086236374193414841901440527367095, 972288412485288812094076081478249700573702030683, 703405602722046993976688338144200901928254488406, 958299613191584838014346835678036904421961839501, 1266182924926448976071019714433964329530474101566, 918683801681476623068730543834352989120230539774, 446970532134519940278228203191002616264612919676, 1042875567057004834029744475341969566192332611932, 1083588067731997518549374708820755751108025262163, 33104234489956442960834304095760675070055096971, 1199073998504468565748095004673823921890446603998, 296458268691422339134171819761996986384081966261, 683869634983679371321722937018269485482905930174, 1172429724495346919065316830010345404811388016498, 1022256971260980914428192339668799615730995263656, 708679343973523972141140867873510404179713045424, 952938936980279411808385483031652526320102868472, 449294031246370362413977736137267649899706220908, 1196396378277055400914477600177832970112792055912, 1042379241421422321937677948050638401467949320277, 1333005913428870850710168713702935520368447687412, 145066240281626241353261045663666842920215037318, 192307965726137049406938736814029399728528398970, 1064284853283044364965165318781944496700655395999, 1172271273562453827745409221211700499552506509833, 1302680378502547899935109389577050429197546450888, 471657713413266079641338115313937113350768953731, 665482608843513659777344270575306544240939717972, 487041732074727187355496078819682639153861610455, 968814402822475466712765595060608785459091198674, 300417615996609653400999880722546920197620537888, 1442271132817044580332978169630986577556251912253, 325774614445389700444430422605181760212211917219, 1142193018990525871224973521611265583860124554179, 770778211544712144368700913023493036646602537415, 895575437748828688903204513666049751538101770115, 840440266709610212015799377988766085621442345478, 1073907110780295803103590387356572339697160028109, 1141126517123753850716958674431872820599740041385, 779981143129965754797881721853859812236237573357, 1160556216940840950698004496859480197973925638368, 1086686889759050835319836089931747033782433734337, 30090617843064399522537583949322221478342070029, 693824798211625169746578739807419728979443389090, 242221376213691590941614029062171375487226217890, 298201731037768704297374125280275545155725813550, 1390165951154977556327536260895359316283022692614, 275334383331113506919589060307315080260577358464, 106660470664608690189827040699729290422294243806, 38901554712433889570239754818861183556802563977, 549084578095955578437607380194603281156425365853, 414537263293479023656982041762404553641441994984, 415941355584355893879016509242462534623052783357, 1214159199388539552397591400872886137530921424401, 533385294965461285676810947515030434248566964583, 280745098535721541134850930482089248166272577913, 1228578560484693914829882194204537722592395607232, 810002137475363612512351447613310561703991144307, 870585568647470289657408915796210646374778491301, 460779595413231200757213020929871449864695821060, 215811863924837021303038423848468142256426183131, 1217249105999684548531324747360619804173575835705, 334927373658779936689280120259409222995696633916, 431185761302873506425967804387421288969183531971, 368714885351635433403214110167214728637753467288, 514461399308368269911295257946145348562983648606, 68794469337640462353781809179996982918688256554, 502821546041672645741874721229764544072583731821, 794275495057014908830062854426143317990817647140, 932664600058612930099619323570076886177271567724, 66567808234266090682708263718245718732952377730, 59610408203151636813204054206334978476868609972, 79478381104221211855361186079508255623105043281, 1384978488566572399769210846050739892460572966516, 858293250617921981786454026379216835775327028300, 1211585949702586525815359866938484727950083709797, 267009531438499596410585800555886992694633714902, 300322243459179377055807393873048080321246380426, 1101915645312897768393323509433539630528762805659, 668168469567304823327873050009061398413479750919, 1443508574266236536548328325943445784155511898132, 81896321620112399862378157713451448487487620545, 777107654800328162985001102375462900373617895341, 1459204553906598410731217220476805149709311848771, 252543649819060031522373496379879704014598212806, 874678946733599811874210179309918498695198007674, 1048637893089856611743750460852062124168336490270, 1237982492203142554485480818759605006995830292877, 1433865939450937929494113629957121096427954939063, 417544764095790772356372218784590437312442519960, 1388846245734310739220025008686766475067056456177, 936394765090624572253139130503640390873664479970, 1154725172617475576650706347229679070393678265715, 823102068605238801048785192174972286386552177490, 1281379176398736950955269372311687644361519398478, 229815794881301268268134005710604337439659248151, 93801035162002624468160670703514612188483319265, 976635283774856817934619810683871678831062716749, 747195112028228943121127316183053789755079441942, 1221865228402439467989889966737126019787895541975, 922303724943345593587667184283448163214017564405, 489656980383278186365365122472788913745355741006, 1204945314161932421783158493935613687736564040177, 285887745861864868531201503754191012650803413493, 1285258793531991395077435823491524352521040858230, 984031837921994112939032404319663973281200078325, 265219254396553759642357060690617270426606907163, 1368081594241165908327742988997264445938084792141, 158006228155808989324547387857434948384190839281, 1013333179534328238134647316303552461485589862888, 933142415817667477846564585086623241845285414967, 486551114160043695184732321239046380338632107083, 179928557762433005530114405451367123751854838861, 602409127217259723823591807631262563397250856674, 604438374644875484801644424414513184551472804522, 787895873631309521002012240996769109361631370695, 968353507636299027320044116752889222631744625310, 1142664870404319780443031031527514372451078810665, 67920252985672916887711625271282594774892458822, 1411207934233808143333322854832927346680285643000, 8303396513131509646154357092510048469441258082, 944120225930788024067057121946986812200238200778, 202009274542951715418412304751115364349767822452, 1017359542673891197360152073380242540791112731569, 413194902681119456945089651579467540240824915709, 653899170842244219611047222677849784381946229072, 1001029107186430243287602983873336817117028739493, 1181640618644872952839780470311640127417381368558, 496419059892905209812491567052858633894057351575, 256787491450902446685875984335348223573962685047, 1165578042433377557204941052610194810630953555808, 926480150918993737744566482303534966021798566488, 770240336064163653549659579716409696609155255646, 125065753845861981865212364502386255647265876202, 470762655613022995419733994004824743955248775582, 432141382719430173621156637263078723047743748384, 1047345069131862582661281181555764467044604382233, 1303335676119393473086440164887787791652144064986, 353468405321028776807113383021770750918989973772, 564893345662468509978286949343853388377942190335, 852594616555792561159575436248854345124912050530, 848196946466620031439895877868760738832624444148]
/-- Chain segment 7 of PBKDF2 block 1 for the claim C4 vector. -/
def pskSeg1_7 : List Nat := [1376481433020862475420652280602782358313726578683, 1392481174275648973370383142459656384221344258019, 483697926282958965758371143999398928250052519931, 679877908425830668918030529319389936901134731088, 1360698348986860343617090036837944769577998956664, 1368833912438588451909670656577181237968758036996, 224716654720736623535132409347675982215047386169, 1173558907872365619241341523706130952692814627727, 561127951523476207826928061793383934775876079471, 1128312241823473170844229658623587424400447366262, 1169655790688745405193916864379580183313728532185, 307199202424963203361286900299140259751287239043, 759868769562864985008283502873220555338348840852, 1450672928576973084012542456453291291761562151066, 568274446478211879285027153693875183503856017655, 796139834590199763201611421334821019029688863312, 319012354888301052553054762395473903908833638556, 1129841730818079685061996656373364873600197865240, 1095945933213691046928791079020353471047137916739, 636937608730375557502512263391310052575600925875, 886171117837069840746260047759334917754367828965, 602016345436087021380979008197739796751475953237, 1283330157248378140357623220501728414350917533864, 1311627016549286403840830877249994312207550025893, 1032426628195747129478485943158559802012739015157, 744857930455490627670435706083122128090341458224, 350986695822838438824281717658451150915022235805, 144749783783087663682423280706974147940448015751, 1385255590999349358179162107497776837532751425343, 947806894797347415039762231902501621948551915167, 910137687000312863801140479546277020474792116208, 1228900791962747432788613870452403771167798723916, 597430342080540333084590289875997968981253250051, 676116875531035551915115225104830704629600642551, 585019396484210662521345765455125477025591984481, 161471399209119979029285555091093149788042888254, 572073266675309017288457498901855918813610988210, 543781087597625724088175530640412286764494453393, 305997762619255004868707218480757542206477362740, 1414778402495939739545630306346522012158607606225, 519694737224603394340476430126041576284449683872, 1370591116279122424348541822075710096154936692056, 695653824670182589931028222545205990867057604083, 751784179929273053780013317864589265870022217424, 1041858839417169628662890557646654530155981278180, 1012668977664494953309530198058397610418504995907, 1140441398350887023877160810636556898233959702182, 1393057008665289970585318005415337297871844110602, 1415952990979526916280816790567660074289313443141, 645419268585820775312371443024934270637963927007, 1150442911756024130072586039540611025231315984472, 686080759248626246754426125691982985109316112770, 1210373587732842954389080156709134913732390990049, 178787454544099327639080123107293135344812062799, 776428758835401225529182178541763663583278563533, 914018812674481827436680608861088117029189205846, 803476306539993922857070478205013607944772395364, 559060321260696245411878997671020074468326488334, 923197453222986398553877567414626641386459786214, 29144637219112726929158590718290016071962761443, 219283968843999204977071763195292129594555123208, 381170873833136784895679791268009150001509971631, 381771286086038726998099175038810167942261061045, 20977025304228362142919979339289660428025057971, 312999233376725910515824676694722666491745961312, 817303841744521003130789115206690455383850893408, 737931413092695993382943251060753520701932308323, 343160464949271394476105060646584817970332045150, 954478128887273507006958777623942925623382230129, 1399531525392875223228870996002609335321665156183, 1374958863912150527441401576638239252111092355252, 406571834170838996855066675479611144200209014638, 346992209245753980608193080099411019727868155755, 1450458523339335253383894676402335917101005230016, 68567670628299824211120537228285537695559858337, 698082687942071423010464228705255829418794134771, 186207377980689125640328677777737174880405395801, 1348431831529072446893044285396017883602697602599, 739364052701153478318928619677864794186429612982, 1192798787299913293753400369793359174721500331242, 1128159894522598644387940029314463610876673242771, 249074939321374256639836674689681619954599553678, 536764444080165048009702907707071848673006557450, 174026446073130509759570395824832005710125333701, 313377844738663360161016845825430321482007849406, 1040719128612871544766904092281595473880470920922, 774773890800051661699720410754288306940833369691, 220136399920975054902207135437778192838909615485, 558852776513423371434134635739864572393768054575, 1197600620349272812190394638368508105006550784627, 1183827527882902492370885265301237855644151433205, 737939059214722346757456963993469865091118647485, 1117478439336810024381211928865203519948630412169, 518670923315103864001358301373669932479902305899, 504080855737504574064676022513190295258195522151, 126861538494986884067989336679255387970448352941, 126012833275110213005394935919135820553565485244, 912389574428366948827562481751245692509826022048, 1190408039714369410015834122152449047477003378831, 356103627782543485271443146607388786526172685863, 236434687448218989432063140739296620536436025751, 530555696571153152380585944964806912675584582769, 599048782662867783156223722475022477770031550136, 92688235102566768739171168104193067464434646096, 313735366304072344582617588276438878115786449908, 1445858762207567254637779553177699901510742614512, 125469622338357948768091944108642911001113899524, 86881915983875679847247574434033765192590772341, 1131171628465296695457316155288387621511039901909, 524929376340924081889028243318003800462225904652, 1345859604240995281060543277393114773947170861692, 910028795116831392770177868067266411457950753127, 1413242579982507061142937540084456394616275595968, 317011609849219149600584591251053634775816300781, 1314731438639504845754008772288889654845390414758, 409926870950950625684806712298149939207350056927, 140269519095995259784102630593911181380914309397, 348711676718089844693372956072026488907568198747, 652933154725431355763781311690433810613441173949, 1151592646299367469047217009463472588988179509711, 1197674575517560847450658262864551776681178298649, 924593068993017028514234051713617132788486932877, 426744941844647179071153594854031179189344812911, 645792880869474176424116239031222873153041735331, 888579713397656209059221050604479115069685009014, 109171443919777691976028688105530677385232219929, 333961602947980180176206704657747143857439030890, 1033298446133789598087269516120418965098480195740, 756529929888227568514634454587094737368691119447, 935271226097121729814108577729655522340616322629, 503747813979427704584475688070870017149499861224, 874945401170177647713723406487436245029243601319, 66704078805417335914704724508297570711817844400, 402187879798640613994281563538122829730141067617, 657111988482803406279177402240134056117036805914, 12752602553040261642713996792004848503000168733, 1323916223900781727636855742758622268857431117702, 737149705291827709992552958518244313341207102573, 1136231480132720631582471702284401866095122488739, 582366460318447375218196416165336045852103284667, 294460523852982240057390971137292230944760501816, 741644685542466087383180046667822882351755568697, 708625748250989393431650456115684658894621565358, 23119499358145943120762272059068828449031262377, 985172249566962412367481978794719925734353568538, 1023657823805914689288603871466715514938134626101, 260091659982569780627646714424765764633929541606, 844074701722433699687484102606016645370609399371, 897133195656390016077998581784955256421210760338, 210886004007052573098019406502751926699605844594, 1199824445086794746948612442639834840365897425839, 33376104947739550335862027740198797506505970465, 1013348038648332981195106084075206260035047910185, 749094287216957201847191803814513781570442878436, 518119692521516594325734982669731608397074606309, 1213337263790752092708844869437643594310313315810, 108285514244517929679910104332506403508767101989, 911242305519257690700216359197331526694959575231, 763154849908477583013044043963321214718682709944, 790745297177872567890822307526494343195062513013, 626568068271667064470577218074093232031132369185, 992306630559127703368607106975854849847355038906, 309777719092765192750444967284431581902048552965, 1135601139536699094621159149737477440510206096907, 149930808137889629148745034165202077452049798400, 701763477587299041031019432772983094111081748858, 992496547734954530928423280331374331429187145869, 188504881141627130775501597754365739561870258351, 315537574515491581852681333134224765843855327911, 412353120853601149102916718598473159445531133246, 273742321860145072747457246735542475980770619870, 258891827517464890287329906307489630729246566468, 1296794017919714479832673211952867671373493759839, 1169402749973061053994911542679676489451647400941, 804804612073695568154464065304640214226732234075, 218969666975328335583525880918582609097226931421, 17760685174195970864592369767211601578000159982, 863595442237372234447094143053694263602793441560, 963054332629862629475490324176742844205701491225, 221768316323701708790624082364223956337793993847, 627325032788610503567597767426746538848546217862, 850987552458818363121209505255696770198246859306, 329037329822747872534720482816716182914669609444, 1308476533928629327532412448925535883688262040205, 1165404067320305175925166154546113923436296624211, 1090471405695291240180342746576569831003944622050, 1042785990312604019112696938935025676298067152795, 42253801960866722993343996305855668610181826319, 1451116929201964471656905722205399584154193937046, 35689902650922119953908651888613016563724671395, 1402411483416260001560190320403781424044114318914, 60965174796131989050356619821566349943801545156, 1282760033241141664895179529799029978867383538284, 906966285153943254705922673540188782238442353146, 1186575837338461746817228949233647393319048008167, 620581639867327235657870959784867694059200543460, 1432705275032310325582720854946418250619123690593, 537770685777468897756272722889805614916569352578, 1147128993632366160155852250686777319610521197749, 1824529503945663585846216178640289140916975844, 1313119934147932667240696407809996424725541533646, 434579573980763262788236490681297642715514285672, 317996134576371676426046828692706327689467705280, 737491280458879901922718032402076409526400187376, 92562910231450452560098995375988058097760671990, 1321927728467595406416002455284361529571467846552, 1215948947881513145013552136233201659886385381712, 970056637099375050887981948405183337258499119545, 1031217620367365792643597190471029794523975311770, 510869559140247222236622251023354861481689199400, 635494882044795595102494763947580514877367619644, 989429991048016424260717917247333948333361200708, 1233570191088648111549074831941132930071120021866, 775720659682445249602503729862095277141991741146, 1148469230859313932899968791772009757733747952060, 800528220685418147842813792536590800360899382458, 100373251867229786938902448693514453600359994922, 414379692350982768899498752493370345577101522990, 1447266076135358057395496931550356737107405081754, 1427064096809723521645547982880991938909367333844, 585862809559799025811200624204879495058088083902, 470121143547350899620566228090476600355569206920, 1258886304140324264549914140228453414016137402902, 35040018873162139987028142352089278915685900321, 708540093831043690907863388997302926005741798568, 671153930610400175401811564085803604724226960469, 89138079909444199703093604369009990831776007187, 1447250698850780840164359092328496521369667483655, 600316300386510574841685017117279689351148299147, 1218597187872838792116969063809858982990498163540, 326388938740866913425928851557427357377182735525, 962042927888990187277649031412615474840692664431, 651493316130685509330444999106418566975187140108, 261549935240109655684198826206706794408523133192, 200409241328347598292704741295046895940075162369, 194637480364332849128525980834513290607207590020, 674630240920532520164367950274051368419401059366, 444459350183343481387096746967360078327220799611, 1157540630314158543529053903560968752736360215625, 908660902008838529083971130220861145885590262480, 707054613110965385600870242340034816996244491266, 281097715258468863709533424849157239952469740048, 167393425061934385183974010691848661823143068077, 27559325319392175967046635009700578975043185911, 107532306688006908000379254821611353375604174204, 710249451600592130019334913366602918351744607203, 901949578572671224719929699824979304605640687091, 513751447654184662505032081126748095241090924477, 725971431086062891050740321766371332687817752162, 710906251064600892625769448254162790016572797440, 1373832723079140971377164678846049441249692418912, 186302726937004019725497073642830567654901664770, 442686793266692026496806598226416108716632722513, 270798672611766565564229632124392252729831852223, 380803790553728958046529290375584872400576192949, 1281281910470372436681939164367346040748392771063]
/-- Chain segment 8 of PBKDF2 block 1 for the claim C4 vector. -/
def pskSeg1_8 : List Nat := [951253095953605607045449201268388012282734704531, 1362779829720244879980803271467428224964780606384, 1333708289285969341250752034123237858436517642424, 894485682253640431088581598826245637483819563177, 1149393088679155966877456315628049013500778890391, 26564619471560887886699554134556391419235841997, 1332846887162784148204947150445691800688265107245, 1440936265244777309264080337746373452810600973924, 466074931526914729456751395420144343902115463162, 1439836484303743828044920289351326621190305016484, 799694532392225663872686327619606343235301655529, 437018247305860612111690893882628681774872409022, 158228196898015742186382883581302388072460617583, 205808999706804639313828884374645439058338616481, 133974576573978845884926038061599512887797882870, 5033846832314900251748651508767498222390007070, 1333980319482428141550382129249389558366986207370, 1331090728560303453044988916414678073121267642160, 976020871080517231680230945929584349637273671181, 1418717587931625382652479266800258101744434537222, 1030008422788703512496918316375284620502200467185, 245680373909646499028174363769666799787509944441, 138812428632770236502109911014159549470206889780, 1272343821716781408081058007357116256051185273558, 508465826947290797877246800891382357918396164687, 336715746071923461519294064562233637863453912269, 88320036501861671361512768064061029387799448402, 1262043368530987680707587757988559455931259155825, 1350874313401437848709957879786889480530963677909, 794061951656446721789315666107176370678533849370, 400914939748015723194218218111469877623539630438, 50206792109279792362913341630848869057613391704, 753910149922314855786191885031232645306644011922, 1065012667494144893664589121128460628006876796109, 576632119200318623446604884519798661915271907959, 1098739887469741905231782299605553552554763320350, 1415725351703911584869012841717360122116455068242, 1257818340702438776950296373361254461054815117286, 806573872874607390260575021431133907570187165939, 347493729490482206129226408849815882989306359933, 713397782170189078946754561229577386418381241771, 105803027063157747845001770015291914503932691313, 692735040332599742729001217848749634247487953060, 582246232624003687797943612012494480658705855643, 892297886318555828902275185952257195301876417670, 1300759785145025240593084836639319430237689670854, 902275015574073987636589123685608495015223924965, 231597415052051554271506574363806564949517937038, 705698507036770017426284100080614444770886196180, 493574738286618547010672662128629453214590164657, 1323106612902470041775225935837879750700118268420, 1351427034123914550622153851003219398040731759770, 24517937947975306095824252393651599224525234636, 363998873597608086536711509138562370870935720845, 601471603129712792150613047764391078656499526301, 1328213324872124677623544091470196280877956532970, 1186585200440320670591996210799677242076384097611, 144570737638354959120800798704840297947843418536, 826244924557544580933919132282559600380475490369, 723126736995550963420728783438350802260101123251, 1220466848397376649615559419941547668135300732052, 414564523266167863443887894550658380487452939226, 1232784206812089206591259512938929100239954968073, 1019583714914161010140631545542767291483018513522, 787379009110817515360745024630145197580784944977, 804801170512871091024404239681485667614959784204, 1031653092111752672040407990445894287413312943430, 1133362512936364001098533266811767370673311807700, 1184522798976670494391482795264074940860882643380, 272544655049412300166818456982887823161806455164, 38181049721719323034754430662766792091828858317, 692875502500740716045166890523890913173903566872, 884143590842633855357178098334766153359230130983, 1336523037177388648660495935368407011752078122109, 164627728214517205771364671001038855435137046509, 644030115473492693978839422397909547523190348575, 312066010857680998787766192110208680412181822826, 520495848846137084957863449909963157898342347363, 607954289990608747354503494823127256704664570387, 546965255630625082058554654653979139155165488717, 1214359968601747016570845696655555828845725868536, 729027983306280604348358270375098067878884612369, 462743435227452950540394098712862078690242308036, 682432867322085620743648368474061645647127056558, 428986276195978024073170309722098560426803267724, 927356901844833688329940612932327147920735991956, 1154266663853684272373022153257988327936770641097, 1264052044236888500978703855904229469909524305662, 959385335796752545206535079759523217880643060512, 1032714368468735558905671124706600981425153436092, 626709870436801630657487622506505703592282118187, 242713104852543700876349975996186178321881103239, 992744152816466587505559748572757127447926094248, 498285199490374021148826639323134727963271515742, 190256494741615888055100857163679952400379091800, 172121725389986741307061498421597283972454329501, 799399183972840870936786110163308091029714835508, 370388224231778117941562653031110083202636047341, 1456343330825901892608199069049329034744547632216, 601968542484959209767541743584689498652077181193, 104376897783547078526042704097182085361609870186, 504080243195675265346168082892567317092648452234, 982691790833731100329863928774581238712050442454, 1418523616483078536887457544846822243291898734315, 293125550496247045002444499114200249931259241801, 806081607928492686666662126840330926355568996991, 777714705517551961271278381037518128611596033749, 927989418388053123505521310546336723388448192592, 560794653902970830156305168347079039559078249447, 826148551101887616183483839312912054856413973035, 1142628124236813532898418671321466998241433257680, 200122286675577982273184849616587881668381321527, 646218323094991692750219956868548019014657648428, 343819226175658690824541449392467482903358779340, 1194878357642854345996193924015284703871627294260, 1195863070733597365810862455987527788960023494555, 1356627270304630767875584104968047328373321863886, 425779805219220192976755952344118945255207544940, 671195941456015553696001855747640043170784758707, 1092144324949346425829474840618111172797208388683, 1290895196958472107283770620718598245971520146268, 541955802554226328500237898337924551530345851640, 1185233062254355889795515776454078535745949974699, 25995170509058130338973221364563515497704082231, 1193271477998856021946898942787504237109034093638, 258115068234997722493076761144158997045971317089, 552192070247701670559732071373370155803162039485, 71826684111911935717076544982136411286887378723, 1415116699941993295091011404011644977303021434440, 5639150777573819851710675393429778144122422566, 602131897663090494750156101660902615116175332663, 658406489822955217792230416300930097283421646331, 1269034094897918024876925972512979491892535694758, 768828966012215785233957829261362889902635331629, 337686623378787746390380859362423565628533764913, 166374952339790834826823587140871155326314870356, 379572289380958509297271487904989801158855834599, 1165988646718392151764406291534089470226252180955, 1013559696532630832390567141632575401715518052446, 1353457788995858410877587048531871772970146965505, 192143420223154718421244457014154354433227395801, 235131846696546320409717249923913253354341740368, 1030781964314292217874476784353606544543217698026, 479330285422314246489667849437268064286681623979, 932757944253512780008959142399282302065080778, 1431795765220012205513356524300552602723330269234, 789741780680476640416929722091005316509098922127, 1276837156836093541019629401854444516099174921, 1406993072481404250975149969671919177389595764702, 694978846645220978799776743545270130775545116583, 807787993695947517345500674474843126615362191163, 562711799319272934458521114431536179517076136529, 307231809098057595356301025544189629796808428274, 841074215284410726083882795694642333731899522199, 786348391582062349516093547523664598091466641907, 246363024023318399221362151323536845245309332532, 1422534264695038863793538445912100508131386055598, 96508037978602048457443534810966608183105026128, 14314529086803002974081370275458929859294891512, 1289807989833575934050729587417287765605628353241, 1134055052707494687733853913840447134242511032925, 552867342729420225886748831302695426730591073943, 1308828489834720188513525105674570849858843628341, 1183864189204848095803851359492093322508187238994, 31451412570844254868765601963300108038291863626, 760581621241983261225790288379840924069511988334, 878550663692717289051451950137667978335971877534, 1231630527709517525907893054649483320300951797711, 869020672745358791737729933840956447196108960811, 830353077953770547830548297281648182497407967220, 216319336180202902912654132448967167410596119986, 204294132516789005129727437909161504256062809766, 986582171414810008157973804116966842478322566969, 806941587349576854162162334401156934739392052004, 519455312610884471765233426144832312645871865230, 317768512759040963357501061429130882171874671474, 265566311446514868786951914330413224320272735086, 223107301643789391481268534470587415836771446890, 336000748259447782159588536492119723447032277322, 379944676615187650211910647962733325176490681182, 1224787992301452342906426290520242083439270232108, 616689768177167147443836523233671533270861961556, 346980204509561626586676480370356006924451608064, 401359423876721263734414847735832804482579282689, 964374778870620024329618942750200874240254163258, 1145129175523835696068470463570964197083981193560, 592588972350938853296450842042236470622528916801, 1432891417512519619226047262638062572679500244481, 1001182547216591474807029948519013949488778297560, 817729654990760713614882000175701519128970780999, 1109253966004198692785491379697642756716188564984, 544083393689038734852070546836773998584209132509, 1263017591004151892745690920698818714450522707316, 619436775639053781345891445127527710417019155835, 638889101773244296943820307089379097442724333697, 327857601963500293383554303753518332423977104604, 389031456004525717121548671011057987492132272888, 209505689327252462751896482104993925924493243755, 1176682433326069711156647937765987878256688243849, 46277787824041848069641730752614594746590395975, 83265757097108999530283297835880480665831776321, 616058911882578902255015596276477132889609901956, 568474250532093268042742989191433311878640487324, 151019927661254881496429104377418767101131655084, 674877138693815046292861338630033831136548935301, 1314115597208021097868365584895844497756898812390, 76938855888379283336028687075712959721788480413, 278628457018951618678185614366156612153007605332, 1404774000189716276924516337171572006783543656541, 669622870576373638748966775296533047972591732511, 902420992864148141828404174506565420343761776392, 1297500046893828223954445330055548719968615047818, 17183750098887717758241397602466786249993933572, 697770059458225070035036793037443839431152456406, 1250412637146498736192386561361130377985817419095, 371288980320086750413058364768427852008579335252, 1344206851296804840461436391985920386231679638053, 251367653171508245550912902170078462287007827137, 1343019920824651615022535090498896814333456702749, 936123007856793516929899634303451022315382730087, 1269429221503748293954615842353065250986541434614, 795157255399602950616893024988473448103659584518, 1421257321211177551332307129414904721548856373383, 212107965387641914729322400966670478668544655310, 695217065917411496729791470653621189131204064363, 812704314569826672279770156588997277976738104515, 424367449723994018326549599857020598569890708746, 1340951616391152994609848847498208978505087670547, 73202700618448167679486983748723245440327359047, 334076322933087320832607643300057038731931646762, 513079756556396632084729314895583069907658030805, 1323731808812560218514936873244724330504151081884, 1396466680664302039002958817262936235549937383533, 644977416064215980293249437986319627462130559689, 795666854902498439899547871692101259874695350345, 911076209821109487501862534882579578432673481652, 1126667566405491254345072306078068741606608040385, 941648743378733557366702117196028658433517675549, 1136773229547681035993479204286350274785598881915, 1201092069738321848562932128956908413757059817872, 1231557952699909410887944238734537162909399988107, 245954825764149967771699929632787598672824664963, 339405525030832983315858970526355123333191371752, 881628855962730411705842005066062522992146632336, 810841437739724567298067930297707999195141093935, 195147098527862252256526950089151265600492257864, 254957307643085289387223087564348077815714814608, 155145270321825479726081165191270890486646819766, 1179642066354237941659147134210556323207695813585, 995672986948768911141284639006439333805406360099, 1238074962631830091510872831133130391538844328733, 1277759366699379587927420413168256102354270262987, 1294625181315476087416765391409357557415211182932, 252078510228952395332915052805024706585948903998, 964550368771340423174451454350194855931760715920, 426703619952060767655571306677852974513364649645]
/-- Chain segment 9 of PBKDF2 block 1 for the claim C4 vector. -/
def pskSeg1_9 : List Nat := [1396797336157132177177949365952346993230623607040, 1450258074273453056160091184694211748562953880296, 1301622745217193121237442599437515678342606999959, 613456312020719289195812340221293743007346515866, 275332842678031855236188542532371715319077429891, 712868026054745614450539513298279843297227712936, 960388098917778613398490595437872980823866032902, 550153935727881544721928983664192899386695723350, 729007505928205887005024710485992182495669810034, 1179527808593246062343565569643039576626816420206, 986410839258608070669558980026348780312776763831, 352063368566856918420902236746504147187058389614, 1304638378125780932597395732391112663077294449035, 214950604855565828920673511622264542005816321691, 584470800916767393585417036707164044163179882648, 936211215359718080285200175769660282757836078502, 1279198274361816460341593256244686322044369564893, 1403160917773819920456449231808771920360447280465, 1217338477193639544242229036118766633464204055783, 429176657247486923961657067031246126521323918260, 519823643126422345632661263415198089219207439469, 1172370775417227630986402314220905246589553861946, 1396865649859212460875913984573985006280723620787, 252955858989002135925163667948677602020583306478, 1046517084554842582582654275909172620493325848601, 1112784151762722880417887948344014023377890752094, 568621522422224608026045408707828369000085801708, 1213079268793917172710109224073455545213588829495, 290972096886815607217674894301720770745819635007, 229953660748038362943752077635625205577973500763, 121234808757098128449166371483788156388506128423, 472825232247132620254838219336578167940133622295, 206950563034249256262992579625297765495887499361, 1118507759694729179359850535698621792229016917415, 625941419768833231413607499224204264951964974611, 1103952144986178047286522950710070544007761477351, 766688435653468774592498921308973120752012301044, 1288296189416963081299086390747890311544379940850, 329955182909648049847833883538660020945670629426, 849135107088325606368980460020764712138015259726, 488871600891028252785472236589374123060328137672, 292211913649015479016840273009002085472158769567, 1362415064296539307961234761769054881551389022474, 762473617769733744910745733141342207752633205121, 995123746692723335209303958093188738948804207092, 398114051423918145076666130758361738868390449263, 1127512012442833211370706940308738431178324848610, 376792767527993763036289539358084257063555689796, 1091461727647541942214453421414441735048280410598, 933244847968736584792243361338582199616604419627, 1032554241575279624965938568381556887821174544127, 1105300383713581931926304729258065669520885873836, 697416806281897423809813340556723164658822801609, 1453968968351482683506737862711166043736221964780, 972002622603653051132662766755070022749589122166, 1091412472242028122542146023655382841861887823627, 705464446049955285300059581286458385579578706400, 604118118433295754940808090913849026947785473378, 113416132807527070259887102482388881164997409480, 960926562703733873276321737429458965456887565479, 253126805195358628082020871993962197887780447088, 845826560487695211819196118357044196540903187793, 57394247045313873912427419018362204534044632655, 1433989312301549354446151466697128196976701210228, 1280994323229637334069635620056280169781616753978, 353465660994834177035964952466635393395255927980, 580687587060067339690169817381332003022694552400, 1290270656669234777834047612229513450301744850298, 1267661533969812887554260667408663747099745639715, 503491450551189995621441196283217539013707123482, 335120181076416760162315175106906935386085550749, 598350430495830334962664169548765764898870763011, 179178158294522841174473897360566483306516752410, 203459832269913673379712756873143298730084717424, 789441492572384213572997929853781077085704830922, 1252958406978919931125416857793594159147028125399, 473967649363328499769954136570613767812606917370, 1178833152580624274727030253012322999941970073466, 158579186204970622538600592463954264587496901717, 1153944266073675282498192606895419480204359049616, 236838602214185995359417286339653854557012727235, 57010041826792072204224244305095936486660489417, 950680031307629352505664023123049280433671478229, 429387779671520429188611375267500622694425553973, 721419897328901564295908744312528553259834425830, 503997830075366548477017199963117017665541159409, 24464966590591746375769912817979479124141021235, 751334948744848898407498136184920972999357738011, 1168155846691125454098718330261703477655976872873, 1217239644719577481160625997474750553842845739393, 746491567785162932732372637611742469709430578948, 358453396554702382722208258054008919458682336083, 1034680249735471215510833062193796726435276355592, 885265437817767414876401172843430324900244228384, 148048349836492105374936489408068164285010893642, 889110639888130807389454864139026708326312370604, 1108557338515589552198142308385340216725673682236, 1228349039075193177205151826149867979861751699814, 98077958829853402324488538214798068546145865875, 808863707627036080174717225037566518138160437932, 281842458835579866721209771381892639195275129984, 1324796284290086002144974714699401596173406251833, 1135995192879420318215227716445667352697248422510, 227273466176175746440636181050040759764481583076, 364989282790764716264903292621053713517383089460, 150660281717927002210017511698270726718575877544, 1161072368392807115805239031020263121055660298629, 411098128555545959426683986734886668070164426291, 1438637256923159161639403092811694094745991768258, 1416128685374023615433915129739179367635434319229, 1107042884367607999705944866629910968746588498060, 1070780051157505099973731106881004195717449271276, 1314480618995410430209478339621827090167406050459, 749355409104331905645641077404099072943229428981, 532149263688780855558646964541363632883719718711, 824539232828595138579784101363509902965701282832, 1365714046003261750234447961314585268811307836853, 544456964370740018569556129364658476697683719676, 445142190060130664142253317085894070892126232655, 1386465406014184537854537219071888086615130485978, 819066329654538037601263276395934561207230490458, 217999580358005151977756220272251636421721686653, 592863726636614105590379279145613839086657599318, 276933270592657710298213305810168208099410154864, 1376088678678823874230442747589001226166481542567, 1130782014908377032988829173340532815640767402877, 1026592513384470402125826704973076268328304180682, 1340615866291456505457494755164118510566710164357, 1447631954403700856728207800170694994719283643590, 518927718930910765928885866910571755313244240429, 875342375700148007158753155879490168526603182395, 914698558860551126420932523140987817359445208415, 1341559232321088249016824130947259148402582491334, 1099641541343084649383266465428915368210548599172, 788166957536523729057866839588038560555261802573, 1444963407809501853348466190512331147751530709535, 1219969682685861656871351475400878076736783744294, 37653213657286012917022501085724377849985853911, 780796506333925565142244577000059725513672846896, 324195886586645339579241058133184724437194246375, 870786473812289221700613855102389382264143400468, 31258010678352937252238554467857418627421564996, 539547109192199185564255948249229043720178581500, 673350049268651232611539643979687520341592639164, 446826515503823940635462593029190656621719078231, 447139636312889590146366424043451010533552696692, 760390003036995247394359258531130293988490055289, 172637910008493892201578225714395947044424568107, 726227110279127121246984548909706068421580625861, 317060437336299838252498789221885245352493853999, 522955790910406446034064265629827791171770675955, 619285107102129633406704233479070843029151100078, 281437362409968493291424892658547882301948728412, 990104392118771206444106312689571390994352937432, 1179397470490533571287620937872523986303471104824, 1248092086201403797750716211250651485665281652814, 146525954711781627700556218294738612991881619443, 963375102514975515429967301139420452823651195238, 968034919900969719743201961508774872755884298293, 624178323438558394761482500407352968731742256693, 875162362292735205043373669746207701955328797323, 882005795792395836323383375693439494917347541347, 1361751174113248048883605628877780859589403076765, 337984792951301582067998424941278764309457295166, 152705232110512733823612275715043664872713237961, 101823980414134685867868446216983696208179019091, 589414828710673999569489578600133869265998518372, 214978791481002148824540374406372827637522704403, 1056284206787512493180503681617104676311753872159, 141945785693484912931707824797422960622543782002, 1160929946665641584647093777761849239936228416409, 1446906633358239989240137672488514254416728386470, 21788825407405809272436674167534180753702853711, 1425056686068398092332228739999472236228725473066, 333556131015053978067116326007411196380154102636, 1296187829855979033844673703363414623416068240599, 1345786056515728391420945563372333955625582894082, 1415376257669224861728129728218753525574880168632, 1316584596314574626890796794035360131121998628923, 1375279926986001832382003306386572103627340525021, 467521570501367580013752120960065899480432176072, 363519964582386310317251261383182000093882785177, 368028681861330046898742805444257139261975252379, 376915926111961623863342159620506562678761048581, 508740852482157738580667975752381241966400819589, 114331035413134984687321785019714220848374493190, 786949424343471335545688345758694544602879249562, 1171783817746381322108726239125637366191286436768, 567498822598850187862020515206444907668914563015, 223579427449834434307517881836856357367970624813, 1086502780757753329140296347573730481253557432203, 91368024895079709146067539084344811258314085361, 236552813614778926077459584156626515603490804239, 231105787821162590924711881697248635205317028245, 970266015933391389736900119363959366305873062025, 240921437952428754500980216276592238262374302081, 708883497776360169058226670834639660508801009841, 21778026932220632163013447017447388051741780104, 520471143050832028911472717417484961660713811024, 319703352801699789813021212227502895963381690593, 927303628423904059409520702701500815863400343000, 1335419896714062567656333699792025731841253629867, 1141812955181830055936597123629900781865503314146, 66272300786706785145180472566563709708710410840, 1456400641609968686862683186408305778188395730232, 1430056726372447534288369013175281704857980876822, 1090919842803663985218240798575875735584037447238, 629930708830045992697037908008506366976888973781, 136951071638564195861564002100514537576379468232, 570074176298592946770080788317952918673033048499, 762445864765325038507163628893874985725411358304, 1268404126119806831950343353158736829483870672032, 844266653652020152697091766731798514600564877229, 497476043318167378602858599228130562979929317165, 489723618770710334515785593180069725177670364490, 1323777105994774323755039703747664345330705149649, 378055409318404308644494806524948937158619104717, 1341358159594058434706269063702983167815935148996, 801489370276061451162550874272850799415471363836, 843668581167829154643577891425301941796943553021, 1371472333130124122695051859475188473373049001901, 254415853167499742209923863180707129504921195165, 1348471146836498607359185098786050972336488875070, 537112715854853487279871185334304635481553636409, 1018815367299271553076636274684383468179770226582, 513372613369356383226770887430465553001405135144, 506105836418514569910730242037654563307927901923, 5646919402111332913733218425003171175735730786, 1282376345332826044602230433830934396041970820714, 155378195781155551571462443203640028179947837879, 1360709721894137750933949732966919342829252178360, 306401298499848254391660677615947330212939283311, 8886784268759872936421523325315575955950262068, 1261707703574121234293691285592748080238649939173, 139380463127562412550290187079674251716886869349, 937816699417084063246255893112212806390510207625, 45276384275309272481965907427594718306350364038, 1400903239583097269593060412756977761601006634109, 576945920386355788291015533779221467123507733034, 219561990649737668005931486578731875989487871454, 1091613178752279447426540197466886162112944094786, 497455839390348136243986323296034690226745991753, 290361095615501325983441930926989736799971832745, 1389838476095768288970619345332811407083026977130, 1459715935007769240022512462896791570704122492242, 751425818828077403455317171669522872232855511961, 970917860876663629995181325143544851285348783589, 686585438809911952407790647896919874306758612210, 903937847965731991974025619406896838810520631843, 551318527048720326010505433013692611083343104120, 799165789953345462268528543378210819627137675152, 182974000178007058621833221587708297785230792857, 509706744736062978727314540721852380006934073735, 1327994048533905727990973931501752824323940446352, 1238197243339007488363199068883206536445442203355, 1227526744785695247544955915042866643990766159505]
/-- Chain segment 10 of PBKDF2 block 1 for the claim C4 vector. -/
def pskSeg1_10 : List Nat := [53787273846310903939560732029332720893422372937, 377066901971073962673428752168105205239531925670, 51797975254361771969667291932335368846008069666, 26361746512292479467786362866120766779439402482, 1444813412356269335142293658279967005271726503230, 1047771013143189035395213398474801919006574788603, 230133269959450382647351578484291047156874254330, 149663278610868312237110907002125994148442718490, 771556164924045382195679876538179480775522884970, 801798436737586649748256252202857540759781974727, 822047272907598169185931705604064644818565255168, 887188550501060860797715703084997688889528875303, 450313442343772035927391648204935515719792166270, 377128214563897759004160145487287486634190147973, 1389030776585244622597367072185146956956602050436, 1251886937036428628230334682500557951979222769808, 1170532792105985576810988654728435707540434930792, 212985854723320934712497586035997947234354402847, 329881972091758970030104028158403606773549185863, 520127548706072175255506991513021990507340301532, 240459848358241142215460108222369616830557606017, 1127789919562059832570567360198678480440299426569, 1400463637443833418083849725449846289630297969112, 254951764877479855142620828120609147177363436589, 107121188750611021660365810185587525294165313318, 501324825412542118307223111512898627145817123281, 882989379917713918695273755351993470223432657840, 634042228524577657047927458028317831958030914398, 478387737035597709104245418444024547153447995673, 1120611931883580959849551174369189467331298194789, 443949316554689511495513978463689651203965830513, 347017685266442051265259076446486270398725172319, 737553561270701199981453427215846222802039071887, 1261308777405501993665119660093915565215367170993, 541521561531624698170424727440954032674996119028, 1449087987306375948140979578231203544193035323446, 380424878496001010915374960437154777973002231508, 558955252200224145022399956701678478255718087437, 882352241489220934148409715162070680586069257405, 163296261778640252076453278496583091632182729212, 612399630684382949042295637539096521792474383910, 540189482622043866047698985772295770556278749091, 374797235696589834287971862264511028066407913507, 1315724881999354099965753498927844575819731662688, 721984525015404105759596405761105641794671358950, 952082380232940405038703371261875954010142048366, 1392868946186643508589107725170501523797998650419, 892002811617461420258780765519016965568946554923, 1390891487975554209223170276739003121648658897432, 1011479130610184970549909112831959002563611860955, 338545634593205457365441445103110582763014094499, 60409837324859647527148767551049075986166705773, 637252530788462238920983358344311073603922084585, 54943929481400812341372239836862752774407191269, 1390911608128051807583288750668454974295395334355, 1182231920665729984122311198718268221057649608097, 569290216182802468142936043613886747910867879216, 1189855743934492910787314595856735430168954499500, 1096594410247461118454794533026921317815414626287, 1071589026250228825725432945732629366293460029443, 1149799545393884418667602081077705482966340661818, 759856740653100262701128925522134419316463750731, 790508999063391481164892636146823434436357712070, 1207190059255103407051991399601564710218150544729, 579357170239982235067512755854072248465470572670, 651748849477956671305931791090975853544672616744, 433732766302693822877762118135643087747308562230, 174808650785561173129329070319332198446718195295, 1460064979795766425640567605688452870504246939993, 1182239586149610135964889267005064116777314226521, 666181227864304747880092658290153081694616961393, 1362841767691370433112417404688096996503754965092, 297027383908116614514181052124789196616182179362, 613743818020772587790918424367109277057720657186, 1202384668873517117582683091072247233221397538549, 531294916732640966583665643441589359843968885990, 628196255630983858531189430145168380363163865583, 1291917365379607551185294276895530541174566387692, 52810988195844856753994101458852380328067941541, 561495770327239459110051299563793248386606318435, 585915933626814047096725107062060597665715083936, 909902782526485582483361902154887231131199541628, 655815013181705023804268408136698009097750554944, 371970052798092323692062179579134286612208480091, 185909230820150605609073488935932075565295180187, 19214889227160699769350228394649020492251223372, 277789828261480784995100080091550306665750777061, 396467157154586636774073817071268194816412296004, 240199539358998460290912403062364243148599744297, 419967376385193752143808855560880292876130956153, 1340352436859187134811950728883795918448857346431, 387995900074535237799338320920797535092541067082, 1294462411286801264596627793287836434462616827807, 1064471376521209601013631530744818393175362872727, 366514479874713893824363978577927193545017592676, 344080799701770671592865603782634734917497901792, 20380874832283563405905837270855207507824174928, 997913708555107710896672413312526181578387557142, 1376749940111478421387863469650013818894928883101, 103649403342672971311265374247341191898702313022, 437610004172175464337378350903712335743772822772, 558052815552632543105236197970395614371477764973, 1236440767863498178136426536991186464434479934972, 94470919111102979185029056467361282909488715007, 1053017939981014116063201753729971217377560870805, 1234791900664257565829464763687558054553120784451, 203986350552770037995925626202819385830471287606, 648254783402662541716506596872110026289703972825, 121007443814738741695022744564517924803649551109, 762400842016903674032919729323583516520977917357, 224892414286653314150193232998439215959556041697, 1155322847189019286569275292553915641009079822944, 695026668412026704595367338707844677950727981639, 147274679944153322782926320617837361929687172041, 704161769629285222219357538281650888341042732259, 863316165966831495854294660470955934689727578132, 1192639416005242530777688274641635411410296424350, 229953153280425773071058986303969725592462947317, 279454870082173499054660437186088596181151790901, 105647732806847383911737453525061913790733720606, 326904604770454702366190741406138032255665918513, 212657336184099182889036025593920607653764304001, 759745848774014025768115400282468406692778018915, 837724005098228180608764183825168895954427909288, 1212111382941050800939188793153805613158201004659, 1099080066235119021385591671297325571239228278290, 796440839564159058095824815067167653115164260163, 86891691213711353373167359637322023566065957804, 556000704722323496139793366522742241036708729315, 899394358067850304478214793617198451731418736155, 449544276938488469495571652653215317009770288312, 996402544277060967098118249678605301517255394542, 1227193045874535551138947513679531978666141072895, 593113157189971844264986548079164358349580251767, 505411044064599394937756944495033621284726353657, 1411228881223116315352279959132811614886793694912, 1347227993206036174067668448939104196174017011552, 959520836101907006156317675376075453729458330531, 804690587857284972289304854877331902958056794870, 491093135598997608034815483723409920052489286029, 1134348077821871263532106654511386744142008303546, 416382449001229645818906468564523840725658533117, 1237892676180529023670502960047531963561877752885, 91392360142796348609399911945625618518952703266, 328076632723965247758741329884279681613152342338, 893165831566887035111144959804764162379112951466, 1365016778835508011550607159178925271529622450785, 380144930171726267249496130790547794734210316317, 1020828721198715911321637679460953459116403753236, 121995041021036672722373589842907913225630524153, 704203526639422274536233834756993185964808129041, 1109117109115902501624694325404464379786042547002, 669495841821097323698011561557999202987117097235, 755471788871124179547829749279211061735739405784, 549352623385439403991975417727583840816503585540, 1417726243053583052831026465741708604653954182511, 1086068813647961583750889120816327646503351950317, 779774777167091861514902984099762586136875386499, 145872287194919805312344264315589278315296118749, 621286114971555321544820165970218533104205115293, 648628112335519627179845528025017458781652320026, 904735415879073246390176021292319524648084951754, 237962238581763369964413382486618751110105320924, 133995343848600145758252110494820485446628559734, 828513723809567136720291532703406225338830906391, 639900997449300815861076577569343413344878220882, 1005362361267361311032443596288028143033755866654, 1174726678340358826642198292468123106324606384674, 1335391086387020410715408552241596175432730487247, 821743278211779481409596476890906364607292440384, 489856724986777022450900360301347985488708272224, 702876353048983121395519383433868731699711927699, 905374250632303815768557422130319505094978331708, 1156257755923179585247992165303364266513434018584, 1040660562949637332676983232792518658036771709495, 791704335776024278306928237247628563660802163625, 269302044958587256414316192666112859836469292966, 1214131431453588839757815332695486577320306373985, 899833609343966124163814777818978296030998860126, 57665028967669066639785922396524913140824428969, 986112776725369451202329377856122612359407598405, 1367915356079483176700821101788716929452783415806, 788681630633125469220687288429044277339107126048, 1372920205682938767116955319315190312208392684825, 699917601226318627413767380252673687006237928354, 1178085848342530480486406562566721678862393638433, 1184742499688365673386278722829876467055194592524, 813191774737295067693330890148761188172812773435, 1201054610758272582882708138553580088549627230588, 1287319588095756245519327864685254630062248814449, 176230252955845480853934563960257749697057854020, 677545579787839477289524251185820666101653023704, 604215055959020579801351740591943175067602007462, 204639475967442915289325897141315888180354875268, 1319121454168880387852589573358051955146981879888, 1037330126296962676870548753682752525024936249702, 589807063889273186887239264987399019663403036975, 1304511184769550915657035182616160550444927442451, 1212951259154908062378176241594616009643752212533, 1447477062849880916334898133356927939432419471405, 1388589288845571955699174413880311995459776413881, 1195232064428682331691655438739648297202488865554, 1440362457124468251186120503635199666275694471802, 182371640306590681216680773987828706541144350074, 1312181602112426399561365928780897481100472847974, 159859215811414706100231865511099104233361372899, 1437361794079818052490510852323566194537967455262, 334960653782487128675532793077735308117511892639, 644603789520217092764810608238385674201868243634, 765643084861719243594579963721804519371882294321, 393339501401223330578437766100501270701750181819, 1413806137234266491400592694807516210250683410828, 1324223994756879754143663175409690037093756712263, 593820973363285567598492183987900037337347774679, 504985733951733202763655637947958971311835113424, 1280451258045259538301344569183266771223669247298, 1053740473808593227512295918143651641435066088582, 360808295608398095008055720607333380315834503819, 777520855843769663710694660719754298299868739480, 397498231889551091078626511782527440708166660908, 491130850463651404531727785653260113801615358544, 314535203766089960637774814988471446789235821872, 1045066098616533204082816469405207252618659134698, 508178195260450488623849797580208631481599311427, 44321049517031966760550273276031581089258450180, 750311411194292045585121803997622429713020305623, 698704237192553731367070876150077862528821814246, 1136028327496777131442441248402405192497333575630, 492996457936011701593557878528367739935908960050, 330992556105472548058175106891909949536209347469, 253513935597939692214904782985740614965186099859, 760747074830212167603953831515076321923656389034, 1180493931702586607318113602186003403051823035475, 1338693034317509254254127875122905277915883045210, 45711426389102995722905963034994281298037577373, 961434400957747623799187480999897618614251517054, 608304532463149119185761317996377097546137521018, 800313949986149667572909174493777241608628384512, 1175584668906032101126978819326937203136937403903, 39130911184719060319746682833515664833363584281, 75776702846374220476993744376725723804265273194, 1163174889220972011474968707694415265174271042379, 347140150232469232740551039700834974158542280745, 312304830556099610530277443324998216007023509050, 978711793299939873672103346749328968869514487624, 1161875020060929141764234492817030164194018433095, 164424034996313905219406528043089367938953196328, 328413065496016427405057186677807237483309006541, 1373282960785717434298919396249030550836442259251, 639199968153568647765478042653545877149019650164, 243085674645317011484416528675056728735854623306, 332059701220413573819646524291220445496965424494, 581333030495930667792972118189538628662632879273, 814456531532383929896434038539206786246149798879, 656735521989434834893433832178607014234899410236, 1162606024106201452663501354244649457959402961040]
/-- Chain segment 11 of PBKDF2 block 1 for the claim C4 vector. -/
def pskSeg1_11 : List Nat := [830183942997285142166953370416688031290069968346, 729022456246148476191080165721012250931938950899, 699579881503543704219319773176149645109065495221, 1028075739328368935609951355560462205796703190909, 408799136467213885088675446604923172727955133074, 1061852520039440399628421372697251315450032143477, 289615153079721327461684914474452225885829008321, 809845170061437285103731773993654128739398465329, 1078617389529078482682693410903887559680207117105, 999395438923430846387927097988008803709916650040, 1324266159145729041186044402028855838728442213717, 1199267441307965887780592378979386465763095469295, 570903585412313941844206419519119504103744069487, 625187798272912228747063620465264992829788936352, 1050627445612024743437662348161973807157629512751, 1141843457801051660068231855759478309527188385293, 1329056240067697768913108984228602485591918514438, 275338516948857930477712391004325906017842243784, 102419346201733587997699703369040335350186740637, 1128177996265266548229671351479052693500184204695, 101462049127554418352930872691319731812386701905, 1309963881629087023551068604824361674615638813109, 1147974335269053755525731611380433469601897736183, 205348506609563439910203610059968572951383993075, 1092923158044075415871892339552648285916111841491, 134484180624402313589285770482853738923933213355, 348601546455242984021686551684592806579624748994, 736752553535453457465527759168967995576216567370, 662267584082940014010105009646556699517906482456, 345117200379216335354734967009530189856237164297, 277981906666048460861539603719955245941867474495, 312577804568480765760111755722526550751131096996, 689547004454616630730242943061651283638303845325, 180325022002330377324761048003618311817788207050, 425796139370714678916992869865109372060854100051, 1417179062116476258714454962132271927336651598374, 400402541340491626798742701828832792274415008993, 533014040333422334216328688325367200535631086256, 1333249466668399560238431550556803348192531039167, 1299156115252403157249756398880109091673093608252, 998589429124927043664930664342112400109176370993, 951306175083502107073833258910089492371662990102, 1046600600141020990060991148870644870253216282894, 89227787170415406872374204567176264562544194419, 454528912999406100648845576215521920646514985659, 607252392230261768276808939852379101290272844472, 189144232507569375297594835013906425407923931531, 444339193452415079115821015353911695033614696685, 357076366837211647639604929497369897774111333127, 184064599715348673676803741757255585570171436871, 328168086654456946855545340099950356317256860676, 1335266619722839958417840586013758123882659870531, 1247353764505467566731036771858018595163888974486, 1070093593209386829938706048253980374198372025076, 463630592848935015378139244284870414102731165133, 3615421232064282576400572179792725357175319724, 1314396035486338664283005051284524604618596990921, 27308596432631110030833369936388594060371358189, 1255117465574726322622635979965851104998770766298, 1358567036893772015267487412314557657454741317948, 879437957602431043149364603769542072630967818369, 1110165927484427426633543157029428203305700510707, 872826580304930350093052440570759474150319660359, 1147484235511476137548310875571714218687886503980, 1221700797748566764842443634143978600450532492438, 771431794102037136861724881885395964926793913842, 835428314821518611545484779647559140072116744646, 1029901174984722202301872062010020066513475712804, 58522244287687187998688122324159333849936805217, 1375741010293867552198274805214545408860512024416, 140428033027329315206579711764810546849911662796, 1005817569684034348166891442383756947281371206836, 168681961138833659985710675159143412022313019197, 311944284244742875348221088378633416837573208984, 1060228268806070187743465870166913021662979550676, 1061223226315430797000248200606717270343812468531, 59442955714319535460046874719029411566247498937, 122096622412394532802431423156754770017187679469, 1434126843351955195404606606069513880460005073951, 964736991847738461567515419381411033234579636643, 1400145790473570840949064406866479002442608358180, 1430596533426115835873569334179610661786034133003, 1263249448324433601499609552896652357937914570069, 1006956506994589305021424246197330045278330632736, 1198858747390525593486954050383621770435535056123, 780923925462829278064444649615962920494982494446, 1175702719324695090417185113590064567908638891499, 1194531749121858912058818691846354965050803440124, 19674934480203779801853307634898032363593718403, 371123296264422955389383976041431703476886762088, 20994444390474146587023488945979573481487039618, 216608409660703701648931551599116928659442033596, 1118677442882959811800526628406742892768288192644, 605262168830806548665361629626890261630489585612, 453418608615883542597523363276094024580880879450, 1226300306491540855361723660442126673484296231673, 1051467076002017410777512644434066273227258413283, 678877959462254260013010155968504688436816186837, 1077587703529900883601215277304017533704652069124, 395677233702690515154241348616084342359869494946, 566374340183432230923758418563927082038964765850, 1375109952961828372566750630510573488023672524463, 754494749762102709178927897968372469838245651300, 1185877849341832957685172797450926040921016773172, 447819422862290905916780378103270175022056443754, 1143798536526901259727904357770885963270738715985, 553749276260442737702623173034832346959397313576, 660549613626313331700818390777403074324529405570, 37735153670325438174257584194283073891466532333, 1122288996384222874934274174013148688757051843816, 875332563649213495613958359173172407046446600648, 258004827776773300969409610203735114770943571504, 31514784226620640465118364797590506741272222918, 726300436269441140935181626563575899612672954528, 1014328532846396660128568597156269375203697575642, 927269178289444785739143314583353699395706713643, 1283538203713065765299249284493299425627866876146, 210914770081133284445244302976379405380711036701, 301254709267252269825530741928089366735959166467, 893963730328049516246938785607931276168698269781, 1302980551001332228570770588518806038925517881466, 1289034621383199025300832746816571546103825697749, 27603895718482024548001420258477816904012296378, 1327743920885049633253275764476592586930341332212, 637334321110699548961276222850203152840173329474, 5082236534301289463683172479005773808355639346, 370531654551294613836639887272065022036729282397, 1045203081149404357670569968187184068948679344832, 256403205100755517058146016628461966867415149414, 522958036632085873623028985412502684446671307192, 121097897598359639063148490261881249143337014305, 708308070270655133216790894175471534498844426018, 614348950655625949374494313026724841252904240785, 419939910485979970585310575794420517417889472081, 1351434257115547516424854733032560063708140927908, 316709836928758357314635922300363380817541292320, 952264147273856376487470105156509634752665182862, 167863640435910348196708719543806104021585910943, 757544009794046269053761504955191145653768496752, 1289004717603356789224752068075150519936253145651, 680882449865590591426906562830130902007778159288, 1404379166464078435948264465811150028838567508399, 105669010724637455867862690647132031672623654048, 765815669526194592663774992820489876385920565136, 816404764609216424588505102221199106024966072336, 222219830102527299107941236335201115913545231833, 173522950646580812129621909677139582294651657465, 1352028418389154333976693997786317063324784006724, 410517400467334504493874248468131333329106885182, 236550308283809883357633354387320876431734601996, 660794577998805653123389810794934063486832520977, 670413504580211900043255274841653695583825433528, 1015039170628848061970087409724727746706293615820, 207069945196693554508129657798705683664817925783, 470872068475027978514623314267298367218073565983, 198341710994413250358149282494698705718326664673, 102548905879660846355300064792388722280355198170, 872483441871157096789212346705545566385450782207, 172605589058167757206830601151910607018966403480, 1288546478720198825785404468959257104021441283412, 11653180035848830195237569211613196449657588754, 1066171003331025713528911710710586477559441505209, 454538771047393616921668634109604875185103128108, 1452300645201974843933549966385043981616934188810, 1401763207591383726347397008119943285954818041227, 1268194896759340157991151842874123575105184825512, 1036468421016544553544916956376515017463935832249, 180908496776236500844549396854314082493018792428, 1416538720891019829800515123065653266749858027692, 328435939424215333808363550645766359047096208830, 345360838474110294377404888104022891749897208185, 1069555386116298964797792108909539635866889163464, 746166689092503819603842860621922312582798974181, 1357523136033991469641733329187374403659904458802, 1386717831037079230568438356892913146350190812774, 682037499380333744791080875648446013268413993012, 850661875197019573060793531492593646075527336704, 406427522745945031565878588184544835745180977879, 534532500675682168630566018764042819833378116774, 818031407366233199615268889656031691594394074764, 188804919211880382053247080332758827720471324024, 1024834903084296547956249629011713609095126592479, 862785501689203136937509592715197841676331721764, 600845240523623650477862690775914760797506595890, 1456442679722951715350238477370347407718142953213, 186632131510248384465840775680095586372810696039, 311370813940689814037314164136026320417017530548, 950710151977765357513488518186285453138435250048, 871787842422962016871411784452320603500315007331, 88584325948797264045696956892243965912473183988, 724632878590624218490802741516726231147974662049, 1015765908716605330123744955115165698101745246599, 802182651394599576932939153269862295669096487086, 552944784891680424586436919279201682901695834450, 1351031149082585626198508357789702010476943165179, 60987359964312832227729217634264593469212422149, 657372578211429096643945472871491923513304711388, 100031537513156103057402961952103470112457148158, 415051971158977184705505838163530277189613878080, 130840221200530641367229860942281676504308211398, 597166849527484887119781308269024035044294147896, 1336733936485528083386956892598153756764821420250, 86670328328068604681716554891966151068714910357, 265249332645395142122422597123832427443401751452, 909779160475673428486524633016340434477369854767, 316723719501024475505448454900133689135287164968, 206773871620990805460509576924767881255223647141, 1283177843899655028116127262146395577584318764868, 767122559836991598844055391753692880634892008161, 198197322378241531831257891554867209030349945228, 411362823883966450735692366935856861329947482066, 504431211310438571237288016302511186665371697421, 952714859983914509919296286059149754058031065463, 141441482712105535719986947592629537037513371214, 717901523259084454238335505086736029218657832543, 141056176371440825290584800245220902111576981760, 238724594322905283736417786889113001090255071769, 867761199401184132835340300326623733928823376228, 830861129052131381420047137446078351695928006996, 1410113382456962235938073506599986073224774351252, 379340809406487621296532322105128490007648780114, 407022428266032264506231145442667916039307248153, 902143569427579703350449332699671440173097937029, 1365525107167214761985685851713902783212276224582, 822299732831092918605837836429771274439159630042, 1272566435563023959237032592060432892127449451123, 647021080244801771038421235315202835568442015946, 228759356167731570938842955238149025434758251196, 610960219595237334401024379718482645476178957738, 1322413483421495781076941433174357616951422452811, 774907988828386064527401102335293443338747436118, 443138728096226833680542620652837688680785278115, 1164783640088497028442051919810783480864833331031, 405878117502876102210653164910044493823260272882, 204473696367052090759195098785071004348501753182, 1400800175352616045562321551440597587067692624929, 935085219551787437411006640598460675290666984017, 558819195637741724217129028580560270631666579282, 224849281213148294654704138930016415141381096810, 793593248849645367095107197332376817385543029282, 1347520906647000496623186874856358027315423881212, 657559054704903058758601031697160430014978062537, 108740004805068254986148474618059712371206692156, 631953408078351878599420532083808169810592261409, 1039716976135165599661707760579419825099182417119, 776723674729138049000825090303734224786972275526, 1395192711603519367172511811353933244230934516498, 1252299789428872114884278747031778411838144501588, 538382538901507651036729407347262902926657314258, 543582695403904551598688346860850467706325343273, 832088295946085794723469880547412508158894659653, 852663069607435885401137660195449991682361709933, 221323505676719687785522000071793672845831861038, 1200800680574519744249412193444230721076049483762, 178946593936063717661541793016943591415219138626, 779743276640584311552534562890350889473834868623]
/-- Chain segment 12 of PBKDF2 block 1 for the claim C4 vector. -/
def pskSeg1_12 : List Nat := [57358671768566508413751325447150158943311559748, 301607186550735928449727287798735433014510878232, 595996194700959704647380933364891630127091529519, 1245700656414366528627200519725195680062919351705, 16910965869405965244427032684455747776362663868, 89832364467740575325939376245806141812382122545, 921720699715617021943016022147857135972695192948, 371639037432315636456103903481783507872583187957, 1297458050839970393468012360689068009522876636408, 702245774804277241808464624767011974258566994344, 547317966142823879763873631790760839747472791235, 248993270328350603397402403992078109232483489147, 88596886031390533840313220109741358528102669449, 588931994514154152220511789732063574954560422701, 857569361003657368093524033798874815244556081612, 612656710011733747979024752359195880119159198814, 138728060188579601153618755726196571285202046430, 749385295098413608774574563705622404897378470491, 766385083771599005238666616189744885592805086671, 1162793657732568491028070846937004788378753724057, 679094456764978480778194993910025350606004092827, 479864334194921351804366392339562669495675830181, 766013331444739335905141856806123131767093372707, 889484433927046064688574859739871399067357463598, 862293299458899522354156373078466306555855539738, 851171168162867682290688491858690444101901437034, 395289094583302132153592252462001691597126716977, 958422567853948605385052460992639376372681406994, 589764682235533141162374658424793018058113268279, 1244792139861506100748385859323948562301774746314, 416978829651855262700332586498879650860132827993, 206871787353436480356861248357877481057319017542, 622530667750054553924326711757962676603418927640, 579484039083983731893786981820810949808846758470, 1266466681709642449528887250639009265988315128384, 8776623166345959119426524597548755474767536871, 989719277148355787339020313477579611917415810312, 1038129129656345341256655824967186632933570839545, 80949242747796340720858791227850267242463764497, 1363103547937361514801836717401168007263706842483, 149492433901635112739774779113634651355332304238, 381548756890660364262581357539838819874706329896, 1400171728806832360995605000391258603676411985882, 588085788991795636602771674661309070760625613149, 1412079650863365287510932819488601005516715745263, 159952054441324337957442135577310129734584849408, 425849634261894368223386449074184087194207678573, 27853016579981383522972022557272703763134718558, 107689040893001382245530780906450934329698929494, 376046634816213867661694691222842672839786364755, 14197794476110783362403066391624361787581381800, 1347627708591241023437985120242660048493784104158, 47414197144921081513370405881665563590594666307, 1310542976485877850922672395686673485947483730100, 1376463794163712084693969017809879625235887472190, 900745371080158989089495922088495116378890424057, 874281882707794683810854395306847839619526353762, 455721576350908344196820957484437471021663255279, 64899073287224567096790940185185179710833519507, 450996118784770280353622065500489336769115594209, 193036638668728678363664854039092284666388905950, 615670039023037200899933652408690574655540677816, 231841500421392277803162808500960530850777657438, 978374092986343589711037917930870111411661216483, 298773201325206660537803884176754232377402474964, 969378541491123311541256630849262878855892121125, 1326868187477273464630094479996794519493584396710, 144101879158042117058565303445361072807349671588, 404417907348798473180056539004309291240172426858, 427862481022260222412415225332919745167891833183, 1104843488546539524335203945657671788696005328931, 95988728247500063585054058018710605522366009380, 1125406289281412461074060654764019093157276537630, 927544856204632324825745791711008684790672175743, 1249766026237227112963297325216583182186252578210, 1284195736867859207112125318394791356276960536632, 1445820776182620369317591061373354818086582969652, 264365674860070314569031330927721424259789972274, 768903685031984460358518700597939932337910147487, 963508996610089752462813620473510024143973583308, 1282163292058164783105854421383588558153520290767, 33922013633267288608997553856861167390679451892, 671543218766662301480410034295888296124151011213, 1039082185863177902776969603554950500702399632430, 844244078352591546693229980429956697489038066532, 116080367246588788113190074927853945045808193480, 102593577785507354199963342688977045833893976989, 152326505673172259914615158205050298007158595750, 58180208536577652745445678918088783066452009099, 1205665211113301735284022624715162920785279688349, 157756160129549956423427037121516433239999517819, 559904458099018267696128246412587204642861678701, 858330796358510568454124428047684153758115033846, 363351298420742571032891213162904078073203413882, 800796127862644499355922805170492232840684581887, 1365181723182017792053037504686845378599681410927, 616244996801668276717429599388066853470840637418, 1041253857615840053215117317476912654195874389251, 406470844337461141754725598553543274800429963410, 242379497782707010553982163943241450042939571666, 1251466532150356709405930678860012821619858668048, 168697827228203770029184602932300860449729101772, 433948629067528889159362257891135970480110177232, 924304584025112862274840505065813478190703361079, 1197986559433641148274238564767986771402040052936, 321615939155866180613241880531039366364962819702, 1424963622784107319293912126798041455417263207519, 494722604152412424887403987928486456978737201236, 1295949598156305618263964169025326544370116505376, 417274312840400735655789174721956944283665753400, 453517894552760034349650184499894189487262138684, 917663620440015066277183250976272954552582598391, 375648267784542052313046240736529764388313033313, 582604727981908108741772835392849444380755159290, 1031642054023895946840174980159386609908536826215, 104464469807458256560121337636523822620262640975, 279018991419231252077031274902783050224412389527, 533871922318870285171929953720348128503245652868, 1379800419885921398865373192466849393240003466582, 770215827425888731634450547909073022879425885122, 1029810372383541499194228494732088621420355479498, 902698420580357937290190673064782821426275666790, 992576032138218695654873379551212361445416471239, 1409176071269863773232159256279208909538144932983, 1119588727139978274281284494637032065559435988314, 1273324601498138857339847835013040403628543215436, 1100509947781073295043109732893505647915040411485, 604574793481390868946584660462301349646328260820, 1037875530078266104953892012049173343348815333409, 86586249132051495358235866754898263966025909372, 672721651874125874983425861339251069611404745959, 1345646616379534664150183926562467230355883343494, 823055959379929228838308526088063723994339980423, 337593056650234671416647593754725853542366013022, 82191988284142958926921243811787021677270352947, 1340862153581335360519037235902323323705817985198, 971557694882932810490103869452819398569424750613, 1424101728694290668345822446615740006169889161989, 410494184733815656898948639548368374765661319560, 215458413070359458527837777329032768604255837478, 705359923525782688555068854733367827134624260426, 1003290736160206459536296127488054128952561797781, 371728907376434986746465426193888840027504402526, 129826412211134429712391173220445741715426491972, 312142987638810503277171810441763033289524474873, 405575653353570799775770069092868778783601459193, 977433124874537843897322453522683653579117957567, 1390607035391290661528726146459047494053802680638, 107518834268628800786801346079982296331114787899, 128560189854287137586200014451196379012494434286, 1150556589563218034053140641649451632269415945515, 132368761049726443843064873027111608295742956105, 1027770254910468376749791733291298359142817555316, 864667711310313178004910002447203130724605510846, 413700682699987321680519247329161807033007902142, 1164170142289909960433768862891397581384932280089, 418684543982621933010240842688638434493326779070, 850346788857462020368688541679778825697244807890, 541146668821647394378784153944041904810943712113, 1075423494926650782461482664914821802669452969715, 749175393856029186329362981506788569603585977535, 1305039545548887676135562458295924955713084781418, 767131095661294942759431027726416542809810342210, 218422471794841556887770209006647721091704074164, 1017186241469235748530320313547003880238469315239, 194798161355868189525291889843833304467958427809, 864533500159052121688772102149212138088469816177, 426301916810230155920350286830182292974086469278, 883466165789754776838712488943216042198305120804, 694876838764922181886364677409393573690788836872, 809119570048625812555260425903686087547703735841, 621286674254774706983595417870144918952324202792, 79457625457601447999302641530993526875144393934, 475584573403645580486563639951885573269926928355, 277069954131047922733498161940953697431787566615, 701682158620749797265658830350192827820781420860, 173706420405519487920293851119805759300413514060, 399613553357651269641866281894280852933973283656, 761718152256445570678866148591598428363104877858, 1313760599763963118412496862294789800666401345229, 109086143817014720115921200931549050490601933929, 21480880166614882068774300011779917843138525727, 189685037894791031831431547676321197580409757678, 1215105999765564785986591506344028495878098042422, 279762005675402778415436118438462564953498296105, 298356009417907560650229070564468647711890453511, 267975562636920103653580788090102982987286231445, 1317553179647704999459339195843504940154064500641, 910695979182797597624989638494993283416789689825, 1347407370169704607454221483929366730094472460846, 1282214870407635443332814307478524472500861706335, 1103998771891302798036125484705183326674698979160, 479872598977774298070041375845416830108560037979, 367401518814848243629319171587670693735769419609, 447011620299608079368315220355562261236869095825, 926355416887649683361194657736572925270484929700, 912390120371631239156907743557771767089652263927, 253388084142904870490367731008646564701111279094, 208687246987052755729014387228054463457080524861, 923720306505230725290090210579867763692138855871, 1286039569874699040180923291121464047474086286038, 344802997719651942430497181884996856852176002811, 64267190156613823751909367804991025204672315257, 1218151164550941829815047235242166775709407956636, 1095332451827623318080875570374205890933951191610, 121027978130088899823657041706577542752455738956, 317870795742545485880845339362144671309979063922, 779695106334867080112607067946361563673880544805, 57183807435254996098771231136695051384746368440, 560736697249278079895379445271165871876579425020, 1154979337235366104019353610805960638448903839095, 73359859426325411562076288529798186766185684981, 311041027388555370565743277507715662037672067436, 1181644738903416853727314010785657137019197390331, 1056813229395209791737785264128488067977950004829, 667452953610356496805932600252325001727422861756, 1112450295442917257736990537809060718980868523760, 755313562038099205728808759628808698777971636614, 143148772193112613854601457210352966943269829660, 1458330001782175464125135451143456686795130308355, 830646320895496170426131430910766253598705881850, 337989801666246826703143548394182370496552344004, 229669908173188746927229161882107198434323568496, 741288690992004948569905553109629475603085632907, 1011542647448262959801421948310180290946216469048, 531999575065461658770965997235675666648975166406, 833654563477895010883843551994424084244627938836, 122318704135228476898198198788437218770012789135, 849425496923295037986564211425930332947056339387, 199253401252041470081594666355653962255268138043, 752318555732738350446949487906187026041415661367, 1369960648989629483861572377805486496147663919975, 1138404809895225642808816700716820154549278285142, 483410509985521751353075230591015943473920055302, 799530381696653006746953146848248506412553340745, 227058533989305316074226226759042028346399021762, 433577691413187672484411911793393170816196452691, 6737062356523068698055928293301650518056540362, 1073599898225481756440747782237276186948401718453, 904493320026539886877541102730190643772354024315, 982058653538179829931004160845417812832677350513, 135630814562459197115672609978873227456615407540, 856015667501239454133710186735834474385649649863, 986815373243415417805566749834278946954002291893, 41626173535926965341866787440346711781759402460, 108997112619443942865396028840639056023839811909, 729406622134408031193909129208646081297688854675, 1296533298941603291405840804771823924444272933969, 1234003708338762713329277153608363542235241274002, 1120445971892468701378521227612156996969978678996, 83401622934936088892485837259835560497243159419, 1155945627340859900394210724021363435020028384370, 719681107609412281140074062576932708350538761729, 714339075077376193404852765574946093555980913150, 1145223182800674398463518475964255373772335328102, 279499850680841859557664514957122234419216698668]
/-- Chain segment 13 of PBKDF2 block 1 for the claim C4 vector. -/
def pskSeg1_13 : List Nat := [143586956703284304470350954487717318439299863278, 172649984434482245686285208063481022879115830404, 602617891232375540632755307273760022999588247405, 459034690208078910524326827764801701471238688585, 761155954245991555234653115961890322432850541048, 3808632914229766795850513395157345873078147784, 1052775273320309581863463817627256438974599069187, 323319562278252329613089039893050746532876392711, 524293023745677860508195539256717520896254712523, 1388815672193158063515661025291329360059031864744, 146454607659691920541296852383352783187368613977, 124334860324396660731614527188886627951587939650, 764754336889651650566029841974379180686755246561, 333682405680557418489571940746851525368609040064, 94025901592975934066491012429518912637365849099, 480693810992729442669509987996723765935026039462, 1121771414915539611955718946420890187126893968354, 508473219218465306390637620784291134542939273421, 426069291637384204332732813688553155526960279556, 1375118305362948619346400675484851428221198338402, 644117927679618012046530797253188782486145171103, 1134370930864378411784737658897287040173346153575, 194911647185533035336204857669077963844737773471, 632552783987039497857824687929771601196051238357, 537744342852585041685731103827330806029037486101, 1368260594560311092505478971095529959169707025638, 715449859334775899152029999113280673627770349841, 837407193599333017994150413090626690871091767166, 294640152883452665447686917865022036334760814202, 412652315658609150446500984212386760249188352878, 1161800814108382936882097796386048940752253092187, 1145920832524580390544077208532670727317363211853, 820914281800638258557702953055096958526304871322, 340465752572965568010954042690999253308234330044, 130756306149168982702359832980680339131450208281, 1264461782923925232830175580487702990921271848441, 457649349610912315929044360019632751161974480576, 802899341613003431673049542341250561027758020136, 1037071115375051277175801429144423235170770883640, 159706686495370913057911255301027106758742637347, 472103634355149376933787604360941230481817452802, 1112348258481619128204857256292921972298536087629, 624275827654568984297239970835590172087820329038, 711277697535448449789052769996240418122855931587, 86810108444117775976240292981991371943138281663, 1146165371250689509972735194593364405586492310764, 993336022271918113541753368215756312341264361774, 1074063684067864485000099056040256825195152702149, 431622945171479697231662849230864567273568258105, 1441347311421110105123553655098893430044424748719, 1308924373243998121263853268852084881419222407470, 250498983814799692572914012316181621278980129713, 333618142304808377503614910651891344654960974533, 656744918222578271726812437806481588273774582117, 446453446782272387114200479263634876580772774016, 1416996098324511852789546062662511161639077792299, 820276524497181660783026262023943785948021998933, 893597123048878894269423992861103939421031182604, 778252761104133028760920205115690849340912417003, 71230196565562773093037410249949172023646215584, 1154523879190920202976802674262750611769086203211, 468271926455664629579522862133950438646173516500, 775888406475044860177463555743759395156267149814, 895581028282114465031354531041989239879743491424, 1449520498207630654304630683920920838111980829259, 1155733243580826037452167724716457065300124989897, 1137054885181148250490345922962265485846731024539, 1251408302635914102243270102558935568111171601419, 477096572308780375017262743131094252158332227007, 1187612154308247896721975411943607342987811299547, 834529332300007972133507068336491067980058943351, 519614247793807747538265036986724013496009314648, 549998310905384253879672779308582034875522603080, 748036336501488228838866350261518143332867222225, 371178314423413880657070354680380800520501298319, 1169305197510342577597113355669418340589453382801, 53967255428327187154576008327553886531301878794, 1269773480049069996116539319858628400197307501307, 1217083313507955190154626215585601235336774703183, 1011061503991137088744202009909120530584106033375, 616218760662563534465130485985714971864086397246, 849031950754914373280329248165169088745753981774, 1307897611623021025299895538496768599038861653364, 202422381649619291800997058672864429942138860842, 260696660328653483543449119874598863558081857365, 371284373050530822178322968117400548461058577377, 347865233312214380768863765446374206455339755102, 412698203927945146896891575906387963289372922126, 113088675385813244143038405785211491743992750382, 1038118997897335298693974020967753388627655183778, 743089661596664108997644250878180241175670813270, 749817583037217140765391164250901985415440785898, 1165315712949184838988622495726559301280473694809, 745309067013551684647913902338659399490368875019, 945649975441742881126098503783759139387261957105, 1131065853606526539860950947259119729698339692845, 939926150030613509900551090267406611384148041443, 866284714640277813677325715003654899502416585573, 385212511034371717833797398984084688606741840355, 552500456728000309998211369834084920312172181410, 525612344222956915078024680847080682386859595245, 1206455296202689723331075828237985309384016841892, 642509580566190583684613202083191377982043601367, 659367399623012773981179451707173684248006616527, 152881923411180026982608842639723845631829155662, 1159122736109257129431290955639348254662110182437, 1348307369559562219140030763082921348841891983575, 203759415123125857593558011992096083026908341910, 117102919404387006903110030213551148792091737163, 323511515941206406830059158542522336325261125126, 281819108378822806846646826712068446388481619914, 521183646876559011322478216055227482111198363056, 1166371128237015449335911514630647270249312025119, 483835464814359721885446477935111206055923882465, 431769795413259898255683360423576479432011821665, 813475273757506052803481181614236471994053248491, 149370915177397689712950410056959755284812658050, 1189127391193362967152431453803772289589403702383, 1122921318636031930590113381092492133175828280426, 1204963116836428018249665735760794984752901332267, 1168465650146623542160491987385536398081619113311, 160243459490328389632692668534750127773415534404, 667019641242610691616069012698443521157902850154, 139600772072796729015379967801276120085404389693, 141980230214495645580367039516303143805783677483, 1445976628130580852339815473915652050117789218775, 1449743068816213137172409301295636283922618004026, 1336480693077997198732489743553054099619760713500, 1139681906852923101729790657804377399673985804822, 631186797627238409909932906017915941505038578661, 1339825441043574224805806067383323173053181300517, 258071731105574996707832888531137815943752436910, 93840391213122775364194538612732189919089623641, 1029507866371032056798581484688593413787021579047, 1394361873278959182472982752144811502321859731917, 760582963851118747383371685516374862072314137502, 311326155589501156646903522208811368041211549800, 836224461596912991846562732280103740527508744594, 340105457802605808195255698246218969283885933938, 1091572588829420801563319807866248751713212393663, 569621350041761579258906917581783768295222496562, 701791640683279325970115935227630662124681699376, 1327023085305210199119683680739715489920142210507, 1205923384555286250493490783416732945778993965385, 344771369044859544497993498084211329540594647640, 479018960894252708289948630364272460697931030505, 871384388519703930860974515125765476267230790848, 372313492568033727520294457233731177916246210773, 536723504255031173698458584056176175433522757763, 260128349765178270787027632738870693082564969893, 827359188390349950717827780304605362271966095554, 823172783408965471668684710036902373571287106376, 580826810839773989020733479513907859033961254400, 221549211134677753250725525272701915614401598522, 276918526051295881091842284536702072633123943555, 1149050481970893111957798515743508856342952964017, 910449066775895068785579613214962863029653221302, 1235645010175648214992964517609593421980857045052, 948631640397022315767440699089665793773465726308, 270171493182825759984167398650077604007171633688, 683603308180624543884264571525001206824111120632, 119282238498435310140813992205872473466778937347, 251493936154288742647769691063785173069426959784, 271865906082089600837014445458034730081857517449, 299444584884185975669953307963988477870275277288, 359352766181638570008611389430985191060519748107, 819793415389546517076257844546331761081172833190, 699252692378463760663343770567063165140320958418, 1377885103064643829644354693444621859800363422293, 541598733787649358459836221212438874311096468286, 245809255532896385281228673266615998861247765505, 353739280161629948622387688051206679106829577638, 1091020166401411904892771757270290706002846035967, 995215111819357141838808938969979275123946884356, 314571980817139776294127961159140832427918306770, 1393684172978118724731238957491268778300952627862, 738863756283224517009000903139245424235285866815, 959679662358884235323449066408632959443053034606, 394063449562776637953192240356759843789935217156, 209627333114174736066975375279994777819269789825, 1448926054498359971620129903531202608668090786337, 743813526309741420846266804403887724347699802470, 1441159160068486496099643383087942066884506347093, 76251548711658364245366988090147198943358159912, 494720021178368408955328515272242803496086236117, 353615260141885647880474479723650855933014555481, 1029045421747186372292524934373930588045920385627, 1123524285298729455934413124675601635329079836616, 131023821978049202263492128542630942805491728258, 879316606178266024137646997500232941038056897786, 750116165294191739959648923502689301564617318833, 1353630245957419142888019452492029824293117339908, 1430299826207551214909005252663743340220472309478, 1031774741814009358125662074839546471827797217363, 1342351817317986263280707542083778287485007797153, 1399493572948543280664480762611034555620699308121, 179411180002054651690934395429612311593792128004, 7424382352119818375640629373555213114756376952, 326670094075795534466196750261825546649549911668, 255279880286140434103320215296765228329803481516, 1357342146352161014637035611109131602176217198170, 1142644773968446771563800527884792039550582802583, 1022463154845904694351943662455140090570554369201, 837415123275036872924637342553509992199433898117, 56362464005189065197972473500131617085802691841, 207187249468925636382618288743779569327987356131, 971505985299136149334441505685779295732260355519, 22798549264540900543911336251347077141711516208, 1395268338277598978525144896920858012017169027142, 239542632132658719089571999214664547357612603680, 830930627807470144422731396382729074321613993655, 1332455779015536276066988767229865632252071053747, 596297511022172045979980376153634349374965926208, 591870318165509701751092888476273057090640865371, 1348835408622212478044952016161500407923545013591, 52127492522307199726690733021217357706742899639, 196331733301150145858549341464396015410625039076, 803656913385477470736575560412065052241516785849, 1323317776842551600537359355028100312198249677928, 923969020365650011002235887558153226954354691255, 749504429874143546652315613469386217198727559589, 274185519632412765402732383449229592456956614919, 1172561071926772789703457833155411078519006476554, 1314105638289726730211835874977014418835744309066, 311849202034426059250184094901577759506840288371, 1378051285676523783090883951648557261772738425397, 58273931576981644244122630859822712860945785405, 1394333836539436076850579266054250603549322873993, 1280870036362466272500348997992198238488190936212, 1030477506671819373824851551021160739886070807586, 625079311843502539739013786413129877818973960948, 928424862433910504873740202845001192303904409177, 977824179004122631270020548728134514682747864998, 363777126558652267282775193827392525460343063391, 782024243110940279156610132286957777839350232994, 980789089138755490223554138029502147684011021458, 418735328763073779386773252616917167897459860490, 1352221930519476838907577642773039992768984849863, 295491833265389841814253424979517509046270009358, 1157808314701893336868223575468591854961828514574, 1164960522551905254972365726827082673833702687327, 130851414741603205262942484158523342933049832293, 636920156395593566646086389981924133493098875259, 136812445109386991993263995106752856186220091426, 308680825530315490644871619869958057507405738030, 373082477374547800243025893553532099255474758700, 288791356306610382233878552559411724297084309742, 995761939298014001596359757083598986145750799182, 997782790302400563458526007240917172687551241643, 947091800143883944761315632194507763104422702276, 331870237107101199309273176440752949944589922566, 901037592245466240895795483080426755309248628799, 228488600140540818201378006173106382512111456039, 552209135233545146050887431775209400141741019845, 339625569346480310017669408856817900934402531813, 1269718203428649821776393880959124945044029493716]
/-- Chain segment 14 of PBKDF2 block 1 for the claim C4 vector. -/
def pskSeg1_14 : List Nat := [1198377709114086088612212752790359865402855657475, 912470694513897852578942858491285567880680610564, 658546371460102635595121528236806494968775568171, 1212244716788115055199437659256564350647088424409, 1080446035268075739262747007294724191780709643272, 1411560997704374986281359868498382266477551628732, 1254696667099742624757574249477859913869173651415, 1431135266289041451949555059967133919299161576324, 1296931353356515912809243416798028819099842477563, 927929663748563979696379549299914112707608351266, 370800623613379023420244892881798668443630946077, 192410323810359095024351295236059457699870481014, 587268529295551142215127684765923036587502960178, 1224805642246119262494655016064945506403810909077, 941519240228465208729879478874630368808593884168, 773541143978495940899924693635452958837581509292, 1171110520723375394487073254399169990091623303794, 1369111103281511561753869987369873578060670075192, 577927058576863265461034792246408706741209433034, 1088092077673255851728545583871761848132285311163, 205177283635593943296302340632716855570144699657, 514866957385663227138698059921307137438780383603, 566950401049302606769408625993894211104551450236, 452818211193085236785348663431207674476674475523, 371708113976942158991239966172081900179163425811, 1377726679715495141349083461484893447059919531207, 377261278031664952962410051203817786685491206181, 992277862256864872399925404196289306013463438651, 618681299931306910780009050974881361402291508243, 565559864063673674595805155513825122628935201758, 653819453330705237777660816025422132634820441459, 151854177841713222676199544243250470398897265610, 913861596553447147136948366327205489539661317050, 523957113284329976528998620908736618227488237266, 64215519350674639493747826665690767873902621825, 982276601603743689779103484827713451711299731172, 774802540191583079368520028943480320306651978242, 830462208799800761654248371913967548030708986636, 931526646658831066134727621499387198028299036109, 1414905011763286646674673512727273953515024658354, 352589120893371777572138238934413550669326789511, 1327071729169489571303880022419948749096372853337, 610377145354738060206324303945349641915613042601, 550073933913743978133155438794360223643522145535, 1309016517257816625295853897971443527547989529015, 757061460179434984414582191570252769002470340823, 1460585845118198220595726605091401238933996296169, 1015496267933848376110950660182010552384972840249, 1398159292683934449260368053697030352811081442470, 1310691799560670145677894122226158844228270777036, 532884825840006376034614273087290564551538602642, 840140612436344052125671953192607850959298678928, 195568472726778325543737593354404024951411400896, 334446671822817515460246446520791046716462671463, 1196384289513756035463965367535858600107496204196, 933188058660998832080293842555014913653008005220, 306630706476208776730803330749096954608789826256, 500796373952532621362787145006064894217529179227, 353860711651499157879594969710345605748504826898, 915841573370594481114997228698193353357407977428, 1096570104015205057084905801973665904970806480506, 1159274364617314120754897313284811808485766206820, 189427103286983507843240349471995792855484686515, 1380007915682348396202107776374918028745481979218, 522475928753886329140455315452584396828741030809, 1417938235410139750108477843831974621871635807622, 51692805969841642015222495152088157599315469727, 1004725619466709981991395988566482985047215967871, 415070620212436516043229381695422891775938287941, 1427986140039068681361883464013951206977679952165, 919712690376487924224723144092941012909406700502, 397366764604204369193894732232811681736541129221, 447346120980476464055409763206867087591701704143, 635227882683087961053152027630704747818316768580, 1260193291884644348838697044010057456321720236786, 442366102855027557925877530578952783432921077360, 464141140164590524202081425069293972621533652432, 429751236971697844778985682268113648902464769229, 339794312526563920524811900856187848910367411240, 41943033893182468239909873264852961923054556032, 339669457871176898124312640152198160576510614976, 262979561471420977332288988416934712249117831231, 496134066507905254442913666648517768284908935858, 33987590756485952556671404715656760012312341419, 97316577124118992175017227274392600239765320559, 146900190849613456986151416223873111999075073091, 1082680766018958061906216472325325733889997431227, 1401760926278254841246110263780511621999412497263, 245653801176931866356979505810846566230329120382, 1305712343776698234651467912374212941490398360303, 1311049760319897480375138193816943693394806116891, 1356606310873690224302913418847503941232420262919, 599434334543503605344385926023038346756547525509, 1190028444619207349365475633446553616310803577196, 1005449229723878369358066776002179718671307922133, 31959721815233918694467686334467519765389421235, 411837635663473625849482837215842572111229638148, 520243747693541928390522904273045298592604908514, 752038212960390238482281875482828125958505292995, 594350160918252832731614045465215521287210165647, 112687881081821000800118065900409199362645854992, 570402396775350233569031243937633167613316918604, 669082969880461774968724284926301150533788639688, 265639777599296075274859561575990135480872358201, 919774761365420703913203577305134307722400024216, 1158292484195419867014135025751611434007422292422, 722132767412879311135070501728587524724651864295, 972920034622729137966380815375994043442690738966, 1110246222878148972603584607471438324283504451031, 86901425803541234375187310652143075109430858321, 492763745434129189297371371493935095407128248099, 926270439938215223329927414243488614680393269756, 706437769171794361543802944454824908155118266028, 462563587865764328600030343706305625419994885183, 76925507994379894989519866986540620168341592381, 121178219106553084887299322365860968135039280963, 1000510426337373642189702412281602002729965591345, 151095656400475750991435499946607669880240806342, 946232594437232062300891136247305999948209273924, 1298549438352371260478521731225790681544926726187, 92708335484788806187125584402719886905330396157, 737632761200189474574432495036154267314695021050, 534070398336814943118682911977472313330322956559, 773566136982362811852035781766053000246414539834, 1233178158044093195703768236693726414428168365886, 1111532703160284670345738589701203988770409707066, 566028362747825172805567268853137517721520903282, 456574328959160341971758478506414788618583291008, 882783879415484019910435087088943118233944285811, 453304411437709179985193905177393671570352520555, 526530250493389613119677525271843412405793712509, 1317121564417249197410511655072138018748891010396, 267998209007098484412151060511471973303067827398, 936672096056763931967462395724706398297187342344, 1115406125776988946820407975201247617012068551623, 459847091709477751261247002816436590329362714234, 889355816703589113599020734716186788916923371210, 179301183161013190924134394244503478449987117927, 1179510198323078382521344816522904513180966330727, 1437156391832110184339577206546517173788782740016, 135005545489441038570938709227765600523125022170, 1136850848980002510849197924087741577310553972392, 1034110384092948526874907893157124397505971712103, 1291263448348137308344603265859559237998224771709, 818436387587512269963328715571116379071285531873, 156768372130971513836163689851965319812532506175, 93821600214376496986605635155570711048040480646, 1092821887118230142813944427157969266950635046937, 493510024318569553177836994209271804949182015750, 1226279536511436036589958916032908646692296256362, 662153098050878511346359677888409807641786545457, 660558219759546550398613595053951758354752436504, 230025153349468129605702046837863512474856735159, 615304307577075315282435951673380831833185987469, 6432367564328325518805463397310161040566763792, 359016762007194206440493007256215320156238896043, 90449494935423146297820003420972186044746955294, 1411585909817110546662098560024665120242457436427, 353181785101510312652820778867640259429615034516, 1151069306395278700428948234423952894800622139329, 1183048362035730409899113998877397870415361483156, 843967833632553357050024812561472709523247485035, 729273667409995910394372554102331033615455632010, 21353794270296759536357436551198127927255061799, 158646845394747760309068655186871239690305060566, 716422658374395261968520834446345509748054808031, 975921334009534287311119345342026326832391858669, 445877479857621517622064519257259108874566612409, 765497397324592029762719883084081751106007653040, 1149842100288775299184237069964103439508480031514, 1076530385126905893427149940881580550510617147049, 708495095685890842396442214311365571160701533898, 1305203904269612682634106980019888197418116330700, 801517619483130203772272576379332407824199564733, 553980304400382905958277896541062052709794334095, 498230017924279211799157930556839150231142406535, 1178534564646086162216968062863675945198433041854, 1459795961406140390529247549234903620137095511782, 1229837186295295509794396375803702161094398999015, 599740333765128358800698380184073287265950356738, 833906165903695016037812904358600234481410758487, 692066652192415900090886308903837984711440719239, 497755860708407943060206736183033963869436633191, 558310965589362682661626359452933043730513687090, 675130652275925565683794180497935448085306928415, 695339870910719161310621393058582893933594969723, 744199468174979719008974043499716854113815588893, 580447291239410179198865514278931084142062130438, 328278205078586298563755938991637053556148110637, 1016410829326280101354139026216710599587311780038, 1409022365959711339427611632675973711184016929676, 437384053367732305456054659682515532889301873269, 1266086233365334089086060223635111444982768008229, 246998594058143953454463372994016419067226494544, 750703156218942740242594067363124535387070274712, 1180908051869512429305256760679152099720216868614, 618940220821365797932806897266117736252020011791, 233883011443781559951561265485722205975311262636, 3997909849197326649539527411018088915647759137, 656020237559489619205719459414624439181756895014, 1318429114896927447407824443730751813986741228927, 1298118566969685284139134376090591740390674846178, 142594341951515542327002692901454783087262228446, 83115676847308780435077413652992321695822440788, 1166448505617864591023337587355926540208144812906, 1450198804644939839510994367120410339662531719709, 825908044355794443364523918691099719875847238922, 1326087944215506146758056776645617883513734011296, 1090754095240650305876904302276380915945329025242, 1271666697794316208210645011953370346763498313080, 964502973098500212575137591205386371677430764443, 326046296456753635571564509323855756042954600051, 1050303447631191270755369688644180800728578324736, 730029105997412273706877355105612979655633128019, 569038938476005410192289562011523093406861787316, 564149651369246523378423880402512009345809536271, 722956794054007229897123090241922669195877714360, 969316739789326865792605537885721585079375650072, 162979871700142211404639442723844582798642490265, 1391279090528946518924105363999442500186054706311, 29672147658804239499115192950539010617085080646, 1315298485911322443998597271601589579591294644510, 1203019289050428446468376765620016763368943906334, 1293624545930060559734023553531114620963828124562, 988231257032838974185766633914812369811826359106, 53725633685161995867640528440563840831980904541, 685139497093259493941395619596612019871105921445, 305654123668650023864449680368023170145075290790, 768676782756246016783570284115180255050562369811, 1416706589162722900737886742395726455375490858031, 608919553234786764481078887609819981706046263976, 1112432538840817559469993764150042930071243565691, 965361251992178747311035738709596598677984232013, 818669843307642308377594608960144494600866160340, 1321962955589862302156191494641350930216088810730, 1409732767856877880286795091999554457868009796411, 748720394930633392577913226432846996781939905073, 401384767783078925169571975304703992582578775464, 1051765460289455452228721761942767984797219633475, 1357359344067695212217165580851327086629720150853, 1406904976112886421502547556874906951142698134867, 1244177946968142896648480573346549275386090470865, 447699452238096345184018248032691713119381509927, 217644091816794798903847206662005806068699501096, 54085332777829025412936304636602071284689369141, 814574759930559935104750573690201524546276732178, 1168864415342627928758483514141699560966832388190, 140107145165113582007762461738704224378231599911, 235480020744752940442700488620443895350070228379, 992055710809851603954768730099204227392299424115, 1101887935325550003141456163475352218834779501451, 261105208209028822320244886869774409498969224000, 96143803587468321938105680897054356056374488965, 80747873532801711047343345415497045956210696417, 378562452030369452153559054413826383024063170730, 450551554507898545094854695091671582250910484763]
/-- Chain segment 15 of PBKDF2 block 1 for the claim C4 vector. -/
def pskSeg1_15 : List Nat := [877049949373338658836719713485177939928875210523, 235451028593911054881318286230242532301923825479, 607439219631157497832799735859642091502262218024, 898614009204220179106729420611013800142584019449, 645395832953948738443497466367097580386961820435, 372908512904006047812198579302741027508644301587, 338811661050543776119975160517011606510192249258, 527855750716977722763451257343754211487898181191, 616965323810991274896670240795984627647154759142, 774183658176398046154240134776955408962101782374, 806748462557283331951341719521434572725563535718, 418267302490884597870256236677699853414914720166, 97270585223880082332779756679631305380234168444, 227190847649900804561117158210710191460782603014, 1067720611937341340885056035560456737260730730607, 401183766537169123174039903665835449406195799947, 1396146283372104136335174731594634387034394750158, 1027213157548208586714292606724925103331118898967, 452808871596895827760693508262403039973503822650, 1379375422855637624826577098979466438728618350485, 1119297203138755290915409131779252584635048863562, 292865687266980429977753145183297893000401562540, 379924881180078719284386928829194343766218218788, 138933707872073585122062740034543977851271045654, 419372389947611834227204894222410581513019355238, 572672130879590065869399686005764850245038251113, 89373009762334348603256738435992673792138113010, 41579357158260607309701049359178803032327752932, 306408448808547649234442439837560874278715981212, 1166954280272070507840584638371391557477939013671, 1206596614834963608820337331289892531297264980490, 906224238444398547387969967256679768668348622827, 632599284777133699098636443642092501693968218240, 528789224322533555357871381230096825377139473212, 278393641028802909446028135839741156753908781056, 1452488674390935496727840599746013952696420674387, 1051948872951941607893473564682204274908887600681, 954836186806337130163791159400818222039964460332, 444732652271711027823876014771081430456015510795, 47544223022045317391168522709492509693643150791, 1208521392016561826414664396947108567462371938379, 964063587427449957748353396605193921908600024720, 237518496442324002302887435630730649198112265572, 750039709609968146220747522473781310023233599964, 434277145851214317031543466249364320188607839326, 629557934718912171673848176534076353484635602884, 1348903368116927610924439297547157134581888427272, 149867012926130383498093987539328526095110229706, 1111685817938423334871559972096852895845556822709, 52952915240486243113037347117115359848826567734, 1359745938321950102206268289215248608691782635857, 565389797542908807874515004862897937580827052285, 184124125529587631864693299753897884326662656761, 405689753246084686404607106302339253313923628969, 832654567854975898018915044240831919746132086603, 840232311492391709864882882404743852725706399606, 1006865172921669135301412778913301300630331286752, 1224830025518789422183332249791113218924913655928, 290080210486169200893505676105314385088555042903, 830836856455339960885639739453614306441259393617, 998008987850754984895154820938591171296137138071, 123307427026069000341473664503695683942901933238, 969532627819435016777261077607833671525450115487, 613202048210457059492505144425681261610198596884, 65022933780304956626322069561766444953046132235, 508964095582513393010554222670107909859896713063, 515682075807809422889729993363923771147657643955, 1323847846794404053513624312417852232341367195933, 556274568384743381096944692312239570222146171866, 1196024932208737482468554260584752595757783976155, 82617334613939493967555354571339701664141611322, 1107125444461999927358551653653755909947189413236, 602395294569722321183588122928236423166808549445, 939661801016173118107673515586147182584435570968, 1404284709577539659105364001842711558417959777777, 1295466031183581019857495683474169621253187133893, 593472258086066389513305907832981851635629752914, 571779021929602304217750509760558476288423243155, 346981302005538959678438450573590385133552579497, 56538863263233943356425493534038829450603778824, 872074676441652425156284575974516975041867483078, 1313178429552027500660989713546665739990394178547, 105680954190411758749455371267492372056795979133, 650876699069129543206556849251881231786371434266, 1079618349168278139173092750575666236675957333733, 266544856671270157244473884686050447500766936408, 650500263523252038180633526633032682020009314255, 399013729223372773473113908317967985118670051633, 947581739487969534745173237844250289183278893033, 1097568111097421928868315895614590671621310996240, 516564107512849848859054746604885094345730275809, 667834922236162831050288572925722297784578843539, 708771991245419074914521170488361180747386221345, 1231960680843595522102641043910235483134064389291, 828066666365119447978029677213885329749992000622, 536144537429317198419323358182620251074271347992, 521125189837932462762431297458545701603552903962, 592935262926654252716851561539911592027915024513, 467912227478980171172011057052383615518824799072, 393071729853018815429548044146486926709870668379, 1019380324421054441058519003866000193116594021753, 191008902733941938000098552732525013721941269746, 377648098563272572946334355626585780461101945700, 941206572086935141826387216776445370277788596911, 1317103376119615396080000554184236367915102176719, 1347765614102757038714814601297140601678811505625, 1449507693062473612536300105970317583629564908364, 296111398390765816078910295581747347140035084790, 1389451429635698519117353466103579477482504379913, 1373912360745445542184449641158994285214401613816, 937608877257814426568491835758444130516558523578, 1016268771921228747364742977095726937419110979024, 1228059275425265618746646729223768101544892537546, 1102531944639698564780879334427543622052359759653, 277475634895730370384110639752925770144970682283, 8499294748451153568265479371305957642146557564, 416696176386788021075807177061399335833545858945, 228177387866194759351502429003787446567049442044, 738098110500519608236737690692441269245121361631, 752366002757963882873052224226377696113207663743, 1166268274028087854315313110185655059578009590537, 271598001070483088646865045709216172347204840571, 465791225773619692300651859003777519932832678060, 1187402588365589652364406726039681801674996355318, 595284100270454554367240767040396767730394021461, 368139074852064911468381342525577860163109629942, 1231304036361694627540493516128698372281110367832, 509128284597997962520049277029453071137731367723, 767199934378427448396651497455602282572548826708, 494047541108489918627906428384312984354086339635, 1004179147409529744079675412139538917252012738207, 558418631566792206983513209161175562852172224477, 400465100846727371916425118643219819641991165937, 278862486030639144800089222204760177271437965208, 984330574619104602766895901240460405728505181052, 1223824571933839033038044374201918079391647306035, 1300556701756635259182435265412676666345671518962, 1401312447743571131461139925488399258920103139681, 1339068867161942809116243649776257111430137073703, 1039200033692088484312913895561671094929120436333, 1166434376661256699321568953855763965831566503821, 727862591293587663209257617502204003326551974722, 1131593178876002538870299292256612607437096064746, 995857984268319326594787748726929144125250432494, 553505018446892487091091151993669518116835304859, 1225609259223110059640811916174145073847714856374, 1445075192032534332333109987248815322103981678723, 1171837786712695396192251962077842360740555822117, 284087373406916559199114003874113320705316425373, 1030585326049394369188133179546585330074600129630, 994497429461337276672566337976214335337866401915, 826753047363909482232071971494337099267077364445, 1395301750858776524375914661424030472026932997321, 850267508103633733046719532918716285910242641620, 1329321077717054368412592724310905627406295661559, 1389982807757020175296492108138299534368821940301, 661258484346164796953585243286794092205138598144, 783790125637863867923756655841292953406017719862, 1154517059055804528006442871203822169077484054680, 248276114624009758602969910608535673506147208805, 815575652059883285939313476715645121483340790275, 1020093686244869469857177713342140797335019837205, 207911923134249899011395951748621986096853135303, 90399169327021503797678676371292461507931106817, 1343280979737005526692633590086760221146901393162, 426025129521932561795379196859849509666827748226, 1202681048420611855176544220319850740882164202563, 1432188423902874633173402256765677778488061488745, 459748458403312731054837342477110456616385567028, 636939560846104134232562047571515468703299763756, 139715495918682007682022148822601137484875720368, 146262749435349071338921430898925339514204317012, 817231096039551851922150453595756707073652078585, 163444851573639580706795951808386889801756908502, 870111208801806917272636861221081952290568898883, 1136078747085607367593826263094078361599246890528, 258259999810949972815925011036020527903189613733, 534257930961925409140250065633839854291548928750, 506194043224270711374778056026078878511122722313, 1182891180378612694638324857341596706133758775945, 648240831293576965312457584210205384147072798821, 699451807334827386234953653715206031500958671642, 715584142103688851999926736701298338091809892173, 584047866777592064505487731477033897242174944266, 1069524093158100072710655189759906003279588932969, 896389747826465651845682570884559223220653217713, 1433357069108035575298276646755709463308649715767, 7252526372063941126892902172487166551043716857, 1098632055481726696789243388914849468713164380665, 857350957895911592164127358628587695955573745687, 104123158979646508347779087272080271180546910109, 1439353030355900795454414515025628791089324106977, 267331411122645693651785270357128140168213804045, 129610937204064367068000904661170716362213528100, 1455671718429385250498087179997682249679562861764, 328257325176109289309197756965619374551008032690, 912732209312886077725760109371353931548954315734, 384424628696012411972156887804047962619368622313, 905884894051202615208549638650816189798155188742, 576396447121377995999935025385943689510234188904, 8004800954017325491058108714775885475415582768, 368024989966242049239090163966975334623493328444, 287982713981455020098824923853546188321612431622, 1329549740609518496606520078802642791537542677434, 53119111047078516063546037533277634012835420593, 1114483262365541128468700049160405068020031839392, 65083688440581960391578016299716664766715401348, 1188598611771832383399555570438281398509048086981, 922728071416490251299735665282087496926879721595, 1245189316027619320304845430894790339604008813246, 1424662572480253667665413317146061221534631959562, 710895650139493193069102875388416558868199574363, 689274587298652084192905373753530057900628311987, 702668611502825600727932982173096357658637626348, 507409503455596571698301881691547285518912642573, 804132830862128474322647677033816235360342642732, 704718307326745437717317986306947760577208975422, 689694480646191365479222342111962532881180946823, 398378448464870447979039876496507354553401310038, 1330167446601930752075229980550645370510310101165, 66579839810032471753983664762010429277125627235, 242788888474872493383032744540341702116006202784, 751037573533427332599294159982328378009784967091, 1391653852517692307958378475350948686806921519727, 816053857240941351010618349328413224211530721311, 95176152770770531610861466483712368136657348660, 426215853737309844461455991601848547070214548320, 435066882711790837348287607328277308356849390540, 403275242510410251237984142309760906667396122726, 539131351316348819450144412448007380390007060567, 1119956081019942606978772055931381633338519159321, 711221340490932365341053532928806551965561830063, 1127741101189436292877861891826505445725192080839, 1432622463485606489704847445277220039348917778568, 369244620549345430989431036858519218503275343265, 840603091388839389908473912887173700107045374112, 1261136234840330751607785194799614066284801020064, 223746876131005832556942740787807485839759262748, 854963027032200441344437157861199612554712426901, 629803112615194553013272034800686914845267953428, 781554447036670625316351150351957750620687643286, 906645425438043786465420002353171676003432668344, 1402079200228775122863678650233387790824589793101, 1121511038172472430946409905390944151116265985195, 239611000675265965939838178598463397444000739347, 134453855630358953623134770659767566443369992064, 339302397855543035933501967513460501383264196255, 1447751326949927699414119378978861386415789909915, 14033141835144077155398983541864046090605677022, 375971660195614707524668766767300135999698775706, 967480531295951391102937721539638604385194174310, 399600792995404698725488664773317158583275291959, 110433794886457778918072251286274558473893562107, 1046480177412743729747282713871718445937367411586, 763741086140567315797524114811192338171253279319, 1334157600699901029643728899101554866890211054467]
/-- Chain segment 16 of PBKDF2 block 1 for the claim C4 vector. -/
def pskSeg1_16 : List Nat := [538463235057572981009538180709053399844136967263, 980422147593972373009754149428360358718259996095, 931543663837743952208374207747058627903234007073, 555104519625492448733783175676893308251222464407, 680985317853949457694360381375991416161501827005, 60261606257147735021672524330828631713589583192, 874657279437704885166361912532519961866629561097, 589930965292508749222229556869734348199734993776, 198373055717466956805785795428180950379811109034, 990435577037371713179883590295014216627164864315, 1351593960710952587759483232252961492913959344605, 100447089483399042233595815849636966792568024184, 442151700920995428695397907241623207806856051464, 1004757592744266125443852874114099871358958820714, 960365371378034592607863356457505108182492239036, 1355000340449352071865383741225140546383062532670, 1249259325790255009765501535780174683344572103835, 620545410514070374620706455890161770351197698446, 944713767957367988763646684144235397358444048346, 670923209467676262776612208808063330309122706311, 1354365640118687510615152626415193354307621038111, 1371366682627025742571588189167536768099945900451, 161253682644282239275016274509254929646208136429, 474661343991996920819639135421442317806200811667, 385366911273412374611008489052223161876031142162, 1108777550728456374044515265083984255843391877830, 561261748097227973589937935778581408264896281971, 1401587980684663273902910888191465130996177891159, 59955630787457257147148382908009805102953780750, 211816051538314173247902694340997066758404988812, 1210429350076174411700028742801495018285131912932, 19799776689491872258581601976449955743107031742, 615017331900642664778003086203095089665936677719, 525368017370355186484847852408891191680004128335, 535245932010586591935117607325697568581248002077, 702186673919095884797798139049434758658065735821, 669928476372710965703191034760251915776281838908, 783969942612421869792737313756299350902264306495, 74616097480543699855035589231026629750566643648, 177063104434034006098999919486607371406282770451, 633407102507063043230215580536675939529487722701, 589783632204992120379238023997747477261877915163, 491759441564380668860746997837702460621485032411, 641106279928112163803249188450077069540648631768, 770316799634152086017730489160627943436474392986, 126271499655067104227814788068647519349934073635, 592882731964196993514845660821358719606879102461, 608996822444416219755093606088359892834481941863, 905900665744964591425525146682153257297461965520, 541030688051500468989528512240539201719253598992, 1379002814204407870285238510074966802922113049115, 599212540786370816972213358029282764965673942898, 177167453744120409845625123585140286161951335600, 1346562102707640884480494484305351955049444441682, 1330062638928836746342856097531582812251923742583, 173617440768462838587698404050372682382793264287, 1375882300102699977996679787654752232820379297898, 705644108802535715752669438770750358899919688622, 655186924915162194513782971657224343425060807874, 1003096283400800415170569918015135032382418474398, 279148668731087640354731648666736227000660486312, 952627558443177045268959083738762042504465225803, 429818029158176830851538768214741017422988722440, 707479844399984200449245508340084377434706179778, 1064091622064132129555111356419944382309318176145, 1283118206314792428144328016659024885895858267612, 1173347440954896457772735422509419013048167284104, 988930811816097462354194265431211509520707543116, 773409079080869606468846387433390394095079405528, 726444305981302955495612826180761301716849032953, 1407334805082843601796071519917917633888825351583, 712031356590723931404894540679349626944444222402, 893477533870922380096518850847532775428176991993, 361538529811003604600161991421773381120262497255, 1265487849272308888375622705897792134119128326559, 237216608777069842301139033859245275382542546377, 119842955681175505707056177731431465364940827758, 36329032334302003818152410937624948511691576717, 935028737583456535412748387292972308291770626780, 1336932964730335654332647121674609675581587046017, 524769566888203885636460236977389363676258774332, 974785389042932254145132736778473450979099950074, 3296134344386411563988733660183446184310278297, 1153575477235003991251245854870841412038555423013, 37584790942619609901357685680681826985649257390, 1285999816563781946642160298864746902953257606819, 834592373109459289367026717702492454767287704638, 238103281502512867300383426005029840919319412825, 219448552615474538498442017240514755062113813083, 198550425254521438439083467958608346935453399593, 1162255667329979080861582545118119890195851419550, 771720156065424833602120392415099406598391562207, 1035615818885496056525946182499336500394415918854, 277630116407043192852497496833323411485635355584, 1333729465115627032084865086762021745172317842027, 1456335679002074281075862134338996688443425880755, 255725804222464425738788768153702268772042130900, 626091256241198015569847273838125764028064926469, 1392419564764080267604240182356755657224523964568, 1198228044026401358820863213635896643130938327618, 155736880216601612017159380808311188154982043432, 1180921600113001613761647357005070527857036754710, 412811948647772241966640834597571279602174479731, 1036384642341921181993093422959140481154694467234, 684617558334579419641089264023053931181835150117, 640132863304538430052681732786827068539234725950, 418653010236451857517186450327277552176080785031, 622000155884498954949032389613895274816329136553, 363467707835620100800014096220842606565462532053, 1275439224293007680472108781064400654019915950419, 171514681998832744086562064193344049818171976521, 901792305908043360421478772539552127901746666411, 993816580223924101368405975954529220402340856270, 287028939915977480423817725993167205891054808903, 1187704137192213489076561208692576050655765511069, 1012562591126208687557912586872262805050324547875, 997265644168796125148441554810806415036138876186, 160984052433330592223159020439219571127861307057, 590880096755491678595613235011956110846275387528, 717764777591153474102444002154974189693316366602, 927291954178019201890106473122566917633772585647, 644127099981543454250457913805650140838719546229, 762288129636941785120112838981869430970986275581, 463461224585587545981243506025735682154434370825, 291605088998054880556549717381946647793040325391, 136383946622992498542762026239609125070947354922, 436526478675030199787688382823632776118063499976, 407753382364642556506629098148553750590547464485, 1423088682766256911586137614601708816772553339713, 1269504221107308620237416934018524090346783451937, 1407132006363544276936207265576474723278432607021, 547730237259962061383639765430872768227851691523, 452704079909078733918410114253522010025321027756, 1347032263508317839151298024024173119754789134459, 1056357824686938503633442694854732098170065407476, 153890280483824351890392830225021872430780761352, 417881656533599099410898731881806727882509029034, 1145574198292760501583375397946313700498212646486, 772184641624944881867319703325472392164570375563, 457433534513923954272902711703998166305746829243, 982717207296147878348456491911110452588576089567, 609044019947616050583011969489927568659079499869, 185328512039279332211229449628401086195804897819, 926934935165384435253761353822796936865163263660, 805047190447406109608394226922359460515146781946, 762010072632406445545619441404487794748017197190, 219901689685567870638921390489129406729358772797, 243918851554198607089469550697801026685613940361, 991900730470898933215432558575956035833342580365, 607873598853657788533332411322704643346119560572, 840302633557556054135837003747336462285116439859, 750032884886810363777257410134838574468161231587, 1442369055161964932097914117337635465156554373216, 1361249997774460882855503948836787470258006184496, 495976319953845385777285331740780131698812802825, 1086800603281313601553555453641263165152974609265, 1156175838235097690596713218155347070545138938746, 775034577800015090875441312063001124347038529418, 79828949393607252442450316022036067967994770286, 398694224330014774658990881154480203469599570817, 129536899249792011251603955125456818934300040585, 1360332420471525925080525695494842557181251792894, 550799948914055131029831656432998751502588502761, 63236741782035510843769019031472596370215714111, 456782510968976506594596492351416926724956469121, 658799950291410258203847331832671149935500006182, 1311513242720097923420587729895294100380825748891, 1245687677600108618237859877564405574423442226167, 603467363085551923316654227136884461990108490574, 1072063361554876372601666336814083720816855348001, 293738098883199774158254944486474822144238264810, 993580768682797016613074817044086457457609745224, 1371433362257911810296762216912815704717772936340, 922290085677324192045472772033366734313243400927, 398697964891995189522082719139294348708783320530, 1234267866897676762611243783132329410770857862667, 845757021082220679338202368929911314645998155273, 457750117121593136457491439197945542833373112086, 1430944427721039517910702525380810090250741157303, 138857600037660655673793867507623722970514174473, 1125490780021290871796585737268367310798970380255, 28662366077538956261068919321495267101287019560, 437671426477680815455615846422071688235815396230, 504132806615420996995982383471019193020265108670, 42339318394579392081115990848320642178674265976, 782927876049704208270494345152931969598027723055, 1367794677144728031373210834207398869608326420651, 985990943191015065745462456890829706069298148746, 80103127242004483856347024430705628679405540260, 10209466957854325214922799947753938660664858603, 352854341440194802809853853499797832276045882086, 673820477511149895983909679515419495385697462091, 698803043148470468368736584166160241958118932286, 940748411318737573658027580228961240330042500079, 654790475213252468358534201007322919488889222630, 1287747007171914959616242547247068850759653788580, 17719004459917361881484155502839643038585753271, 611586590820041018085463777694697658478562199902, 1300761284717950620426639900767469760098922631689, 90997895866683458424670312629839419843450860272, 1379249258131290512219756573711897412086840877613, 342093068006382505250490344884271581891295963254, 1068152099458927307978725061500301253947422161909, 1065585537233063361841689184185273721231396730388, 670614558484323940334069037299127000352205237861, 15359133587858288879858607929065113236840712567, 110212018116817035469309594065524007432536783656, 1198487578337024967999298257383149995510481033329, 453319586388033774213401914282286661468688817915, 52297404030689174315939664657546538765144053524, 51337972758384446797922211969576228758484926814, 200685991925058294455826245981255308590076664785, 33807899578337239727406150678259197669024874322, 317919941649369685832844001404362780720215837267, 983178060006295220991180246006831899764655548363, 600277228366142035431319295657780933845741822738, 695217220177975380078500549424633009036871872673, 1062567568757891174124617987617282887089823196841, 54433392160994308415592023844613218725059819755, 187432663766380762328950851904338607909864728350, 370153927593152606026115640899765372761702473929, 148955126711018571807343665570800673350643925139, 536754261307270505102093876983683965611760637383, 455012035909955428702075614430640916901624821923, 1324655213695229092032225453138206235057645166155, 826991457256244847468648714295980794926316594322, 96635428176810044363342142865274546096834704407, 1385812118358529402125926226553169246359279963823, 493222438042087464586963117332217093785965795221, 1216272348547750094662355031273601995636772697114, 1263441979723725139067545771055395483924050157023, 1068438396007435464745562763576424842482447664039, 1059422693825037098257995948854199043634112222151, 231821031650638278709912151095758920858222812228, 1143210342822052738020256633568119213158994641646, 1181607925498784639942936614418048262247858458174, 155872119939960618740899290203323269723356241850, 705399315750980360802253088428237095582184765045, 548195791142059391263498309488006584823901858463, 1184176466124040495536371780758145530021351783874, 504249346929513222601443672404309331695921038425, 256538503369182043399567935739404638600496451085, 1201020310705453602383911117551329310025358049569, 810816609353017528207806286921970100567128614969, 368570260621008821968703207071935886950597049854, 1408500775854664334067918131573220381446917848437, 194414014861946382483834420535188232195381661670, 613420316585193264607599285041202875942557951331, 1068076286095782271645024194128919256007854464997, 200190231497746039714758174867305629108761436314, 1290342488790081583704684313165565936420497782937, 212669235167800968847803200996157872494870756541, 445657433976384868962293889101099357786267424010, 1409328516154146528089971296924919158305549214428, 747218196233053735893759072820338739586379259697]
/-- Chain segment 1 of PBKDF2 block 2 for the claim C4 vector. -/
def pskSeg2_1 : List Nat := [935584168918860494941944505858382950912880639694, 1152037837902202872073367066328624437785544349124, 1191665119326356885281181876818516196577152532737, 521974064348439298417310658256152040289876053402, 491561766225568616134740954365575161994627120866, 1214899182522281754126999442573219400742021882526, 1320983810041143059756585292058325827719390308817, 851694335330382968741262547395341184943784611668, 136020416858354377724965122151880698817292880880, 856452621269303405604861779638492714415055787461, 816145645147137368647389630166777188582274044620, 326794085646411444007939700902927933558450905122, 1270813152906828765573108764682643282408641808912, 1416303022171013007334624752045991699850803611316, 645495740856033906014572744523965475344571804790, 123912287104123407216020386652803488191663981193, 548004321032484718821843396218388901167676410534, 366873889217867787471378721533626626603974785317, 1133810835989643573775908264351991230298217623241, 120633649219950423817315257567114524782218420971, 1021685407707653150866949567163470580922891665729, 451886434225204165442530848400162660653489327732, 1395824952679528431189087995716823960499559355217, 286741152418260299628868230582132185885578307783, 1079302091122019398303730663625965549625410102268, 194000130210896779124839573171497482420222085441, 1197402615556186786231444472407406988441762326947, 625633111890780975482600699938771565229004104353, 1150740029387620410373311327857793508727889790965, 853044095149063591395206956827712573281153608430, 959724010928739388383610528484006809774121132177, 1220382225401001931755718634326358337933704003034, 925501231292516370738176676336119113816626264943, 103387767585969076292480591031736978280481623759, 1291726625879330025641932001262378761140204520491, 1431836325239037643104228011604388248864210760875, 35895793184008788802808672718279192306051357399, 587138136463613579300195618123461760233895284700, 981581576608222080913385503078177853937131779387, 1365276257650980329412950219437779313094483962877, 1180679716136635102297729205350629254041883725965, 407627250629697006038353550025709288508683749624, 985725820254028659077704873628330709783172489764, 616171313257576442886294688395846156180033736968, 1131482050522635596400996310668975903170613557082, 631473206437266168344992882292870801305518999049, 841486977984000391490125732498351660547189454114, 1453458345280260197584547514973332211511963611526, 597126466958025774981647310903780356194012366377, 737215755087801489646986956135641062787190140095, 686952672173029364922592493483397663637704531215, 1050055725676001534324519638868478005946715496862, 1380075499366619073264651756809070105230560279933, 832110715709077580837563614277786867059146933206, 1014357994437814528872732989568857464693918984255, 750345830046860202596061546776514151094368358600, 1059942793795801478655437231898210591410732875301, 177059982297987188186944022223598777708910984114, 896493440979477106476306276863421777891073173583, 466274982384349530260902237287218961182467526900, 558908224971695404375417941501248996268728064137, 1282475920001942891259915547662589985952392968206, 600091581297815829516559874081294232897766414941, 1352950150747444815594131023344998652408598983871, 1113794663026601416600500856774106087495975700360, 495063291081353136433687778063168165591393385232, 1072400205091997732020937114089998234945126549794, 1105041008178818096162502417094889157176117659695, 66264429390355835516323981489123032456348992124, 458770822508648970091372372424641141167710195365, 21263966981388581582714286796803106741852454262, 521352193710358814583106606515867000582636351712, 491933579959807604879816142270253140094615672611, 1216353776822223722565089095815350521056236681900, 114939123570414331395190138648376585053104010123, 725851700775606989086933556757603768716452476621, 933091374288000883037932351634985671876554593276, 1328223065790779379151002189395217076462425898488, 388000885018711808620091687314959211892157979727, 1354308369691646181283474641058985949825277030341, 561254188380567317350697076361219182674637987118, 434245783929331371485880293345928152829901220867, 1132988466236352299645009863811221595675247201949, 909778296059574377220113567922184261100375206122, 613737590547634112118904048570790433297547061741, 875696353432358605033408206862110497269340285776, 410905045018457862507181664074098333912188717426, 485151602839680633217590338245186978666925753790, 391337069141855386761808487777698998175721343796, 441160637912044815094353896416531108481667234810, 1031650793533478749147807112535437453973700593182, 200150466635292379155883759642168182203509973106, 925334766090838965003599626883466428644024173254, 967651973458862992854108256902446025870367427658, 608141164947187275764514988338077181759047323044, 705149542537947245759255463112083473799380727062, 607265472391857767361033060941118108962339954613, 294461541629495115778129137934380259970252612262, 406438527620362313549870620309303112820750202080, 325200166921426573442607986915338691756891991731, 1298157638669817968861590191856862986786321308502, 1364537295406433290075532949718794879148314746848, 220984918137894857420212748890388206383663120539, 1378510111882434628370684664890840552704529531923, 1447904963760077867834509740690706721121056056588, 927262587223708663804133929436332262266135580185, 1327281348615384626229331890838728089790106184496, 120459861465289315670690199217077205613188280200, 902573970033330917004669660793286173526798409418, 664375355022169056446672104856917739500336470006, 1326267540216155939217663396714501689511037361536, 632898118071411531364841493087180440001739687355, 169067108103533129584635554569527872336214785648, 1103930711017801925623279888367364727313098112957, 683842020621503669932582508668543085851852807729, 230733879971718212059124894904604871418416032645, 347098525984308777702523598356026081119639681780, 731621229240112460287657385389578288992022732087, 1029624746701973611548755545315792001972517545437, 626683470062639012586690173367005399031263888893, 956034335442236908150529485513858392529801577254, 579390715072528796830902653951052655766901838222, 1387215407945629700813407889138228128751250207183, 1306944464402695282846715449484119945272074957054, 1384272242223984792230038523272100632984679592673, 344309932663294201906809809016692958915688099468, 864949810379995642514087086816694435668491242307, 207599818921236745165533793198065187902523762853, 338204079796300445454167579525088960250603228134, 324190901793513235031498907058804620797268641785, 1457304965930532219710138942340064945632289398798, 601526653998039590761263850527745256780195455130, 815695947056806869299543601641031734992607337307, 1195263791203338535226118504775507336168818755555, 256254402813109384739275709072488501819053706171, 1120148843127298027284262619864747975993449350041, 978493044063463490717149943451399390381230841548, 1353311042116155227385522559594621243331395797903, 1013244339873452478520620909571371828863235558753, 585581806014339342573065564498767610204905755271, 1052157224804838943097605914890338073554441023731, 835873124819564824517937460221787899079153210919, 247714487301799307283125442185267490444979833475, 943030636913136615506246866635658321473551202371, 111983000998035207983236226244498200635279504168, 791969002238800391826234261766098556469161711510, 1416637844752764660328401854066830830188576794368, 18931693331576088399223760483244726010261480609, 909075374865700855534711513276226483636637180284, 707805121287908329047998118588087684410589347144, 998985947770855041078212476735597357752130386867, 1395666211226892693502946649644709757754135522452, 996189118232627444200922987671811035940852505006, 356314998877903412780865350073107578496683163254, 635920661768859853297871554867726356136444744497, 1180815385403669017890942806776272018836699087402, 746815263123302251621255937315254338209584944700, 1419156743858897348686785691968033083844805280259, 953548842524087564111153662396275367207743864505, 802221902397211844055622885329550197134069852622, 334292575973014485846595225272214749055742971081, 580979733150758007614842296972866481539979059584, 1028648060171267974855336430534933405572987167995, 132675824241526303978365302140754943374005360940, 916915688692581964798077021932293706684012434364, 368161390728279961219010185068447167873498465123, 1421302664750804784210810287092981669021504415366, 633640377063699079257142667578258950675309087149, 840631381428035293801713967880097128488658851116, 1277796200316074312399204405049284111219362666228, 602931573393530855429253114849850233095738352277, 621853642849801410055132680658801394088808751698, 66065951348672693453237691162284842126430820564, 596395799848412856528849441743492683115157446367, 424280723147859810057924351652299592747426177230, 1036544362198871245560141795827563795530632899705, 1296717638631981519531925080534826286333758408971, 841548322594532236847990910231126071059228881988, 1415961581379039813269419907791393893154785061568, 648087455250623704775237030064565256318831015881, 1421747844636552942479511504366955990012663418056, 677355121397350329234502141767725573910930665641, 531119532401447410133259724052318313185601102171, 1435763308550434589500680118083397092463248627432, 704254505174923240557732859599376385805818367396, 1277956341757298547811706284683286508402070378317, 1178819671433417601840411493617033990137339282287, 849432056382418634767123352728103352438058998779, 1163843766865953933306768817739966671560007701849, 644502767925497660646705688660025122549058558358, 947615934312038210710520800927700020765787045556, 1170666970748883575000724968781108547022074882967, 1264251364205264923859152105704161758227978744773, 1063747681054138180302231435985990915208092604978, 822474965268279135937288922299267869838437033528, 1173543511793208153832015619762950528168611066957, 951866700081698296053721387145866287132071792497, 155093236309039802277063543933810030859761160064, 1306561808624033818220790595377530425114809873603, 120807956851519587027097314618098706967899492264, 246293590723413909063700246203234310720955659549, 619343213990522322213566679287502577466633720525, 867152503915511474006777498752041157605783162166, 41644625350091559666803913715872904663609889577, 966372521539885218572804457574537636530518329606, 859218749324426412677813704519972441497535270344, 662376921088004837198524073538242646109773858749, 881521288660903723396011494531593667685017915465, 501543927386476164967021894698128341537642381624, 1231248913670187905083437590502560013378470894031, 487152197134316355206958509842565112134988013766, 1349422589970358450626514470300865618357630860959, 1254759535109642930286876709727926703392993053565, 1168625563419823703177264750392545046980381510272, 577014340060578670134567859543268419829384841543, 263973437195044149603630542663763635008666654956, 1001670507095199492430352095833853358739255821569, 1303073940187208421112789575582391522476146914099, 108045773906598498561233769301794621114194138703, 113675391029808491772586685181813097798732157953, 787227633034679068631343428951114092059084264976, 1391835950052509932069655034218212415483859786462, 379125692808066971270907584019415639499471992094, 1362048404660976152606967016359087912227555190789, 1099615103431591924717449830989638443584957412488, 526517123512644661184799705678833959959130513241, 647330466412808190942238984724510429630292666090, 777778020663831630732938336194851806703238603187, 138581123953813176460198848434248372461892976995, 535965778447954452481422395450134141311206972562, 812331295006197285703420754232718885107102801610, 442259996337580698263697088549448407134355523475, 230943655214170538594644516823242740904650960439, 223609799419984479028818070644041620233069278074, 1289541454427502831871996911673642202148471499295, 859379877744501796384363771155398121443611265386, 847745286949997412218128987304175055190630032084, 956229335783807156048518985854969490589643806585, 1029395816071088201758541695203453864315597728950, 1160905092559543308287489555290704197634524608906, 865932238623058905504700133342292175234063123674, 865209961813782289729498540272781464366428190031, 775962244230439495965906160810629687073889975575, 1173384917033920250605432156433611620635984118502, 661306595157323367665866741937179072400636930883, 45197033004567944973039975007974275476880940853, 1357832891180723107620271332012001944964552697201, 633034735425634754403079842347577767908042191425, 835983527176085537051764767230544843373650939667, 322095529008564425585860373923187788091490535094, 1446650281670259962509311108242462762393625882975, 1418600048727490678384295682548314270882364800374, 484802247388555782209597353551158947561829611602, 306554238581213797506211894273498347543250635385, 1167987896374376862505778612581925989868114493961, 1268118810426472952437576030676792845649819277858]
/-- Chain segment 2 of PBKDF2 block 2 for the claim C4 vector. -/
def pskSeg2_2 : List Nat := [409841566975332652712517797411313015648391640845, 492251572513724672291767258118823567256960515814, 1213432062863768241423242926392083929220607046843, 1182164059654404594259136205843301025517652633289, 376851796261880751135917019468185998904800331484, 1354506321922049995224885994163325074287776513522, 1061526365034895952285187523049130491531936323716, 3653662581705658058415086310874599305587780120, 252818499283759544640352079111546284902474290329, 1419098689521837156798332147412501386126731488742, 601667364823497689754317620270004821849857563830, 1255425947609978521513273178146203297003893481549, 1036734098524704646420144424318629441534099370805, 136365968723971580728864891349552664753648682467, 1452723528827868261236051741875442162794498584542, 1458533290298718698422832968623346929626326353844, 9928540475305365117125004794642081985622912944, 268949790618968817730034989827113542732215455659, 758673850810670598490867749609459909550384949139, 736217158471248122708450565658052258301821089712, 711414091623287167878246267998611042888212374635, 1366411846881368439496718035119907965793673166901, 990056596558304716017223024137461108981609381203, 1266650148167997344519462141540416297366773279726, 1171287342727402064601849956036833221309627250073, 583015620457062699470108916052514981698574542390, 767375678464575380501116039195700630671012076983, 296583712476537563339597381202931987129961120494, 1155723696459352657536619286846281736444715187751, 711238659484948837564171246930997005990846789408, 50825241818506013757331415341495564775832450075, 757357934969854116454825828919883380251597793205, 1170775368574532832072632371142329050480170175659, 811861739469319661236399644511977502344067721133, 324438693343430450324498222821460595024955929728, 421026697315809196290034351116733449236212721827, 645159448897144085110382319491885196466585163975, 803870844978441484468511867632479204276364388849, 279136724422780649459176147882768306878996273417, 594758102793606551358692469008672939898554968382, 389154656045473414652178660017763404783398848964, 1402861286734216531540065686201162337513547463435, 813151340050190356750216502950668613160271244729, 846456125285117927936367061921725899856035327385, 169815292826298708255959213073773238085214631467, 942970798722829014376743340901603198026194961197, 741411419539156663651671731294746480834877989023, 937131349645328653085810480193385732709214051861, 152661863349396768610755717384751970729592309887, 698791425482999871892398146572964149847414583797, 801862797824997601107704408485654089300035205057, 771657639783957284587168813186146737154269103522, 237470425530475862127914281207671322195112249938, 1096395694891751591090958780333360214939866303719, 71931064387138860225112022712996748131095611845, 233963065899727131185589600188794578470610660063, 190192433407170235725505577825464575905142054849, 328265115013507773353913921276154380895943114982, 809552618770646745457610350023618896884662453754, 1076040085628299430783068140649925447817037426305, 114535835832039133695189212930952564649924375564, 926179875983327791063133005556827436644297940264, 1023877439696550889474620694962560864333773996254, 1191528304097527380547522309916747217379759183974, 593646492869831926166022090594832697967280544624, 1348892332649056957096336500217308273723184517882, 780416377513844934281706067356993153530881980517, 327348785600714262397622253741884001193126594090, 116756344041043292172784783174833063514695349876, 763532949109184960342771255045481829805006633315, 1369134763547017937532134781016299899080758492776, 1268539200757748318658687370887873162280212957057, 232373398464244038154583664060635320544140088497, 960847980890814329846036402218484764747789697751, 668541145410004986640048711317618616966927710293, 985014933161603060569139083147051856481037409591, 1380062084437097105626784356900889820881273677376, 87295990017654636929413566414352799798248731829, 433109547521386397551957779210471044786079958233, 1300216755635698535310372262431039039655861921650, 1393265162356956121852841167411618691102601866846, 1258073213186699570248418033421266783972552322611, 1360971898590681207151873007145084884302214819293, 327088767634425375591229310448894577930230282611, 107484736453343699427567872806715849426257862497, 259921490964124989066296291146572177061040418797, 403336854936928931917079293467139453506037379069, 56235395658792893462486678472914060195690271065, 770931510792530780770671207818896214685695658674, 460408398607336911301070543090927565971510275535, 567836361371174901941902448335789133634050108340, 446049996183853538038489468042791604951423388881, 784798001097450587119027183080510258560915069891, 1408443883628896532938113379690690185605898928149, 803787458011125460288756378240425527175137547819, 1428669306886738706522521395673352371754974978897, 557655556243202290641459428467125273055353419668, 180798311466199147492067762448704325928831924292, 715706042723748464120287275736036262490548527718, 996119060392119485880832209092984148667774150185, 1317153887348426590574682306910320020985091925233, 227071301460023865285102224681097943188376113205, 447251596391477469331810841638419101805488191258, 1439997543305206693028709194133112542780549990461, 582677251612602786773753631762010680661318472425, 1176150971991571820810990498812424612849564531964, 934092209040450325864895011103279889512076179915, 1363913414494762985051194787230400154604196255655, 447482494532269896023914974620875226016694087857, 210602688614394382968047940632408735078706312740, 1041225953853342443510653172069847442070370378487, 1329241060521148059721500376492910070514261901877, 1135127573232383257933638481454349659408699027169, 822218901379488046952470751745469789642610420814, 851565414875834785295614185247349232792531807354, 624338791886481837262372379497470348611181480497, 1349313279385013708233141551332755056449742081557, 790907925570892483324062009640449520937971220085, 440163637163088693067873692246035267102589531212, 340691658494567488993522166286473139327573903097, 821114726264511687984191623633511263880773316139, 674859538139723556860404231735754180363344528754, 858350347684769723062789676347253657151795084836, 199564785012961048728412036195910634516905505330, 1246482304077113381951845703420944835038534443459, 862833125070053955633948820680764745847485029885, 183899667419488554600392060949316294865923315158, 1186284985589098380388966748589921623757541503447, 202277889687829597386707265364819011511015615804, 121540025873430927723605059741921049670156860014, 159326294842903105909411160866763731601077335771, 174920388012499663420710632494412456032508447368, 1018999873188963612194459588919647853828737142247, 63401600392680744574001663297736517864510192991, 1088150980353742593812230382945622454055293395916, 438378036682164860307903289821263491592183376601, 193563834904755844657862700013891155560830531833, 1117394555279887214679532776280129344386076967020, 100393867640670743214478389200770240598246299302, 216804388123193031493369934568473239296712769616, 1283326782928127314089373613015247309180808350260, 646673056315839642799833069370819276937013120727, 126572021512564477284365348685068328277849503554, 654101675089350984926984829718897907872237492940, 680414302163515852430249794244756034104930962345, 1150204533070214845242935777712150453156728178386, 473232346303918715898281713080432009149348492676, 873716177343893538314771167784359970730814391318, 198861110531821848585976042115523316802891953303, 595114267065574240044707545370295183349076561739, 173096806190848256191636421103798179969537595566, 256449470814925689582162553482968486413913720474, 935464559804111955700956938144899819118680055988, 45503167343908564859779485248014790435106382233, 80266120694001333116365616740288593983140105178, 1148015152259283032176621636629443870865116115426, 373860317523549132107988127180165965818681381453, 473490978957619576337435024596661018481703857526, 1190309660733176007319881356623595951450700485133, 1395435181968685096237808131786617484039037109108, 150816004836832385495293467554317170930059193631, 1316434673442437723143993240244494332644129029351, 613838952412969013142464095176143965412246900733, 452849772920270950529286258123227099357179690559, 281838727187712256580473882308522224649506697129, 1203660671331005730411315300934118148523732137360, 648296353053136262610027537940764672148677886921, 292074204719629569588041711323620375712419360155, 1003801061581609779515168156637824720853768416684, 79376691982997744445356574749833822390402023768, 660043088682779145785363269249190307614984313469, 1411680960731556610021089434644729699555546943267, 153387152692528694437968565956184968682577063270, 1076724294424650348381570226740204972352607013180, 177628857333330420095485470983291914456733510430, 265211431282272187839918487471330677691390131783, 1186746575871379296342783299454071191417995594769, 116290480636466194505357146674696044952507715287, 13025528251883612344427815739276488856793379736, 341631346330321644125604150157501967282608044557, 443737360786239537790613583343410701688931707102, 1040460756855907792061564714017167460247517634432, 1023561104114239409376293663633667818882607773825, 153726495611712132774408351171938796315373544819, 213349866480731491741801546566463872261871482267, 412575480133526030158880837835072289097613635523, 1187320312290850475287205527008627718182145023461, 556093441471084337949674643500098990073021146241, 255718175442582229051030466283762946013951118637, 812545128154162717471956112370956006011766435387, 730268262714871895209494780903966153780404406376, 158535897576160689767566318912242111882284613505, 1320776990002123066641887207779936437955562490782, 948269257554794300562171927964884168501032485901, 30756104525624963015659048941999635822932060484, 353064960619243428095127743052755334656671748172, 431670500036357865652642747641232964650257123758, 814113101147986189652478791246818813366138365255, 1016096716415222305042570601418549482597614645629, 1207275716462784418437669298843567006520101770407, 389589356400551680311398542950365644960609758133, 460426458863754952990153339475806169580012167126, 643581905489587848295585862376631014169697894727, 574695033447687942614764287685172484973040819801, 129747491103621281526473649454804137213724950300, 1296153173329159755915338230059810685557489591674, 1337814626190964221172695653298342439047351881347, 998077226540510187444544565764766826612047205817, 34267591738283009430146215715497536863306396095, 87875954181316334106112637223828822594632078555, 1306084468247453071861744685223039764589917505436, 294892462486423130386931682983418215670702079198, 30127764726993722940749698799842055025453871105, 1314245354449665685913623005507741267460051375692, 456588941436379950004382103096208989080292644403, 558283011252604432676075503279430135869987472643, 593300837418187039253643051937265046640842765906, 1015863272674583213857610921883149676136373340159, 208194361335986186819934454729358373196367579424, 1186887845696957494752627817739431835490177346756, 822160525349916144553693547024369359472623126929, 1261564475717238396976974492376035868423397194673, 143814112133143006880756748688993695655952212274, 781620351576538801124426412030739377105906476156, 327907606411683543072556625835537639486199743953, 1065549218870368168146876206236458719250718766818, 807973331162282796251628506646250442189806244557, 362302317900834768266764636983921376536040941068, 741016711683129052071242528978522289293765212803, 520715895767833373578825118071241150627527244513, 271345183159349568702081436256060568814689893850, 987813844226186739487870716401868634837249130109, 525209862011199721206968383883057717608661950335, 639121853555002012597809084739577627449420658062, 171629580793585686906740015663521567340020144117, 1055206409136727215458738713400688721690210469849, 1017828839157452746874348945867760970521257524350, 691018460787716720472283490264016382891292937333, 542827701243228976107804305244440196267898870712, 761555844926591118767780298266260786968793733490, 180166511869356608619142149495945723506273229933, 1069440062651884955423165294622980817593435482352, 154267597693879680453274475681640590397381447555, 15487031964272564972368747492150137541814947357, 428423785145506719879347475580441252994374657736, 6164756868000524654251640029552787331516762659, 797775893228586326070242539064583439189457635450, 724378329072142932812890633596767602006107916180, 856808595325072870575928414051992594181736831980, 966740260144847519798006957592198708536728245212, 147992524779525193529694535016392319280679102329, 530013799292866428390049543569121821179787481638, 1388182709559075793740389306070314991413735730282, 98606941233015781843011822748458924375273402844, 1427638590735430492573294098934240434713476483998, 1385896721752375491117191517257184200712422323133]
/-- Chain segment 3 of PBKDF2 block 2 for the claim C4 vector. -/
def pskSeg2_3 : List Nat := [990265358073070091664569697325800796683805908406, 1309163773967979235939281683197888976735490686547, 1454981151457472155357940644404740723454892825667, 1105967990968713616725345994350088266500246448594, 679720825516180716784508796776180595284614222675, 768649604157658815719297874623676995071314180119, 694905849412364659128466566214187915217714160319, 1432728662817940171587421058579649533326976955745, 1212857056516421789996893663706457348781190529691, 159738970120841703974953751448871461693544314788, 635628757228514072959920230653663032757748653502, 51338088461030460422873738666886075636244791106, 856188744356718791074728059647208616319541640879, 1131895114941719726442798833409242520113691589737, 400286558540715381561580479341408443639555830063, 102188647948357736806761268128417147543596037479, 1329958883808769976059374591952679760169040103070, 66431819295245477642244157818740139376791593666, 158165763950580694189898772441432295726594020143, 1102046091532046996933401404141864048836784957208, 506409615051071386394663335393483374077617329855, 248841949504099569405411501936436406045535782671, 197423481379395717454681538126294920974732389066, 1303768047310411466886912401394555364284132657630, 214948332002892565920587449468567980005199268201, 679156080021883687954598633489345365507285247564, 506004952576713935940726494785883322147216936601, 1367854110337549233194642138233821181122165199356, 392230525252368070511176376299652808402164938846, 301839194855576316234147026529881148557728213885, 590832372838793971708552078153431881258803564219, 780678335789380845193973403249427595729694297223, 957575672085051844531807504150803261961164772543, 291080111887411295812301463781378950405960199380, 608623353057554363573602460333854151300406628747, 685533022161315036641381070190783897056546534364, 72561114797067227250364790446680219269479860694, 478998584117690739790944872910125486221595678400, 927311572253525910140760736896257976364728214114, 1018921380922611840731325099487522422059680774515, 1243613950741609989766623414529969112947301008257, 1191797198662447294958145669496740586002805939386, 1067998841888879780918464149921068548333176709174, 143017321232964412990460851292601562562109013847, 418301162711591958180835737248851754453032749424, 1376327570818584833742725752535329635857409936002, 932027474714261970378291403102038001222545005363, 813247953149657497223735644163814839482172337791, 57761907502252108154810370475308248356401912274, 1151472651313373592571895478394785553103631391194, 267362731932172971643022940563931676337670987911, 719164123354926855442613372576194845355112839536, 646083660990928542259379013834473221932102821329, 921987663858785498820601944464461704364919913906, 1430135661092497405290277347451891098367211781644, 368029010529756633802218940573730296688416589523, 976167492336056186474068302161379307597564229950, 40689333955322354510714042981973840467105914569, 604639756798372444728000665262563698373419469032, 1250366017713091498318070518586911656382351605657, 605707178118756460177789541710674560084664141947, 752433443796378349058876234373314485260020596304, 247564590330880571752008685681205239456838448677, 648342807681866332263788002702162011828027030814, 191942363604926374961670615390693794093070862126, 583577217441520445176851843183651215410816931528, 824033456855028071799549038051101940526885363189, 901269491871175459762352168372905246578706250945, 1054032460015575563465027997706218373822012877088, 1003567806612242583653481563014243615941092370616, 1191812738020983916265242455948013264230208838780, 761946237601145270515635018086823378421572970603, 1053274184339323130412135217721477878739761815360, 155418844314743534770835152818433823287595573557, 457352076135711257630760816438130900520280239252, 1310036309964280799612030003727608609329216640529, 1208527737473870206388882873634612583526211749402, 82373468763832374079636595116858982693156423509, 884148501923623857427085159737919057757221639889, 272343997933336538800079093135255449776356881151, 465529468887685589921982588900424238756684171766, 1072520178104831052995409262262432895020066453611, 342473829523307988713673459614297720340764370590, 400519453545881481249350905405243910717911296366, 1199051075551727795839655386612200388000590875548, 1322633851047493051551391273482734913397628785579, 781503175664387195233882065938600563018346476190, 671215649196888232130749349747123141762589775920, 1296158409602133857680723473270931372873732557058, 1121574198769352833419783483729424035530196442027, 390208820476508768830558698327116666328436945176, 494250952173572979015041849631741236995697349157, 1040084228949213079923763954396736939460969059482, 574545676314118756385981203837082262171845271338, 120872939396287604210900398056365207276459064749, 1410104218827378735549643760132910654057077951862, 274980316685424046016715497638333539999757505618, 58336743618468556779449177170876330698540480206, 553405625819787260531096070679341159716192059839, 249041336237043645801464294179762880419749496425, 881173021988634003561224458385107914021343717379, 1136169607814286672868719808919187479435726066927, 110495288439769816222517782172360645501971693180, 226315632488835958600940359908411382303822218346, 1250257776458642408313578793044562065158758907446, 185854500812544215798283352069578974924574566150, 43217118507792601543952316289663540446098689114, 100989332310339602916029391702808063323165402487, 1299234585759524799431273948273206824819133519316, 733661657841988507171179346459565342319977278017, 520209020594030160196598286085486086870544710392, 875453008943022891662014755740999219340208882570, 500362922182888774444607925647603088383356584631, 852840643416412286844163678173581707015497054009, 468531444264788461756514103661491549477191353343, 824661377209846278186001434698243514958631046563, 1119667748850889727442875415844569540468224424959, 142546143844002963439091696525561550725277909650, 910738077470245527489803905767438003411840080077, 1029463838506173945751798951651943965869543667592, 1444507455113111290474968419043233489492099920193, 1018536670776696643153362930464243876179824527406, 599705039854689532586186398064919746524620005341, 1060477009653224753170748950581491711622761757673, 673587102685334196279916770994378653627310884729, 1235123121884933647769974491510952905109741839608, 467260886311072963444193091492987357590199762937, 1459748032738375227853566607404486090927649632679, 473679774472933451233057386988371232978840081490, 62563778497344008311186509513992184785085121633, 423532285240503968679154488959061086773089159550, 637680017244991195298234630521798699062777878894, 724759410016521789604038263491024568920093229331, 1207500677224761408041837792333263990148565135033, 543010523828666625843531516207943917838062151477, 530841927591571024603013414297639357834513202476, 1390886798968284673098203013368866598775941066668, 997191217680081109982813097373958935653339092515, 1428512031741479869927159462660406327147159939683, 353790268208297080123993853033254447062999488197, 502780869179063151916472971100873807131763926834, 627617767300308363314743695370390121554471808568, 2037963441297531219471220541724529620929761556, 641303178220465148089894899599632910318693686997, 935383154248134069177933526498450319874687649284, 580102390712585689887280190228815252086851873594, 890830922552843110119280228194302063604310239118, 29085299764221704323845346578198421756150003138, 1456801362227242995662233771676915230758432345442, 915055149033841059553305806841824825460047494103, 69782668014672405491758907441082462871699941197, 369649038500332026128446992094201810865653450040, 841604838770109868224930396915843335788673480799, 1136115276880514339419820363135633450302182727086, 862538655604464201375234786123531879656553100484, 735482735566106603117255297294929594282793731729, 349075776171530638470428854138836862128259959043, 596456360842764286862431216405396989857151005790, 3591156258584554759537404771722815569583888378, 1240939435005259624038635303067144663596496361572, 959239357406668321932490717612914637179573540362, 844295963176342116508863056085583840195082853386, 430702431524776445948000101814760755549330879062, 127182213677829691121362244704200304790458579566, 2288875744764870921036360546791463307705646617, 278077944257472512450038073172129018055469584326, 809033880120020390281864584667668799477306518180, 555021448326064289876082940075722989857236931905, 1084885713432749448598570155923722565642223146391, 548721052576282085574359294392739141880924342875, 1437182643706502272718123075021902761788895097312, 1388606277292581443875800264626256937193132171125, 112888769563160278570465034126322474381992066599, 1008857887219567795997549991991175477704288581898, 1449079068296060737064417967174496661123690133582, 677960733980549586414296552351690900106718223976, 431842884743233120622522485392984306337522923249, 575281103849278664712218364411200848065520803937, 1116563788403695289390754595890584507968250609111, 1361845653536393526245648296725443516829836338145, 129891484513662447844840510563855811668382961846, 645423315907158618586868436789508287115125960741, 776435102380478512762327928858327328291975742998, 1183616344387784068668552690381410687104584112521, 291306253605351398843144605907882112219525057532, 97275643478294206598848303358422491329277181384, 1102827655580891376952143150730368212874921438837, 1121159655309100774837214949313001927025347753585, 913720137412470253735381368423080121577508678252, 97267931972805236732903495377156043949338688192, 1129702027829938454132576286447022910752896924385, 135715932156646409164986773474507294679628027886, 1209471908562236897643836606221682374402629324567, 1164333434165033642940143386322572535671865107196, 349857745992693353985980068135331427445359572940, 737986212891075701107111879351084958635826860686, 727118207609930224769478079248455173824766404025, 228492919356244062550388497711719931308250791949, 654895424173014996837390832128695481196398639758, 89632010126046273711418351228400849356129165767, 1089347431845751238068155296293527862182585257107, 910132040123388721745243206218366200826559159709, 1433004888258845725824305406008456727192021059420, 822967342896754097071497368029308206507584132455, 502575209680034787368821083812850702368787391480, 1341856373730405876720920105595615703231135670828, 651521639016244384371620069284814498792552054158, 92817694590976425017326852621602883877301707880, 834918794989558651074254144752046109242221557554, 1082835161413652688705709204417641418990790518732, 135452470034223575140255162747299916405870483887, 96769816898023432780245304115021743946660277765, 637845909482815269603964726980216981421786141873, 783114174023315193343472703225640356471433366511, 936214730106778688534061549318709792738599663565, 518052788380324212125475123393539936612991468034, 966410749741718784702269360299143641431807167990, 377366181791464518236034538456494202195460998186, 154413494236229608593584730971579365879172407864, 496567870781778913839333528445134690370203110055, 111251637477122879591507013814372670696050588634, 572545740046988782928673897736803717117570720181, 271907364737669694505773082808294422677191645316, 500857865874214082215299917129944260344877265219, 1233986163624736734480781052086906062450761321597, 1179655770333416995857016240574064153714403387025, 36740750737818719972628691816124521386804350850, 74376208878845685953035952288794336475688451611, 930800340540734226794418244517140065252739903148, 1371350726394707853766852165481744934334238427604, 1334272045993709773934666937979701230474018600079, 917283267260516655485848345914546902689465206587, 919422263396719645508654184191623243097958357419, 783920893241629947578351783764194259805654463068, 199125162993600817123421067907857228539873278522, 1420897329841248182991657537432981117315489285512, 530011856476484528441434204961093922904676168339, 736631583804448427273620197390372849378999405607, 357940247218363688968640846521397932798191723554, 324613848818301761459834776291529784507785931755, 1447513919411605541990050556290843587645908392869, 398025274758842808041337688360990086333204994506, 747699258479355408912269497522236308938422909306, 323643651447578907273349403776359407655313578197, 444821069509372008798712948028984895145898436574, 463590881731234780260413986593269007937082579551, 1389704334308547893915712351943886511340194749443, 528482919892667903579534778847945930250141913678, 665599065952852020787260039797114764112580437335, 343037643919959446506386167603542275516168443059, 249265494958912323072681278830960107316563059641, 945049784746165461869151622903417731173878681692, 1086596340608708595581157875777055365668347983993, 60515710669584713711671926962609181038075983989, 995995268134161805600997680337102276031394362957, 1091153657165511980564953554571519931959777876314]
/-- Chain segment 4 of PBKDF2 block 2 for the claim C4 vector. -/
def pskSeg2_4 : List Nat := [695825305296896958256950876636063691147341644678, 675885862750807754086847542459633697643071664593, 875492695046414568391229946915029434212907961030, 363301937461139001403240211577000105355002512126, 63724592724465702005717355148952887913014109562, 558677543086052158235346577123788810800444923328, 335763221809144661937018562573438570104923907019, 1385854344370578551529253236011468953945707012014, 1097972056529854458792357484501970060585235629613, 1230822094118425875699986228307932648418380152320, 1192825047790308219481588175327846443448670940527, 1048431906582631048914631614548483085062256287960, 480835454953426600076949869420075781718615919719, 455833089867036384695762449075347753041625712843, 981622744086422448155276584595641697247529380800, 554860901364083605791455593816709052898920905607, 582074569897196286456356662448478340288258003193, 74975097111532669880119943290324649975895667198, 162136329241679058644059807869442074237207632767, 643553488188975867363411532588134323983655667729, 355588212044602506729258966469604163023036103168, 308669729032260826333153114911513220926806879820, 263613055014516302734401357938447255758205878933, 1240336259184624213914420996419981677173810849753, 463993436568162241184095551094578239997903823345, 1152333869375123615694442162466285362223528572100, 531079414333711636359912559757700705972436313079, 238813006776972753494633157801404483966370026206, 295306447736607087147118202921884318227213403428, 1256075609230109479919251801636994349736475404349, 1263725248941288056621507621232973982931748455689, 1370291221323304287129356093370099080137365789295, 1446002891343824513717440821173230721895407469535, 977004722189024519411325540713310540759430792352, 1245882982008506633612092083413159969551102016477, 1129732972346031482332007119809416836804711121070, 844205777550165217081488865108942848796762896952, 1195486506112184747010350412658785895451985776693, 221229519088537131792402701728712540556328857088, 732182528347062639426002539822828226667594544136, 146330877012548050590461320915730542067619286194, 469712626063090231694145400882034518737682913291, 945955622740829089771829830514555064269917782883, 1118199736219547775886023324441855883216161837937, 598969198960603965481602427869049942124036661499, 1016584903164354289576413835190791750004700275723, 1460874419652988860269712674603452988667733029408, 871989696865459909630338953495261196163752904750, 1351283120796046473639224510153929885938052210473, 247445499748418986672517502335371876560440278250, 240509424949753039910861154859031633721161280220, 88275022546281314100380657667307802437478555735, 153618983095452187765425675653806255791707633151, 1028111366476700350615671617669522853506932241975, 938545305611842093923786888747761973655160737855, 247290549383049305110346786208931384050088418255, 669617965863053634836226045838186930114501871535, 1226238245777801656478429126931712692883397678382, 1355255063702285829087339946624583898575926324944, 1256764814674241021046325745532113726360587615215, 1366176417242367222998521366214160660069518162736, 397585835358789370847775203848833248316715486413, 1166215185054374788378262751069227217765082124761, 447803786268430998238166712725848930918019073133, 685483898900405140304899823071089485174493804006, 968855622245817727222869810364722739793427790986, 687963283115350476734565879037173015992159086260, 587254834124898517413236378821391112071329695108, 218512493772230408444557083047509406549511118559, 461016301478673558678538475474909157594841349631, 606518377333509956880262723944625941024281053817, 1443610834029570830278675557800488050133472041019, 1146376420140638374192813811272277933630242122485, 675326318246958905895037086219265370802863430180, 1123956560241956507715513382972516402395868249707, 465189743080604627062542316776897160540104210598, 451448567068084778368100191288052031501503111575, 1252558991195832982324527285310403028405745544490, 357982464474633952523901697845979426232040941592, 1354682273887554934918835546008576640155217873791, 255426095225579210747487016009174095530209080163, 542903400749518219681203713260093258971109396261, 1073453658512356006746657131380470687637901357224, 123419754440490412129121056797279330984079464075, 1302404884449517638152807291816327074115760880359, 139474395789748679482849325577329914555213585989, 1062206231687361503460193574042862019304377391773, 1386695746354445533398457594693834463769828763213, 44880436059122167569791379881192610009002037813, 427153350379004305166655057092778057635618604999, 1358853684906303350184938960154554594361121893594, 313297731857243784155047149797351324832329955436, 894603520143084639097767688365527727595957249867, 439974630439716741854732523943978939324743517788, 580346912507917591211662390518828880021367779912, 750752628554243127638331701561013861483236360345, 529259057445411851749579913081291128961685018826, 1328970681738425996882491594710546165710317491855, 548847661749108485719999768006109579461858647050, 926676548358748949270869178958337155146497504076, 791492376584599119439357675785181614834521645458, 924414993458179565118724786370828695233531981743, 1390993850480135849495716617574738986609487411215, 1226541474915615886441267954807804862445888705887, 114666621763225064504550952585943688476440030902, 759974984726476722215489418258791661280961937987, 1241760983124368767223226063065473591546029319974, 492035177222352770900207626904737086320026414707, 304516923065807371910593862960271863467457910033, 708899964220570479598535440967673590822658577548, 1063599372679581462670087135965773077868553905940, 1103731302825786365769864107142701798082036602783, 241297297997002108695186747028294934207652732246, 719958395665164395588372386887503706534211853336, 692345568011636647788793943707510643318389896438, 34118429822458008782004238818769814276001049467, 232851812989009268591474516427439319234262505769, 178294065103453784918163795960132760843664173194, 1090211516679644343037011899007842486172021447818, 1378538866991999432479344767913442755037386165345, 739249387989808335899979604551837802340473831782, 393131446088517660060296009920803014290771198079, 1456071080778145026123729092481277141275023227840, 419035935571108983068682004985468554321077003865, 427318840834027482350021282508364124756251377758, 1338208206256826492339694198549595851728527105276, 341642359541549852569076626011122354320355465548, 223687034317978303300933284462044468547944821400, 738747430016038073032882847369580116424319040348, 131053940239807145966241527892143786638778287411, 216634069474109869305327601400091950419559531874, 1385063279549137150363287816139003861317805571692, 942496919621189085713388863601648051410474719645, 770088336426404143456458986618338251120172981259, 292834804487479390589326078716038256789175830019, 1244672546685477749139341002069149556962189148236, 337104491119262854158405112082748574899734935921, 339057294583488726902472308348420663565711224849, 1429260854100580119053149594876446105141823500500, 244435188235282231429750680349406031762547919996, 658041316355271702062273904327362529091275196330, 900836660077036996267728241850043823065850819407, 935981307517123751954403316742378317916130373767, 106200419406858645800825403627136944569596864037, 896350899299548294399011571471088801770268154906, 469845329398973750812333670912566954063179461990, 310813004345328950407019689950940795596034438456, 1148468184975808201898281954290374279206387609091, 837627713428483619108419950797389746011805459385, 616385848639926751267565824080016730048131819307, 1326565302911801193917036652246243613886846620509, 1198278349461430810222046827361679448695967977537, 1026101187928687872338599319871836359511576105086, 34664100574312424922793633614284476070699716324, 482294154172629458314403121928821554316899301688, 394796326470643962883339806407810227648729740905, 1193617271041520047607484280329748036898793754433, 922977422772406585883955241611803691688465951725, 1114499189521696577259755091838218728572490054261, 230582086791508506101479024244380409119955114847, 264896066972685717641440109146791785822800847887, 306515266544449791217933706489178903820887646839, 1048381430722412486509656517354731670245663049513, 913377955667178320785498464296424856585301856867, 69151920110621395979278221260832086211979013887, 517966454260252241964918578364455679207817096546, 554147591291621607174987458214811157488036311748, 582811160891993376585543349297534550623108877294, 520434000621072715963506664642527944535971711665, 982615307638584991437670235333632847512360067290, 432346327266800958877935218162073494748454733944, 518984868270038741151671823572239352796448394552, 1451695287310070519685583419800880978657319700664, 197071742917156746214907235915679649898747340812, 1257688299656830654873752482564633307532823492609, 950390935242402708083020349711235035947560495870, 452888199393870957213537808743449606871686728333, 1267024598139294808966227964512980666095929519194, 1197677980907182097850046314708391947335382208240, 959926942380104496618724285648458309355027979046, 596833542221634378535433473639888333620931189261, 279604533145920631961954451366038407077870054936, 849325605041459374828232189171833798306922025813, 646437823824095836718679016626466733990712591354, 322556161420463892086674824521959638876430598471, 1296607799820655719477740480921538438767814267541, 1213457804671423851943521111721840148171301760128, 996714711385107816657269797750483206254712846418, 1183292102287512521732192701483795258483292132052, 871581099242282637421152126384221148507133349609, 824208996766384704936214674379468705026768944605, 382921589415694854224100462429469851422497732253, 1130856694042378536993454314728104714176297208216, 309697748876515540071353838757681924334546193896, 253203099735691087413714625737927265302682625958, 959812935905045681373091405328972339183064940107, 98336148101822956128416037195862919364009074112, 1118483393152559418885531394509514841835664679520, 148472358409332956618696922454112733034272905612, 215116843604719992756913974751388489291893658141, 54623993523563383920502742710974931814345013639, 1299614515329937142468630210133712893612658024413, 1452014586972520019699045599519063809017148225676, 830667977361038798565072045235656106973323549153, 1056585938583724485540027742478178777944820389737, 1079392263826625362351831572878637399661845290116, 86365114641831293396808174295143898954876093693, 1305864669721634158483920944236363297313107428323, 1190173447763597014580581282738701767831417457841, 65644751825303784274271641499427543563994069450, 843484090410590285582774435776683947385756798543, 1098261847840851209558943345817438248049497082548, 648034928323212815994648090771501024266116839177, 1128734865460585570098713712338248969413537562967, 976782280477683746997347408474148566502404868965, 776595744770930379514210982595574786578175679415, 125715170965449746510673923048526816388861992134, 882347776625779401803281447304230982935291963596, 1283420501137929988273990851163324124228661473026, 258909660360169943258462471884619253961540386807, 127355472091958806427700598973207587506770283396, 91973529709704645146155409047456586668755095178, 361422631362392855485261768278624808245025848290, 507705498889483312827626233690120895724333881248, 55336247155495107110520645931157172990298974027, 225955915439903305892762943835176485668573697637, 214547820289937239326378876462246239642324392335, 441623176183230356369250126797499442425910684489, 1083684542042575392093419764811561066058093297847, 1104488576181257505935738689893944734506529695941, 599974851402983576668959204368100768903624140754, 10379918449061906198624582439203564028237441820, 358982191801552562019121663072625828523047690653, 176330353405220469559714717773249287488919520367, 662998370096178346431980168201399445705613583411, 265806111889108210046748381347234271502718220513, 527756969036123943970180174271457648472382117732, 671216377812571169553844216312211482571867757581, 75992242030418318228200794353965126192195025215, 342509265120628153887093115826622645595547413885, 1163404988589168004828740585492003543774236256219, 341308266232565363523220408447320462572515895624, 92649957705584199648183149228857949389863316932, 711097587239684342876713531754228652907069268712, 797171206624967635567367628328230681704589025077, 592500522839296408777993100950669545702687471028, 532972996366433478247572612802940260898378124370, 1053202183756558760381188757292007808406212299400, 778285444149323918862574265034876305549759672581, 1452454312179877157730519023199415519986683546045, 198626339870494929746942367396982681191203911969, 469192982980596712314111338550791302187588337775, 1376879510772393700786812414398760695157245099996, 1437262847002463537409483648688310543120351069559, 96177640337477615590058975971956547744380036944, 1026105544014519974303311180488821425940153975359]
/-- Chain segment 5 of PBKDF2 block 2 for the claim C4 vector. -/
def pskSeg2_5 : List Nat := [235410831395986784247197541006268832647883315048, 655910061245711166666172480066096478472863144134, 477270518858855376000626229581431143569137479206, 1400728657686303199922123601507825754468701031266, 750068897156351134836660412627392653118562257499, 261393743252304631382051219198715894977263122514, 752365501463076065232772699167139848803896083231, 477984056553245322400902430517169654391435444705, 121906371619784571866712795294347848904076786150, 512369178345638557327686830305132012535210870621, 1378387702048736600901074835247387833865536938804, 81994801751528568534004013797195190234327522070, 1414035083373215351591416155828651039744438337928, 1048228712603878724098049795033772990740302460563, 424490393849709815015471512907030177932310817834, 666954884542900762441026746409473985839215069277, 1354350067922916350872973247496097568550626865369, 26863675161081598803969919192493283426400065266, 1366394965093343339026266588526786001338754559980, 119936278408623998987925182942615567728192766486, 186016408123869886505240260162725078063521958499, 841210430816025862244806041064455108236588960467, 219140987928653696432721624917446559983707690108, 1116252634473573525719776827653918644143650370555, 793772946629847063345438789386758478115603523896, 1116183861021565841346780378481337515044241585848, 244058656758217421352678123723296308215809589618, 953653962311844433652028558423069530251807357344, 1129541352336214238233130547725863145576303678297, 378445211786541970366602234275227128286394839336, 1015836179237888472940974073641631618049586797618, 512512621851151100162818176554341772655461723922, 232150587971970267296256945311913056236103790277, 1226290899270010823668183058777550695166819028073, 341030719350085900544474973398645863573755499366, 15403578342723711092768039335633139768232153530, 1016426853959200704743550010990550537295596435808, 74179221988810946438843053209783621893002088395, 237730306934146608347037149225751210329514566930, 407504867326224086271072774356438119269084735639, 660469731149799636505258174083298825984446697696, 1456409204196459087522192681061482398313316875687, 342822348812997035170054888531102756632673207461, 562317547957012268442148992044435563283287149855, 141954456347038461309247721798311020839110814799, 802935045867459389597516887319234806187753742846, 692017014748147472027317134107920604494559465952, 481621166683851868261193483612590018182122530926, 1063279032469053400495206849268085736962266217849, 986776500608108780409949759809834869533397755257, 110480110142314416033127394907939763223997935567, 578858302149500556968173027796829314667921462554, 455617222604552571975132463465682314527702886634, 1136171140415908032816146624537367874901782607861, 470103354316243025388230512363231061725822116824, 60616295133322859647366635555557887984751889291, 1419206864979028998440325949947697475047998001590, 1421337757357771571271219831336632646807282220634, 185720678669327488912247085395234332983088163205, 753416148261166095094072687609583447661961494995, 350761501629985612479534393551908390945455177352, 132427918091822144453672552846417612447625048529, 309694797973462153577595226301719509230197743543, 1307140056339486684856745828947243990765956882679, 731707607149605020863751799127015946301916472758, 270298501842400464088706310514741290624105246440, 284889522927766513145003467928625786028197787865, 258127479909162151829309338048821390557095657139, 1399864522728484732990486388237264882551361514426, 1013030178143308874163688839619603189872063939950, 1156909798779530373514450730103257468941929849250, 73023912756359683492958605213367414506085615491, 930505632986882222061031620487106175389313688339, 730750569896898227541997929827113678216678291188, 1044785472491667347021374198193212756735321368063, 748381070021907982086813654403899272872600746915, 1202418337231846037722532528537049522841616131542, 456956839248854091158657573277655977501174269342, 474688241131477345926210327934953989365169175719, 6460124936789873643807217901751482099146363573, 1067432759992638732365018872132676913591787171848, 35811393212063742147782729417672659897263783826, 419345060552487006695566468554875134956754232959, 440386641367749498264795548124513133152413458708, 587829094619185866981409055056292896633637429894, 1297396100882198485580091976483387128870741415752, 1156854450026872664889876547547249626440015536021, 731738499334823961716216495961398961490074637468, 104463866473663005429009722376115614597348306766, 1158350304869840444421986591437989736870850206883, 687526615052671942183710581855389357112713143804, 1036378068939020244480297614841678638449454539022, 1143627123424107732959286960658254795565562979520, 1107459532894236778302863003316517428423910056803, 1421823426600917904357901389326769746303080717643, 647352301557314412653636655890963374771674248549, 1061179660135747463820940529579484605986288860633, 1176583504993703933960409334439954520562811336573, 1424821891090884037902916011324298902119472796106, 1339554231988895003311446875657498435938211493898, 505540374567507460896561679482966112657013550584, 636324439977338512878691969077916613336241653584, 1075599350946505244263846555670076630255977470518, 351024579684146142571878263626745429479916550560, 175359953023798923295386178912988372911601743140, 493780242510335501317809841252729075431839168714, 546773164617803221885501290988467718362470184997, 88030495514504514306472737997391085179732086853, 943237346176055358319813259895574838971323210434, 58544080108232772359778284508543802581708634548, 279450633830213174401413120144610242451588065597, 199797854800123931111094153742660920199619976177, 224196119971249272776666500687998297838681665137, 502229848947073013534624656376844881916698014939, 438164193491861661822318560001556018119117237865, 661231661595953407009407621686113094724730435491, 1191778816509993400432229465564645274555684345776, 1058751579392437309110816929495997516432211622733, 682780444086552065015535141803989221309581329884, 132276860712425886685381284409280936218087335468, 818934259121318672686515311024809728686959262695, 741476651758188843394434851808235879981660011945, 1062809885553160421903856664257928188212648503415, 735697488529968598719206338077641227734307002369, 908580720479116570388642204507086904803698558354, 640284294319570793355989718792097979445550995096, 398234517030778847005873853057373121552537659978, 119070862131760414651998003257231398686288150483, 458359904508221180383821909867937929393127106314, 636530122393961624484386185108828234689374719657, 870775664013302510875894166774565856177544725854, 40272175660190514219047545034797366370006766668, 1147010156674667716068095615388661402297284327625, 819073515867877046391051944968763713383718895383, 420360090846842304664243817438593219017290525657, 579275885670624896661578696248140523788936061450, 128622454164687100961007852486290242970838843435, 1299286411142573411069901022825179176080133505768, 772072604201959282156356050636432375323205020422, 249712751454491428687043909275851775320409618296, 663111070234859887465900395330123977371500744107, 827076671149523581413282490557911373622263850143, 678563336056266419491548970989595980410531562899, 163743385653205159887060320210088649026717321978, 1263383458312732359484113847718604401188389836961, 144618959307455107121789096326239349537392874430, 1431464387327211915208708383471245945393221681845, 661257159700327760676763223566607538845802438396, 372782874089797843053130834721460810117894636474, 1806331512285795268799723754457501480360392241, 1379229064648916280135783960909660118833946592881, 1326652240077325352422477558549870523994704474281, 1097605031463446123337361772967399487585621555685, 211038579874745952484953228349521170683055834233, 461942579576124891218305298277796449620740361952, 495143742606435327513047772728566466153244275650, 68300508664684425856581314980363901874199360925, 1030617351776734457038277828540793441908255886653, 578035705169024787612215789109040692335440990734, 1175308856501034289952537655858335134020675566311, 108786247117565934539669679131685562828647005544, 143043375581215389844816060979090057973900620113, 687933171781487875769415678050545915623599990035, 943348183339726609459628201132582549226056686319, 344442481168024635480675153002678796131757636055, 856314469978352387040446788641135210086180967480, 1072529669774586737765337525003456023285251563518, 1178212298598679686986682571852765081447990171581, 297030191218403376967776266602127041155832407099, 1007930847026460325950814554503017996489711272323, 852600961777375774644126622554064477364492918809, 1036507464663182341093443622641122254086594004155, 657596777879067626593459407779088760581514352374, 684863028321564651959097104029458335072569207648, 1111946001230588945442412114504958112482030303786, 84987925001429201444548195237033486937181832694, 1277486597160103407636328441828004655735029597048, 1348832206270317557124435079432707687246315964621, 165332175424487944692664879111488545504546911220, 386466097754644325106196098146036074407834388578, 648461116233982464003309238611820369480132671876, 1323029287640477037833875506483539484365519542519, 1014935610828347712810788126815510614345940059140, 1172467593621955592541313496046063853128940139671, 1204239460025111789970063328749097967845158604849, 564489776262544978099268286544241661008461442791, 843969544794991036421673492282867445108001375855, 1349242492159269949859001315873729018950469426752, 1281123989626278282407702595654002188765357267973, 1094765936757071708242364461116220922555991846893, 41639147018131947375252876389309806767234029690, 189283161844085854129422353014353590567451339735, 324038427023195452843108190810932980579018332495, 685722580023487186580462405345564797194107412950, 464807942254104207906792152842372806775537566784, 430894331180092870281435698944628128587253505971, 1337918485789224149722556588396655146645738983062, 504118731314866847454233373041330329126183820205, 282787420469603869354274411759038593034642255628, 597223828310020997827852155120656446223595382306, 106450591928678815338144832689636944954252160228, 1144587769211902795574268049906629607863157519152, 166043284313118953172810993381019051473331387954, 1273972361602811840887379469826018665581749870573, 1275908112207812208720531489881556185207922729916, 1261534673277251996073821056717640159403149772478, 302718906692210227831350610139007639465734102174, 564267040642557950295801901334973217457414467474, 780807199741217027616978995596055042154152841468, 51162347936549320234163164741167187186654898912, 617382406433637497240131268576448054229300768381, 755353245631715311056475363397089687327379573655, 1249509976194901426949553487248851795068115275901, 294632474517818216240629915194641329459768814457, 998158304364648702026429695091227834754411089099, 1110399443696759689587525741195279613079762065681, 1360545671255274686861053322835206411867107081215, 670690303370629351224956864947769317369398462818, 1020139050369165937545687387335372850731232839995, 941207619674021518835778386102227466692087762769, 899526210728806484383964113672371143944472859542, 1067041314195323973928498491385367175626784217586, 706850087990014327020606757179331751081671834706, 657744767756024482886884271499928817380975161347, 1326507538512973866297189050746692010763124384916, 1040029001941636829075692151887367479756264646898, 1318390848051192190754140433352187875067589770420, 279126432380903496907056350676851045489595249396, 120197149751421817768626592734142999926579807198, 823455435084262323862673304511866578064404647272, 134915294779897660588076784363618038253690060181, 1064203467665046325208844993601360392229449374465, 1383311411017479038640755330617033550022333472603, 508369237695311924188181617935453943324983496580, 1405403629414166481920640337357651552485468512152, 351432488375088565533377301330765572522005760838, 930884885379464958773723157565380280668278395031, 870855006257561744486615331189395999811004690921, 71322685415320192523278481308556048280172704745, 689211802327708478612383110867714522380593051120, 1098947810268977993126026268416811628864507979945, 559451738729450072272649081484889682224158875226, 424251494849679302624006626531543897952668626117, 311237940491527812552345019787346006012948430541, 576287659943551800311433917907598276027652237851, 814684887080660542276775600400965891170753305231, 176940525515958778577083774968928158840086106048, 53498349473752898203887079503899298687665312646, 1435048617516022889878535675623565023775449026825, 953315998763032147132717488600714790607158640256, 285783485758461305234540978796202983904728713692, 1055246933910994118212251730743862402191746037078, 1111259813549416985801697045936615870832187012737, 976959678283956822549794547803215136158003996484, 1183001837746613850560864316458873155382073085126, 1286008568435852062399035815305645359159734090569]
/-- Chain segment 6 of PBKDF2 block 2 for the claim C4 vector. -/
def pskSeg2_6 : List Nat := [1076921558197525825558985439145401118315962550313, 770571257316455080323281907393415379634523422331, 1423022009151517909350059144573699561653944119406, 1123967081732226451294173748692884288443754635595, 666673556783230164252588506687051574200022496064, 1054654020962515732103102489369831494938478033121, 1354285961634573189832946868308248329102923050741, 420665559136451621084784429507668728627519902392, 940024503527312810415805592662637008121738153086, 738223652501536979267990707890987145309210210960, 276689415094988721677319256760522450709924222844, 970189103334074521830835441915499466132446414026, 453754520322196240600355657903302750404823683088, 871759641934580977263532915880743495539228413155, 1433594200977461487227694905894168469090869732535, 369298249330262928275815763596560565832898717277, 471134243183468929955741216948019685052847121725, 173981423209996384088069718155075874713434314887, 931908629818518088379266869624361040745553452668, 207271850153598117092413086232918139603028883760, 1050435416333666163228370843962085991108480745261, 584084861228117672835979531088886753508205698095, 1040537236788111975481125435063538130261778500425, 1366401630216588902394669879272761351175582716634, 1387168649112055035000605577870557406786752070119, 304218274855757624327139239871165207806381001571, 1041828142865080521543741991519139812583551433566, 1432394178060853520263363047197182001386879778288, 1273092914086805472171690613526287401555618048866, 386324743598913243965063480216137821247076276966, 957394187316851196542324532862289292619425969707, 921087898150517262977922653352429513829052161049, 1439479046758494784809407366208721482500711595015, 386459291804080668899667668915143338939628969574, 898149457959581725920490360633935878956772950606, 1231138535988297066327663178678873195434541981618, 1204762607029366049775017740485852961154093512808, 1290236752810443539039959812399219346997389935341, 466442650898693546790135300799687918486542736537, 1127912593988388088767732599070325606002864222274, 183749881600494036842345502560844289859409279603, 314481231077473231105606037333933267637215326273, 555809516421552314101473129143857195339214048753, 1247828628075424007845932906501206095296930914559, 1066884144020264058575024001452828993794870721986, 688058684639832824376821791974418610380000761802, 1275336925609841981031050245863809403240686125907, 1206608704503805554251131659542918862653779250997, 681192635803360200453828196668865888854022898977, 963751086411245947179603364139635802673833301296, 955442392626566966423155257166278938330781565143, 1047089166762192392767295127559053051913527854284, 1434966536916061815337409409941592148406043996482, 1245898070739580017091434680936513212636710902263, 356442598672226368352491079976494039682812725149, 910354888660551155211727632368908972397816446539, 851611958803936346859061371399060061040119423715, 803137357817321750059238335532499564555531610244, 1294306172115543994640781961185518588445416167443, 1435104779119785649040720470564458947221487275331, 535315112114416249247582486522275579976350020934, 898510027267105811118507845455972237021916324080, 117000454183050296811394152759772161484928061071, 360936166058546526543144020112955186419567606498, 1194653177994855156094702200692387044885813405735, 618509590910557136896538376710925928463486785385, 1017837751993720904693261230860833677775510544566, 730997058366032722421567257039015579103846037662, 359345006893051086640482338927713243046384922875, 1420658834778053859347625271279118140703447755077, 1351527584170199268406673105520118953823971404500, 525812968396636618876915824240656697177253347738, 915284413120586028805622859650978217986324559299, 124226420077946524149201681596050501277361245764, 330035475685437014535993529967802763272214964761, 502684595318337835248810516017864347016626680765, 504761922572996550536550893639428806725227955628, 829645842234760433243609620020990008623656279485, 795283849352653886822656628797333382451421543971, 876864539814930058272522715015281095924461800335, 1037200574718246336409968559385957544502459676336, 201404034844674433749613257787894366491745249974, 868681841968507541853510166657367166551014408973, 1459070680041923952884279663358947792725254299782, 1329160920503511170171148142220703316656039734460, 1114851374371986558706369235922677588278399494315, 1425345863474342573133452096569270982645672833171, 432006754793578476585468388917092904949826289498, 1249426852672916908287973748687233718022170149014, 231604139648706611258271428226251494763361217525, 122510301894914222229651843608731353654998669144, 629734661407268430838308884354625627497627567128, 1191455287741766521658409058197443887991033536839, 518955274545646061260885869942616579927319532590, 946061614923092401638865581241753980330508064887, 221555863552032298138270293543251915821126246525, 669770086317166678766786481775440841590410705529, 1264133836614524399678401324607842965501867994209, 1315630354977003091533049903423660274063309551333, 1166578671924102830304026510852661173595532934229, 1322244149677894891987456344090578812227048076595, 660386928691654391942293353644686368874432396269, 1094052098862191072992735393126518584966719913090, 1411025996451848771099934497051123168853476163894, 1166546111772002223869505588245584137376660159257, 794921908990839174683094444909277681575337103178, 1129911652198596421314854075962164595005110517538, 1233837871558899916186368775981822718722966922492, 1435506435038563998084369211436020313717165494035, 1399969280782785499846430590789866619849974508790, 180053551569847152722500725117076607402777291206, 1394858912401237553752256368461952560291793265673, 912983799926802412897367280480565777855178072692, 185603814181748720264294479579198243922996444316, 982853801921109233241361028866840173685532905099, 1319737876388432553549643536550016765110346313708, 877569622257537098689003437555794715232499264724, 781155340830860638367122942081270172295660564938, 1402615582815695418711393830855555481131298243742, 892922416367233603552126206288122937133839626741, 810587897657961850909627938449844317899561833138, 944412062750982903947441514933754733360416398534, 409264628082279662613588541421893991600165141827, 802407006798912643348871548455517110057283698998, 147684449044141794186677035828651468250910295934, 312223408559114797831361932767132144511212287091, 36857889900365548962048599995903528809047962605, 289155981988726202433943392798203317558868106676, 1439851000427957136081318341919632418778923489172, 1268142967126987988682124405925394594327580630811, 218260461829884478030386687390145929946762612413, 51337876063713010091807692849873940821686280551, 888742905774081573587087632954504881674516379476, 948542580174124655904852824882461643695765207437, 1024154039572555580564371890980314570349028484898, 1271953616672443584816528593055026477457827553674, 270223962182926777668853931989887068752374410915, 981637495724501495476162411981912160636913165661, 737213475698268893101884557525486613603687335274, 753593053882514514230824537747978733381037608298, 388831026117473185403055076397681589387346015136, 970864487861810783516547013561657412729901180351, 527314630806350031183143606872922571100726396943, 8702506804925871774985759631543799128524794195, 1404452851889894996577252028630073371172356677428, 367380809611805913469874304260907699626281917693, 213404038995069515062231323511932522556858639091, 482307795162394632273008424368549763866965293108, 742865298017967219961634636452589017822042074809, 1397668186345037311573822302922566041533235144748, 1129888212386473068119447127002920324905504271484, 838344794336007136954244722014966172507542625136, 1243870347680591733975328350287416663794120678017, 919717675058907216235347167384853075072623893380, 67181275366262341571993205265205070484340326786, 164178662475370991063571036496729527686962268227, 383740483216754510598912872383038947323899886005, 25241381503441640990743750570615165724906710216, 1143196961737709931124458116085461264283059217965, 1263679301227771889820733565380001537400227350564, 216501060301295351113908537875729590400680425858, 1083979575416710067609579918393566645071191274055, 1254607477341250735929229960256712150777244991764, 1342918112740269218387177792924037616589800521341, 1294843491183404839400560794614527833495831090806, 138665465317838490102200093755093993772795138804, 933674043625167725413699982044545130843321543716, 971724189536477417247341285018204509380758084489, 44151557257328015979130566323637698427649515898, 733061633364209367204470054242303642353448568564, 1166463393435164360631159958107117483278605641218, 1442501947200014939462675293244731836491488826779, 1245471675925789769523461474099584278353892640094, 888521438084788066726920133920613114728812907713, 28177088788236125753700363110118029303514417178, 372765548481429698037395269911586560659478622662, 1131247230428181681307164809183800983661239349298, 79843814847763223133897356657142867779139709976, 292598328893812064199717137698278392566895883206, 151025624459122256461325592542623742781126668500, 1434708053911911832536372421367309153255045463230, 307081621156730966837204263389866189957284100975, 1450972857865135648717477678791247746215878746734, 143062907576850218242627888576030584424019489855, 280532600821047255913540863922336159493690248666, 1459306983986435171759073587530609402251605108862, 1435936999968560795687372979777224007748551663037, 445767264901062923941929483148140864117570673554, 799532464860382710071695111171051928328859200006, 1089880847313304284111923903936393922535228351225, 642517260984706421121756367607356817601987909000, 67417070207628482804194164813318614725938711424, 1431104208108617402282613938596910937177510771765, 1017223691404161718840522016175943570438557110958, 667377285922086902061930995443121221883411550413, 1069976249734406305783833385931322713611102270435, 99296029136772330182695440074952474292553169636, 921049471073846890721008812519148981055709357166, 939318327165666686703740765540827316668690577983, 893927599201218954056795314467138929326691865876, 250655318081871406588649667922445341824066010688, 1078595093169890957922643439831044769556670892787, 707247614168400016031476007438848522747192599111, 755333718324110079298859654304419023090966813435, 334778344296156362614622488537627031365338268463, 28139283251549805930960842940104389718943893337, 234994015313201733475859305113740310890307583167, 190822894068234430340011427539280246978025339256, 88157677113440934103474561897008546859685448338, 381733664065124950237586969053307018672795321497, 1239478505642986127072762845587531957601799300103, 89472594003669495461996186934652413134199990915, 839170966563686561948858141993511449857229712017, 24258360064805630989758051235179485369751032270, 1203495844379996592273518603606473623421478606905, 363541667105504887101801405476937604760281900478, 1267499565765036789351519908995558036472441293822, 1183797981232668075022286275554671914900858466402, 1141681271536218162167779120093143203903105536497, 710575206737533260761898856336644091372108709633, 807502072510313296311493473722417740558582643977, 398727491936512185094129981783374689548970653021, 562896778052050487925065153502144784114391715977, 123144931151574210870645816284916415513164968055, 284276403581418974380007238490458146323689681053, 1141083013602539587028224511087337436299160131968, 221043395007688903531036286048892438582275113608, 35781382885407538510193126020723752114189013812, 473953384756836481647407768016823033377743693712, 263829638286102435543838745907631306199541815429, 1106207537911085739055559835124198004925220368648, 192010492451979331275262299606212591787443731301, 646474283665826063069863662402153100989596981709, 883533987769798640109229097955749735677503070671, 63643335492285992797226927788234457549474962235, 1342955530163822226522268683537769480951844571680, 1446309152296146234523807328731021576000675634730, 882610094606816826464074937827051016385259751673, 152500507406846211343870736604047361837372035814, 857940135247837375644682680118243189041074606748, 1282497572085379475552870044080287520005307809808, 1418445850488163322795741619855591364073410697100, 193716949457881404296671451329933930660711804009, 674305755376866539751555484816730438722856350272, 15617829652676241564692747904007912943455741072, 1212065607959274286158102130770794604698516954264, 1372342347706366271710932951843678902983929981145, 1048414196044916789237774704741632077087492781849, 108010906384707204590541424114415866862345619228, 527870521361889712271091541683902376727062261344, 590246418518560663236981834996328532726713629662, 228433193084356097991098703354980195476190144558, 1119963182331527419235315908970120836929982010163, 1372323675570452111100395019373681374849535988417, 358270985850348804140479348795687357820825710071, 93494998575229469232259383827561470567791648090]
/-- Chain segment 7 of PBKDF2 block 2 for the claim C4 vector. -/
def pskSeg2_7 : List Nat := [871556068091502494448707297568037793725774312008, 288821549519817159834043555379074047795616720702, 653600033631043256452560155265372480096499974428, 428617424022673131387097546340850147857211503017, 1416251674427732549692443132047918842174862954290, 208547802970142817378566000231546987581876965541, 711639526679772323027746883806532333224735583872, 254152399437097931592578307757630225500794446012, 368761159772356825912670251420539887725815396040, 1434218783273724480028619586159591290141951771529, 1397040278440629427590789977228650304473496677299, 1166703616712183594283828007556116674632411350359, 517306759856473997769808180907991344200754924285, 1396926525806685353863228898204273207235324063777, 999827229178171896015362934803557765680700977977, 1340194951037970343672580616778515610416451551584, 113286621865913738069886524946683684846254325001, 1090264267057341260886111928199340402153988699489, 551509682650264037691379761303981437173310154836, 1328889292167696364943632540081498850156403285796, 213331022409974701216660587343759646143335244606, 1048491226832202818653526188212930095987747976878, 90018901523076415634975144586883366051051537036, 205861957089574072489607484323706705630087827884, 848485843820415197845065976206777450436211248657, 412878935694036283631972039060013206818428746738, 865510150351970727386985213855092761911936658703, 1148340204366952787394795613876466579368329517186, 208761938131839536027011400944359227566499024192, 36562105777671837328217506031618976715064466852, 1377045864935626654820071954836852718121738850645, 257523018067514070979469570515288586959472743333, 114721252711604635052926380031673249907020950987, 832360505744325588438631937209689369455048791169, 1165267888599836485188086237034873485303920683569, 1150139811410398938064801982222784157994159819199, 996463575744130742061084224327836409180107630563, 573431074143828173653094036040940122914627710129, 360536145817425130936336151803360943340296552121, 471806710149488613974978952364106542577027368797, 874889124776034823489332975575317649005791515185, 1168083922846473083349217516436384249523130676532, 1427753246535817341921055043092080469040496616126, 1139158506136307813513131542503868611367566177627, 1151313514741716008339739290986669010543227180416, 347055474115359047721593481240400459992106176629, 505798614762888953302411887271032702424294733298, 1165340630637278877296048113084764918676927236442, 1072113837635441241622563520938423080251262149906, 481531020164586208504370804687444004051070007965, 1200742155305215420795043696683352026582602071757, 244781109851382822258992465311328579778700737880, 835585512229352936494966096176273586392097295334, 767235767867513492196368096383099775308741734589, 724198166236208984310253378982358967814401484115, 650487730781684303796812689328186868026963747741, 859165576766880187224163010358585805210587136164, 1273829410618875095532604321287423534772192890154, 1086838882198932580328525319703473840621893324029, 863507091078888845857675151837647261379184105302, 441813197683255372123137134001740629785606378584, 258460099907152632312189557753805142167433369632, 550850048230822435713794616919527021632883513906, 82952226678968337909797647181655671911556933716, 1123560747575793745573203888593040828428040413611, 161576673604666589074143758078945483728947688472, 46199597371370451201402243540742894336397284231, 892744951591697670921655272661018933945244445338, 315033245353488787099028336789902621858735623203, 1180763430063131875617284766299538406147317394876, 1105529598175894130038034407067097498394743135585, 1178691290504482713817800306833794331122112516472, 142507861304783479834137623611520392206003586229, 775223242239558538255024681866869064051016933633, 568098364981269924757667194957904362385820868281, 944303141662178036696621899078001918617156886874, 551904388617793955845523485140040642471969893997, 147920063714193730035531568223235276056340968297, 870318212103560796807087298189692431420458134309, 578323724280064320145176012820793205344351645235, 850898683547114019383180203860206982836833730478, 1386434829635269370117916337033419681803788587279, 381680839659185130440460557927225372770887813540, 1398674982756674970190439519488268503645845186200, 804345873479392228702242010798277758679576564023, 1413836889609659204198631148934058390924360137428, 1291990014498219823371961388614435773556935096897, 761093364663322859540964611664386903824697444690, 1187346528254528804855204787666793064428847201033, 337036829354990696005505134999836724464520115942, 572828128297457004325216139017215759307480617687, 941162188680942457897934659723812943273506297283, 539838628446208802029959319755952144123344855970, 1193093887190199726507886977284304664302005575213, 903217404946943117660622633930723359733556970237, 454117129311559707799730282200368950944580186424, 576924053572185816959448718081567041145105648844, 1359773046968050329160117381363264739426884878329, 276247156446622037931247518674937449718137629596, 824791636492210991998434627302944459463158614363, 338441467186132038857354419314848378520537298888, 145063946223053218117845317670692200371753257213, 299063696258096374972962652791673772215413640293, 1266769359643246867256082282918496736553288128884, 927058780898301134414062256221157827690223293469, 805570709720960665860798900038545784055074858515, 718066962811620441787897810046645042687994406110, 2227214317315630001352424301576059656407316828, 539170104590221724785828892649532502372142552180, 1208649687070548371716387555730240798127616769563, 931135140527278135307610297721708135794862200859, 1130085977737431679832922683903528449138475827746, 872549394589025446800249387119423936104844191022, 342633548481287252626727875551851821459211083708, 1412308416221636355296113145024279622495187188461, 437229646278136902990192548756627743842642509797, 681344358070710195142685267224371786953301004588, 1200921308042709675493582642608444996869939932218, 1311188971802379281179124806144855673648527513229, 806663939069472701832589980305964788572274348037, 807114152165628941905497955836432616581373547655, 915799649878517442977962168140824923583309904362, 1043761153479358687245547358398651105896711880178, 1445985151358554851059487265580625586372113684387, 1157562615601288151667177158560716822687377485922, 622287833978287976501092748550576866125596571393, 948723869126602650295553005402631002990275252217, 975491592035092611174666448907983449559471317890, 290179451016817538461699372045757583231922634173, 1272179361327771385331331413797822046706888481056, 736168046648031813627870847715699700146885300918, 830114879585793232251640081542736173869631300089, 464479617548975548664667474966682768848999292500, 816414341133046937836178529838986756433403404037, 601408369753470402968316043805638664355206786322, 485483154585734114933556235229334179212950901824, 950605794394919091310269286804612255905589668931, 24849455274016907288980764613355216428957814839, 409805887094132722348811981379144183656205989305, 690987019647585504581431134772830895765010345478, 335782011536012278202364519132116910101654948709, 1229603035005387711138828654079556372084915279745, 459912700668939802137671063333068832407892906230, 411830327693952814180740284970211051682050163481, 872601429269749212324321695490788444188240554368, 380731312118657145961215954129135867811265053885, 835620584935005909937234555615639017400060062976, 68640264524339181534350711800193565707572214891, 1091840628926653050047529183565167656735349113977, 100983638777161111774615502546161171289033189630, 172096301775089974425881549461638159834362434278, 502598672073881638372353844503858340508787485698, 396866160769326758422674661351718026245334742234, 702425671069304942161704632493661777772514732283, 37604643982558294204667844346031305099399771868, 459767750430947966531709877815802639764844466585, 787035035178039621225478601741971587400228279488, 51374812683092525357372280253150556523191283261, 949335017255930152336612612901417446339224496244, 1387205191047214465787361237473684667125658497435, 62648212847468436122015969715242781366480808163, 148533887761425889287136118858401433926123950477, 852190265448445490373957347957726170926765439899, 1343137043953393366801410275114004108477441620996, 1256201651084976374604994341490256008951563087427, 801944980744826740595931941589520351272085243890, 871958967664722641641620084313439495439493199597, 150025973642261266763353113931189041428307336756, 1116796619849065274547152015686573844338275569160, 1312146395527029690724857541914898923756208351643, 675223128614252196579540259441949127070142725931, 165147890525106967190262785551849793509494531474, 159783536344899716510230362905188804195054674609, 165275565472738554891625653114732216812043781548, 570049084475623331607065664223264962680331722568, 230061626936089687273047470766754192312966229152, 236719780012262381429108459010646937956844139204, 1365349441033064405041958205256484857198650118775, 1420289434165336173589544617065438134501206645553, 655213817333796239024125640986876013644161452211, 1338638862165977421682006059190689165442641812921, 882275073271470377265398240377023163535287008238, 353293411917471028250087847078201887568699257926, 1351278848124154114750888748018193989597891902180, 792332102851547470012200364397259650612844055558, 506591892472232573734935701416908646555376061706, 232470160234859937343977320129755317997643623214, 629021963270157691043513588454312784864184014272, 1138068375422438230670042049159901002074339242061, 1364172758424067664021441144476014612571791732569, 399157429110932716023970830393278223401856703464, 1191546709590266816753963530993056460297351026636, 1399778192104808307601229382869128006031519903568, 1049881865687784546294249996011450612177161284773, 973656584597022289393807934743110972747144748977, 891840118294599735063988369998391595015751592642, 1336315784990127402498227477992292750201198896942, 233479908461646292579752533828481775709660725762, 885854819301946222491657729377454900823627071303, 1040419952908574781704574951215144767827796092674, 1087276512322053034074838276542584134453168584142, 475864939873077121791924962769353314658286641206, 504252690103867999357686962724968639036705002476, 955128541671404804555563633892510767223274335550, 1328271688836050576941201476490911010281544766248, 1083911716097374821281492849170251772524930954089, 840290506741286200878072435507443067368385019355, 974600951501151409772380518770943728141324326195, 10186043048961925453699821065753578847975824253, 717367223882913389532625355298476944048256330382, 799998759782272110494677501940600310235373932511, 1278094261610326115146579257399062089965336999351, 167329772621680547594583920033177317956846078855, 994407567611394491735721971811528912816969090805, 137113889404013158578115921494435619162202565943, 1230097981153797444200410035935860190686921131420, 1386343717902982895272963972097279608098776803161, 917820497356396389238586220320137935472730927116, 430649288069796715527146022014351691289588559630, 297652660743232311512356495391119688548855947015, 105411902798273880719456192187894902281568548229, 154263844886115582399855320013115178287550117433, 76780942413853827637161287680611032786894663056, 660140372550149239550311597054638087305342636755, 44519929380933727973921539286222936178978632944, 252787812026460556353093301434315098958227489333, 184197459814911773914912884633035011865279557234, 439211739109902215201422150386629196493585264371, 282107627289728317933612661465082053511527781665, 355534135287133597193011484087206356062041870082, 1437493588650055762691084758855302651684128169382, 416459370890881986622102359253419763526167287593, 850798136583287801284204786194256567644013252916, 1203909551800961720337895633360218071157659193274, 105161699709232678138646476484693952156728121315, 1157791901864808610620095709062924110929162948160, 387826826508784613605869477360571719448344832780, 751321741093698628579331178261420912826564645482, 692269241006987333787829365215585790034207975369, 1180463816712887972282409514133768782518281879041, 1362588134878263253512833823183478431209401975018, 38153731379930035597372749178699939445187487922, 1352785308915927466318166024191242895148504763957, 818078741089435383399654445451149257589799735109, 774256755702155314851738784930713027632535170621, 416831328495716568527827968113043134492606202162, 562602295238586819065985667714538191953352259706, 1176824899542266115615866506246866476103323841621, 884363878472996884583103338568754788301949088006, 145711577258656118186584201372458710213723971291, 1447289450589129344487897430095387026592579407751, 1022464037890611602103687315530462831145105597935, 1029177962655858309710665200484903301142542577123, 1452914782810472518300155262135960799840676150720, 724892600313942242988920912415353382157906418648, 767143217182124528563679467654834112398835167181]
/-- Chain segment 8 of PBKDF2 block 2 for the claim C4 vector. -/
def pskSeg2_8 : List Nat := [802728697812948184789509209819191344566955512897, 545316974698469097005410758646038994946049299059, 589829204532743577098570621775144433198304084012, 742270939181692410645967270511832123804466672047, 343936121244778278901471646010171220012069673488, 767329155676322459796730734383418829809156395493, 992095662869488813941931128040091246939318516703, 1356152452603222903387267137484268474254748641926, 580150609887425603777418434671823807016983611610, 458897865856000019741438141766204518884945233911, 1379936122822333918671443750240165202125180591098, 233331963385833172535874026759015107655512496302, 972496396918204035039724850751624476642283864259, 1123628447395931041896810627174886725201481216512, 168192660162850297913980120443256601840704736680, 704375745564408434397041886952998253321522489897, 25766398791386455368404911884053519058830835612, 280271981332305056856419904260951382057073227198, 764652773290540527225675161775534742956780936159, 931866374836230066199517871553691302726389730719, 954683360001653110698655976317084150924219981471, 412370289446912608574743810901315025518188995881, 546784231966858492909134763832628699153952737625, 15845512830113529332331265765883360980635345584, 92305213452372028162921253977028329206963642362, 925170379905347788154565141038145413178468294652, 709077680785271897327047085751058782701880518672, 1036718043195939990134946115803418244818343106556, 1132338001510917891637604862887926435644124034336, 1236351468154262553838898395491789255431869179127, 642637818178285834492913948585959272511271023597, 989662580933041206039073706938360663371176536757, 558312340949604041758569096850334789051720017917, 596115359593696230776434997130510412175351162784, 678874273182340336079768519507916805686750896291, 622053465979507870967066278437877771479546410690, 221041479384304360233710218074982165749419307486, 742085472860164443959333984918324784087636341565, 1440810403849124778978298424837262467614107670519, 1001648334732107750782609230748401493966139760287, 97478532930707262966002412721192593046106339900, 271377131490607451139716390405949204944492599775, 1442261138495816694301850587280643979620691342473, 787171800951841908572093250424469646707783148778, 703681261688629540372803107349383543829138294110, 72110012206127226661472211555747142574063534354, 273881057257419231902230945482089424329285680097, 728320550160294489947122093129962012094282424567, 1175311553740038305233692291646178889702850410411, 1448562270767070779934008583193406915397877350095, 1336927783514909607764829510685588440831023266109, 274392951737469402717511457512884855472166189120, 615509432985336512762281473542233293077200971044, 1238885245524425449230723300570149450009277198092, 912272717920076859987553152966185375562878439667, 624985246490043343310713067172761294791094532522, 1404838230685264820256547930714127461905629425443, 487372331316778315542092410912541911747963369455, 172592256749971106317969025251230715195897754289, 930799755968182741757211852919747889023588407465, 1238086514711909982404889562005565578130885301181, 812522504269037629685248624168125024086345423682, 503061685455100608565597315992915395519675276526, 1416052503999973435558649198390446726475874706891, 81351039504666029932757076374050451239418862980, 1391301434012063630772734782288783814069488198934, 342059392621873417973391787119874560921962765272, 1357476305697086811742942866491032039234165827849, 609976359011537256052735263138876707571247779596, 653389396492591672225838325833389033934207814257, 1092122289118426540028439691489047772829889004700, 595100130599840331805764480231264647251302612950, 1001579153289664897660811610219143116186844575116, 1383167139197582710097088257938553817042697767123, 1264752264197985402858451120643925764512764606154, 1333716664891987994631928566920925727561838161301, 732298269553197233838306533984835400844637783085, 1143896685419111540374236386575240117230514389089, 412018827556738658973705252171033464231171962287, 1038086804077348139593691983061631915874851987229, 789793529997136025898376668357614202051604462342, 87326548639488755841775018394438441579929115033, 328870855378884356578392560097737826705634378666, 755813160049874045425312608424814421645044856444, 807425887297578300159339904355271789277181873258, 1459074343005710113586947094692156567637184728255, 273228586421522371766556262550837432626576144189, 44613438641868298236185010864958452447709916264, 1319004060229669916745790505559057424076290739415, 782672933489539563170725155937888900189667564545, 1323190727909406384217648613825674180767749318083, 657203942846383946865454054255506977548031247152, 931012106899899365063286574366085975925028803992, 1027601478509574026217719310778174104344045686355, 661794435280513120838947989815124082975631967733, 752689200578241811223543926977421544101122850926, 925875097255901534236000946532800734739182962339, 237748050045049192447777872068200269367703287184, 182908093794487048605448145375237227793039988735, 406771756192651977492860574044588288676975889993, 1452946163082926692506309224449815084528514758186, 986543256572810171212056854346907660774815105598, 1255565498606904759678430622547923881121803132129, 387693026074126476625917821008133148055468324462, 1312221357168171859723241825490224336083327847351, 745306686960682550960549268939728194283701105454, 971601089330929953460059820051456735627076627639, 126929524202103314514543836630034662464467461577, 1357698609408329010042216009773612376892830291679, 1309050012762357353516274368588526344415936837111, 1455671040085188569800297524244603680697616533618, 1071099372935632854170586136710646576798485624284, 1133894941524527379878130822257113779563130817724, 688745918174684976477836315390006626267730340417, 1211581286394599548869218032980958943369048453548, 1451012724872703520518562818652313001635573672211, 91143588719706607825925271364540464141345941388, 230747547180982067681618647765814829241513299714, 603516967209728103194053514789623056997004338175, 495187250595944852100040358829899983233456739420, 179079372626714146652429096976340114446979709418, 1228219030939164983361284227310317618503802937572, 595065107228536353075565062496326772591250221993, 639016993090014186520709975245806034938277488057, 421462006801254335683698267043531381310660863626, 1262566761993819598590543030908488993882211885513, 855693757158084582471115801651472142884998206766, 1379890698534785374011537862522671974140991955099, 133782210214401945614453207287311598113401114739, 554200265779592494934451090803101841371768433, 395527849836675953585504003400554015803022879278, 835938733087679980110329845015529730838933208435, 627823145353957895136394914368291902106441405012, 998180884404052616709307620430269127737600025231, 529830297154184850563311241529347622716611676348, 177224706786137057477253974028959304890108551052, 1387847934040683328990218570990644367877734021063, 494702687364476849931232438193566387532173940387, 1252639546337229396666462204258643163414324042953, 258535093308821550252128261250541473351699758273, 1458731526930337331832183222588814323748846696726, 966063802440530736125685491089707433817096903071, 67986095564564293649467222605583964154739956080, 1451502441213684219294787534369390364982073852861, 567575775815418098960398200396684644845671202596, 759659283064985272792783961269839187762783887178, 1156918480253417081705806893553923035163934893463, 1311849702753754919344501362014706791549841024131, 1019881686779992693155329077753238267808658181987, 115228062922602743027090752014567270111977868377, 530745219854199071273536180204291045919491308462, 1111861776568225621424762048481126785749688511560, 574578464791012010738722467842251653748212862028, 1141086290963976879392941935136741546079091062040, 1288005980827653783739622962686653878993700018553, 676320840107636225283440884384131545814859940454, 190390571231918059440121263449754015192911906978, 249117790883433223303994661769710005160109436477, 29433644703220531785851693992589328722580511681, 1224066444686096124524222716643482437768364470116, 202447953000622794652423614480348908224366523988, 277072525055898693756402961537715282654290143051, 1120098540700115211711001055882130363116621085043, 385751270524725872679113430838867806209964394590, 562200611589701255995942797883115952546292617713, 535818386916155082612925859085279613261137112326, 1195401137250017067076504242944461964729624872124, 1027070734762840946088831548454640350900951585642, 878800016701460303186460319266905037283868443536, 961056075841224852311488624310905900647636907812, 229212197817564777819386914304676645875634406575, 1326653920534832722417590307686064695813537429079, 576029033261627508038983974830764010743789283171, 671618554696577296120614047143346955570719954730, 946784110484906819617056001364841558587065049912, 1431056921203670346685519172843684643260166664656, 150838255041543594500989201222305047924498820528, 991125751147529286189714240828215374473734409384, 616293890109334498248195899750482710693408365924, 1110993620250926451819097289945242696061233720881, 137080699532225232550184210729659182539188220695, 312005288003785080674506863098506790710324375480, 1455448638075855324277863382734493815593732434252, 41698095290957140392211594287889260846172907701, 22348140444102131904134485389489010801786758098, 1097616837275872559025473315513968200905775957642, 1022135269724140164907668699574478946314626169412, 1062093940963136774143039451512176629741534920781, 1204078837784235753298297874821796921079369027003, 371604600683843547210941991838804050399464582505, 663957199264960264041298254849377448458949649768, 387565227982045791844637508599191070372408084528, 926245297027743530701667369086651801002190652066, 576122705320912638825168207702231500427571638181, 529770842021836827951694002696017290386206832210, 886692732664735285066487329012195104366070359201, 1454576020734886099371751137920880535835089136535, 704875702445304996821079641047359281635085317852, 952401408548922303692500835073421571802068550516, 593391735067054213348639201092484577639743534344, 1105780076052038124877845765733841668190352215378, 341260155096264615029257431967332976663022861450, 919908061139688397670601269186144499271450988157, 213538966677028009832118938295480822112629377917, 215930412621731927734659513160562641516379616711, 31746725104617131194521256456517577099762966314, 1383774371880125805688082566524890593423400709932, 700037422504849437158047751395608558820006733171, 717606850767862348121066809006895850400518947117, 467689350693857264741547302706886043145472222872, 563044176978272573350123804407994583654573439081, 973358156597752496972681259004531156165897198353, 478477043503217979472139923526506288898497592328, 1270546260938041869897581885382346085060856447135, 318959058732889005464658585813163538624394624054, 899719064773085453413670707049470836531691408636, 158692173703606556602919186616043441191053013015, 1400303105484156011608974394429367884143665840826, 506456714521825699416075959288051081197781939278, 347011990375592143250990893650103557508633085256, 73956652771061501626321575485699842218096369286, 539107885060052904092708117243255894946067076173, 825159085784730638597525775759430891228897914631, 512043901621335716898868508256563819131609074097, 903286990583748751468536055375373576467898459331, 1260497508966796853773979158209376310634632454171, 217150529605133539384019241392256298103067745833, 875392577714317652021372619403620275860155761292, 36221750476331903832365019820922391689876065052, 552073208680850082068346541871265200527222510186, 880425535522336671722293793388520821427191756054, 683293908673180754045766862040008075630173675769, 1197992857850913465330487037599206507513724402792, 731484019653135138552309925390960356029127119084, 1291083482696995491354461020053237376918573078465, 1349282659652590774358806329800232315862690134687, 1358222616494228273857570624486287962065522611724, 391435888472940624017726191078559744950740511442, 1120272499754707545071169094808974495960286441179, 1189692506383697955519774703892020680189822440698, 621950691006626598796828577766565020394276806654, 676582613405596948056004459833262100090432100873, 490592174126460647856085082838204681618033279210, 774584512929033981491393850113329786453923289374, 930706290164410901755954904764845109161908943668, 692994024019803281874155683528722930833857839907, 62478965223236539935585424565953427297688978368, 187865698222189139786963379933758560154599887795, 1278574185369067546849334843897139319837903289092, 1446177703286912012410719395110948912414356444660, 114759778321790479619535645495785158096911011807, 376804335112046174331969514328564284478192924147, 181113924914886544753922560284180847307055260716, 1222216642334024938839976106141587872039954710518, 95085799913499413180424768697780426449879446758, 810139731905016291006845030224236789438191412793]
/-- Chain segment 9 of PBKDF2 block 2 for the claim C4 vector. -/
def pskSeg2_9 : List Nat := [1391085239893891617220777093590956529076781367344, 876876685229708317756654659118008296519312165584, 1141891487128201351036068611430357305157888042858, 1440702624394176703808765597338924572381643262109, 826763145486155508981233606816778708231291982244, 440020954962019481532080679832535800030548778852, 1128390356426174210191277263473685550124477419268, 1041384192038335200402955953945835479841710040627, 546938105409932263041996594982853828469464818803, 1089160428413433619242000027974394907793511956257, 346938172121860951762719076889194335727633638184, 230484859077305280546063153852014544325117549146, 1364899094313702078123140919198739245528327982397, 188492952710783880548414341447417586506339423113, 500812560195486483755142251766067839614024936595, 1454897442686804375074111347329875612961978384242, 1348237179420407378455999061612041630793222617207, 103682450800901627817498111855298019308113776106, 43586697790327846917722502432035164315350756502, 1445302997473187282688875278088016313112411985815, 567011734077267398097749514154077356720383492146, 1344014109791199212467936652865675305322437427382, 1153834889683231006171436912112905338949573535586, 1368156933942813809453576829044704508422294053200, 630646297497945988998705199419282898392571804608, 669377773935797145704189825645124670606578405845, 224757047981013419206983900800895778403302142013, 392996574124179214309333265317486118951033479086, 1157008499492377880386938942458722416900739846068, 1419156174687050979638805784227501940073328921403, 624568385945339841935386289081491734000423540533, 636572086222054587560944993091317210907179619410, 821143824349718828878237966903372202533059332286, 1271876175372090056346079052150200580105564350780, 1292709790943221676220245636285618686224361195984, 606443752199822252629040647350082581833035717110, 872644537838606744065053847753555367308729202192, 1049722366618379557381227322889720757713961737419, 702531619182691940935756665456648003591894882012, 625487367734098894303336616938637979704312077056, 650973190207670732614180032140766918300608667789, 263524189143358324898515554980638347799227884397, 491464638951745184468790138979979001814498256017, 866631953104542106623114766541671472880840862135, 1079010446969295344614397110383376642085619572692, 259665435231513174063051172796412375314323498709, 129252180220279814553583916829202010562855891623, 1333924738405662295372790220403509710278278730007, 931421708644743212801347515373277007569925184191, 681857323639721689534651471769140516646439066252, 1047289710635740043066714287078436123726634565596, 102957480875235703532058094248678868686428002693, 999478950650934379430428562927453403851464257846, 1346344952813949792323153490410389523966606744718, 606693125820358511142763886082684646425563221093, 722781562795747413433986499676964154482982546166, 1257788988974704634657119355564847362314488317661, 1302950458771132428117374731954063774033210031477, 691341668548648046958183860826438160425418319517, 1151580301476681546506940364060688656750821980708, 1398793557112832784364556955122555908282286596503, 52435582050392344384988588505476276989506276680, 1233085920062043260525776420560340246948181775086, 596755737865106504265041323969257554054601091788, 730840543066287462777391107117699848432357059348, 534366148918129370599714030265096447346044116579, 546036114272062110944989631853720170283747827869, 1140879879965821708106408918050170857377775210285, 422103983618702134604896085857648704420106029556, 1218314268705238210512706022110866408428871563823, 1434186805353438680705731178221985495634264554476, 592875548634662872055026881691647966314830000396, 1075279591022494987554625962423789374787611331661, 443551710108356859571795491068420169126196440922, 198911840033081885038296515782424838097224965254, 1372296108111979904382468838056610398426419569345, 1189027589198302284406871647543971457937873267835, 875046726035665566124535358206425582052854042674, 580354228097772951619341596959158457328971472316, 70214794682605181714930257789118123697513218524, 871992965393300291393625800036736828165859493130, 218242271845204709485707815811850783596815981706, 88957972096348214565476830494423050569632473550, 411734720619541041216276429532270028128576832480, 556743389429675696468331036013511237138760025058, 969259999328914139009390250157183170360108274564, 405893688030349930197685413929480813965698423717, 1325422281697558977329484920398749339415690272837, 344906097509011731378261305779410204196358488068, 788734383743262687985659848602011410915012053453, 953253986504052606351159693417962475377413876695, 913526435952656955697632292244512103494709903639, 19493171172437238295390026287016303156831102136, 435414379687141757929041441255269267778444204121, 1177382791666788446866546009966523832785331736006, 1135109524372238571240362327509724523400487266852, 1421548617335510329753605688440899517907604647373, 977382423334305610098182242711261377733491733275, 1173508215390133884349256136678938744214217044079, 745672742187673712871211040937458010885549855867, 1017935579946282909419629032672973681851787660409, 383154161057682799150752000185183645870974779064, 681472598872925533312096995688170301499250184550, 399315059708504070769040215622637039077515619203, 892467827625839542641723668658336264398605245363, 754579165337189510062591904617717633649650639237, 1282046831168201388343371075819138488394938690904, 202095916540023934215102624955508371980328484149, 890737893193774851410116688040703574153941181110, 1370402765355603726396385597451321290480362000515, 1363191066871185176932292544251075188823647866507, 1244457608082047495779408664936610696366145294615, 602757569844973011852735553405259363825769231276, 63856484300467662747459510310500719663310341108, 480137847703498996592081652287382413762863793307, 368114114212748216039427434782294368668129317636, 121598405011248751965767828533929503768463177392, 764292880307646898637566474059681420355041663580, 216342509470379102130491253882284934181969394999, 920736810324047819939607575106446525591813230890, 1338293800447792897825833794978999795881412573131, 378819960537192345447857119668923516561692091303, 1401114959572425086058804220205679938723226768481, 955241372257003305062801727268310920433318132158, 809786498663546598646079564481689481392770463488, 321819364383299845908360916929590381831880276004, 117505350606186108477387705643891217464722007206, 1104227197636269649513107952934548641864217935232, 1422313867642462832364480397517173405934275632458, 257838463603927854274956495400794844599512596594, 399645959326892875915029475522101964613567851696, 790488852848239467861146509782368544712325626837, 141267064296666988124162743721849788473304875702, 716290419078024654883004064255150380995703653272, 1149193046589828953759401091048077798913701319243, 348059033080070008464970528829628430422473294833, 266628136971942184749832092657410272391371196604, 167005161378196864431452838875794159611057921600, 1305123676306528320375609296869353190664119909821, 136782990806667390062315499693462166370653858705, 1157022478956435994540100362180844703473120341336, 950675512120664582011517209490457794246640003000, 1457287470864542219099183837099425473881650486785, 820201906357770216523768346929272227890337302805, 686168038169099039493277748892806305852768875558, 497522832664629989159772438788631630799477354140, 1006683176897205469904878167343866264637214607958, 1422837196006017045388151436784921597996056245650, 1208834092145429864748357620806249414645936707318, 156432376249594238699019277023155441582413217894, 1358839438155920678524493093841015188584172791849, 168400964263965978712242883165147064430328681132, 602334774847381481410452706278556662671784938430, 1410354020314481671986698569860754593775811576404, 1251467432078988878918559526909727022582997992521, 764204523747458450037240777652161218800816334151, 678717322005041146957365828085349473218437895752, 707552444587064601161274181544259767743743614905, 307810581153079963757062281900699142420004105430, 614416369131579596038676198074930801379742875560, 748890880091875955114809232355744158693205989103, 193015852194405085164541327722840279671349564897, 351277472513595429825819675082719197620326912627, 856733174743178234135079719527421761439874479300, 39387040288959903530048903609745574084396975097, 1372603641248877610942504576935735088574059581203, 1187958891603437997192448353699177714268431563574, 168248035579108972773313694024683206065021405934, 1244318970566657944869772059475985306553215418035, 739141178121341008531528381103876199887304431148, 12020682305639684913589239411113655324227710415, 298700220550765920955713503432629506084119513895, 596688990686633323453890186889601211848832086698, 1335704930049974095013869233626369883800755281615, 335419183229553724196513936606047097618838800790, 1239656720560655097066488171197658477714877004276, 456800876155410912422534776903516532990199175867, 781594376234940577054174540150940560746627341072, 1002972846204945477560220989001460937175391765084, 1130572369525284522432064320694395768265989221181, 955546243085133008417760899476563698489441823484, 562842244474112003653906601578363332721140725098, 146684429370324384133205086883547740046870123135, 175910055870658656200297734842481214876410883102, 598820926207355679137160395085136774345831286802, 192279847666099825994589748708752206516766567473, 744837278327763496202413322525979763272846646298, 1248094074416809005230084635758086019027824771273, 879898203770898575889928916904358994681708773039, 590888548876602394342340637052291307406475882109, 1276260941891267536820669978108248615161562127809, 1070332127040414762987668781038328963049943735311, 1146394501105536289968633336520691935201723106165, 984134242680565921631683188656640897409159484826, 491815197293624113684026345008748459187038762799, 1118114144736524427610011649038477730382635300118, 1031893964745495505440542286153735492665391060279, 14573488807734845320538317346984491866212931858, 547398872245398361937015926906093079787190872824, 1209144652396419554624910951989005060160296379965, 101254215111672947203997005966406176763879215667, 574168086840081956734763250449324693394973550163, 970243880461938109123588124955408515993366280679, 566312461004521122947933346122067109727524817372, 1368179153403294776772527884402642843871466916432, 1025317741064371288396175567330644239854675126714, 1414197928675604044872380867780068487567682524448, 826978068026729314516078832943833712943912109933, 1205475604249307881861194551678541827244641621014, 792090268030082483294981788286353608175950773979, 964211619552867420397789122767471033467733101613, 672476036891695387927507899298172937349372066774, 705357886117669441838163356060296366358929361147, 170803333739561753237510495699673939030832294337, 1271103628031745480534291743167136085654897928145, 568706511886636784919805069704640629828027496011, 1318600779104328416727691121476588141943772534870, 621200321211626826268770058117716614920090385600, 1016014786657246563608991930582083737336220673970, 333866907899102878137828616397666877249421044757, 1053419308277702262758910304193567447084464455025, 645942978889020149380180043159287754985335948801, 959453685294157557707559649495269777684820954807, 913007795825548420557075212648872956013132973050, 72810727803783838411400873364311709449111063291, 235065706095776815460996425438804490367005509575, 1238947057458677647483730121798185812846076634193, 977234619577828332940260095587604701044616005444, 753214037898129902594591363238648887052878864163, 912311163245164815555332013915958015450947791094, 1395781489025708292783030180508746148656744124599, 1407276372433164880273471718766907225827772739809, 566430038141228146016859905815871840050196054303, 271588703287754808918628257315164327710690579298, 1015880534842025011340985417435131495955573984719, 173856136331288774061789057868317752490602855865, 257678514212192491150966714418523033155855031067, 653602901300589135237699811544994389527521658351, 1398633275584252240848165645727123584415941240581, 970281034690928241286804623313789266197338544569, 181897444281402406436510294954285330174997171800, 1024555078490347333869195074049054123501955554890, 1389471807134760666918370379057654571625230396686, 1362520281923064618049381919950349275583999379372, 1027477809954940933220622292182502787086889492194, 461571799546379290418018716824737711083035790946, 1331606959227046885282605750595740792787269518120, 1047582276252294061561747630912464192871245379485, 886928130936421852904269595806611744547083955548, 538225108608575644535457287112131766308377144338, 1021977474234552457478958733276002730750844080140, 304173013269296470639751930543564793455211492765, 393838319609411065120239141584342117412149598935, 1084833150667761877533696720267020559024289775785, 47081803672491306532371756938359189775847252768, 1323994683263516200803320852482136261410026018179]
/-- Chain segment 10 of PBKDF2 block 2 for the claim C4 vector. -/
def pskSeg2_10 : List Nat := [1322159705066045902219914734903536742639219830558, 852657622039094477848375786847575873126690760804, 181352449593510352494950781216288447319682001629, 70931113405383039706257454235236830283825499574, 875691122099047875213253129638193463036819130376, 1272205633031640181088101049255586971493184469164, 1372616081588173687643185986033912203415781994669, 1446093104309585204014305787141194157122183850040, 235364646321780310707090278630241320146187816280, 423368890778219022875262308791888574002216142845, 1197696677358385354238507454785933765002622807180, 643862136494076584187211143859300979554734443246, 970587228542468332721349747091174745803220821015, 1196942294288049578212266454925774211008360479414, 812655777064640229074590100550726919534453344459, 1458921281298931656919831388095283065851172946032, 644464704095223198130028092692485244820515356254, 607286017194727744351319696084846865680345289240, 1092873935931853324523786755751052943352382825789, 300396468707727244107606614529614677898195113590, 690860102138855393367525148639684370414865599996, 1194800583282694281283532098791915204679850290698, 747210974314539388129194256858355347486067745755, 1439198746817628509490761761950489800497886969545, 174309475419374151869954654234027782678771557935, 665258560136119430035289310967550080810755674852, 1432966855968944491822434697268116180003236584179, 151590752868889872608729087484297164551907642698, 372622971619172441144901559411464069262117841913, 302767093542161773896117791705992732205024253646, 666732743334175579122734053079765454136591082279, 1015389334130457443697152406005197305386190438469, 305665460196722365167695629009365476640680584619, 820333629892015286752013024065395367801458046080, 623700959744494616630551804154432684268822775826, 1326165176615473539008721816232100218403068557976, 138454685264686009434214434678020102456580603914, 707392347417881141382706898701146952279208230222, 887701028787952317070389197097319782429924458163, 929724912583247611788628325843757933450230910085, 710203481464652362386469984589735868254967834247, 274211371428433125083616752042441315372527064012, 520625766729140722401561548927163317897975910417, 1432808153675468278906983582270077246379750933910, 361478246554555645097756820614880973973223321298, 1224282090432276249902080313892777001066254301499, 308042708308851710264276492987888387732947883114, 865512820903400758283398242758833522809760558333, 196198344241065753853964127623004796587882390179, 1102217664128774638201959340500246596051540210051, 101261754485791534339665403875973573319605269363, 224701929929340401258255992918452314969960955992, 1111139665724980259130497285232574122578693822612, 318059887488709358321024700184018970067434320226, 593720026341423048621222531308936721554257319311, 917621723856107546229870227993949126177182494551, 990180359824162711618367951219315404801844398343, 1297244009887233266733387697082518324872403324342, 412241651570981193376595522753489134362635672687, 953222065136750672992080588865683448076656843516, 1210250473271341343913376955113576259401155720763, 281530758723522435271787194654103332388661344888, 572163949432425551047257392019989884751195371443, 902185218048609540523300034012004923508736301781, 753887178398670223977367994630224785805151839036, 865639346220929125445351186827893958334538973204, 1407173398024758323002063237471150914552600591249, 280911223349232550673955807170599428501615827448, 353072359176861784901102915099568643939440683262, 381985023809944713324046039320097463601485188596, 809359171257533335231594906759131888666646153335, 958601373212735212562582828205653640514805501200, 536315899508003641558964438483193954734157581030, 1360358166962713069391388316678139016854719605896, 1360014263889363658938866301475843989748568717157, 1172814419408483459861362100078644193196566700398, 404257686310572438914340537520985664591170556422, 616875255127568446408621153048890141459928014003, 1128209023209486613601771408464680420518626842944, 843400139743885309154905455079270646751508957352, 1244679416372473343884176353444781531091043264224, 533887460467149785009320789074852071649964916301, 189618207456179286668582238200244183242920889184, 639402040474769648122063345440182797236361638608, 1303970548324993706420626447327670272337367369970, 930098508144177369038344675771003791066707553856, 375972014328287057039111099594814323102617604485, 528883189039953793498269215194504922188583592522, 70516806013306104176710602029179731851161691273, 1409675496208551669525272783354146731696617517064, 1051966867905665507397047944436428456493648692679, 900240835118631752957655437447748462109384511982, 1159260963965682452548178512220761539419225758106, 1432179911899908323306787232256140346194093959605, 883693475411485450634895044443672268346724637430, 157490116192543356969466185640406283633823289139, 249253373091927270420204776269181157899661865130, 981255008717040628199043310958970707302485144645, 1348006544070961069142562412909051047815715960286, 845332381648478595192006298910911482638884315503, 605924791764685626493549814387845574461256442461, 124513178691974952997789090509843280141395686861, 799423050272326186279623405215641547194266031935, 1280507810003172869776705824610565239763345249355, 297006500796123322522355541745228197256835149986, 799089773247574069690466279454671398310690020839, 1146403094181772881929982682637208763918181623928, 242875681005051657883240074666008193213270059798, 428574986247057237899852832478810514659115929828, 1192825313860919763047317612374456381253937757951, 19343122515661682131985756618349371026695450092, 1316976675676483828740953588253461990730990172861, 1090885991093975436197673130940558737349785225952, 28818424551513372194844929637408282362645304047, 1002475044867818543052835248345313996933060158746, 1451005887206399106563625145854139281002454465231, 29298517022916219908577914949964232275925801894, 690838491668868791100225925193993867856403378683, 410695426153808299581008363619131383861785344440, 452737005238117045233921986172780164784730087029, 643003828064862663502063516782015832257185062118, 1123406544738683446832744740505975013307900216966, 692652033329774905383439487849484388325726232023, 1059839136607851747420933251044723475894827983545, 407902777974985050959009311774678827796752782637, 636028642551046231520596078766005360684864955749, 666803578171784777502129416639266708787727950789, 1186241405200696139770681968675673736720837172041, 673266906008066508785978991679787151440583033294, 952690791726907206741702089226741947322776434853, 942384453925608897509679841682743548642119181486, 449461736764239174011333776597237879119194943382, 629016104531332234882353072875753129701485901959, 795246629478672559481055024944434662917319895074, 1146671089203442032338474197980656517809164411794, 1426409847987115154256120290884526888108336869141, 594242210376488969369995137270025928859638383123, 348270697213953107019480227008445747731005620719, 1015376873226575830892055107943076024309815449241, 594755659529324812122162624873783462479588424444, 1239787277470789124818896382449965504805450019494, 390695918828146148649033082648897901449056180272, 1156314811468220692939941490329251953956415536594, 401626913196320971680799010890429203116524751243, 1122369104750087365290987314659117281509995529456, 712309137251639221886038787054674028440124565947, 434592133753880119497385732347064194378573681354, 1202055566734145061672951273220581746825013939857, 1450001661912219090774143852621091275255303845682, 1005005493727893412857314000935847169373515059424, 279762030331270614594470394734579366157042728806, 697495833974686876466196215024982764493466895379, 1163360988263793513082793000429859300298606680972, 1184258677981681840539051385996708401061610189230, 1047904204901745915894972245582881004041065872099, 336853024238449215561639132824808205419606132509, 552640014217033820791622838058436548699278091801, 537168245525726947050907070731604531224552330387, 1247787826584545198921333696217926933501657185473, 668183001927936452076789565348337610327648260082, 510652823181947396101199911631267109784822054374, 1024113181302953729425642565332660667590247010898, 849100582258112996536218355237340797098997401643, 86813117773416697444169657454779679387720642532, 293360122466131826344396599030945684891643341079, 439852076647436178106652955026489040198430449277, 395363929408240269462509193677347112348020007298, 459368120532892079806894396939636358844190517679, 142246495820333302728647822831679885941515403698, 500639678710693467526225084006192213291754884016, 1141916445375904740748777640991086622303687089724, 482642842397637170092205123322909931192432879408, 1266030434451869352725172175543815808565580757564, 1308616010061944787103022756918418274139823476169, 1321167581983826241378941814845696096555403624101, 1414840837357740148680852782377332134247482464735, 1298125341727229590105026084928638554747596412546, 804784429128160551542339483275802731132267274620, 1309959535411466804324073243493152441829888653776, 172082196759907813152039222863395423375457390710, 1027891825790728287585525939073175881050655550184, 522681580110412111734110606112316799397216767121, 190634961921773332802866208231819502365115838822, 183199454257078679437067048063875320035415648182, 723469191991999267551872999324786032869165677953, 1340089832963035618400879681349582705582541747340, 118379943841314956061625014981177791880229226457, 621526435630523495925664253348702695121262139337, 187276755635794032677974956659485337270594698474, 22851780887876605984387556865482557353903902881, 414582870369621377643072528389148585056132483915, 953438269126540090372133711893970971323844719245, 16416711090845569510710329779852233082818929556, 1332348504130950447948156214774332102746918294579, 246947866160975756307601617086779334962928044226, 473395312701012029506072516259159550286203767182, 878881382695065276784258434716492517173281969667, 1322583205982212767053832795010847082025463267114, 1301094292934485583606966647614827811837115553887, 141538778195268460670434096505002500220224136023, 1107506648234566110972473947752369365731680142533, 1163458985623649666309082353599743256854117707719, 1167916412015437426341979129349227463447865192087, 916212626803979238358052636064355554414214836432, 599913442104843221677282046154206406541045869207, 849933066306435362220830292889128129582222274391, 378429934899231681729645824634870707363113820654, 1079324463647303168237004085919960462788902849753, 816368394415401210919058081732193386300117588233, 926680517543484363225798127090673683872996847709, 165936588614523327097362407926934720645402989730, 498678112675675203910403381658247794279987565860, 1404611334179254017043493568681603893312249846969, 1228246408139242823760919875443765020699322903, 782520609211580163013958625694264923120175623442, 1395936277451755545245313334510380459717391950841, 1148310479902212616718454528774424612495424314389, 95791058874271253495266110807553131557138329870, 206172755039967303669036312995557451615951446344, 889520101242971394556256005078028572900578028565, 803074689027148328465908017620383191145574228765, 1152352372235937049920727603542026764488484943912, 1103339029529519081401631478330330680997033174868, 1343761205238546200626405465970756402917671556884, 631022554433618406026199490833282541452323879403, 52588047500053535831065258828110838616967154080, 679155974870944011978759009721737298218091333488, 1412409969493516736159915908620482847330137385649, 41705650480834710088538159898404054412635918059, 1347031853368308828654987026003359549938692742324, 421576051877099587320525573446349166269495684538, 147463060161151062304596403210101967532045414490, 570559449148297139291913151045007379860538259361, 834600678960421501474326300911886500620400762121, 742300668559667894449713276382529555411602478093, 777584659186783047073901805648978557557450695351, 861980025138991522824564727237556648933321257321, 285090730487822146661464124588823453697203742094, 678835013772975713262510223122672838930379239437, 1290809075472210760153820830026931737347134748353, 1233884002056295291681428350335004736380716991068, 508687948157907238460081165985074792595672618485, 1162931256576794359610513691683554514410438201582, 960024778638258627981640542392999035939144601559, 904940516921822592144838186137813221516873528320, 147778083680576350697919385414199334087012350102, 657852267787992511793947268584717346887730973615, 1348421916783568160458321936925001771976392191799, 445991441706717429786010437410349994165259717484, 567641994381598674736368329266556848159177308059, 370859597906171694698350889476238039901660715572, 1078108613005969895126032714389604738357490506851, 274246234609904023066567731363759962759831163085, 985317540165785014411273978879826340962841739401, 891331521972678501543893013133520696681951655443, 1345294172421441517591900039705513891478724887775]
/-- Chain segment 11 of PBKDF2 block 2 for the claim C4 vector. -/
def pskSeg2_11 : List Nat := [983024451352690355441636755683655703974653915106, 586151042309647795841607562210125839266571791166, 130563964350926936451823802469495426958217692293, 176575201727614272756300797715783459525575782322, 488350978389444503360911709225924022635057037899, 328488376055120462565528378832660539886120415797, 1186194515821168143359993649966125589429116131645, 633675664323938077920665545852855425731222929300, 548841698085548471080621951554226156940532477316, 231839031435268215497118113807203941866258429307, 861793627039316021876322282923739291968381508630, 384884617185591433653604585327217043024178466056, 1273852653236738664018186827127947661827520239852, 801232312992448969688717087040048989909907503463, 260353184744375350006041211024650618607297709863, 1042620425885456467810104774560596098678852900457, 198335626869985542483514485918976826715649992914, 729121956836831918293866708811425105565843891005, 676683260224741268224913216884519009089679684595, 1217531255280831477714119832426131500833838522709, 197039335657716445384667133433298394959977071026, 274492467148170668513938750064702056523326437083, 267639973198586480160513353503023481295500256197, 1342517809931871658589603265101079021151009753543, 566529985000300363849320018417105881535384851600, 227204185695972285353817057292368737347301054798, 1225145607774104041325579402106073583273661156332, 363971830368493642535870540175037658765898731446, 256085305696933767047090278311826768912940545000, 901639101931499883464465887678360258396483948852, 474600378835792934966132570626554927150822361299, 215599724527868451235265731428895508988052314448, 229276948440625351995574793264947498122061055681, 531760903415728612966485324600716950805349546429, 1307978154085958085334604740053817661439877118032, 1222081524416418083666119366067131766865013212696, 615412723958216546111308597499797001841320377693, 122704609779387801768336939975209335720073230474, 382205172744127004539510475283209886523592721, 138915710510397194504325879404706537791137277426, 338503198293160123779772841256745315201111778224, 340046514754649541432627201202598956816649915579, 1165256321869445296355043360223930886176728227870, 171117953296925731596763989804733075866468645387, 1333545827317375548692765045391506339753408432628, 826873615199466824563453339502523708756946999689, 777218215548702050589578014270675860612126526967, 738194575600346941255545451811340472135607484299, 381849960288087476508553141617151778195622859168, 1448271525097949849543436629293676387808413046318, 794591408653221622202580021141439943536275857820, 304870592649690510110995077948416472105710865333, 562276698510590698180884916874504000035698510811, 660393945027923108312487639451175436431677592069, 1446880735561346681067294455217439907852336851052, 910409947503408775851802218013239399713027958077, 1228948231403836620793921204057047650085881704292, 824885006385044208817535248321386486325963691206, 68139703672474455396633733802726896536826010840, 1341812378688654771582019372251946673831266457326, 1194510953966567633372741509036172689099742139735, 1447731047419396524754833326823136827151721677165, 1442547290193597659908169140897675682479314038658, 1014949262599033540679750172104047354220121324301, 441504965251909430729624015902131011776398704390, 1455903886666041073323778279265912385148735401352, 800093612432540728907541696438307046336631735286, 696309540248093480671920611710350088714344227322, 172331956998898891984365633747309175680509574666, 1434953863152019626592260523896186167267624372844, 1279069876004177013272219511672846767285610879724, 536124990512033710431682737494686789281322718447, 527972022337150908310176225079558188221678348688, 643162197533448295386674475557389527138904042463, 1098048245361339167358860719023358315884641765272, 390748208250859468609924197739443356910758145125, 581694543430656500803489929601673491862637553169, 1248792037223795661153058666576433549857285936604, 113236221167955159391276884401078582652994020041, 859641990964743918886506200765146517717726225277, 1402486710401869093866288292202156908736057323414, 391013238543639911931382154056031719997656573042, 916552318004892497341666197158769110861025660727, 1416407670289523589008315816244919100210483137440, 515096677144265240307698049079027786869306209619, 971865389030772796202837344628853532569820625757, 1146832986166327533887509816685990280399904829032, 95162055964760088396756305794398947617685314271, 888322490073593929633374096976373368362835781899, 1331508830206161234070759275657892497001993949857, 85365258571092019386306312384253474433104022361, 1108012901085667958524190749438558282050920975565, 426136312695935605530675557472322877457769093382, 1407656348567269121405168753969670290580210376404, 869475113870568469174186700795911287245020304602, 412508334080645537542886461459053217076780428013, 506573289296918491494614521998201210783506469092, 537158834137481168588175799299119101890622385850, 253411020570411324924740290229368413287626672027, 859890014383048133041349288188128623492938051320, 399781024035264531891226473806172333138803964623, 162854981692341954230824136097643138263137444822, 728271168502098311773701737257021743013769729723, 887238532254409803801201647565227940839861512263, 870217516221018250222829734606397647475343834803, 360060585128218255568137262054158973186010744143, 29814420956565822298796203523865617081163913249, 311840835407293234299708220875229747775964890244, 222410743853271266690960890378439239198885528642, 717880065643284493835504655058488261125996945543, 426693349517666044004261009097797442125993848375, 500945566409847235583364904739183939995623430442, 936913898441586992524880126014345908070198987864, 1320025814634087637908429956675179916156369453300, 416007099445553833016459227165328054570370918548, 1190790052050505021305277570675729895078933840284, 492560788129387037492141302147638017024683603344, 1132717707806600024383218226336280071696823099633, 760006134015662554801805635127818436198441920238, 1336615928291861096365508403602554339278334265026, 789482001391144017747867925561181574202305356921, 4034900409515079990343828896294149437690563785, 826673526873795625702629159690559249014034209296, 480398332501676011855840455047133902057510338019, 343198092389206833014280113165975102378890948648, 1156868056229096633478047238651783384139917387449, 207817172682054749123702556519209294868969688552, 349442914016653950593677545580643179200695620450, 405394618404990145812997149944576581307459688399, 1109516753403199251391128819134387843826135396808, 183131680775959874268943495266943861583049939204, 380556548802021238457086159004604526963139162561, 779947027411117347609983185804922919922254030599, 1026301818252054941209133691918049375116863527832, 206630275581583505175750898575774009722412415142, 228285823336792433972464630048106317527546287788, 163878850452114882096431892784653191472656137268, 360606917042739645605453359996463369970006687569, 971467968761952628879604412929349515537577597036, 393958230307161990207437253721838893851558896149, 451232029816350693544020784975967783617419216189, 1276818313937956179778154517037075406168851927606, 1253313689725325522203353648487922595615076332404, 1057520797293470126239309576621740891254417314383, 1072086479988745194623260263997722164750721398470, 574794065693070675163836070126157018313549663534, 332550663428803037178152057141261866908594532238, 167643132171694010185992845444138947868704725525, 1193371978960435881086799671967761877817102249820, 353010005723838239602931464504817140215587831077, 789114354245810923353432045052708508863492772502, 1172526767952410731228924569998239139142265172635, 1272142702756325264547853685814228344825836420826, 1007248909959184195984095136952437899683966208200, 1082726473145189693310385634583341003271184160998, 732184069470514676499951606171394869124595564011, 400187244837578400736797228891361319598833768617, 838828612107154694575706085748793187148155230915, 351056265237722299783763240820350295356970998188, 34398109062611800455516710040500845156751120288, 557921355742786590390629741236472329150887328083, 929982229856981493936384547780063401301814118064, 648289631791279092260796253940623286226415837931, 583077472830230329184974589838024620083026768592, 104538961849478350977165770945154105653155652011, 88412499336631258601198171664999029654766305212, 775498495261467634016997387466997572687954796941, 738941166864262665661833913124167213835510625976, 119100324365169635493399162615695244793913166990, 992200330947103352660050599242554608829477545306, 877160026514795119824608810028605311654353403291, 645608380038415883009880094830844203854452326226, 769298389619233296553549946957071169401568704529, 845748163202318114964812030571270647790965005954, 12310556118021265090931144876353927608410029557, 768828357833024612136188367654451728067944833690, 418842079377246960865495724293416416654873104971, 91636269769748372563935780115786640556790317270, 1050035198434995904577856847586587773525225848835, 34660834802270552171952803439931844430198966007, 489287092990374402749338892441563095259557484591, 828219468267631230062830193006984546456451214518, 22596341830312510051890234144720554992483459172, 364417206702129784912369495808174345490598288936, 231984863866175571630144849326608602189824730736, 321639081776933623493900776369444770429776570134, 1003026174545802566053225289152865339217459210631, 775362315297099004464208229573780931628650248248, 136003780236378882707600171820949478103639211662, 334302848783305492981806227520712309502287111096, 1151592471785487286077639649467326178068314817018, 196391058659351746033898430316231514124424155360, 1065294859746162143019516160499129981408828339905, 1272196710711509002513957404095738591509475217676, 7839140578809869890987849126754858840653502156, 294135013111589405780706801364508334283272313852, 423223906733257120523711333304215458812389491263, 556495025530271856798952482676173493022193703683, 1363510935200260322992467301337977414136450986598, 903454137824914208896322492177216249601007343933, 289657622660141768343635765864943110466811592159, 292564341308615590382078006699153927369803321952, 876992991303269659627735635954236099891311729715, 211279974990549392616999253746786462818919478016, 589648463812629998309838936161316711670841298466, 699868768990082180393691853904534558094387957960, 592129873589292036062793460790612353206059117258, 727211977992974933987419261645467388134673516150, 367755494344188837019091075151450402195595528694, 124660377140846679108621321287496872801216538998, 712343981134448860167217882753595523530045076646, 984056412965613268731699931823999657120372994625, 1193610153095647720105683444357696034849758471861, 56422661728447688901166102922690643057298374240, 1028728701230104147588062977411637382541073493541, 691663702704534181721768369847294573258773505174, 671447359738833161299965515291028917342328325497, 438310590377346605519889177213072268901180272331, 1130970385186799526004510255872665342667642675494, 789646505946096002073154160914766342632813570466, 1164014789646414424975870800027336256862671861470, 149088871615640164252995268700074854848740916367, 859114069149092666938407816589686706239474839083, 916191051387580616745838780036733803209221215543, 125152237494235305781945276985290928745966862927, 625008914189169375754903393400354842123565841793, 877130643816453696525291372327858779115789597219, 1009444021581409785094118263453070278024048148725, 1086076848130896387836715018845905363534960071339, 533666026710402001645646187235010395283173742819, 721941772436425639759672601658780120264386735870, 1434915936591170366010536794378927092671135525856, 445811472822134591224164974473517140056323464962, 325122554890420794383925194863736268582175492140, 938153398496394490972375506221952773078436701496, 167570430849603859067395715231262076887652250726, 1307532579630203042195042358669545682676136263078, 1027466728604046021271548758947695024394583177834, 717660248793729101342264213276456746307707483546, 612372004499707466539353959857326903164850860549, 603436638465655014951258200681572046179439414516, 1145439964983338274224917006141497612404099836714, 633169702803487926025136628627113928462370996152, 1332502919645406084610230762667617441037827466475, 44268287255154034791367806357573884490260441491, 1312035959568031469309568927224027304034396046002, 327270241162390233056688332765701889454999694804, 1342733165767663484293188298289751508282631618675, 322998138565147336094371131670870398832623061534, 1199356933976014606503104428588188597348702534694, 348650271694361253657157438055452771977059450516, 1229464095905992572271714781497504813124139777969, 678034607120462479178475667822451948556550275270, 1342615550723470901552174317798069255129985269771, 1167069087352047255835886916190641673053455097909, 784187427204822835624260044141314831286893824796]
/-- Chain segment 12 of PBKDF2 block 2 for the claim C4 vector. -/
def pskSeg2_12 : List Nat := [135417814281883872851634672185466754819483436857, 1093476382047172524640729967445359361813566438952, 498280706295212565338315232227651094964701305623, 968370019408002900008784939901934587922829916763, 950197590377321305862107948753607061120974771777, 965831194410552765102460860514643607414825544976, 822794910422319969310500704787596342179727080512, 963135184601212684573383342220204723082747801726, 898274033385467542609098908094088488669169169819, 196628373548318924532543927068456342632987106145, 1098140509782519950342640019111237937623771606508, 736614480857059127145882138643889271825418356816, 1438831451542922538708925007949600142497690217847, 508372692535004611713349080587910273617475077764, 21527600081468359252414534465094906232107016470, 1370911625334770733599661111140359048606948852802, 394323822209970484216737171843326385037503007588, 375636192693172543583992785209694203786800035673, 1165910719970418367540673151506246867789079174419, 1414585016020195025024314107596765900149003467629, 331624741922614820007614348485972411562099650230, 923507761042020346265436660193008810143200540647, 508694901769670010304105510096341240496994911498, 741529580195130692619993915887653779733846164024, 247384241529657806311904304696434874229377961525, 721085974624997635138473593797962625143539266032, 1390512307141815918076587905571260235100007801845, 1324446852206467746568218449737797601826295053899, 519223727202011739243261853789844154044231491195, 1456163011672498350705278841169776577122320226133, 293352968240840304039515325517440611413274381162, 878419789529141808878643732684308153124855387121, 1205444925720875110760592896979060123885602264405, 164079335819034199188230087059740530498564754466, 1389913005818353955907847818057223988416326916029, 16978460912893472439411281936416636152165360435, 545019145568014670299910963658130757731035692281, 630081445223450790362205658554281747131064174359, 1004398085793432534370281301255059488611299844794, 1007755169934707966748078792949724439810009815243, 1202868168289400445206886928945071098826180299631, 845453071911567719863677876211274107427133307173, 566201314028704275265346069598778475680787013400, 999755813233448012672261132378153088541600205282, 1428037226599346887465726228177260496992548419582, 647129472318203146750892395049097988292494392374, 105423477067092398360270720219130848204219177722, 463681140163797577723318606807485900742156676956, 1070425167870340730912774629832695440310602961126, 397841866029068438416666269283734319877204303146, 543515806623008996770300323377626001831385772515, 1190690788424255532979619034710730793487301635240, 27318859622649434622531226095845662429659257706, 712928327770268463491585677401816148808721698638, 461284701841010533622514120070261210471202612783, 1142933515044209098321902438980957295293686541485, 754902256614779727040955998892164379131560836857, 36433345579265808496427210289990700986991695584, 196429730007383535252972841018416052063644529113, 845712997985714899492626732617907212635072650990, 176199976374349367343028407023907218201057856237, 1458409287254702758847470398380296543757990064973, 281544496927374382159228156360042533494066704793, 1182886098608619548547993298664873948617241968475, 53113937566846188644562308993934344361807749327, 299361048251279509318399565304509648601401469559, 1270133354882314057806646613667451981462458647207, 891839101984432099489977303205696241757519647920, 141671413427075679034319788647044308459305463458, 596273190814333375150871191623068444334406096470, 238586465023519650862538025708692443116024493027, 445350838367758844802663506064449306722755393786, 1300940823522993563815476778030561386512587726392, 1362055257098232396416385793241493824996766528167, 858752525970883464672367133411581774799281213417, 1299418287505392437671113637705290216503149361384, 427087333161141360610636242463360410999470186912, 276181122471094516934485540637671388084131621818, 1046683625921449292078693671115051987025194880338, 559023381717366565154751588966244619154134122122, 143244302864840427591610926771925166010218148143, 1037194482997752391711648028239925877854057722549, 422333456544365279328025262603254060289053188705, 1140762595770611662945360007742377254596762121316, 1387868764400737248065949003817817541776671281491, 792091299528774758849068323597643764391566396849, 198671124309864047644437028986654433146897812183, 747998101261513017710955813130963098265113195195, 974364387393916405756199095491238802464099837437, 521653529233641655504505677179219887585507061386, 124324282487757470288248151167909563624315324813, 1011360148682266272720315040503462850588250473038, 181534282928461415094467526564319905616630554076, 1045359717922572714997618380429473679718844168953, 704166875746097231496004373742966817567036263987, 43117657534443669371977666136086671464630453445, 470734426328350601763948359389662204067084263515, 457585799709061623379646797421580050773486341011, 1278061225700729223568058088582658778856573112008, 529972379472395151236391167875582424806780740459, 1443931307397479108616397104723376407581715244299, 1259791790724250429462627295514835063386333492740, 761992478726508332131133553849311237932853697790, 17425061044417007681036690591552922420982045116, 889586854597281874253733584593663592317862815841, 1205597479386454418907714127374483552003003700961, 196020283225914321753272779877007886893668852103, 1411343987713188610152394611112521165848128633787, 1343162158367843262143921998922495677267945860016, 865017736628818255820332386299251524102530357002, 445702116502897119494030325262010587222593864798, 180009914021032808087822784221289037359645489941, 401219185430113874767060350664724073109727354106, 1217467030593680581347740422250088203696947117182, 449169402657723564905279858537571466921224305018, 1379937619182687129581703521433274327090365589685, 314291007915289204704651432644561098271623984329, 1063997566942876154398323074152087851989958823355, 1240715351394551950361858470220466948304374581295, 42492031683699599069201717681462357222031878173, 463134139068240728939080630809513133285173904943, 715456030704251358407956960520735306585554854605, 421140412573457128714510742301877556386352852062, 1308462140371659356393323923029311978115873265163, 560152125877495184640071089360571523992896997341, 115029011155293829823964831815796844859631807719, 224310640274539072639959631948674457764324996246, 846268672217139999416323751061100999548796814222, 593658902368682730269246920060002326263315548491, 1299360869670161094990629794478795281234735506759, 260073602832009407532132569071493358745454787801, 1304716580738007865252875526623112330460662257842, 1411678778166074915808158873597552238096369705666, 949164516914330221381877272858260759872001326798, 515652564154101603627575010375718073533994026780, 480613300145592373275143113569314611576685389132, 803248963564116220661452028844710230694241746843, 1067466800382649249764200365167095534521746674940, 298153204070031659679614584018511805517957390326, 1449363360038551005304430232511975003429942979950, 18002334652988332146970897346614650807125513197, 1397557180108167274267665150229196971118948419181, 745368499330536135101758212319373822503800605054, 1417747361005980902335262657145656369558650021556, 267319293835550127827755900730563213000461343740, 608191947218053471979012883778275459214830507632, 1305294613484234604718278079171264547019387227136, 502842618217864020656504591708248593505238366398, 1315236525338953336953009928914539227339131281527, 1360317665809882036675915785224165038011498643384, 214361982631585157230203468107853552899264436041, 974865327708431148563938437267291194009425278261, 653774732957967538769081827668444174832007079726, 30840858995336485979199046347794515575683063517, 446919319070971197313759640435976294577741549690, 384742687346602029478593072966319445153318726628, 1310394698225626324544015120198704048692511292775, 1450922718715231125472061901263638259461759146977, 1350840021897348812376277037711824089879271872304, 46834352308393323359647971607220750756644485495, 1257252292010547245476193065815166237558158359205, 449928476844169427216840363388049698507110707083, 1297010559043683913366107008665953730044977842516, 578668911504171507751737831356166102710315402688, 1108910519197569013408062122202650336132654912530, 1298846636838597352886658921968432868540457926602, 277517535718866401236124255672564129956112191830, 922672599102986209680310082008004992947106986345, 424057328697188020413268156440989332728638354007, 106703489056263307250016956575760541311651643511, 314071619477117106586571858146812422232420845542, 167725111779068381124511562796929436430458613373, 410791170130189415619016894027466630832525878155, 632884531055637382484499330508916036490421356151, 1073073597194097757503901497489510542825504395081, 440355484576286827689640423632335107217853188151, 760659047017084497562724181482813291838625693534, 309648950124141781684415281756962108839601414927, 30416089353878034143871584376959531953243038838, 1142901849745191174322732762938328641849234058813, 1290230115800877174533834344133107301383020142207, 313441711380220060549348014483235044254770623066, 526820842633683832206584285294206322403947507943, 105003482107359292166666602870184926494312359483, 666154646107771443054208356055898527127284647302, 523444365641539846774838098422643213654272900959, 1051281333794988063008068844755114208751517843076, 916323317898259809707881483685986469721801837393, 998654264272855509658806887414797822259736592736, 894141250591395588710405954162417424527641206231, 102550508702197141562899991833702750580185234098, 459725813079075011330839868834235762149524667260, 1289777173630631796217042522709810929124057930738, 762362085098491651266264118350229877164463372937, 571396076000902144088010078028852538350747953326, 63575310663906027865067559987415314767027593881, 43994260521850325503626483383351635631488626062, 420430938346935114685377800789004451049553042582, 964244759696824031503851182235622357766923692559, 989320759280817671345049961213696063785217671159, 1109935699332070732559581450213373746457064404106, 667972455347294980660293412038570220881958968980, 925090844865142830947666842197791494335448314431, 802552092075424183248885579459121727683848064586, 661364490266203410848277061987623372253361625045, 76179062992269957912575785884180275735461237188, 411221956819606461294913223808520746464344650535, 502672923778418494115564059077143139164397613129, 808419858045689944967594962262570117842690561110, 128505734022365714955636009191975421519797948860, 973822829245748196080081039884883381321059218686, 276315986892230480312637187920015129793399071321, 576504363156810599340011212066464122341906093892, 433838216595481199481867413314457951515369249086, 676293857322496250346302714075262242152093208567, 1182045880703586315479138828202969231420105853942, 1253919300270844467422148447371081445556634158450, 535187148609275497138569709805100800365845482665, 1447264359759384116203985049147560870874065813620, 627229286570917762667008554777571635908096347422, 617594194973308766155779980123295813961086766886, 810934130131365585208323215481083486195259537681, 219212404569061183189678116124921929561276328855, 523025672053051209752501792691914477141103793775, 1409580293206512516060401362549865043498590003518, 326688755487402000174575749959210682461394027719, 587306268701397112934067893215441837448903128438, 508582191901703448689561326324898557422319372320, 295288685616012743254353467477155055156567148495, 220758934894568971336698197023099629889275935426, 221509666265895175330664551639140682715690052881, 1457439199620367149673711497389091922819042648869, 1003995942097315691081489844269571832467960288020, 266985205288688436219253138913062462089681192133, 1170159830631470695427934518359443939308891805229, 235000654579320974878340116340810851023977398815, 580946191270116120072276947909323578570415114832, 329981032087932973140715665308356223299464242911, 428600423731451478331777045405301158674114910307, 307550836417614713557502756325345957322984826665, 90228056882190864820423891082873446490822671764, 1178814618693433727118801204689015935675773213097, 1229861413439420491834788804154966613075117875951, 879103192926360996666843470069370056404728461754, 840005206569086808981734580250906433832902138826, 174614136173098004611025060823482506323378111871, 532242850105239280321265442472711108352963277667, 1202971139619652313531812667667715958571357320540, 1308506997347712246934055854910741998809868610197, 610906195606161005218727282161096077777498864455, 1337905656067734081691906343503166578532677703981, 275730882205412454824478944258342278264642210036, 1236195040823407120516429903290884322725225073337, 1350746418179927127162891246940511877725743229347, 996099149582251899577337311651551479033436569549, 1425453621489687398824432410890275391600895622317]
/-- Chain segment 13 of PBKDF2 block 2 for the claim C4 vector. -/
def pskSeg2_13 : List Nat := [126979666278710907967274630495926475728916954566, 398443642180338511916036424912094480153566278829, 471839682777222659562249914037402184839053739070, 543153664869090578325487162923056893925851333841, 101564282921217544343305839067104023389226302539, 892603894139844929885056141983982404715866260816, 1116041236861644347931554123170645250724732406016, 474875893434515720823202572256226595225459841141, 379775844351858482743673678281683451960843263871, 683412950655206313601062572720627225786944190720, 368807032173127624653315865992253513963185754626, 1312952024872381542280683087963054527787608574260, 426861570657346195580190569896347721023317047737, 1302094889436775873695247198917125772026020525284, 701717484308370784889534984669767795234951801831, 577509449039499526263852685547166436557263838255, 94942243752393795563073244800844722144341645676, 612754877425875085556753171743459684826614101641, 300334065773073349603130537706128015825739131430, 618213360579015984822818791163544842843138408816, 363335185378778808429302039320804500516254020520, 592653937846656772246853451154385266531619782476, 1011857286851920710867403894239677259606507037605, 1246134813586633226137166398361680921455703159895, 629645890738192864674578881398099522607750235442, 1040574256076108369667803834816683827058736446276, 778719546916570590129941452589923275915182412040, 1062194036005792890792855705223894168444273645634, 145756284430951335024428951440144284958697012578, 1329946265620519488934072616216440773426373334410, 1374020576333963191173359281003463318879083197643, 739983154734805142696960723887191452495846741313, 1306808616734571910921301687922566757957768704845, 154379609765359744695276451152503805283108514425, 682036557539951194690977111658988083743459433215, 744195094367101846348971372714557386011871462070, 963924109162479183751475030847151681712646717909, 1109581956020817861477750985847014812267882745236, 1109166261380938256818300805629623174119646820854, 1281660491392385664404729669033947465033176940720, 256996613247541295279930994394964198610804071322, 475765383495413595591268362474099672832577251249, 730523570777864873113122133719887257664117380769, 626588473571501453453495843261535079153259492870, 1274395282964797524668977022359662288092278698375, 764906309259884291414588703749580920606336207821, 118078562041573858006306774818148265639067148497, 522267249487948934413362126839437308697348112950, 842550522857643923202306413630715416617755594640, 610192826559940295405979346689344450529358731176, 432292174918189929455014653707622126491962041850, 631137761161731339462224053403968011940269309952, 833364015365580601517715583649303469579030605184, 1357373210207612443711961653095573742367454925551, 660637945283544023386206749852246531900803342531, 544865003031610450783434273189312033102218466924, 913356472464131672099271583399213920028671243959, 372844805745045657285838191968128274205944535579, 1105410284222322610437905090387680526462083507886, 740783573642420294741515826974642106552046668273, 335888042546402521798863089737528409895702729728, 552488312695787042252557284208773263259854759638, 175946041150325085803634607214403850317938605994, 1440739716394472270407583779397567825964453157534, 1460957031815042783107407073723084941095849366457, 143481119927430693069532232146573966073144402830, 132634725511067146883720934538505309684468162891, 1424270848569575131361067400316204459758792336275, 1015375457954838714250205925988798960684936899798, 1166174493167419357090128455376659660538544252046, 119162699983213193756188653943780793884473587374, 1118495870468904818701773411495114058097768101358, 500760322729051220414838225295591081734035830104, 1192465164497730450183672818386405970774056240478, 161733457163876005550082795017521346055072300145, 18685869286863959929148276648114075430997384561, 1454902512513901994560077639292319588751903555451, 550433447512657572249748358064052830800934596759, 526750334775431850050146420803932694087629137794, 1283515476164769112194888634890601776159723844767, 692231010791314014386040888181499551771421950191, 231597087810701173417908351206878443414738515913, 812360448576236200207813705222888478866323018274, 848538480401592732191530527296338943682793638541, 611346274378895508546620071452696360145620572261, 1036276142561837840576363330547553632330174555120, 643486017309774755734123652642280793596898244165, 977162280810787576382152198561872466547971858284, 92637724353718963784065837681858140502210453630, 337217020072442048140732556002979226270277819019, 894107405051744768123380337314212411542265506277, 1060024606024026301562161133856224608366677265591, 1172771660388118514829745138689451509231215369688, 803107722025083389428205020905704579318089063734, 53592912351324757051477703188564362165670681555, 779647010239817404955049129590888437417593743725, 164617434157488990262544219850752690406918207915, 750502578477291053679602656615201961128469380294, 1202918489587647471865344699753422161223900652742, 279242237345088639481067546912320040283063228958, 435855039830809638790655071834012215783636411605, 109174937516523166128385156617065151848258630336, 1035436144805214091789866666315880976833455351487, 1419376136245513360469613535430947928895066659628, 1235530528443155366993255813111010864820616016157, 1443910896071607167345731247927091535368650006011, 193701290281975358889553256078953846215360578828, 443201493265721266517210957648398882352520517063, 241991405244518564645268092507447131732663339342, 808051606176730400365173577996809713111792125029, 932610524014199981547082467180072796609276598688, 1421686908400314116497673359983815979391521865549, 890808606480586116386565080059709161413864981361, 757349128684675498228816946118844130601677290922, 1367700352109412370905824481794959114849662971303, 513546721817036020235293902725892265744992631045, 445611559321813762927627616240166675986147607580, 1340897219143543567617888256518227239583716140642, 1146725205895098986708830752404946151948273239914, 1423169366378872715003294480797764121786680907335, 1091180513996178763662807127820868333653275370027, 694924189569431334480693899332165520981022950905, 416762763259579369401801642500035717210204482218, 1321939703523359823252212830219770024063940408997, 1338910613178977883483547724624401250043032843650, 464363572645488367631833026382846690635020551580, 209315819476000947315469758878262023049507899567, 1001617162657400730501290535301551227949473679546, 132188432642879157136890406440127181550972916977, 142725058577901054417696881022698139414145475241, 1052078044016288019179685358333700531590866086866, 445771019614948637998330204681058002674828590942, 668205740472767533029694160153784395313084478774, 1171522990193494053228488486885111493067895455322, 1111613164296914931421479987198904568362838349616, 807001263448511020412708987230840394743513787217, 473210259642185205878198785588271874011941148768, 53245887979815161877863450278901221411289140582, 95952133888452838676925467787592219676911010659, 1419058655341717845554594894395928886831475729758, 1346162159860094171782784606524789763307109024338, 584416789308412474301342474198841303122212814511, 621798875236088134142602938543290309523275678147, 247413596246884475838872718477239767656057609028, 1060605919065222703498986260490198697192260232765, 1429625591180354636943509144424725604912567304875, 998166091673901849754429474182299860531600508724, 536677386598959907630871457993694489519524022051, 754131555935415333419212955973102227207381110639, 712578527189007501328843156758713292658915777627, 1134500164855895944395338191591192204313195366544, 1050464678646651104900162661764679830935384804363, 1136055898261624695757254752030168350141810085825, 775587652896225773969292477067491614545234325562, 797819846897299308007726761726575773278975909799, 585372500980907598861045022701928113799114253202, 213051251249532864193101970635337215259012434774, 1013394780715321519717692894125280320646837494019, 1101263204287352644864979898474202780843961393469, 1163398779118700563707025047683216900076925464039, 239277625609765489635591279475916780457818681113, 1105580292788459036547408120277398376129484748497, 260869804964336746052446090179981314242602148998, 889331994480432649400781937764604089207368554834, 480133738966980846035851102291475558770388006651, 839741467139450527019346381170530102313597213972, 1272777120082984759858992466925047749120607702660, 678056102363518135578354718253551015341109040874, 21788087676779340774845658354535412228160473043, 1163296442319489209888937366654902423089660257234, 1410431975674942894282682672023186006766500806849, 1167406099375779762576528864598616572984842553610, 117672780353632296229293341731615570993345374382, 919408432556917171360974374243764635889649665951, 194641442305003018837942418296316373887459064650, 157147123980133115274408748783830972937230257497, 1488851690406559656759308233121074133918540993, 1461320101880486089236977817433459737722323515430, 461769609645577186150214063997548563317690553289, 581244911543328082700191775595514698384713062983, 311778725844799309580200690727433153681802868163, 43680790080563015189327054001110660884147372062, 1075329977689570327506518188415479419591499108953, 1119731516834466559791489764968158149866773908137, 428570283952488178833199109292835285035225554618, 550074787729612480158603110809836550550335519371, 502804912767006553596495948055187735891851489368, 1439091177815016018679819569102132086341330836562, 1406607788518918848051351700944004954308582694858, 855829827106388800549330613124753284886302743575, 164666445440107024777510041759112059630588062065, 458678738875059256500621959621021122707477273056, 196462988614162403296189215352920653929132114140, 610283005435398672882130157624622940508135822859, 1229706347514489608740665837037030032639582561415, 342944772256108002613235469182000830678611886134, 765808299452941376743838958404983975619922933375, 836672101528230959671403867721104130049918877645, 1193533557610453664304145503023519003364441029889, 727254436071464102365242519132393910191780938407, 1078461520776464012507815519639881949218856912430, 587566446091335699761112182907408539832366603955, 1229968020907597517531310667431024540411455413400, 1179531098927965333914618873640018547617352010626, 1403586845827668942585293358049702957614193903870, 1424915427818385951143475394582507407779048906146, 892355785638951443145744617541644243400576096349, 847920402899649930700132766207768566346115168674, 421003502289237755408091494883022670279375161856, 15302764155567542669687095576457085383567982335, 558744526686721082390819576649259607175121948523, 869409251301658353100016681793985259602804262666, 117606483612573851535770214991935992775342838034, 530185620302669687174475784357722756482568385131, 1100440422021261582074152477645614146445430911641, 453215741813442828619356771916033626842921178545, 507422624164752316964331832529721650103010794443, 776205133418314338540146272527367547802002372370, 1125083783478820858995790374047281511331424250555, 77999644715008686041102714689040708048994348903, 1416620877542297483136340510714370273073513558777, 370988243465458958291888469263326538047278395755, 372206614203398189686237085895798433125116844443, 518626379079714373597898222555727422320633802767, 1427905918747424132774360424033218056423781891141, 722480842169207570544811747723385753276483449090, 661958290418532391330282704292944427388888464979, 509886183325475800015788102687712608488970479617, 620435426059259608497759014836238063928995968548, 1111994617931159642848455271188456451649082338273, 1343677760890919187421080775411229135884014490748, 277003345075417541841583106110014628559562516601, 954045206414601478464267432410165110709058186233, 18353419234135937090519761085210099860574336747, 1185539066941742383530791700254189619280376921459, 853631023290611438046511896161980534701842632957, 1405260180560249232018509029048030874665413852466, 954229525475799751772792325534090062158347021759, 563030070936036930780635277176940211804073080188, 560812914117743373852356002015587001222695257034, 1390006017581413957504224353351281051508852369778, 1190133921600564482596024264673412394700018939893, 58353324368863494142154297995052985095277345072, 944009728995536585465495152170901659718242533622, 121872529219427347812562213281334293473570251840, 657525135356357296642052519001224535520863255663, 905044161695085563780182325963786669934786430579, 37629229486124482401005676660347471209309492229, 327243997469462193850444508642566370092474051033, 340261298404841779535688659881928033210914642016, 1141163233939954017122836729480719991045865885207, 80013307364976254956508643643685693005944217499, 580481752334143387255908176809516152077335948052, 1151603048261114966314112384715207283029153873993, 255390799735367357672367295153078040636990705540, 824326491212294246296619302087593319789898318505]
/-- Chain segment 14 of PBKDF2 block 2 for the claim C4 vector. -/
def pskSeg2_14 : List Nat := [1443633390225789839815404995449832086997573794919, 261131714469575780498631883534335806463831960688, 1447444328201763739871028292473569769635385179056, 893606389717291791866405573343865668063516459805, 409031614293810714620939921151386669000085053286, 155563715492809587149778077557558327892919870361, 280189985740465237147764534157128775023456236582, 6424803455489599330836026627820154154374777323, 140189228940733370292749338260179282340435725458, 367714583175797259945240248850421401377959701222, 109764892618497499229457911095816055248087998033, 217019372067242597541226421594059724899228212622, 758783961433929495277672037305419904058116652455, 408412898631787724149429587003067056148652884217, 621332303962782698565778452574072430535106255974, 286423022615307988595144177171923488687834885470, 397229533145475606535458956322400953027163930812, 334512398705026912616221112179337612358043541634, 1354909403341566979564951489312963676947786905500, 1057618050542931074870316768735454290348894516746, 802664473894707665100629003518910439313494395647, 1189950597590201738554446602865462785519835878745, 1367268310266856640074538721654224097853991292765, 1170097994233624750597160548819943443966892884465, 883415224583578300333903543085981668843995115909, 816106079562448542464588094026471502452477512990, 1377827767603569052461946843527675281162032343214, 724645628767614751333891595100564652029989155442, 201055218948081185653555359195739755701915202343, 385630073837812643925078005538192669069475382558, 537577041135781206558010834460900577836483040024, 828721742619179822100215875375307847913272653396, 1194692099831572006534265915603636314288670926925, 535615994075158745984994765416642146720144647120, 487697659833948341023898402636023458271552077074, 1162973608129157322292381497161095037548955961679, 619255850496433812094397252726026717084449722555, 368413699728331004247240763837512007841867024553, 233894903382222478481680332690863017197557893882, 1018000665361181894390706558992465619129283956061, 165635369091591865878026132674407553797854285157, 1046214449045838480967851328046392665974927837618, 848368973853530709374811171046625298894746217556, 464982336059979819478599830752700547621128536901, 234155989996206533034437646968351990074111478820, 478546561929958518177935581408848098642940987083, 386839990141998610995970966879290826916019558881, 449910119198983348061885777525063372123567884927, 525248533629581421394418757129459311959320378732, 12552228391023157450414856843838827334309214308, 560565768495050058239681714498071194559808275193, 1460656423208227142098718582202955285417665657125, 613352791610479183732835636511541378056354151562, 33182682901964187917269274316751821942772331323, 711978864263926852444286780438892708443761167823, 830344888282850729963799165234036669839845659008, 1360937607682999509246980146880983300392480880260, 46983814106867815204124443025944342579888469098, 30713405969903983670697642202364238865544907140, 939771037970143772475102098253740191010786425904, 143843366572455701874528341525971608932501789647, 768254929265839306984709529089921660675271099125, 1354079104758656317833776828515554316213391071123, 1092238385649120383171418629557062552370502780700, 1030191828832242652476620968053813897307586155465, 1258502894951231782858384826059100933789806045455, 87738306792428965150865313973464136565535880893, 316068362539084588134209811155732960343576306004, 77034505333344485818794402164077238087531602011, 281559838466551230824655275967632251206143568666, 1352655693052112900325433936257546335522023937388, 504871474436510361810077809482056978027531860848, 322099112207989669720514893628587450275767440919, 1266172705179755049801422337670601739562162053628, 975098196311637023654563235692004590593358669054, 659321664065006105162192326350009663634693330715, 550753912510032151634858701456131975082650416378, 690196445205761804909556994847599707066470469151, 972867845785995488812124015586939709649877254339, 204120038745826706238347102019041446251167657733, 886387872068880266345472066906405350491588054532, 68130711186880914252985350338208582301141896078, 32844038555562638323506964650384988493776056142, 841945603546317923766742157206257915485832802744, 1235198166988903541550214987460545872402061145639, 1164670033653008712089302443246852547851121300706, 1456507546791060583873380154488161334837604053264, 496347553276452300571330365535599682971480167688, 449082041880376564890954350866014480376694357646, 852502355249208864170897508259851624803769482219, 705120760109803058901341714000992453991766399236, 1350615582918741252391764226172174879692049371636, 790153722592264928288580149564182715169709470829, 367445794553800841621205649292414017420235404910, 61657671904506304691314788953366409616846032148, 269621092289883504291873698029145964492406897137, 1422442418197558296996938104442146298136226786363, 131901232057810159372801376645540966098964604398, 750288280213309851455433064225261873409060286158, 1197058438200667303888377529187221146603543709442, 1370186070481244338161279717252576253901837524627, 1274317240746982178863321914023296007865518673224, 419864740910275738769191055896416635800346645839, 515201226865234869755182592592994233525060872609, 612758574685963962897826936737921239750068356258, 1322745290953949414272749138072983019270994823290, 127479934665330751030315435395244910331512428436, 201310355261251528887147846312367515289526405664, 542768221228404836383072490514926431306370483959, 831982791046478378682511659498939287896325027347, 221270962268302094465712465569943150986810066383, 986539649459448347982563814152541499515124008671, 282029262522126038215108998867524120020102829700, 1431463247642132101760747744804100345500744295041, 962952881923390086982113735372689468519808305874, 537565942992227894218430998688692540526803833777, 89221103175383602027947249888035493272242339454, 32062718008977808358817201298981332332944159421, 992461109214665687087961979816819599335683259610, 228593722507618861955186971066958533687641060089, 379864768976191088448156822778441505345351177565, 980182164167930379157496886555105783084223622090, 23499495794629543709132375594643749203915326742, 296921956908398139995596315146584703322641169809, 999947054355112938241666622022191817429620772671, 208026882722641517834321119398854553673459380180, 191990325227807021592619659167573037128997497862, 859492092367778613823904609604654593581975315886, 1159371781793296939581413477004469181942729393616, 1093999158442786405427904486360114238073569789466, 391054208018842002479431343649888848168359588367, 959659801001098503482857674476549344241761377447, 426730449921152214739659371343587209217353169289, 384398127199534768921517439777209382573815250684, 334912387563427567759729710542723660942803153329, 1384791169888566254957923955849537745432354328329, 277639265630913236815422098515191346573651135032, 1270556438935556544099910251823619711671494223664, 21083279294166640846498788466311430686686923901, 71350431649164654157169625762563304549563855849, 936806229544469321343427206108523474531522658085, 205818101997161459952039908134799035518862579066, 100910652126421187631780038034065448188607153230, 947421655814012955124522506160085526479172082530, 1096383743385983770991067123946590734566525021094, 748063583926718370182386230956246685927693167456, 732003896538112055347588355744974717078824737419, 701428071205018245563846222303276569299852778526, 633364020309743429734274614952349216542817262400, 9988038333125172885008562646175985668587764941, 948384011721476331120934337963534547900953600115, 1245603884669879529230061729221994470648212764847, 1055122986367811546119455968276176381027613451322, 878822154430706302943419998342175268672751842052, 905686964977893565994271164545769402706150346773, 270166710803934690123401393984504562424057835954, 526330045744622737122309359815292618470696243652, 1162534073016406365971315923777273072428375448187, 1271714028183259770079798819069090591659321722184, 19170084588075408606022237577648572578282160012, 1369830113184964473942867176860825312811685259965, 467239040772037131115058014226397561024613251235, 323827269016899631352307330924873592290350025326, 318900424380884470108557971039926122775812510929, 495980552274339705030417089229293968524051300192, 926640147625816853822318405175021273246149949651, 88698356688688520716766579917871784085268369154, 584061603409651478123002746030009768999207388027, 606657333659878303146800651944170827741091415727, 504971878260598559937965275423950499338077588268, 537444853502892351444751243948813023077338665205, 731045991592373624820419299727933911290166137102, 1212746126002213394712062300373862730592681798705, 438745741332376231602685422697509562753724575641, 998842908964079213613903508109515835050757124046, 414291268271475837040463839746070765583708281912, 1380105773889949086021951079880305209962519064363, 1141850331140013176117923017567283206520909285755, 657401806062475880531856120946015569667940826492, 543948849807413742341446363351559716071613242640, 1417077777472749143879619080911379805028676342239, 1416602869857281831455370396756077646162002116897, 440237258540709132309580487031915723825024087289, 292185765860480176241570470021281227692783280111, 194599057053376541085845573360202304070519287210, 518472596970957012490419909048613317106121517638, 701406345898719770860757664301000973948490766546, 1331005904089354237076062806214798773662016426970, 432730863455313025156659381849832424525998507005, 1404233295541788603851993029816619939795334356811, 738413821022420184198500487081108643834507681290, 1376668737163421844034045337973646657015981357938, 675639243680156158588085086400703303261371223617, 916195007001521744711457836796149257639573587049, 1414147755116068409302204270957569129507909151854, 967261510738124971832037434530743275812062845789, 62237795023690436007892713338919170883294472216, 1097491961685513753911326851998391835085869844810, 1127807817211652466964865670394969922574849638882, 912082078464343599766259149222613543897773678937, 450646917162780507379120658610894692882800904376, 716786632297687354204618695320828389058293702416, 1429488593330068866571065338472519834432725580079, 1419540825710730551358356840844648851829901962163, 851125995649789016946755236779771196920276509343, 459743916147621898008742632845800863032581291058, 592427272285723386338670012335376392781691676298, 1098890919243557569135279646638995826493575388895, 246307131978044725169486832653117279031825650299, 131218986582411708528610147009294320021504968582, 463159231733512353748105107769794102146779839045, 271740456370647381517392070208548536603219432442, 873895621154355350671545584636668049156734242875, 1114198485346593032457380640457982981256292466785, 1221301498982386491777217709100808227594899666655, 319027650268038947004578186517937216209610086058, 262090329761561342450089464780145011081052933822, 987233006948760034425334510384704009744579831378, 72436143987039029521166621160646876421957606955, 277105292090539001072823414718546956684289315433, 407523591581959839673943383190121485713648931277, 1357172603445586266550011764278632838352454631219, 1088651886679807345283633213088782142215996541663, 953512752379665238736010496546330334667564160256, 136766490495771186506593766583400584381184355141, 1158309393096995620840239631462978462735370087396, 48043765701445637211717416165853505321709686702, 1162524090332338707457030125989036189125061936229, 1204758034511417534516799868812353005198156379302, 992443886572692786520918969244373335882909397230, 324770517481083187785302074283185818454963377595, 630720174930986892980445170325695793752985143810, 498460223472467394868232329525743343164465096988, 450070596654336036310004932764273133275164823561, 1350910423701261235682557722526530888043439368585, 1328782646024358318330978272325077325728737393427, 366797088930592235724570183452188837421357266940, 522924609827472795685734964774784706270534642470, 1340517378341789775225319469832572315676385611566, 175435427897380314962396817404762039920606283453, 592195473375273057266236394177674323652732636529, 433642615905399949299926491243629119446641187246, 448386324369809214846383031069107671268583342515, 233791374246582061115156777417591998846075800201, 1365367934674317204239601453078883415127680701082, 1410946154531946404062046536116428410805702157313, 1231283713381680161749455906967981959426474998770, 126090771887795812016667044235354816867556158645, 1201286006443729382918784944398204644627566821985, 111046511121329629091087831704872620432853210544, 17230883685305902754632427428788164927665832062, 560016650514211063640473270190780916492234762618, 1346635481691783818438847484428533187908097519962, 628629355858506468589913136642864612078670633040, 1419922266459234991301840686161312036429759462331, 1051391600010431805471581941564219039058847616373]
/-- Chain segment 15 of PBKDF2 block 2 for the claim C4 vector. -/
def pskSeg2_15 : List Nat := [1235277213880135132255262208604991833508454608252, 940732349536870903481431024065895248383914809429, 1349921820281892245623960468961600692703184433036, 962425513680978837662647039029352108535589858908, 318239575423159709105052825601903158716360159761, 1155942694630745961171350798983672490765097717250, 356042162186641965367652610243125501894003638077, 564062445323284586002880530529629380005551829366, 1456482978416686374776770010012581384767475141348, 1398285033662600562981844906259964336444150876678, 1443719300550572654286329795598007711834847679223, 1105869652199193469456074112610638589963245147158, 1369519457589905713474401352593291320757170546150, 1314602496715691038841812932758662022990459711925, 913888429776036239233677889713028070368423440595, 337794344630971604662388932212475782408262648575, 56771719242679011582394321409038680329660683176, 195096354042729825975179225926706944189762650958, 236799550746465731642355488047078734741372902146, 829677889010092608481385272589739059747656997301, 560886747601375254687505020793277182764351821322, 554739154616010656028510269704581618401481429692, 307189639241048976212176895114562009552773452481, 777382295648314947670422654640700204632620213075, 485324876537055397324838305411216208221685800096, 1166916644975374329704726286754185620072963646089, 651566197227772290337147252058847757995426946585, 218820790385881392834621519130570949325709382441, 958472346614167069383959109641420261093748646191, 185843134577331630536457612195894550959561391898, 732779526627158012104403691369351693004116313300, 551950020478115822044789166142567462359900840570, 1363217344911704730082462446300642396140554869904, 1256481617916703803702052576528459549556449692762, 763090822977581502138682282661556547727710896636, 378387450921728874076633126026926726070578579203, 489537396524560423079287206985374815606748265091, 198514391420467668919140981295033862804961292581, 154443783321092428497133916250151554257337996038, 66251266884865374338992489018785614254619089525, 196864257517865062169545030545107034538483967426, 415859713101779828027903363171887298464612508745, 52986741534528545252327306526925502696649659175, 1207629061999308074322137716728137628164902801392, 35965908529293500683935740957217881553410794522, 1050501324564510101783651149577015201789113435099, 1163395962973573874678808287510323047637268378133, 560953378832477533918633205857661208113779673625, 5083957270070741320064219463403441160986976051, 684315246635479398925236743034581964341948666937, 21430781020463513349961745394498353041980245743, 640038433638696474105029552468715381177950645438, 1299767437578535971452377724378166347654489262050, 484537260161442799602356421539527862791175571430, 473859935233517722481728835484076245475914062499, 389640645546884321545717329485605553896590500477, 1155517448184307556078888633470370423108702797267, 1301111588821505590714937953267468937560204953179, 146561608414629474018916384490029550170376213333, 1185052089138362040320639822420184355744047746155, 443202221166328077963987409076019161760447154427, 883890666817623185450399718714628803828456844635, 1380956783776734957617854843538043419934963100679, 708022554188171616700850225556977373972375306834, 623329186541376638007901057187274883566679990348, 96342529394392141463901285788699542037996363289, 1285596850189772210297963880928830676996544915485, 785916828100872036567506466166659384172523555315, 562913751223792498949617619638639325780027687530, 1295645551721412211092525852115588257767223574054, 376224577540438017243935431396083368309175519280, 411171181412060374577539795459749286739557308374, 404963688875005228341680191021876407589543715994, 44565052170385407847359964643505915675466804012, 1321224935687053334529719362225225354576195108520, 1110365391004295218303687698931691540870427916510, 979284643140809704299820861042954456310572062921, 681284163512557400989461478405311395397715158434, 60175663985573148826088985368462448494730428552, 899911708148031332354933240448286028408474628199, 1435297027505416302577595844710115344383592748910, 599904418882055675960015891575098952164578622195, 463204025830823396638154650006496438277848014812, 390201240591984656533086570689749311378460480764, 1309038592392884300412646387648831900865042991700, 788887288352623887292370192043180263369238230001, 1293518017393570097306103984186293864782672237302, 909249567007825491999867889704120253515526846872, 585399290658807170144249970045136160298823738674, 1037001952706394870254720667730081368980793509185, 8333741332473132843254332947239755992453800562, 287762382786836530677308149146396914680161718369, 491051190481890017683348912356155515828049570773, 252626366007556576999373287919509348786965443227, 1453166743802348270254111578369004625114366869699, 545074522296012841273250117862518393704890455709, 1396721808289041845983702819529168890557298714455, 1368859509907348395600125467157174677983690215860, 656540849620805292197461345136987618569348718115, 964888551741849024674672433678917339738650732143, 24128230594261198916203550081491517957000828941, 612218880410416769854258928783247906697503942579, 1410005604314629066002165227528251336167478882101, 877898191850587689455256310848404941632678884632, 727335502786311706126872633321771329067821521544, 1392683834978826956729976381632819648403366335351, 197726758926956516757747634281408844217729531131, 1186043118458130305480532349708848642722496203937, 254126148643252707180613896509484172443583274130, 869067347461769341862161516758434941670010465282, 1356307270721527514504997303865183513057298335370, 1296437127167295444641877723069466342417463305393, 661815467028134867813718425192683455570210082845, 930355134771881658765210859906203189635150108667, 1403076561509042869007927520897795405921446487633, 847118970138563357014411746209520393556048396039, 883318903412906591824590620240495541364011438819, 820993730829899844691544901591731095290786559144, 1346953860813593469264006787137915797782237209012, 157626403262601876736862117378154970001397633102, 1424497983810177921629964866891852095756726987410, 1101337525027420728488816161071931831935997296240, 1100431982925777623698033110983051717577821831772, 787879635284128452435171979855160986747753291096, 386603271255834916479815304407839540131831918901, 345927612715863883765988000263680250661259761089, 445960700506882322498893804546127044306875665909, 860899651629698039633001869001878910103208350302, 527371908361278927538138481173385246382224681673, 928531023742394062131405596743043803947220388701, 631878280736440421759665824957007626002714770422, 96629337957720276482965117174035386715593769047, 4362434924296150494504925343725463045018485580, 508221006491695776491669120554739897401434582481, 952317549358753269027043382866399650660709840157, 578408772865168839437174725588061840145129450500, 1052290072341963309440780967149347657779957428970, 1043445479950640881334619431231161684922364487369, 732030730389064408285596443382942662353625424926, 81832206954252116906934913023570695674774877202, 203459576280589613068046320380241411287506374038, 1119403528661731248360950057029047010259012963817, 1351395189252910770776932285622619062213256337450, 1262150430266235750578055390469560106578655307687, 1211765389988158863042870069667093800505446227276, 1235159220048252743719668463508843386642567130132, 694918888927497284968460071669050742031453577367, 1397773934126929985332000657606178130484566448487, 299854289334673551257754841938211012427760381531, 94325893665601989410203348894782363866765116551, 64569603828492714025809217454265526446897559804, 1037132328210399895083013517760547844147896484346, 1400534170409038815165269107890882825075065317126, 957424468426700545840204113193927882350125133961, 1305930714673678839674856727436718806034868637120, 1188314551697855145764690112364700654780385101965, 552714458096350120448544996810685110443281974966, 1045712607143619195310492181444204352433365329928, 1421549202664698445348191326089253053633901921800, 769610358977616233611243074380262359493190508282, 540611002804515506195470975682245651011448621385, 34019853038224302860430421517221475216265902149, 455757041562237592949664203909419402817122911804, 704206759990323629851808338267332939983270516251, 316883227720640302876434524221691977026232073656, 634851937680613331338756194145667837191014763783, 73605869753822400149171724593808871784845947639, 259996277093664623885511478564868752563906245194, 440594496894105870746753250065905279074519652695, 395802394136748111999182897915879244728339968933, 870429073441172544565878965825124088015275222739, 362382185018495464048633041029154824322290887029, 1114646711006700221358614387091287129766806423141, 1296083919039133688234949965900328263570019193758, 1061094530626167611064782373317940948688828978655, 572128413792664474803051077273936025800510207919, 1143293722822379790796220928282391764357227800649, 273700182707662374938406913606449689835224484775, 904831507866683016523642160995801734606639239870, 1366690766188067492936170983480143592066584143153, 239209026484619332882608886524583283288493021977, 769547243624031634207037030524653183830523332405, 860980656003620865433955475186081477781390546630, 1458018267952449398979860283596224095108077138390, 380063364971324263742464659684119888247311312306, 1111468975032298395060963812008979815639158278971, 204710595000071165800787670083732993474378393544, 1221372874270404784744799978762672175964026930329, 909763274733001300908598731795823457849182728376, 1228335951751651195961049884313035003234313836976, 542493365237452705192949280667325469276134777522, 926400400195994433496277799406242288671320240627, 435709913194597073155662186045885209325273023079, 1033977087932129183640484627052492619800889280454, 1232730606260045085437661054360106667389036932927, 129345938215409201189717956936846606491520622946, 230115717716553641459689649075743946690900810101, 1002358223893114511432297340037161000546760726600, 986344908624510984729957706558213315486271183665, 389673970533471072230022956524787195857777629753, 1035218493928640428744376481534492702809809941434, 875840326818546128901062924928358484434523938039, 1249965681783982151533176100847594968328448388387, 505448345914582330135183617432556014518731043107, 1356255122014457439485068566702855708319362752053, 71811030067668991971862509860779045599173845071, 1053039876404989384119961417356886980183139334489, 134078513759126928698599173401901975463880875635, 787523068525137962656324955531884413946528124484, 620578074216842445964389603570987574217695282525, 1317412108647584797666129969870956552817740503000, 802826444355088779183715002708426918108996960794, 246791443990416444243347594858587993779621463901, 151790306819415710073732133602835959662103316118, 1212214706162980281838134371128090366772006567357, 1195133496111859822898746264987758635365056965606, 1032101655432953047497364006402906348673353558332, 1276021974042477628581728405952561429605016104055, 531810182154063198023131366581576499435123755661, 1356946457649865336430002193694565875553947831404, 761802127274007389163019433891682798346855131207, 18910168948393587275110130558753867359695356231, 566504412982230282618370470835399289027470126574, 948136488337106946528853808982075483464314602017, 892841350175245749948146323951343484332268117583, 427009186459895080870401457747002142746687722946, 768928770092056252902857634347304718070013026122, 1415181823066880408967701562634016434064080321305, 982140159439429226870140426604761318181743915413, 256829822477520054888011698666157865727142740388, 1125606311677620893991976674028885424558300609979, 552412079884677032392595555982037854538883264797, 244243398131205225452154700951888047953468147062, 1077227802858550089346734303872406967050265692542, 328157169884763820456850269209768052483564033928, 723239334794223282141272194815639953844387161614, 847933581353185393140236234595461220660235155326, 12330486333782734678408696231676176562374034761, 990544634108665892618422355170458806959247449187, 1186860980390388936283892148131829786109341225639, 1305346385831524221055992250316828904194599330424, 612283203213465076720260611709236251314082601622, 1279818542795251708520506499019049819599717342268, 1223976952763238379262844925723306274852021882038, 929507435709217375169738292870676408765471523708, 1320783700892250154091285311725932489234488593678, 400766017857767765546097612264074343026247908631, 704891879879868657566004664378480739868353298336, 661000067755981636002814684358110462901400338074, 695917320929950543317425207958538082022305815372, 988839590846672074297678066761324542032455815886, 1103518879772817815046566435356281745877941102993, 908926020427229157422750538381218090194558960579, 1378470119281497292783009886903742225154451874085, 425540842085444254915567340406006319007983071091, 792922654812627610113268017363473574458791277714]
/-- Chain segment 16 of PBKDF2 block 2 for the claim C4 vector. -/
def pskSeg2_16 : List Nat := [1119197345222192985482257246939529462885263829580, 1038003012917753890306327764489062471315919813, 1110230761204208288663448484438951335643189506170, 1183663348185555248291059931386216701420205310926, 946276029890237796714211928169302393994563520077, 893721257887135068870227292241355901708743123606, 902145566880363625265027538838753100926943200121, 765112390487158207988886886732742169781435296055, 426188975402381275486704429617456389112576037440, 727340642489533249291122289873885680086251784706, 43775931125641654680072128842628870692668942745, 991393411402059867122157040319748090904371174515, 1263557882019296249378248254905230554623069709094, 28258625445992363440333334761610636008451323879, 717191578477169249531372758459579825534616068105, 1374413834966218881894786415032680502033166505950, 1337600815010195759548423215321292977704199395941, 1396372712229012048614327818652276950679665954929, 788079615300761964203775366160382408917892514487, 1252814873800489803699061288131953091243602177496, 112026242152813344813630033869774891104244065792, 206744506074382325930339176196167671126582183247, 575854225066793961591419860447165136123336651413, 1405379042247006320775731465045581148544599405496, 961721968081221705106082705603349008647445471, 472954869253339906825520929816344248715441098604, 817242979471403475607972807778284138101481822771, 999955642970345233680811677804336502377830612028, 169446533585926415799219017842295119532364947811, 1402799758711065170334550746456520016045354482994, 232671892555959648957183353727547764614184177363, 1086674796432222644608277755251516672179017343403, 916211641048734345756601306903222564894253588562, 1183526653492496703788386026275596913947563983880, 153187237099175791078803475974371531202880802146, 891480677310559588961841443497738049963893900460, 946477194841347812160357312983485209677482343783, 665043953583535025567171975221716442154336838129, 84907642302299772644004667398986788453837891673, 801648509248167577077395078884163312157415554123, 624649877696943280013666778620561603176045650295, 1136875461111578679480055329734141117773559553406, 811430235816665264279407159045651027306318183683, 1316870531748650199961036460373553950261423458076, 1027424629985836374259864675810327130789122657801, 479537978568294732241305673013878493602127285796, 379710749466772620459621617083334375736162613769, 928593616980477958603952879960639477120845219965, 1447095799026006049222761060357597529544868704660, 1025919092827583122452206330337214066336798570547, 31452483565012606064504711934459547918046304902, 370784883455049816800222796067865597597863582110, 34948962807678833497320913088604426401999036398, 1118533143525490268844936153893282544773148079391, 164347449561716998295699215000393250943065374621, 32000509999312236047254367946109903313094349264, 1260327811083104630072438126815817239856641818838, 1401525489039853626542416510129758352790839433346, 656594751338981055528525440283388992077340120133, 1024436445235740892307718260109024913815682935502, 1415122893320088070273655076128072054091828579591, 316295884397020717931663463205201536104799925704, 99624641573325331059675497157981791605682954129, 45912917076431429378406726539304830558861689092, 309127403860630445693194848962776916300151073753, 415611425162155525711079110608652730094383252277, 585718059529132896466695787798616224145797007134, 952568632873536498341592128590705592932634290791, 1289539918476475097111216118195526903732059251106, 234881780206737472099243711110570093955320484576, 791032113123824741022561040980309265358827308887, 29644884843279732807405144213445068717419905476, 474696795071124166461560339586658149637786514805, 231727201274306187255659661483715956364195727414, 995035827557568776448124635766820614372732754902, 243331131352200047973224898633994716439619204012, 792382707904748544305113388080824928178690708474, 241758573522236714217891268542815992786570505162, 1132022812913047121627893632485325927730633659520, 87440637070929904916182960799643911749818297249, 1165751858260858322920937315995685405048718103717, 152644314719815347699134890029020141897372010793, 1323067353625377590804772682790005015174041843523, 135900487490254135397645435545981895457355822430, 185102359691287274796815508148873680635490995161, 1027699918859040869081128293817312501178062213808, 958777129940877162475308823105273168556438034352, 1197918378555821887680678199342980497860024816604, 817942263457532771173764602612828723124476730154, 1452401350676277215206328030947220470528254101663, 472918868543833105028102190478001558162900628266, 1139598263886779295779329385305966180835409014137, 1285684674462895450363300378448254776444324820628, 1176097352590564122792247488593575280571575731846, 69890450123873632558186007163343039983669226450, 669958423371327104660940619311520964614199440331, 290991658992219693146515526439247029650054219125, 697210407871327601824123673378428552240045987708, 1303546542445526363312626939458990672621048539034, 1310773184735196868390721550414872441070049367185, 1244261560824935256568993855799310964653219826187, 1152530092952026600239601790986594707591575782207, 521823648024215164514557318533556250013247839495, 560387508495415671811070408263525731483131413798, 942459329870355845395118105846185368147311088117, 620264452190569387319064650559335599948932997088, 218816340744681276690660192840709757704760349947, 720907754617593368112826668507235237419968508850, 1176884854211088043113433299967124854369318043547, 341990942438328374396851225635257125628636990128, 539663748424933992591666457446914320200776604661, 441333783125047740090241238509101042083279661305, 968043849761570817504447323758452499587477900992, 1017670732554011068598188686978832211845244335058, 41203920100403323909617887260766647233705201411, 480915186045038252133416980244690680173900483332, 149187516505543908250885102373291082841498954854, 1101044182937246295516639897549362197435939470627, 972728158456810132147588430607032831691386620849, 780984956368435669232087618487112701366454542750, 571828018986690970772153111664631321341083705638, 430717249092271387554716713863218798247695697230, 846348262684783756508683172741536056764029702679, 890121667394309931494064359447652938266229523179, 752589277700532325495940976049240707335234488273, 1046783948974831347598630669662088212319318122773, 582655670939245786344458741102593479376366108153, 536030069164676957990759532495716818623774676501, 229370884334650485656785170099276294736880317370, 757667714659980095752641786706896858735087373812, 802384681573909438673167816727733084752942757606, 516487958638935600572429222117602368135342192659, 608152805089378495017577056836330471368552573639, 791269590709951725192396969594170191544324041886, 1175722077522532833509890502499891748398311900670, 1120829124876508270179625204890150454035133027814, 1100889483219929142747442025067316056938374478255, 546224751122709264282114492836435636763317898222, 19859143126879102088394844901963326130466033976, 1189215240422985697492824936069603975224951823053, 1321143113057673576176361880022970230565667233862, 198055400811252487233216677039320417971610451723, 931900564933886533795057102512505841912983391678, 556210935710383125140855492690730010405441038304, 1373973900212466581570970575005112608767095832353, 657503696567596568244037240460609692343957940733, 280593770194822042268007499987678746028390295881, 797642555522179458966996864034741978434912869415, 451663261428695375086184903917263387152673231269, 298388917300538157229480233356518340705098434965, 1305628703810548608312042816748887539052088118244, 1161901613979857377423296109375761696449676385400, 42141742696568403803834776247144970094073662992, 1315917113890175567769583989245048836177777439352, 1279388238333194681633875949804391741367719138280, 1149072656238607794235420876201858059951535739979, 1359361662903324735768659159844352958766099727189, 568363750492818380193896940793130389970972601698, 713460821108996099887873600577848932537286198227, 1401806568209874695451638939814335463673456276327, 865471519637021210009501363055235478202317404900, 631037942702543956141605143619092710697888381066, 523206359009527975387074924368833066397617556995, 1025642358246578341104889930267828081423445713064, 349723902724368378411973358201033494364818608282, 1286970053093217998989841620967129870264003873379, 944933280227297120322756721157543582884902821917, 1082624117776681467360862958621912039641474741819, 688342928038851372755437313870403459660050100590, 895662475446793946726166793747040842645385626622, 625382335420674512985531219765183934869481690084, 476378081627138816672242838086797391301605291110, 307920838435895404254692780437890223744797514464, 1388150405130750648465863019665594479290052264928, 721994054528323459811725867922506947890393412779, 752685383744179664773025694743520979326010629916, 231214612704045901382002312899150046793788239941, 526321251944016829582997105705991249388492530343, 894472341361740037790629403076455515251136804139, 311456928837984618186660650182936369667627123865, 864228786559695590449670519749593515395978716443, 199588483551853325245984032894297843201420069182, 508921390914872562070592609083339375685763820432, 1335548895238699774710395035282389920283751984665, 1005538153869512168664760758939463471638393391383, 350637663209418152162079670660801315986549887935, 778694195590296664830219585736445766163470170394, 1189225867460312604745632570624696984227028530018, 1109318544116078933214195854414079625097138957888, 914375869088957269054660720769301886490660952566, 1297752559174254834151338120403373073798153235575, 627780251375982763128806844447524486959142326177, 1000123485754221877532935750071029403856826506185, 1442033428420502361851260324433305354992983938665, 860116721043627760266526300698056127204811199888, 989699230180398564351313442709766306670835743756, 411847484808770871522666862509170581440105802634, 1347048767069229056117076948313152650397933789783, 753910126838122307805318150242752726638259824454, 214408558468518367709730250606605903960724508831, 984790902206528336408269825335493553337056777134, 1225097739816167375698626794659848094601772667712, 1039303995845290868279004155117111096459187038065, 1418162267836854558489278856364649257924178437130, 1050349529512774930336767718055673567235345865155, 1289315998563792811884439400390354554836470324716, 950637573256880589913617055144074772320893052757, 1000465351401141231455285542567876910346398899453, 1317327123133364425812400620126782364303157488144, 439818118369083728277296852295173934837049670434, 1011198358126066176757112115616920014677194447963, 105513736262225757604351792146297336526437560687, 736891380292187663475953154574634079384516870919, 406277906746406798886866574477995762577751196025, 797781773155902334351030013173567285855468627471, 723344151903478191162301827789742823184411461443, 11741897732256943980247393999941021825139037398, 203857384956760242383242099371554415097575058630, 1221208783408307286306812737541368777002381286810, 495477556001488692541365548212787876414722974830, 785891841578122369012797280460390510805549899240, 286861481983383971154732409194067025746723618489, 471726124599912819192545707229715838311057509580, 572324858335259835851718022969024229674036670135, 1220652067743018001499236110039896795324443571003, 528075909326366343483555810063698101288000768700, 1036959878171168263774295701190599538477034117811, 506038038289575066697910612554315306728062991282, 1049360632883170874264936797134688046914538163510, 431273743103783834711010872315894400783849738785, 1287712895095639128582051957383249913391023670705, 143777138444426491753073280002342882722777726709, 304888483623626850057582507206266397174490941767, 26412861626222388060506039841892504680360270356, 41901295885563081948159878378739480168036873005, 35672838309675306511101910143645166597163597951, 937489958312153380069235628099107216015068037219, 234564443845541043239822981930568866316340229110, 1089725353440249023373086810972331226027861589071, 102097689536255199414206990371550033315775031019, 40202183819610045692880481978228456871476114622, 1381636115762301664910373622166359008420255665277, 67214834168647054309006743513180630896799084876, 1197796231821886794121458709124424995274719221754, 1293104410131669189339190774549227889233562313354, 988446366950867102298270079079045747510451985629, 787207975135909426679382390309760726074349042939, 1060449769845138029936689422621289311107823448552, 415476848032774577669071409404201413436946083081, 1029728604330277889701455328985777895707711196380, 49093679870468671906332319374353344763093674639, 105978922989766384609685289041246131264485803015, 582402328361889769037993943924725609232391849356, 83454719397913016033944891286845357295202215728, 881255059032491384433306714813089247167994699898]

/-! ## `src/networks.rs` -/

/-- How the secret of a PSK-secured network was supplied
(`enum PSKSecurity`): a human passphrase or an already-derived key. -/
inductive PSKSecurity where
  | Password : String → PSKSecurity
  | PSK : String → PSKSecurity
deriving DecidableEq

/-- How a network is secured (`enum Security`). -/
inductive Security where
  | Open : Security
  | PSK : PSKSecurity → Security
deriving DecidableEq

/-- File-name extension per security type (`Security::get_extension`). -/
def Security.get_extension : Security → String
  | Security.Open => ".open"
  | Security.PSK _ => ".psk"

/-- A parsed network (`struct Network`). -/
structure Network where
  ssid : String
  security : Security
deriving DecidableEq

/-- The safe character set as the specification words it (for claim C2):
ASCII letters, ASCII digits, hyphen, underscore, space. -/
def specSafeChar (c : Char) : Prop :=
  (65 ≤ c.toNat ∧ c.toNat ≤ 90) ∨ (97 ≤ c.toNat ∧ c.toNat ≤ 122) ∨
  (48 ≤ c.toNat ∧ c.toNat ≤ 57) ∨ c = '-' ∨ c = '_' ∨ c = ' '

instance : DecidablePred specSafeChar := fun c => by
  unfold specSafeChar; infer_instance

/-- Rust's `char::is_ascii_alphanumeric`: an ASCII digit, uppercase or
lowercase letter. -/
def is_ascii_alphanumeric (c : Char) : Bool :=
  (decide (48 ≤ c.toNat) && decide (c.toNat ≤ 57)) ||
  (decide (65 ≤ c.toNat) && decide (c.toNat ≤ 90)) ||
  (decide (97 ≤ c.toNat) && decide (c.toNat ≤ 122))

/-- Characters used verbatim in iwd file names (`is_safe_char`):
ASCII alphanumerics, hyphen, underscore and space. -/
def is_safe_char (c : Char) : Bool :=
  is_ascii_alphanumeric c || c == '-' || c == '_' || c == ' '

/-- WPA-PSK derivation (`compute_psk`): PBKDF2-HMAC-SHA1 with the
passphrase as password, the SSID as salt, 4096 iterations, 32 bytes. -/
def compute_psk (ssid passphrase : List Nat) : List Nat :=
  pbkdf2 passphrase ssid 4096 32

/-- Destination file name (`Network::iwd_file_name`): the SSID itself if
every character is safe, otherwise `=` followed by the lowercase hex
encoding of the SSID's UTF-8 bytes; then the security extension. -/
def Network.iwd_file_name (n : Network) : String :=
  let name := if n.ssid.data.all is_safe_char then n.ssid
    else "=" ++ hexEncode (strBytes n.ssid)
  name ++ n.security.get_extension

/-- Output of `Network::write_config`, as the list of sections the `Ini`
ends up with: no section for an open network; a `Security` section with
the fields set by the match for a PSK network. -/
def Network.write_config (n : Network) : List (String × List (String × String)) :=
  match n.security with
  | Security.Open => []
  | Security.PSK security =>
    match security with
    | PSKSecurity.PSK psk => [("Security", [("PreSharedKey", psk)])]
    | PSKSecurity.Password passphrase =>
      [("Security",
        [("Passphrase", passphrase),
         ("PreSharedKey", hexEncode (compute_psk (strBytes n.ssid) (strBytes passphrase)))])]

/-! ## `src/convert.rs` -/

/-- The error taxonomy (`enum ConversionError`). -/
inductive ConversionError where
  | ParseError : String → ConversionError
  | NotWireless : ConversionError
  | MissingKeys : ConversionError
  | MissingSSID : ConversionError
  | Unsupported : ConversionError
  | PermissionDenied : ConversionError
  | FileExists : ConversionError
  | OSError : ConversionError
deriving DecidableEq

deriving instance DecidableEq for Except

/-- Read a value under the netctl quoting rules (`get_quoted_string`): a
present value is "quoted" unless its first character is a literal
double quote, in which case that leading byte is stripped; an absent
key is `MissingKeys`. The parsed section is an association list. -/
def get_quoted_string (config : List (String × String)) (key : String) :
    Except ConversionError (String × Bool) :=
  match config.lookup key with
  | some contents =>
    let quoted := contents.data.head? != some '"'
    if quoted then Except.ok (contents, true) else Except.ok (contents.drop 1, false)
  | none => Except.error ConversionError.MissingKeys

/-- The `Security` match inside `parse_network`: absent or `none` is
`Open`; `wpa` reads `Key` through `get_quoted_string`, a quoted value
becoming a `Password` and an unquoted one a raw `PSK`; anything else is
`Unsupported`. -/
def parse_security (doc : List (String × String)) : Except ConversionError Security :=
  let sec := (doc.lookup "Security").getD "none"
  if sec = "none" then Except.ok Security.Open
  else if sec = "wpa" then
    match get_quoted_string doc "Key" with
    | Except.error e => Except.error e
    | Except.ok (key, quoted) =>
      Except.ok (Security.PSK
        (if quoted then PSKSecurity.Password key else PSKSecurity.PSK key))
  else Except.error ConversionError.Unsupported

/-- Parse a profile document (`parse_network`), the document given as the
already-parsed general section: `Connection` must be exactly
`wireless` (an absent key is read as `invalid`), then the security is
resolved, then `ESSID` is required. -/
def parse_network (doc : List (String × String)) : Except ConversionError Network :=
  if ((doc.lookup "Connection").getD "invalid") ≠ "wireless" then
    Except.error ConversionError.NotWireless
  else
    match parse_security doc with
    | Except.error e => Except.error e
    | Except.ok security =>
      match doc.lookup "ESSID" with
      | some ssid => Except.ok { ssid := ssid, security := security }
      | none => Except.error ConversionError.MissingSSID

/-- The kinds of I/O error the conversion distinguishes
(`std::io::ErrorKind` as matched by `From<io::Error>`). -/
inductive ErrorKind where
  | NotFound : ErrorKind
  | PermissionDenied : ErrorKind
  | AlreadyExists : ErrorKind
  | Other : ErrorKind
deriving DecidableEq

/-- The `From<io::Error> for ConversionError` conversion:
`PermissionDenied` and `AlreadyExists` map to their counterparts and
every other kind to `OSError`. -/
def ConversionError.from_io_error : ErrorKind → ConversionError
  | ErrorKind.PermissionDenied => ConversionError.PermissionDenied
  | ErrorKind.AlreadyExists => ConversionError.FileExists
  | _ => ConversionError.OSError

/-- One file conversion (`convert`), over an explicit file system
(association list from path to file content of type `C`). Reading,
parsing and serializing the content are the `parse` and `render`
parameters. A missing input file is `File::open` failing with
`NotFound`; an existing destination makes the exclusive `create_new`
fail with `AlreadyExists`; both are mapped by `From<io::Error>`. After
a successful `create_new` the destination file exists: `permFail` and
`writeFail` inject the possible I/O failures of the following
`set_permissions` and `write_to` calls, which error out with the
destination file already present holding its initial content
`newFile`, not the rendered one. The result is the `Result` together
with the file system after the call. -/
def convert {C : Type} (parse : C → Except ConversionError Network) (render : Network → C)
    (newFile : C) (permFail writeFail : Option ErrorKind)
    (fs : List (String × C)) (input output_dir : String) :
    Except ConversionError Unit × List (String × C) :=
  match fs.lookup input with
  | none => (Except.error (ConversionError.from_io_error ErrorKind.NotFound), fs)
  | some contents =>
    match parse contents with
    | Except.error e => (Except.error e, fs)
    | Except.ok network =>
      let output_path := output_dir ++ "/" ++ network.iwd_file_name
      match fs.lookup output_path with
      | some _ => (Except.error (ConversionError.from_io_error ErrorKind.AlreadyExists), fs)
      | none =>
        match permFail with
        | some k => (Except.error (ConversionError.from_io_error k), (output_path, newFile) :: fs)
        | none =>
          match writeFail with
          | some k =>
            (Except.error (ConversionError.from_io_error k), (output_path, newFile) :: fs)
          | none => (Except.ok (), (output_path, render network) :: fs)

/-! ## Validation of the cryptographic model against published vectors -/

/-- FIPS 180-1 vector: SHA-1 of `"abc"`. -/
theorem sha1_vector_abc :
    sha1 (strBytes "abc") = 0xa9993e364706816aba3e25717850c26c9cd0d89d := by decide

/-- SHA-1 of the empty string. -/
theorem sha1_vector_empty :
    sha1 [] = 0xda39a3ee5e6b4b0d3255bfef95601890afd80709 := by decide

/-- FIPS 180-1 vector: a two-block message. -/
theorem sha1_vector_two_blocks :
    sha1 (strBytes "abcdbcdecdefdefgefghfghighijhijkijkljklmklmnlmnomnopnopq") =
      0x84983e441c3bd26ebaae4aa1f95129e5e54670f1 := by decide

/-- RFC 2202 test case 1 for HMAC-SHA1. -/
theorem hmac_vector_1 :
    hmacSha1 (List.replicate 20 11) (strBytes "Hi There") =
      0xb617318655057264e28bc0b6fb378c8ef146be00 := by decide

/-- RFC 2202 test case 6 for HMAC-SHA1: a key longer than the block size. -/
theorem hmac_vector_6 :
    hmacSha1 (List.replicate 80 170)
      (strBytes "Test Using Larger Than Block-Size Key - Hash Key First") =
      0xaa4ae5e15272d00e95705637ce8a3b55ed402112 := by decide

/-- RFC 6070 test case 1 for PBKDF2-HMAC-SHA1 (one iteration). -/
theorem pbkdf2_vector_1 :
    pbkdf2 (strBytes "password") (strBytes "salt") 1 20 =
      [12, 96, 200, 15, 150, 31, 14, 113, 243, 169, 181, 36, 175, 96, 18, 6,
       47, 224, 55, 166] := by decide

/-- RFC 6070 test case 2 for PBKDF2-HMAC-SHA1 (two iterations). -/
theorem pbkdf2_vector_2 :
    pbkdf2 (strBytes "password") (strBytes "salt") 2 20 =
      [234, 108, 1, 77, 199, 45, 111, 140, 205, 30, 217, 42, 206, 29, 65, 240,
       216, 222, 137, 87] := by decide

/-! ## Claim C1: the quoted-string reader -/

/-- Claim C1: for a present key whose value does not start with a double
quote, `get_quoted_string` returns the value unchanged with the quoted
flag true; for a value starting with a double quote it returns the
value with exactly the first character removed and the flag false; for
an absent key it fails with `MissingKeys`. -/
theorem get_quoted_string_spec (config : List (String × String)) (key : String) :
    (config.lookup key = none →
      get_quoted_string config key = Except.error ConversionError.MissingKeys) ∧
    (∀ v, config.lookup key = some v → v.data.head? ≠ some '"' →
      get_quoted_string config key = Except.ok (v, true)) ∧
    (∀ v, config.lookup key = some v → v.data.head? = some '"' →
      get_quoted_string config key = Except.ok (v.drop 1, false)) := by
  refine ⟨fun h => ?_, fun v hv hq => ?_, fun v hv hq => ?_⟩
  · simp [get_quoted_string, h]
  · simp [get_quoted_string, hv, hq]
  · simp [get_quoted_string, hv, hq]

/-- Witness for C1, at a quoted value, an unquoted value and an absent key. -/
theorem get_quoted_string_spec_witness :
    get_quoted_string [("Key", "abc")] "Key" = Except.ok ("abc", true) ∧
    get_quoted_string [("Key", "\"deadbeef")] "Key" = Except.ok ("\"deadbeef".drop 1, false) ∧
    get_quoted_string [] "Key" = Except.error ConversionError.MissingKeys :=
  ⟨(get_quoted_string_spec [("Key", "abc")] "Key").2.1 "abc" rfl (by decide),
   (get_quoted_string_spec [("Key", "\"deadbeef")] "Key").2.2 "\"deadbeef" rfl (by decide),
   (get_quoted_string_spec [] "Key").1 rfl⟩

/-! ## Claim C2: the destination file name -/

theorem is_safe_char_iff (c : Char) : is_safe_char c = true ↔ specSafeChar c := by
  simp only [is_safe_char, is_ascii_alphanumeric, specSafeChar, Bool.or_eq_true,
    Bool.and_eq_true, decide_eq_true_eq, beq_iff_eq]
  tauto

/-- Claim C2: the file name is the SSID followed by the security suffix
when every SSID character is safe, and otherwise `=` followed by the
lowercase hex encoding of the SSID's UTF-8 bytes and the suffix; the
suffix is `.open` for `Open` and `.psk` for `PreSharedKey`. -/
theorem iwd_file_name_spec (ssid : String) (sec : Security) :
    ((∀ c ∈ ssid.data, specSafeChar c) →
      Network.iwd_file_name ⟨ssid, sec⟩ = ssid ++
        (match sec with | Security.Open => ".open" | Security.PSK _ => ".psk")) ∧
    (¬ (∀ c ∈ ssid.data, specSafeChar c) →
      Network.iwd_file_name ⟨ssid, sec⟩ = ("=" ++ hexEncode (strBytes ssid)) ++
        (match sec with | Security.Open => ".open" | Security.PSK _ => ".psk")) := by
  have hall : ssid.data.all is_safe_char = true ↔ ∀ c ∈ ssid.data, specSafeChar c := by
    rw [List.all_eq_true]
    exact forall_congr' fun c => imp_congr_right fun _ => is_safe_char_iff c
  constructor
  · intro h
    have : ssid.data.all is_safe_char = true := hall.mpr h
    cases sec <;> simp [Network.iwd_file_name, Security.get_extension, this]
  · intro h
    have : ¬ ssid.data.all is_safe_char = true := fun hc => h (hall.mp hc)
    cases sec <;> simp [Network.iwd_file_name, Security.get_extension, this]

/-- Witness for C2, at a safe SSID and at one with an unsafe character. -/
theorem iwd_file_name_spec_witness :
    Network.iwd_file_name ⟨"foo_network", Security.PSK (PSKSecurity.Password "x")⟩ =
      "foo_network" ++ ".psk" ∧
    Network.iwd_file_name ⟨"With illegal characters?", Security.Open⟩ =
      ("=" ++ hexEncode (strBytes "With illegal characters?")) ++ ".open" :=
  ⟨(iwd_file_name_spec "foo_network" (Security.PSK (PSKSecurity.Password "x"))).1 (by decide),
   (iwd_file_name_spec "With illegal characters?" Security.Open).2 (by decide)⟩

/-! ## Claim C3: shape of the key derivation -/

theorem natToBytesBE_length (k : Nat) : ∀ n, (natToBytesBE k n).length = k := by
  induction k with
  | zero => intro n; rfl
  | succ k ih => intro n; simp [natToBytesBE, ih]

theorem pbkdf2Blocks_length (ist ost : Nat) (salt : List Nat) (c : Nat) :
    ∀ k i, (pbkdf2Blocks ist ost salt c k i).length = 20 * k := by
  intro k
  induction k with
  | zero => intro i; rfl
  | succ k ih =>
    intro i
    simp [pbkdf2Blocks, natToBytesBE_length, ih]
    omega

/-- Claim C3: `compute_psk` is deterministic, always returns exactly 32
bytes, and is PBKDF2 with an HMAC pseudorandom function over the
160-bit-digest hash SHA-1, 4096 iterations, the SSID as salt and the
passphrase as password. -/
theorem compute_psk_spec :
    (∀ s p s' p', s = s' → p = p' → compute_psk s p = compute_psk s' p') ∧
    (∀ s p, (compute_psk s p).length = 32) ∧
    (∀ s p, compute_psk s p = pbkdf2 p s 4096 32) := by
  refine ⟨fun s p s' p' hs hp => by rw [hs, hp], fun s p => ?_, fun s p => rfl⟩
  show (pbkdf2 p s 4096 32).length = 32
  unfold pbkdf2
  rw [List.length_take, pbkdf2Blocks_length]
  decide

/-- Witness for C3 at concrete byte strings. -/
theorem compute_psk_spec_witness :
    compute_psk [1] [2] = compute_psk [1] [2] ∧ (compute_psk [1] [2]).length = 32 :=
  ⟨compute_psk_spec.1 [1] [2] [1] [2] rfl rfl, compute_psk_spec.2.1 [1] [2]⟩

/-! ## Claim C5: the emitted security section -/

/-- Claim C5: `write_config` emits no security section for an open
network, the single verbatim `PreSharedKey` field for a raw key, and
both the verbatim `Passphrase` and the hex-encoded derived
`PreSharedKey` for a password. -/
theorem write_config_spec (ssid : String) (sec : Security) :
    (sec = Security.Open → Network.write_config ⟨ssid, sec⟩ = []) ∧
    (∀ k, sec = Security.PSK (PSKSecurity.PSK k) →
      Network.write_config ⟨ssid, sec⟩ = [("Security", [("PreSharedKey", k)])]) ∧
    (∀ p, sec = Security.PSK (PSKSecurity.Password p) →
      Network.write_config ⟨ssid, sec⟩ =
        [("Security",
          [("Passphrase", p),
           ("PreSharedKey", hexEncode (compute_psk (strBytes ssid) (strBytes p)))])]) :=
  ⟨fun h => by subst h; rfl, fun k h => by subst h; rfl, fun p h => by subst h; rfl⟩

/-- Witness for C5 at each of the three security shapes. -/
theorem write_config_spec_witness :
    Network.write_config ⟨"net", Security.Open⟩ = [] ∧
    Network.write_config ⟨"net", Security.PSK (PSKSecurity.PSK "deadbeef")⟩ =
      [("Security", [("PreSharedKey", "deadbeef")])] ∧
    Network.write_config ⟨"net", Security.PSK (PSKSecurity.Password "pw")⟩ =
      [("Security",
        [("Passphrase", "pw"),
         ("PreSharedKey", hexEncode (compute_psk (strBytes "net") (strBytes "pw")))])] :=
  ⟨(write_config_spec "net" Security.Open).1 rfl,
   (write_config_spec "net" (Security.PSK (PSKSecurity.PSK "deadbeef"))).2.1 "deadbeef" rfl,
   (write_config_spec "net" (Security.PSK (PSKSecurity.Password "pw"))).2.2 "pw" rfl⟩

/-! ## Claim C6: non-wireless profiles -/

/-- Claim C6: whenever `Connection` is absent or differs from
`wireless`, `parse_network` fails with `NotWireless`, whatever the
other keys hold. -/
theorem parse_network_not_wireless (doc : List (String × String))
    (h : doc.lookup "Connection" = none ∨
      ∃ v, doc.lookup "Connection" = some v ∧ v ≠ "wireless") :
    parse_network doc = Except.error ConversionError.NotWireless := by
  unfold parse_network
  rcases h with h | ⟨v, hv, hne⟩
  · simp [h]
  · simp [hv, hne]

/-- Witness for C6: a profile with a non-wireless connection and one
with no `Connection` key at all, each with other fields present or
broken. -/
theorem parse_network_not_wireless_witness :
    parse_network [("Connection", "ethernet"), ("ESSID", "foo")] =
      Except.error ConversionError.NotWireless ∧
    parse_network [("Security", "wep")] = Except.error ConversionError.NotWireless :=
  ⟨parse_network_not_wireless _ (Or.inr ⟨"ethernet", rfl, by decide⟩),
   parse_network_not_wireless _ (Or.inl rfl)⟩

/-! ## Claim C7: the security mapping -/

/-- Claim C7: on a wireless document, an absent or `none` security key
yields `Open`; `wpa` reads `Key` through the quoted-string reader,
giving `Password` when quoted and a raw `PSK` when not, and propagates
`MissingKeys` when `Key` is absent; any other security value fails
with `Unsupported`. -/
theorem parse_security_spec (doc : List (String × String))
    (hconn : doc.lookup "Connection" = some "wireless") :
    ((doc.lookup "Security").getD "none" = "none" →
      parse_security doc = Except.ok Security.Open) ∧
    (doc.lookup "Security" = some "wpa" →
      (doc.lookup "Key" = none →
        parse_network doc = Except.error ConversionError.MissingKeys) ∧
      (∀ v q, get_quoted_string doc "Key" = Except.ok (v, q) →
        parse_security doc = Except.ok (Security.PSK
          (if q then PSKSecurity.Password v else PSKSecurity.PSK v)))) ∧
    (∀ v, doc.lookup "Security" = some v → v ≠ "none" → v ≠ "wpa" →
      parse_network doc = Except.error ConversionError.Unsupported) := by
  refine ⟨fun h => ?_, fun hsec => ⟨fun hkey => ?_, fun v q hq => ?_⟩, fun v hv hn hw => ?_⟩
  · simp [parse_security, h]
  · simp [parse_network, parse_security, get_quoted_string, hconn, hsec, hkey]
  · simp [parse_security, hsec, hq]
  · simp [parse_network, parse_security, hconn, hv, hn, hw]

/-- Witness for C7: an open profile, a quoted key, a missing key and an
unsupported security type. -/
theorem parse_security_spec_witness :
    parse_security [("Connection", "wireless")] = Except.ok Security.Open ∧
    parse_security [("Connection", "wireless"), ("Security", "wpa"), ("Key", "secret")] =
      Except.ok (Security.PSK
        (if true then PSKSecurity.Password "secret" else PSKSecurity.PSK "secret")) ∧
    parse_network [("Connection", "wireless"), ("Security", "wpa")] =
      Except.error ConversionError.MissingKeys ∧
    parse_network [("Connection", "wireless"), ("Security", "wep")] =
      Except.error ConversionError.Unsupported :=
  ⟨(parse_security_spec [("Connection", "wireless")] rfl).1 rfl,
   (parse_security_spec [("Connection", "wireless"), ("Security", "wpa"), ("Key", "secret")]
      rfl).2.1 rfl |>.2 "secret" true (by decide),
   (parse_security_spec [("Connection", "wireless"), ("Security", "wpa")] rfl).2.1 rfl |>.1 rfl,
   (parse_security_spec [("Connection", "wireless"), ("Security", "wep")] rfl).2.2 "wep" rfl
      (by decide) (by decide)⟩

/-! ## Claim C8: the SSID of a successfully parsed network -/

/-- Claim C8 fails on the code: a present `ESSID` key with an empty
value parses successfully into an empty SSID. -/
theorem parse_network_empty_ssid_counterexample :
    ¬ (∀ doc n, parse_network doc = Except.ok n → n.ssid ≠ "") := fun h =>
  h [("Connection", "wireless"), ("ESSID", "")] ⟨"", Security.Open⟩ (by decide) rfl

/-- Claim C8 as amended: on success the SSID is exactly the value of the
document's `ESSID` key (possibly empty), and an absent `ESSID` key is
reported as `MissingSSID` once the other checks pass — absence is
never turned into an empty SSID. -/
theorem parse_network_ssid_amended :
    (∀ doc n, parse_network doc = Except.ok n → doc.lookup "ESSID" = some n.ssid) ∧
    (∀ (doc : List (String × String)) sec, doc.lookup "ESSID" = none →
      (doc.lookup "Connection").getD "invalid" = "wireless" →
      parse_security doc = Except.ok sec →
      parse_network doc = Except.error ConversionError.MissingSSID) := by
  constructor
  · intro doc n h
    unfold parse_network at h
    by_cases hc : ((doc.lookup "Connection").getD "invalid") ≠ "wireless"
    · simp [hc] at h
    · simp [hc] at h
      cases hps : parse_security doc with
      | error e => rw [hps] at h; simp at h
      | ok sec =>
        rw [hps] at h
        cases he : doc.lookup "ESSID" with
        | none => rw [he] at h; simp at h
        | some s =>
          rw [he] at h
          simp at h
          rw [← h]
  · intro doc sec he hc hs
    simp [parse_network, hc, hs, he]

/-- Witness for C8 as amended: a parsed SSID read back from the
document, and a missing `ESSID` reported as `MissingSSID`. -/
theorem parse_network_ssid_amended_witness :
    [("Connection", "wireless"), ("ESSID", "x")].lookup "ESSID" = some "x" ∧
    parse_network [("Connection", "wireless")] = Except.error ConversionError.MissingSSID :=
  ⟨parse_network_ssid_amended.1 [("Connection", "wireless"), ("ESSID", "x")]
      ⟨"x", Security.Open⟩ (by decide),
   parse_network_ssid_amended.2 [("Connection", "wireless")] Security.Open rfl rfl rfl⟩

/-! ## Claim C9: what failed conversions leave on the file system -/

/-- Claim C9 as frozen fails on the code: when the `write_to` call
fails after the exclusive create has succeeded, `convert` returns
`OSError` with the destination file already created, so an erroring
`convert` does not always leave the file system unchanged. -/
theorem convert_any_error_counterexample :
    ¬ (∀ (parse : String → Except ConversionError Network) (render : Network → String)
        (newFile : String) (permFail writeFail : Option ErrorKind)
        (fs : List (String × String)) (input output_dir : String) (e : ConversionError),
        (convert parse render newFile permFail writeFail fs input output_dir).1 =
          Except.error e →
        (convert parse render newFile permFail writeFail fs input output_dir).2 = fs) :=
  fun h =>
    absurd
      (h (fun _ => Except.ok ⟨"n", Security.Open⟩) (fun _ => "data") "" none
        (some ErrorKind.Other) [("in", "c")] "in" "out" ConversionError.OSError (by decide))
      (by decide)

/-- Claim C9 as amended: an error raised before the destination is
created — a missing input file, any parse failure, or an existing
destination (`FileExists`) — leaves the file system unchanged; a
failure of the post-creation permission or write step returns its
mapped I/O error with the freshly created destination file present;
and in every case the content of every pre-existing file, in
particular of a pre-existing destination, is left unchanged. -/
theorem convert_error_amended {C : Type} (parse : C → Except ConversionError Network)
    (render : Network → C) (newFile : C) (permFail writeFail : Option ErrorKind)
    (fs : List (String × C)) (input output_dir : String) :
    (fs.lookup input = none →
      convert parse render newFile permFail writeFail fs input output_dir =
        (Except.error ConversionError.OSError, fs)) ∧
    (∀ x e, fs.lookup input = some x → parse x = Except.error e →
      convert parse render newFile permFail writeFail fs input output_dir =
        (Except.error e, fs)) ∧
    (∀ x n y, fs.lookup input = some x → parse x = Except.ok n →
      fs.lookup (output_dir ++ "/" ++ n.iwd_file_name) = some y →
      convert parse render newFile permFail writeFail fs input output_dir =
        (Except.error ConversionError.FileExists, fs)) ∧
    (∀ x n k, fs.lookup input = some x → parse x = Except.ok n →
      fs.lookup (output_dir ++ "/" ++ n.iwd_file_name) = none →
      (permFail = some k ∨ (permFail = none ∧ writeFail = some k)) →
      convert parse render newFile permFail writeFail fs input output_dir =
        (Except.error (ConversionError.from_io_error k),
          (output_dir ++ "/" ++ n.iwd_file_name, newFile) :: fs)) ∧
    (∀ p y, fs.lookup p = some y →
      ((convert parse render newFile permFail writeFail fs input output_dir).2).lookup p =
        some y) := by
  refine ⟨fun h1 => ?_, fun x e h1 h2 => ?_, fun x n y h1 h2 h3 => ?_,
    fun x n k h1 h2 h3 hk => ?_, fun p y hp => ?_⟩
  · simp [convert, h1, ConversionError.from_io_error]
  · simp [convert, h1, h2]
  · simp [convert, h1, h2, h3, ConversionError.from_io_error]
  · rcases hk with hk | ⟨hpn, hk⟩
    · simp [convert, h1, h2, h3, hk]
    · simp [convert, h1, h2, h3, hpn, hk]
  · cases h1 : fs.lookup input with
    | none => simpa [convert, h1] using hp
    | some x =>
      cases h2 : parse x with
      | error e => simpa [convert, h1, h2] using hp
      | ok n =>
        cases h3 : fs.lookup (output_dir ++ "/" ++ n.iwd_file_name) with
        | some y2 => simpa [convert, h1, h2, h3] using hp
        | none =>
          have hb : (p == output_dir ++ "/" ++ n.iwd_file_name) = false :=
            beq_eq_false_iff_ne.mpr fun hpe => by
              rw [hpe, h3] at hp; exact Option.noConfusion hp
          cases hperm : permFail with
          | some k => simp [convert, h1, h2, h3, hperm, List.lookup, hb, hp]
          | none =>
            cases hwrite : writeFail with
            | some k => simp [convert, h1, h2, h3, hperm, hwrite, List.lookup, hb, hp]
            | none => simp [convert, h1, h2, h3, hperm, hwrite, List.lookup, hb, hp]

/-- Witness for C9 as amended: a missing input file, a destination
collision, a post-creation permission failure that leaves the created
file, and a pre-existing file whose content survives a write failure,
each at concrete inputs. -/
theorem convert_error_amended_witness :
    convert (fun _ : String => Except.error ConversionError.NotWireless) (fun _ => "")
        "" none none [] "in" "out" = (Except.error ConversionError.OSError, []) ∧
    convert (fun _ : String => Except.ok ⟨"n", Security.Open⟩) (fun _ => "new")
        "" none none [("in", "c"), ("out/n.open", "old")] "in" "out" =
      (Except.error ConversionError.FileExists, [("in", "c"), ("out/n.open", "old")]) ∧
    convert (fun _ : String => Except.ok ⟨"n", Security.Open⟩) (fun _ => "new")
        "" (some ErrorKind.PermissionDenied) none [("in", "c")] "in" "out" =
      (Except.error (ConversionError.from_io_error ErrorKind.PermissionDenied),
        ("out" ++ "/" ++ (Network.mk "n" Security.Open).iwd_file_name, "") :: [("in", "c")]) ∧
    ((convert (fun _ : String => Except.ok ⟨"n", Security.Open⟩) (fun _ => "new")
        "" none (some ErrorKind.Other) [("in", "c")] "in" "out").2).lookup "in" = some "c" :=
  ⟨(convert_error_amended _ _ "" none none [] "in" "out").1 rfl,
   (convert_error_amended _ _ "" none none [("in", "c"), ("out/n.open", "old")] "in"
      "out").2.2.1 "c" ⟨"n", Security.Open⟩ "old" rfl rfl (by decide),
   (convert_error_amended _ _ "" (some ErrorKind.PermissionDenied) none [("in", "c")] "in"
      "out").2.2.2.1 "c" ⟨"n", Security.Open⟩ ErrorKind.PermissionDenied rfl rfl (by decide)
      (Or.inl rfl),
   (convert_error_amended _ _ "" none (some ErrorKind.Other) [("in", "c")] "in"
      "out").2.2.2.2 "in" "c" rfl⟩

/-! ## Claim C10: an empty value is still a present value -/

/-- Claim C10: a present key with an empty value reads back as the empty
string with the quoted flag true, so a wireless wpa profile with an
empty `Key` parses to a `Password ""` security instead of failing. -/
theorem get_quoted_string_empty_value :
    (∀ (config : List (String × String)) (key : String), config.lookup key = some "" →
      get_quoted_string config key = Except.ok ("", true)) ∧
    parse_network [("Connection", "wireless"), ("Security", "wpa"), ("Key", ""), ("ESSID", "foo")] =
      Except.ok ⟨"foo", Security.PSK (PSKSecurity.Password "")⟩ := by
  constructor
  · intro config key h
    simp [get_quoted_string, h]
  · decide

/-- Witness for C10 at a concrete one-key section. -/
theorem get_quoted_string_empty_value_witness :
    get_quoted_string [("Key", "")] "Key" = Except.ok ("", true) :=
  get_quoted_string_empty_value.1 [("Key", "")] "Key" rfl

/-! ## Support for evaluating the PBKDF2 iteration (claim C4)

The RFC-shaped definitions above move every HMAC input through byte
lists. For the 8190 pseudorandom-function applications of the claim C4
vector this plumbing is first discharged once and for all:
`hmacCore20` is HMAC-SHA1 of a 20-byte message with both single-block
hashes expressed directly on packed 512-bit block numbers, and
`hmacCore20_eq` proves it equal to `hmacCore` on every 160-bit input.
The step lemmas of the vector proof then only evaluate two SHA-1
compressions each. -/

theorem foldl_natToBytesBE (k : Nat) :
    ∀ n a, List.foldl (fun acc b => acc * 256 + b) a (natToBytesBE k n) =
      a * 256 ^ k + n % 256 ^ k := by
  induction k with
  | zero => intro n a; simp [natToBytesBE, Nat.mod_one]
  | succ k ih =>
    intro n a
    rw [natToBytesBE, List.foldl_append, ih]
    simp only [List.foldl_cons, List.foldl_nil]
    rw [pow_succ', Nat.mod_mul]
    ring

theorem foldl_replicate_zero (m : Nat) :
    ∀ a, List.foldl (fun acc b => acc * 256 + b) a (List.replicate m 0) = a * 256 ^ m := by
  induction m with
  | zero => intro a; simp
  | succ m ih =>
    intro a
    rw [List.replicate_succ, List.foldl_cons, ih]
    rw [Nat.pow_succ]
    ring

theorem bytesToNat_digest_block (u : Nat) (hu : u < 2 ^ 160) :
    bytesToNat (natToBytesBE 20 u ++ sha1Pad 84) =
      Nat.add (Nat.shiftLeft u 352) hmacPadC := by
  rw [show sha1Pad 84 = 128 :: (List.replicate 35 0 ++ natToBytesBE 8 672) from rfl]
  unfold bytesToNat
  rw [List.foldl_append, foldl_natToBytesBE, List.foldl_cons, List.foldl_append,
    foldl_replicate_zero, foldl_natToBytesBE]
  rw [Nat.mod_eq_of_lt (show u < 256 ^ 20 by norm_num at hu ⊢; exact hu)]
  rw [show Nat.shiftLeft u 352 = u * 2 ^ 352 from Nat.shiftLeft_eq u 352]
  show ((0 * 256 ^ 20 + u) * 256 + 128) * 256 ^ 35 * 256 ^ 8 + 672 % 256 ^ 8 =
    (u * 2 ^ 352) + hmacPadC
  unfold hmacPadC
  ring_nf

/-- Hashing one 20-byte digest from a resumed state is a single
compression of the packed block. -/
theorem sha1From_digest (st u : Nat) (hu : u < 2 ^ 160) :
    sha1From st 64 (natToBytesBE 20 u) =
      sha1Compress st (Nat.add (Nat.shiftLeft u 352) hmacPadC) := by
  have hlen : (natToBytesBE 20 u ++ sha1Pad 84).length = 64 := by
    rw [List.length_append, natToBytesBE_length]
    rfl
  show sha1Blocks
      ((natToBytesBE 20 u ++ sha1Pad (64 + (natToBytesBE 20 u).length)).length / 64) st
      (natToBytesBE 20 u ++ sha1Pad (64 + (natToBytesBE 20 u).length)) =
    sha1Compress st (Nat.add (Nat.shiftLeft u 352) hmacPadC)
  rw [natToBytesBE_length]
  rw [show (64 + 20 : Nat) = 84 from rfl]
  rw [hlen]
  rw [show (64 / 64 : Nat) = 1 from rfl]
  rw [show ∀ bs : List Nat, sha1Blocks 1 st bs = sha1Compress st (bytesToNat (bs.take 64))
    from fun bs => rfl]
  rw [List.take_of_length_le (le_of_eq hlen)]
  rw [bytesToNat_digest_block u hu]

/-- Every compression result fits in 160 bits. -/
theorem sha1Compress_lt (st block : Nat) : sha1Compress st block < 2 ^ 160 := by
  have hword : ∀ x : Nat, Nat.land x 4294967295 < 2 ^ 32 :=
    fun x => Nat.lt_succ_of_le Nat.and_le_right
  have hsh : ∀ x k : Nat, x < 2 ^ 32 → 32 + k ≤ 160 → Nat.shiftLeft x k < 2 ^ 160 :=
    fun x k hx hk => lt_of_lt_of_le (Nat.shiftLeft_lt hx)
      (Nat.pow_le_pow_right (by norm_num) hk)
  have hor : ∀ x y : Nat, x < 2 ^ 160 → y < 2 ^ 160 → Nat.lor x y < 2 ^ 160 :=
    fun x y hx hy => Nat.bitwise_lt hx hy
  show Nat.lor _ _ < 2 ^ 160
  refine hor _ _ (hor _ _ ?_ ?_) (hor _ _ (hor _ _ ?_ ?_) ?_) <;>
    first
      | exact hsh _ _ (hword _) (by norm_num)
      | exact lt_of_lt_of_le (hword _) (by norm_num)

/-- On 160-bit inputs the packed-block HMAC agrees with the byte-level
one. -/
theorem hmacCore20_eq (ist ost u : Nat) (hu : u < 2 ^ 160) :
    hmacCore ist ost (natToBytesBE 20 u) = hmacCore20 ist ost u := by
  unfold hmacCore hmacCore20
  rw [sha1From_digest ist u hu, sha1From_digest ost _ (sha1Compress_lt _ _)]

theorem pbkdf2Iter_zero (ist ost u acc : Nat) : pbkdf2Iter ist ost 0 u acc = acc := rfl

theorem pbkdf2Iter_succ (ist ost j u acc : Nat) :
    pbkdf2Iter ist ost (j + 1) u acc =
      pbkdf2Iter ist ost j (hmacCore ist ost (natToBytesBE 20 u))
        (acc ^^^ hmacCore ist ost (natToBytesBE 20 u)) := rfl

theorem pbkdf2F_eq (ist ost : Nat) (salt : List Nat) (c i : Nat) :
    pbkdf2F ist ost salt c i =
      pbkdf2Iter ist ost (c - 1) (hmacCore ist ost (salt ++ natToBytesBE 4 i))
        (hmacCore ist ost (salt ++ natToBytesBE 4 i)) := rfl

/-- One iteration of the xor-fold, with the pseudorandom function
evaluated through `hmacCore20`. -/
theorem pbkdf2Iter_step (ist ost j u acc : Nat) (hu : u < 2 ^ 160) :
    pbkdf2Iter ist ost (j + 1) u acc =
      pbkdf2Iter ist ost j (hmacCore20 ist ost u) (acc ^^^ hmacCore20 ist ost u) := by
  rw [pbkdf2Iter_succ, hmacCore20_eq ist ost u hu]

/-- Running `us.length` iterations of the xor-fold walks the verified
chain: the current value becomes the last chain entry and the
accumulator absorbs every entry. -/
theorem pbkdf2Iter_chain (ist ost : Nat) :
    ∀ (us : List Nat) (u acc j : Nat), u < 2 ^ 160 →
      chainOk ist ost u us = true →
      pbkdf2Iter ist ost (us.length + j) u acc =
        pbkdf2Iter ist ost j (us.getLastD u) (xorAll acc us) := by
  intro us
  induction us with
  | nil => intro u acc j _ _; simp [xorAll]
  | cons v rest ih =>
    intro u acc j hu hc
    rw [chainOk, Bool.and_eq_true, beq_iff_eq] at hc
    obtain ⟨hveq, hcr⟩ := hc
    have hv : v < 2 ^ 160 := by
      rw [← hveq]; unfold hmacCore20; exact sha1Compress_lt _ _
    rw [List.length_cons, show rest.length + 1 + j = (rest.length + j) + 1 by omega]
    rw [pbkdf2Iter_step ist ost (rest.length + j) u acc hu, hveq]
    rw [ih v (acc ^^^ v) j hv hcr]
    have hx : xorAll acc (v :: rest) = xorAll (acc ^^^ v) rest := rfl
    have hl : (v :: rest).getLastD u = rest.getLastD v := by
      cases rest with
      | nil => rfl
      | cons r rs => rfl
    rw [hx, hl]

/-- The chain lemma with the length, endpoint and accumulator given as
equations on literals, so a single segment of the iteration is one
application. -/
theorem pbkdf2Iter_chain_seg (ist ost : Nat) (us : List Nat) (u acc j n uend vacc : Nat)
    (hu : u < 2 ^ 160) (hc : chainOk ist ost u us = true) (hn : us.length + j = n)
    (hend : us.getLastD u = uend) (hacc : xorAll acc us = vacc) :
    pbkdf2Iter ist ost n u acc = pbkdf2Iter ist ost j uend vacc := by
  rw [← hn, ← hend, ← hacc]
  exact pbkdf2Iter_chain ist ost us u acc j hu hc

attribute [irreducible] pbkdf2Iter

/-! ## Claim C4: the pinned PBKDF2 vector

The chain segments below walk the 4095 pseudorandom-function
applications of each of the two PBKDF2 blocks in hops of at most 256
iterations, each hop checked by evaluation. -/

set_option maxHeartbeats 16000000

theorem pskHop1_1 :
    pbkdf2Iter 561559946416882389643365019497138211279618298092 1006348556897573810185059241785838402363494954859 4095 492351118105955339227879708627572416336688461750 492351118105955339227879708627572416336688461750 =
      pbkdf2Iter 561559946416882389643365019497138211279618298092 1006348556897573810185059241785838402363494954859 3839 528388629031642231416673076039382756054169728702 984038972506623754954916936174126887055865390971 :=
  pbkdf2Iter_chain_seg 561559946416882389643365019497138211279618298092 1006348556897573810185059241785838402363494954859 pskSeg1_1 492351118105955339227879708627572416336688461750 492351118105955339227879708627572416336688461750 3839 4095 528388629031642231416673076039382756054169728702 984038972506623754954916936174126887055865390971
    (by decide) (by decide) (by decide) (by decide) (by decide)

theorem pskHop1_2 :
    pbkdf2Iter 561559946416882389643365019497138211279618298092 1006348556897573810185059241785838402363494954859 3839 528388629031642231416673076039382756054169728702 984038972506623754954916936174126887055865390971 =
      pbkdf2Iter 561559946416882389643365019497138211279618298092 1006348556897573810185059241785838402363494954859 3583 1383661843070773032199286677083498857266523912068 256089010815323277962521532108357111679150353254 :=
  pbkdf2Iter_chain_seg 561559946416882389643365019497138211279618298092 1006348556897573810185059241785838402363494954859 pskSeg1_2 528388629031642231416673076039382756054169728702 984038972506623754954916936174126887055865390971 3583 3839 1383661843070773032199286677083498857266523912068 256089010815323277962521532108357111679150353254
    (by decide) (by decide) (by decide) (by decide) (by decide)

theorem pskHop1_3 :
    pbkdf2Iter 561559946416882389643365019497138211279618298092 1006348556897573810185059241785838402363494954859 3583 1383661843070773032199286677083498857266523912068 256089010815323277962521532108357111679150353254 =
      pbkdf2Iter 561559946416882389643365019497138211279618298092 1006348556897573810185059241785838402363494954859 3327 47319267805484363524266199909844693139398725279 1305652901029550013819091905629859694523677361395 :=
  pbkdf2Iter_chain_seg 561559946416882389643365019497138211279618298092 1006348556897573810185059241785838402363494954859 pskSeg1_3 1383661843070773032199286677083498857266523912068 256089010815323277962521532108357111679150353254 3327 3583 47319267805484363524266199909844693139398725279 1305652901029550013819091905629859694523677361395
    (by decide) (by decide) (by decide) (by decide) (by decide)

theorem pskHop1_4 :
    pbkdf2Iter 561559946416882389643365019497138211279618298092 1006348556897573810185059241785838402363494954859 3327 47319267805484363524266199909844693139398725279 1305652901029550013819091905629859694523677361395 =
      pbkdf2Iter 561559946416882389643365019497138211279618298092 1006348556897573810185059241785838402363494954859 3071 1440650314996034763705877555915458759950133114836 1436720780839574937401001332305789693557028677896 :=
  pbkdf2Iter_chain_seg 561559946416882389643365019497138211279618298092 1006348556897573810185059241785838402363494954859 pskSeg1_4 47319267805484363524266199909844693139398725279 1305652901029550013819091905629859694523677361395 3071 3327 1440650314996034763705877555915458759950133114836 1436720780839574937401001332305789693557028677896
    (by decide) (by decide) (by decide) (by decide) (by decide)

theorem pskHop1_5 :
    pbkdf2Iter 561559946416882389643365019497138211279618298092 1006348556897573810185059241785838402363494954859 3071 1440650314996034763705877555915458759950133114836 1436720780839574937401001332305789693557028677896 =
      pbkdf2Iter 561559946416882389643365019497138211279618298092 1006348556897573810185059241785838402363494954859 2815 886978014641478028132806026209569007570376627803 35266227769095890450723063375442278420480075049 :=
  pbkdf2Iter_chain_seg 561559946416882389643365019497138211279618298092 1006348556897573810185059241785838402363494954859 pskSeg1_5 1440650314996034763705877555915458759950133114836 1436720780839574937401001332305789693557028677896 2815 3071 886978014641478028132806026209569007570376627803 35266227769095890450723063375442278420480075049
    (by decide) (by decide) (by decide) (by decide) (by decide)

theorem pskHop1_6 :
    pbkdf2Iter 561559946416882389643365019497138211279618298092 1006348556897573810185059241785838402363494954859 2815 886978014641478028132806026209569007570376627803 35266227769095890450723063375442278420480075049 =
      pbkdf2Iter 561559946416882389643365019497138211279618298092 1006348556897573810185059241785838402363494954859 2559 848196946466620031439895877868760738832624444148 742725020749794762078902651133278187709868986639 :=
  pbkdf2Iter_chain_seg 561559946416882389643365019497138211279618298092 1006348556897573810185059241785838402363494954859 pskSeg1_6 886978014641478028132806026209569007570376627803 35266227769095890450723063375442278420480075049 2559 2815 848196946466620031439895877868760738832624444148 742725020749794762078902651133278187709868986639
    (by decide) (by decide) (by decide) (by decide) (by decide)

theorem pskHop1_7 :
    pbkdf2Iter 561559946416882389643365019497138211279618298092 1006348556897573810185059241785838402363494954859 2559 848196946466620031439895877868760738832624444148 742725020749794762078902651133278187709868986639 =
      pbkdf2Iter 561559946416882389643365019497138211279618298092 1006348556897573810185059241785838402363494954859 2303 1281281910470372436681939164367346040748392771063 1160839784459380231801698183843436527535434854705 :=
  pbkdf2Iter_chain_seg 561559946416882389643365019497138211279618298092 1006348556897573810185059241785838402363494954859 pskSeg1_7 848196946466620031439895877868760738832624444148 742725020749794762078902651133278187709868986639 2303 2559 1281281910470372436681939164367346040748392771063 1160839784459380231801698183843436527535434854705
    (by decide) (by decide) (by decide) (by decide) (by decide)

theorem pskHop1_8 :
    pbkdf2Iter 561559946416882389643365019497138211279618298092 1006348556897573810185059241785838402363494954859 2303 1281281910470372436681939164367346040748392771063 1160839784459380231801698183843436527535434854705 =
      pbkdf2Iter 561559946416882389643365019497138211279618298092 1006348556897573810185059241785838402363494954859 2047 426703619952060767655571306677852974513364649645 440909594681481438998668391736618019914006086255 :=
  pbkdf2Iter_chain_seg 561559946416882389643365019497138211279618298092 1006348556897573810185059241785838402363494954859 pskSeg1_8 1281281910470372436681939164367346040748392771063 1160839784459380231801698183843436527535434854705 2047 2303 426703619952060767655571306677852974513364649645 440909594681481438998668391736618019914006086255
    (by decide) (by decide) (by decide) (by decide) (by decide)

theorem pskHop1_9 :
    pbkdf2Iter 561559946416882389643365019497138211279618298092 1006348556897573810185059241785838402363494954859 2047 426703619952060767655571306677852974513364649645 440909594681481438998668391736618019914006086255 =
      pbkdf2Iter 561559946416882389643365019497138211279618298092 1006348556897573810185059241785838402363494954859 1791 1227526744785695247544955915042866643990766159505 912449007422016502541122089319047560745227417093 :=
  pbkdf2Iter_chain_seg 561559946416882389643365019497138211279618298092 1006348556897573810185059241785838402363494954859 pskSeg1_9 426703619952060767655571306677852974513364649645 440909594681481438998668391736618019914006086255 1791 2047 1227526744785695247544955915042866643990766159505 912449007422016502541122089319047560745227417093
    (by decide) (by decide) (by decide) (by decide) (by decide)

theorem pskHop1_10 :
    pbkdf2Iter 561559946416882389643365019497138211279618298092 1006348556897573810185059241785838402363494954859 1791 1227526744785695247544955915042866643990766159505 912449007422016502541122089319047560745227417093 =
      pbkdf2Iter 561559946416882389643365019497138211279618298092 1006348556897573810185059241785838402363494954859 1535 1162606024106201452663501354244649457959402961040 1413292682387382812459775628858037469992012471090 :=
  pbkdf2Iter_chain_seg 561559946416882389643365019497138211279618298092 1006348556897573810185059241785838402363494954859 pskSeg1_10 1227526744785695247544955915042866643990766159505 912449007422016502541122089319047560745227417093 1535 1791 1162606024106201452663501354244649457959402961040 1413292682387382812459775628858037469992012471090
    (by decide) (by decide) (by decide) (by decide) (by decide)

theorem pskHop1_11 :
    pbkdf2Iter 561559946416882389643365019497138211279618298092 1006348556897573810185059241785838402363494954859 1535 1162606024106201452663501354244649457959402961040 1413292682387382812459775628858037469992012471090 =
      pbkdf2Iter 561559946416882389643365019497138211279618298092 1006348556897573810185059241785838402363494954859 1279 779743276640584311552534562890350889473834868623 1143468371633127401634718341866851194957800589800 :=
  pbkdf2Iter_chain_seg 561559946416882389643365019497138211279618298092 1006348556897573810185059241785838402363494954859 pskSeg1_11 1162606024106201452663501354244649457959402961040 1413292682387382812459775628858037469992012471090 1279 1535 779743276640584311552534562890350889473834868623 1143468371633127401634718341866851194957800589800
    (by decide) (by decide) (by decide) (by decide) (by decide)

theorem pskHop1_12 :
    pbkdf2Iter 561559946416882389643365019497138211279618298092 1006348556897573810185059241785838402363494954859 1279 779743276640584311552534562890350889473834868623 1143468371633127401634718341866851194957800589800 =
      pbkdf2Iter 561559946416882389643365019497138211279618298092 1006348556897573810185059241785838402363494954859 1023 279499850680841859557664514957122234419216698668 723772239672431144270430712441116322433673128712 :=
  pbkdf2Iter_chain_seg 561559946416882389643365019497138211279618298092 1006348556897573810185059241785838402363494954859 pskSeg1_12 779743276640584311552534562890350889473834868623 1143468371633127401634718341866851194957800589800 1023 1279 279499850680841859557664514957122234419216698668 723772239672431144270430712441116322433673128712
    (by decide) (by decide) (by decide) (by decide) (by decide)

theorem pskHop1_13 :
    pbkdf2Iter 561559946416882389643365019497138211279618298092 1006348556897573810185059241785838402363494954859 1023 279499850680841859557664514957122234419216698668 723772239672431144270430712441116322433673128712 =
      pbkdf2Iter 561559946416882389643365019497138211279618298092 1006348556897573810185059241785838402363494954859 767 1269718203428649821776393880959124945044029493716 104532594575248654074215512538328586661771836288 :=
  pbkdf2Iter_chain_seg 561559946416882389643365019497138211279618298092 1006348556897573810185059241785838402363494954859 pskSeg1_13 279499850680841859557664514957122234419216698668 723772239672431144270430712441116322433673128712 767 1023 1269718203428649821776393880959124945044029493716 104532594575248654074215512538328586661771836288
    (by decide) (by decide) (by decide) (by decide) (by decide)

theorem pskHop1_14 :
    pbkdf2Iter 561559946416882389643365019497138211279618298092 1006348556897573810185059241785838402363494954859 767 1269718203428649821776393880959124945044029493716 104532594575248654074215512538328586661771836288 =
      pbkdf2Iter 561559946416882389643365019497138211279618298092 1006348556897573810185059241785838402363494954859 511 450551554507898545094854695091671582250910484763 977442047260135352973426809904863210417374910029 :=
  pbkdf2Iter_chain_seg 561559946416882389643365019497138211279618298092 1006348556897573810185059241785838402363494954859 pskSeg1_14 1269718203428649821776393880959124945044029493716 104532594575248654074215512538328586661771836288 511 767 450551554507898545094854695091671582250910484763 977442047260135352973426809904863210417374910029
    (by decide) (by decide) (by decide) (by decide) (by decide)

theorem pskHop1_15 :
    pbkdf2Iter 561559946416882389643365019497138211279618298092 1006348556897573810185059241785838402363494954859 511 450551554507898545094854695091671582250910484763 977442047260135352973426809904863210417374910029 =
      pbkdf2Iter 561559946416882389643365019497138211279618298092 1006348556897573810185059241785838402363494954859 255 1334157600699901029643728899101554866890211054467 883601133667541992666376390344381689510152783290 :=
  pbkdf2Iter_chain_seg 561559946416882389643365019497138211279618298092 1006348556897573810185059241785838402363494954859 pskSeg1_15 450551554507898545094854695091671582250910484763 977442047260135352973426809904863210417374910029 255 511 1334157600699901029643728899101554866890211054467 883601133667541992666376390344381689510152783290
    (by decide) (by decide) (by decide) (by decide) (by decide)

theorem pskHop1_16 :
    pbkdf2Iter 561559946416882389643365019497138211279618298092 1006348556897573810185059241785838402363494954859 255 1334157600699901029643728899101554866890211054467 883601133667541992666376390344381689510152783290 =
      pbkdf2Iter 561559946416882389643365019497138211279618298092 1006348556897573810185059241785838402363494954859 0 747218196233053735893759072820338739586379259697 826054766566610237659470655244607139015855170532 :=
  pbkdf2Iter_chain_seg 561559946416882389643365019497138211279618298092 1006348556897573810185059241785838402363494954859 pskSeg1_16 1334157600699901029643728899101554866890211054467 883601133667541992666376390344381689510152783290 0 255 747218196233053735893759072820338739586379259697 826054766566610237659470655244607139015855170532
    (by decide) (by decide) (by decide) (by decide) (by decide)

theorem pskF1 :
    pbkdf2Iter 561559946416882389643365019497138211279618298092 1006348556897573810185059241785838402363494954859 4095 492351118105955339227879708627572416336688461750 492351118105955339227879708627572416336688461750 = 826054766566610237659470655244607139015855170532 := by
  rw [pskHop1_1, pskHop1_2, pskHop1_3, pskHop1_4, pskHop1_5, pskHop1_6, pskHop1_7, pskHop1_8, pskHop1_9, pskHop1_10, pskHop1_11, pskHop1_12, pskHop1_13, pskHop1_14, pskHop1_15, pskHop1_16, pbkdf2Iter_zero]

theorem pskHop2_1 :
    pbkdf2Iter 561559946416882389643365019497138211279618298092 1006348556897573810185059241785838402363494954859 4095 92821284210913908259374465023374215603096129977 92821284210913908259374465023374215603096129977 =
      pbkdf2Iter 561559946416882389643365019497138211279618298092 1006348556897573810185059241785838402363494954859 3839 1268118810426472952437576030676792845649819277858 224459038673170396177279567700274290339267375595 :=
  pbkdf2Iter_chain_seg 561559946416882389643365019497138211279618298092 1006348556897573810185059241785838402363494954859 pskSeg2_1 92821284210913908259374465023374215603096129977 92821284210913908259374465023374215603096129977 3839 4095 1268118810426472952437576030676792845649819277858 224459038673170396177279567700274290339267375595
    (by decide) (by decide) (by decide) (by decide) (by decide)

theorem pskHop2_2 :
    pbkdf2Iter 561559946416882389643365019497138211279618298092 1006348556897573810185059241785838402363494954859 3839 1268118810426472952437576030676792845649819277858 224459038673170396177279567700274290339267375595 =
      pbkdf2Iter 561559946416882389643365019497138211279618298092 1006348556897573810185059241785838402363494954859 3583 1385896721752375491117191517257184200712422323133 1123136408643761930494082205811147967113194720386 :=
  pbkdf2Iter_chain_seg 561559946416882389643365019497138211279618298092 1006348556897573810185059241785838402363494954859 pskSeg2_2 1268118810426472952437576030676792845649819277858 224459038673170396177279567700274290339267375595 3583 3839 1385896721752375491117191517257184200712422323133 1123136408643761930494082205811147967113194720386
    (by decide) (by decide) (by decide) (by decide) (by decide)

theorem pskHop2_3 :
    pbkdf2Iter 561559946416882389643365019497138211279618298092 1006348556897573810185059241785838402363494954859 3583 1385896721752375491117191517257184200712422323133 1123136408643761930494082205811147967113194720386 =
      pbkdf2Iter 561559946416882389643365019497138211279618298092 1006348556897573810185059241785838402363494954859 3327 1091153657165511980564953554571519931959777876314 1391345150067392741570880072335755866574722303852 :=
  pbkdf2Iter_chain_seg 561559946416882389643365019497138211279618298092 1006348556897573810185059241785838402363494954859 pskSeg2_3 1385896721752375491117191517257184200712422323133 1123136408643761930494082205811147967113194720386 3327 3583 1091153657165511980564953554571519931959777876314 1391345150067392741570880072335755866574722303852
    (by decide) (by decide) (by decide) (by decide) (by decide)

theorem pskHop2_4 :
    pbkdf2Iter 561559946416882389643365019497138211279618298092 1006348556897573810185059241785838402363494954859 3327 1091153657165511980564953554571519931959777876314 1391345150067392741570880072335755866574722303852 =
      pbkdf2Iter 561559946416882389643365019497138211279618298092 1006348556897573810185059241785838402363494954859 3071 1026105544014519974303311180488821425940153975359 1222028011468993795748251057965831313128606459514 :=
  pbkdf2Iter_chain_seg 561559946416882389643365019497138211279618298092 1006348556897573810185059241785838402363494954859 pskSeg2_4 1091153657165511980564953554571519931959777876314 1391345150067392741570880072335755866574722303852 3071 3327 1026105544014519974303311180488821425940153975359 1222028011468993795748251057965831313128606459514
    (by decide) (by decide) (by decide) (by decide) (by decide)

theorem pskHop2_5 :
    pbkdf2Iter 561559946416882389643365019497138211279618298092 1006348556897573810185059241785838402363494954859 3071 1026105544014519974303311180488821425940153975359 1222028011468993795748251057965831313128606459514 =
      pbkdf2Iter 561559946416882389643365019497138211279618298092 1006348556897573810185059241785838402363494954859 2815 1286008568435852062399035815305645359159734090569 859645895934498585956389935479882881029201227399 :=
  pbkdf2Iter_chain_seg 561559946416882389643365019497138211279618298092 1006348556897573810185059241785838402363494954859 pskSeg2_5 1026105544014519974303311180488821425940153975359 1222028011468993795748251057965831313128606459514 2815 3071 1286008568435852062399035815305645359159734090569 859645895934498585956389935479882881029201227399
    (by decide) (by decide) (by decide) (by decide) (by decide)

theorem pskHop2_6 :
    pbkdf2Iter 561559946416882389643365019497138211279618298092 1006348556897573810185059241785838402363494954859 2815 1286008568435852062399035815305645359159734090569 859645895934498585956389935479882881029201227399 =
      pbkdf2Iter 561559946416882389643365019497138211279618298092 1006348556897573810185059241785838402363494954859 2559 93494998575229469232259383827561470567791648090 56426656469457193351774623370608907506959477042 :=
  pbkdf2Iter_chain_seg 561559946416882389643365019497138211279618298092 1006348556897573810185059241785838402363494954859 pskSeg2_6 1286008568435852062399035815305645359159734090569 859645895934498585956389935479882881029201227399 2559 2815 93494998575229469232259383827561470567791648090 56426656469457193351774623370608907506959477042
    (by decide) (by decide) (by decide) (by decide) (by decide)

theorem pskHop2_7 :
    pbkdf2Iter 561559946416882389643365019497138211279618298092 1006348556897573810185059241785838402363494954859 2559 93494998575229469232259383827561470567791648090 56426656469457193351774623370608907506959477042 =
      pbkdf2Iter 561559946416882389643365019497138211279618298092 1006348556897573810185059241785838402363494954859 2303 767143217182124528563679467654834112398835167181 194556678859692383674242597249076249927335016481 :=
  pbkdf2Iter_chain_seg 561559946416882389643365019497138211279618298092 1006348556897573810185059241785838402363494954859 pskSeg2_7 93494998575229469232259383827561470567791648090 56426656469457193351774623370608907506959477042 2303 2559 767143217182124528563679467654834112398835167181 194556678859692383674242597249076249927335016481
    (by decide) (by decide) (by decide) (by decide) (by decide)

theorem pskHop2_8 :
    pbkdf2Iter 561559946416882389643365019497138211279618298092 1006348556897573810185059241785838402363494954859 2303 767143217182124528563679467654834112398835167181 194556678859692383674242597249076249927335016481 =
      pbkdf2Iter 561559946416882389643365019497138211279618298092 1006348556897573810185059241785838402363494954859 2047 810139731905016291006845030224236789438191412793 235173889365154458117583376452885822477738851967 :=
  pbkdf2Iter_chain_seg 561559946416882389643365019497138211279618298092 1006348556897573810185059241785838402363494954859 pskSeg2_8 767143217182124528563679467654834112398835167181 194556678859692383674242597249076249927335016481 2047 2303 810139731905016291006845030224236789438191412793 235173889365154458117583376452885822477738851967
    (by decide) (by decide) (by decide) (by decide) (by decide)

theorem pskHop2_9 :
    pbkdf2Iter 561559946416882389643365019497138211279618298092 1006348556897573810185059241785838402363494954859 2047 810139731905016291006845030224236789438191412793 235173889365154458117583376452885822477738851967 =
      pbkdf2Iter 561559946416882389643365019497138211279618298092 1006348556897573810185059241785838402363494954859 1791 1323994683263516200803320852482136261410026018179 874135800598650724548427337942993320611823083546 :=
  pbkdf2Iter_chain_seg 561559946416882389643365019497138211279618298092 1006348556897573810185059241785838402363494954859 pskSeg2_9 810139731905016291006845030224236789438191412793 235173889365154458117583376452885822477738851967 1791 2047 1323994683263516200803320852482136261410026018179 874135800598650724548427337942993320611823083546
    (by decide) (by decide) (by decide) (by decide) (by decide)

theorem pskHop2_10 :
    pbkdf2Iter 561559946416882389643365019497138211279618298092 1006348556897573810185059241785838402363494954859 1791 1323994683263516200803320852482136261410026018179 874135800598650724548427337942993320611823083546 =
      pbkdf2Iter 561559946416882389643365019497138211279618298092 1006348556897573810185059241785838402363494954859 1535 1345294172421441517591900039705513891478724887775 788637164974754507831946045957373258064060088904 :=
  pbkdf2Iter_chain_seg 561559946416882389643365019497138211279618298092 1006348556897573810185059241785838402363494954859 pskSeg2_10 1323994683263516200803320852482136261410026018179 874135800598650724548427337942993320611823083546 1535 1791 1345294172421441517591900039705513891478724887775 788637164974754507831946045957373258064060088904
    (by decide) (by decide) (by decide) (by decide) (by decide)

theorem pskHop2_11 :
    pbkdf2Iter 561559946416882389643365019497138211279618298092 1006348556897573810185059241785838402363494954859 1535 1345294172421441517591900039705513891478724887775 788637164974754507831946045957373258064060088904 =
      pbkdf2Iter 561559946416882389643365019497138211279618298092 1006348556897573810185059241785838402363494954859 1279 784187427204822835624260044141314831286893824796 388886656478119359567998416094155561979709046936 :=
  pbkdf2Iter_chain_seg 561559946416882389643365019497138211279618298092 1006348556897573810185059241785838402363494954859 pskSeg2_11 1345294172421441517591900039705513891478724887775 788637164974754507831946045957373258064060088904 1279 1535 784187427204822835624260044141314831286893824796 388886656478119359567998416094155561979709046936
    (by decide) (by decide) (by decide) (by decide) (by decide)

theorem pskHop2_12 :
    pbkdf2Iter 561559946416882389643365019497138211279618298092 1006348556897573810185059241785838402363494954859 1279 784187427204822835624260044141314831286893824796 388886656478119359567998416094155561979709046936 =
      pbkdf2Iter 561559946416882389643365019497138211279618298092 1006348556897573810185059241785838402363494954859 1023 1425453621489687398824432410890275391600895622317 576013043030317578905864584210030988524557134191 :=
  pbkdf2Iter_chain_seg 561559946416882389643365019497138211279618298092 1006348556897573810185059241785838402363494954859 pskSeg2_12 784187427204822835624260044141314831286893824796 388886656478119359567998416094155561979709046936 1023 1279 1425453621489687398824432410890275391600895622317 576013043030317578905864584210030988524557134191
    (by decide) (by decide) (by decide) (by decide) (by decide)

theorem pskHop2_13 :
    pbkdf2Iter 561559946416882389643365019497138211279618298092 1006348556897573810185059241785838402363494954859 1023 1425453621489687398824432410890275391600895622317 576013043030317578905864584210030988524557134191 =
      pbkdf2Iter 561559946416882389643365019497138211279618298092 1006348556897573810185059241785838402363494954859 767 824326491212294246296619302087593319789898318505 109173755785596326316927923682081284056134285832 :=
  pbkdf2Iter_chain_seg 561559946416882389643365019497138211279618298092 1006348556897573810185059241785838402363494954859 pskSeg2_13 1425453621489687398824432410890275391600895622317 576013043030317578905864584210030988524557134191 767 1023 824326491212294246296619302087593319789898318505 109173755785596326316927923682081284056134285832
    (by decide) (by decide) (by decide) (by decide) (by decide)

theorem pskHop2_14 :
    pbkdf2Iter 561559946416882389643365019497138211279618298092 1006348556897573810185059241785838402363494954859 767 824326491212294246296619302087593319789898318505 109173755785596326316927923682081284056134285832 =
      pbkdf2Iter 561559946416882389643365019497138211279618298092 1006348556897573810185059241785838402363494954859 511 1051391600010431805471581941564219039058847616373 1363284796292484923868591029489736259501867885964 :=
  pbkdf2Iter_chain_seg 561559946416882389643365019497138211279618298092 1006348556897573810185059241785838402363494954859 pskSeg2_14 824326491212294246296619302087593319789898318505 109173755785596326316927923682081284056134285832 511 767 1051391600010431805471581941564219039058847616373 1363284796292484923868591029489736259501867885964
    (by decide) (by decide) (by decide) (by decide) (by decide)

theorem pskHop2_15 :
    pbkdf2Iter 561559946416882389643365019497138211279618298092 1006348556897573810185059241785838402363494954859 511 1051391600010431805471581941564219039058847616373 1363284796292484923868591029489736259501867885964 =
      pbkdf2Iter 561559946416882389643365019497138211279618298092 1006348556897573810185059241785838402363494954859 255 792922654812627610113268017363473574458791277714 835648138897225824613340191798242516371804449159 :=
  pbkdf2Iter_chain_seg 561559946416882389643365019497138211279618298092 1006348556897573810185059241785838402363494954859 pskSeg2_15 1051391600010431805471581941564219039058847616373 1363284796292484923868591029489736259501867885964 255 511 792922654812627610113268017363473574458791277714 835648138897225824613340191798242516371804449159
    (by decide) (by decide) (by decide) (by decide) (by decide)

theorem pskHop2_16 :
    pbkdf2Iter 561559946416882389643365019497138211279618298092 1006348556897573810185059241785838402363494954859 255 792922654812627610113268017363473574458791277714 835648138897225824613340191798242516371804449159 =
      pbkdf2Iter 561559946416882389643365019497138211279618298092 1006348556897573810185059241785838402363494954859 0 881255059032491384433306714813089247167994699898 1219286772413328171122554157247022562522084744473 :=
  pbkdf2Iter_chain_seg 561559946416882389643365019497138211279618298092 1006348556897573810185059241785838402363494954859 pskSeg2_16 792922654812627610113268017363473574458791277714 835648138897225824613340191798242516371804449159 0 255 881255059032491384433306714813089247167994699898 1219286772413328171122554157247022562522084744473
    (by decide) (by decide) (by decide) (by decide) (by decide)

theorem pskF2 :
    pbkdf2Iter 561559946416882389643365019497138211279618298092 1006348556897573810185059241785838402363494954859 4095 92821284210913908259374465023374215603096129977 92821284210913908259374465023374215603096129977 = 1219286772413328171122554157247022562522084744473 := by
  rw [pskHop2_1, pskHop2_2, pskHop2_3, pskHop2_4, pskHop2_5, pskHop2_6, pskHop2_7, pskHop2_8, pskHop2_9, pskHop2_10, pskHop2_11, pskHop2_12, pskHop2_13, pskHop2_14, pskHop2_15, pskHop2_16, pbkdf2Iter_zero]

/-- Claim C4: for SSID `foo_network` and passphrase `bar_password`,
`compute_psk` returns the 32-byte value whose lowercase hex encoding is
`90b193aaec1446630aeb1d1c24191f580e03e3e4d592b5b682b157a04fa26956`. -/
theorem compute_psk_known_vector :
    compute_psk (strBytes "foo_network") (strBytes "bar_password") = [144, 177, 147, 170, 236, 20, 70, 99, 10, 235, 29, 28, 36, 25, 31, 88, 14, 3, 227, 228, 213, 146, 181, 182, 130, 177, 87, 160, 79, 162, 105, 86] ∧
    hexEncode (compute_psk (strBytes "foo_network") (strBytes "bar_password")) =
      "90b193aaec1446630aeb1d1c24191f580e03e3e4d592b5b682b157a04fa26956" := by
  have hmain : compute_psk (strBytes "foo_network") (strBytes "bar_password") = [144, 177, 147, 170, 236, 20, 70, 99, 10, 235, 29, 28, 36, 25, 31, 88, 14, 3, 227, 228, 213, 146, 181, 182, 130, 177, 87, 160, 79, 162, 105, 86] := by
    have hpads : hmacPads (strBytes "bar_password") = (561559946416882389643365019497138211279618298092, 1006348556897573810185059241785838402363494954859) := by decide
    have hu1 : hmacCore 561559946416882389643365019497138211279618298092 1006348556897573810185059241785838402363494954859 (strBytes "foo_network" ++ natToBytesBE 4 1) =
        492351118105955339227879708627572416336688461750 := by decide
    have hu2 : hmacCore 561559946416882389643365019497138211279618298092 1006348556897573810185059241785838402363494954859 (strBytes "foo_network" ++ natToBytesBE 4 2) =
        92821284210913908259374465023374215603096129977 := by decide
    show pbkdf2 (strBytes "bar_password") (strBytes "foo_network") 4096 32 = _
    unfold pbkdf2
    simp only [hpads]
    rw [show ((32 + 19) / 20 : Nat) = 2 from rfl]
    rw [show ∀ s : List Nat, pbkdf2Blocks 561559946416882389643365019497138211279618298092 1006348556897573810185059241785838402363494954859 s 4096 2 1 =
      natToBytesBE 20 (pbkdf2F 561559946416882389643365019497138211279618298092 1006348556897573810185059241785838402363494954859 s 4096 1) ++
        (natToBytesBE 20 (pbkdf2F 561559946416882389643365019497138211279618298092 1006348556897573810185059241785838402363494954859 s 4096 2) ++ []) from fun _ => rfl]
    rw [pbkdf2F_eq, pbkdf2F_eq]
    rw [hu1, hu2]
    rw [show (4096 - 1 : Nat) = 4095 from rfl]
    rw [pskF1, pskF2]
    decide
  exact ⟨hmain, by rw [hmain]; decide⟩

end Netctl2Iwd
